import Mathlib

/-!
# Verification of the resolution/unification engine of `src/language/onchip_prolog.c`

Shallow embedding of the engine core: the term model (`Term` in C, here `TermK`),
the binding trail (`g_trail`, `trail_push`, `trail_mark`, `trail_unwind`), structural
unification (`unify`), clause renaming (`copy_term` / `map_get`), built-in dispatch
(`builtin_call`) and the depth-first resolution search (`solve`).

Modelling conventions:
* C `Term*` nodes for variables are identified by an arena id (`Nat`); a variable's
  `ref` slot is a `Bind` association list (id absent = `ref == NULL`, i.e. unbound).
  Binding a variable conses onto `bind`; the trail records ids in push order
  (list head = most recently pushed, matching the top of `g_trail`).
* The C pointer-equality test `a == b` at the top of `unify` (taken after both sides
  are dereferenced) is modelled by structural equality of the dereferenced terms:
  variable nodes are compared by id, and unifying a term with a structurally equal
  dereferenced term in this engine always succeeds without any binding, exactly as
  the pointer shortcut does.
* The C `double` payload of `TM_NUM` is modelled as `Int`: every numeric literal the
  engine's parser can produce is a finite decimal compared by value (`a->u.num ==
  b->u.num`), and all numbers in the specified scenarios are small integers.
  (`%.15g` printing of such an integral value is the plain integer rendering.)
* C functions whose recursion is bounded only by the term graph (`unify`, `deref`,
  `solve`, `print_term`) take an explicit fuel and return their result only when the
  fuel suffices (`Option`), since the C versions can diverge on cyclic term graphs.
  `copy_term` is structurally total in C and needs no fuel.
* `stdout` is modelled by the `out : String` field of the engine state;
  `g_solution_count` by `scount`.
-/

namespace OnchipProlog

/-- `Term` (C `struct Term`): `TM_VAR` / `TM_NUM` / `TM_STRUC`.  A variable is an
arena id; a compound is a functor name with its argument list (arity =
`args.length`, C stores it explicitly alongside the vector). -/
inductive TermK where
  | var   (id : Nat)
  | num   (val : Int)
  | struc (name : String) (args : List TermK)

mutual
/-- Structural (= node-identity, see header) equality on terms is decidable. -/
def decEqT : (a b : TermK) → Decidable (a = b)
  | .var i, .var j =>
    match Nat.decEq i j with
    | isTrue h => isTrue (by rw [h])
    | isFalse h => isFalse (fun hh => h (by injection hh))
  | .var _, .num _ => isFalse (fun hh => TermK.noConfusion hh)
  | .var _, .struc _ _ => isFalse (fun hh => TermK.noConfusion hh)
  | .num _, .var _ => isFalse (fun hh => TermK.noConfusion hh)
  | .num x, .num y =>
    match Int.decEq x y with
    | isTrue h => isTrue (by rw [h])
    | isFalse h => isFalse (fun hh => h (by injection hh))
  | .num _, .struc _ _ => isFalse (fun hh => TermK.noConfusion hh)
  | .struc _ _, .var _ => isFalse (fun hh => TermK.noConfusion hh)
  | .struc _ _, .num _ => isFalse (fun hh => TermK.noConfusion hh)
  | .struc n as_, .struc m bs =>
    match String.decEq n m with
    | isTrue h1 =>
      match decEqL as_ bs with
      | isTrue h2 => isTrue (by rw [h1, h2])
      | isFalse h2 => isFalse (fun hh => h2 (by injection hh))
    | isFalse h1 => isFalse (fun hh => h1 (by injection hh))

def decEqL : (xs ys : List TermK) → Decidable (xs = ys)
  | [], [] => isTrue rfl
  | [], _ :: _ => isFalse (fun hh => List.noConfusion hh)
  | _ :: _, [] => isFalse (fun hh => List.noConfusion hh)
  | x :: xs, y :: ys =>
    match decEqT x y with
    | isTrue h1 =>
      match decEqL xs ys with
      | isTrue h2 => isTrue (by rw [h1, h2])
      | isFalse h2 => isFalse (fun hh => h2 (by injection hh))
    | isFalse h1 => isFalse (fun hh => h1 (by injection hh))
end

instance : DecidableEq TermK := decEqT

/-- Variable binding slots: id ↦ bound term.  An id absent from the list is an
unbound variable (`ref == NULL`). -/
abbrev Bind := List (Nat × TermK)

/-- Engine state: the binding arena, the global trail `g_trail` (head = top),
the next fresh variable id handed out by `mk_var` during `copy_term`, the text
written to stdout so far, and `g_solution_count`. -/
structure EngineState where
  bind   : Bind
  trail  : List Nat
  fresh  : Nat
  out    : String
  scount : Nat
deriving DecidableEq

/-- Fuel-bounded body of C `deref`: follow a variable's `ref` chain while the
current node is a bound variable. -/
def derefF : Nat → Bind → TermK → TermK
  | 0, _, t => t
  | fuel + 1, b, t =>
    match t with
    | .var i =>
      match b.lookup i with
      | some u => derefF fuel b u
      | none => t
    | _ => t

/-- `deref`: in every state the engine reaches, a variable chain visits pairwise
distinct bound variables, so `bind.length + 1` steps always suffice. -/
def deref (b : Bind) (t : TermK) : TermK := derefF (b.length + 1) b t

/-- Bind variable `i` to `t` and `trail_push` it (C `a->u.v.ref = b; trail_push(a)`). -/
def bindVar (i : Nat) (t : TermK) (s : EngineState) : EngineState :=
  { s with bind := (i, t) :: s.bind, trail := i :: s.trail }

/-- C `trail_mark`: the current trail length. -/
def trail_mark (s : EngineState) : Nat := s.trail.length

/-- Reset variable `v`'s `ref` slot to `NULL`. -/
def unbind1 (v : Nat) (b : Bind) : Bind := b.eraseP (fun p => p.1 == v)

/-- The loop of C `trail_unwind`: `while (g_trail.n > mark)` pop the top variable
and unbind it. -/
def unwindLoop : List Nat → Bind → Nat → List Nat × Bind
  | [], b, _ => ([], b)
  | v :: tr, b, mark =>
    if mark < tr.length + 1 then unwindLoop tr (unbind1 v b) mark
    else (v :: tr, b)

/-- C `trail_unwind`. -/
def trail_unwind (mark : Nat) (s : EngineState) : EngineState :=
  { s with trail := (unwindLoop s.trail s.bind mark).1,
           bind  := (unwindLoop s.trail s.bind mark).2 }

/-- One step of the argument loop in C `unify`: while the accumulated result is
a success, unify the next argument pair with `u`; once a pair has failed (or
fuel ran out) later pairs pass through unchanged, which matches the C early
`return 0` observably — no further bindings happen after a failure. -/
def ustep (u : EngineState → TermK → TermK → Option (Bool × EngineState))
    (acc : Option (Bool × EngineState)) (p : TermK × TermK) : Option (Bool × EngineState) :=
  match acc with
  | some (true, s1) => u s1 p.1 p.2
  | other => other

/-- C `unify`.  Fuel bounds the depth of the term descent (each level of
structure consumed decrements once). -/
def unify : Nat → EngineState → TermK → TermK → Option (Bool × EngineState)
  | 0, _, _, _ => none
  | fuel + 1, s, a0, b0 =>
    let a := deref s.bind a0
    let b := deref s.bind b0
    if a = b then some (true, s)
    else
      match a, b with
      | .var i, _ => some (true, bindVar i b s)
      | _, .var j => some (true, bindVar j a s)
      | .num x, .num y => some (decide (x = y), s)
      | .struc na as_, .struc nb bs =>
        if na = nb then
          if as_.length = bs.length then
            (as_.zip bs).foldl (ustep (fun s1 x y => unify fuel s1 x y)) (some (true, s))
          else some (false, s)
        else some (false, s)
      | _, _ => some (false, s)

mutual
/-- C `copy_term` with its `map_get` helper: deep copy refreshing variables; the
map associates original variable ids with the fresh ids already allocated in
this copy pass, `fresh` is the allocator for new variable nodes. -/
def copy_term : TermK → List (Nat × Nat) → Nat → TermK × List (Nat × Nat) × Nat
  | .var i, M, fresh =>
    match M.lookup i with
    | some j => (.var j, M, fresh)
    | none => (.var fresh, (i, fresh) :: M, fresh + 1)
  | .num x, M, fresh => (.num x, M, fresh)
  | .struc n args, M, fresh =>
    let r := copy_args args M fresh
    (.struc n r.1, r.2.1, r.2.2)

def copy_args : List TermK → List (Nat × Nat) → Nat → List TermK × List (Nat × Nat) × Nat
  | [], M, fresh => ([], M, fresh)
  | t :: ts, M, fresh =>
    let r1 := copy_term t M fresh
    let r2 := copy_args ts r1.2.1 r1.2.2
    (r1.1 :: r2.1, r2.2.1, r2.2.2)
end

/-- C `is_atom`: after dereferencing, a compound with the given name and arity. -/
def is_atom (b : Bind) (t : TermK) (nm : String) (k : Nat) : Bool :=
  match deref b t with
  | .struc n args => n == nm && args.length == k
  | _ => false

/-- C `is_list_like`: the empty-list atom `[]` or a `'.'/2` cell. -/
def isListLike (b : Bind) (t : TermK) : Bool :=
  match deref b t with
  | .struc "[]" [] => true
  | .struc "." [_, _] => true
  | _ => false

mutual
/-- C `print_term` (fuel bounds the print depth; the C version recurses through
the possibly-cyclic term graph).  An unbound variable prints as its name when it
has one; variable names are not tracked in this model (no specified scenario
prints an unbound variable), so the `_` fallback is used.  `%.15g` printing of
an integral double is the plain integer rendering, here `toString` of the `Int`. -/
def printTerm : Nat → Bind → TermK → String
  | 0, _, _ => ""
  | fuel + 1, b, t0 =>
    match deref b t0 with
    | .var _ => "_"
    | .num x => toString x
    | .struc n args =>
      if isListLike b (.struc n args) then
        "[" ++ printListBody fuel b (.struc n args) true ++ "]"
      else if args.length == 0 then n
      else n ++ "(" ++ printArgs fuel b args true ++ ")"

/-- The argument loop of C `print_term`: `", "` before every argument but the first. -/
def printArgs : Nat → Bind → List TermK → Bool → String
  | 0, _, _, _ => ""
  | _ + 1, _, [], _ => ""
  | fuel + 1, b, t :: ts, first =>
    (if first then "" else ", ") ++ printTerm fuel b t ++ printArgs fuel b ts false

/-- The loop of C `print_list` (brackets are emitted by the caller): walk the
cells, `", "`-separate elements, and print an improper tail after `"| "`. -/
def printListBody : Nat → Bind → TermK → Bool → String
  | 0, _, _, _ => ""
  | fuel + 1, b, t0, first =>
    match deref b t0 with
    | .struc "[]" [] => ""
    | .struc "." [h, tl] =>
      (if first then "" else ", ") ++ printTerm fuel b h ++ printListBody fuel b tl false
    | t => (if first then "" else ", ") ++ "| " ++ printTerm fuel b t
end

/-- Print-depth fuel: generous bound for the depth of any term reachable in the
specified scenarios (the C printer is bounded only by the term graph itself). -/
def printFuel (b : Bind) : Nat := 4 * b.length + 64

/-- Argument access `goal->u.s.args.a[i]`; only evaluated under an `is_atom`
guard that guarantees the compound shape, so the default is never reached. -/
def argN (g : TermK) (i : Nat) : TermK :=
  match g with
  | .struc _ args => args.getD i (.num 0)
  | _ => .num 0

/-- C `builtin_call`.  Result: `none` = fuel exhausted inside `unify`;
`some (none, s)` = not a builtin (C returns `-1`); `some (some ok, s)` = the
builtin ran and succeeded/failed. -/
def builtin_call (fuel : Nat) (s : EngineState) (goal : TermK) : Option (Option Bool × EngineState) :=
  let g := deref s.bind goal
  if is_atom s.bind g "true" 0 then some (some true, s)
  else if is_atom s.bind g "fail" 0 then some (some false, s)
  else if is_atom s.bind g "nl" 0 then
    some (some true, { s with out := s.out ++ "\n" })
  else if is_atom s.bind g "write" 1 then
    some (some true, { s with out := s.out ++ printTerm (printFuel s.bind) s.bind (argN g 0) })
  else if is_atom s.bind g "=" 2 then
    let m := trail_mark s
    match unify fuel s (argN g 0) (argN g 1) with
    | none => none
    | some (true, s1) => some (some true, s1)
    | some (false, s1) => some (some false, trail_unwind m s1)
  else if is_atom s.bind g "dif" 2 then
    let m := trail_mark s
    match unify fuel s (argN g 0) (argN g 1) with
    | none => none
    | some (ok, s1) => some (some !ok, trail_unwind m s1)
  else some (none, s)

/-- C `Clause`: head and body goals (a fact has an empty body). -/
structure Clause where
  head : TermK
  body : List TermK
deriving DecidableEq

/-- The named, non-anonymous variables of the original query, as collected by the
driver for `print_solution`: display name and arena id of each. -/
abbrev QVars := List (String × Nat)

/-- C `print_solution`: `"true"` for a variable-free query, otherwise
`", "`-separated `name = value` bindings; always a trailing newline. -/
def renderSolution (b : Bind) (qv : QVars) : String :=
  match qv with
  | [] => "true\n"
  | _ =>
    String.intercalate ", "
      (qv.map (fun p => p.1 ++ " = " ++ printTerm (printFuel b) b (.var p.2))) ++ "\n"

/-- The empty-goal-list arm of C `solve`: count and print one solution, then
return to keep searching. -/
def reportSolution (qv : QVars) (s : EngineState) : EngineState :=
  { s with scount := s.scount + 1, out := s.out ++ renderSolution s.bind qv }

/-- The clause pre-filter inlined in C `solve`'s clause loop: for two compounds
compare functor name and arity, otherwise compare term kinds (`Gh->k != H->k`
skips). `true` = attempt the clause, `false` = `continue`. -/
def clause_filter (gh h : TermK) : Bool :=
  match gh, h with
  | .struc gn ga, .struc hn ha => gn == hn && ga.length == ha.length
  | .var _, .var _ => true
  | .num _, .num _ => true
  | _, _ => false

mutual
/-- C `solve`: report a solution on an empty goal list, otherwise dispatch the
first goal to `builtin_call` and only on `-1` (not a builtin) iterate the
clause database.  Fuel (`none` = exhausted) bounds the recursion depth; both
functions decrement it on every call so that evaluation is structural. -/
def solve : Nat → List Clause → QVars → List TermK → EngineState → Option EngineState
  | 0, _, _, _, _ => none
  | fuel + 1, kb, qv, goals, s =>
    match goals with
    | [] => some (reportSolution qv s)
    | g :: gs =>
      match builtin_call fuel s g with
      | none => none
      | some (some true, s1) => solve fuel kb qv gs s1
      | some (some false, s1) => some s1
      | some (none, s1) => tryClauses fuel kb kb qv g gs s1

/-- The clause loop of C `solve`: filter on the dereferenced goal, take a trail
mark, rename the head, unify, on success rename the body with the same map and
recurse on (body ++ rest), and in every case unwind to the mark before moving to
the next clause.  The first clause-list argument is the whole database (for the
recursive `solve`), the second the clauses still to try. -/
def tryClauses : Nat → List Clause → List Clause → QVars → TermK → List TermK → EngineState → Option EngineState
  | 0, _, _, _, _, _, _ => none
  | _ + 1, _, [], _, _, _, s => some s
  | fuel + 1, kb, cl :: cls, qv, g, gs, s =>
    let gh := deref s.bind g
    if clause_filter gh cl.head then
      let mark := trail_mark s
      let r := copy_term cl.head [] s.fresh
      let s1 := { s with fresh := r.2.2 }
      match unify fuel s1 gh r.1 with
      | none => none
      | some (false, s2) => tryClauses fuel kb cls qv g gs (trail_unwind mark s2)
      | some (true, s2) =>
        let rb := copy_args cl.body r.2.1 s2.fresh
        let s3 := { s2 with fresh := rb.2.2 }
        match solve fuel kb qv (rb.1 ++ gs) s3 with
        | none => none
        | some s4 => tryClauses fuel kb cls qv g gs (trail_unwind mark s4)
    else tryClauses fuel kb cls qv g gs s
end

/-! ## Specification-side definitions used in the claim statements -/

/-- State `s1` extends state `s` by the block `nb` of new bindings (most recent
first): the new bindings sit on top of the old ones, the trail records exactly
their variables in the same order, and no other field changes. -/
def StExt (nb : Bind) (s s1 : EngineState) : Prop :=
  s1 = { s with bind := nb ++ s.bind, trail := nb.map Prod.fst ++ s.trail }

mutual
/-- A term with no variables anywhere inside it. -/
def groundT : TermK → Bool
  | .var _ => false
  | .num _ => true
  | .struc _ args => groundL args

def groundL : List TermK → Bool
  | [] => true
  | t :: ts => groundT t && groundL ts
end

mutual
/-- Structural depth of a term, used to bound `unify` fuel. -/
def heightT : TermK → Nat
  | .var _ => 0
  | .num _ => 0
  | .struc _ args => heightL args + 1

def heightL : List TermK → Nat
  | [] => 0
  | t :: ts => max (heightT t) (heightL ts)
end

/-- The shape test of the built-in dispatch table: the (name, arity) pairs
`builtin_call` recognises before the clause database is consulted. -/
def isBuiltinShape : TermK → Bool
  | .struc n args =>
    (n == "true" && args.length == 0) || (n == "fail" && args.length == 0)
      || (n == "nl" && args.length == 0) || (n == "write" && args.length == 1)
      || (n == "=" && args.length == 2) || (n == "dif" && args.length == 2)
  | _ => false

/-! ## Concrete scenario objects -/

/-- An atom: arity-0 compound. -/
def atomT (n : String) : TermK := .struc n []

def parentT (a b : TermK) : TermK := .struc "parent" [a, b]

def ancT (a b : TermK) : TermK := .struc "ancestor" [a, b]

/-- The knowledge base of the end-to-end scenario, in insertion order: the three
`parent` facts, then the two `ancestor` rules.  Clause-template variable ids:
rule 1 uses `X = 0, Y = 1`; rule 2 uses `X = 2, Y = 3, Z = 4`; the query
variable `A` is id 5. -/
def kbDemo : List Clause :=
  [ ⟨parentT (atomT "alice") (atomT "bob"), []⟩
  , ⟨parentT (atomT "bob") (atomT "carol"), []⟩
  , ⟨parentT (atomT "alice") (atomT "dana"), []⟩
  , ⟨ancT (.var 0) (.var 1), [parentT (.var 0) (.var 1)]⟩
  , ⟨ancT (.var 2) (.var 3), [parentT (.var 2) (.var 4), ancT (.var 4) (.var 3)]⟩ ]

/-- Initial engine state for the demo queries: no bindings, empty trail, fresh
variable allocation starting above every id used in `kbDemo` and the query. -/
def st0 : EngineState := ⟨[], [], 6, "", 0⟩

/-- Initial state with two fresh unbound variables `A = 0` and `B = 1`. -/
def sU : EngineState := ⟨[], [], 2, "", 0⟩

/-- A state holding one binding (variable 0 ↦ 1) recorded on the trail. -/
def sB : EngineState := ⟨[(0, .num 1)], [0], 1, "", 0⟩

/-- A clause whose head is a bare variable (the parser produces one for
`X :- ... .`), plus a matching initial state. -/
def clVar : Clause := ⟨.var 0, []⟩

def sV : EngineState := ⟨[], [], 1, "", 0⟩

/-! ## Basic facts about `deref`, binding extension, and `trail_unwind` -/

theorem deref_num (b : Bind) (x : Int) : deref b (.num x) = .num x := rfl

theorem deref_struc (b : Bind) (n : String) (args : List TermK) :
    deref b (.struc n args) = .struc n args := rfl

theorem stext_nil (s : EngineState) : StExt [] s s := by simp [StExt]

theorem stext_trans {nb1 nb2 : Bind} {s s1 s2 : EngineState}
    (h1 : StExt nb1 s s1) (h2 : StExt nb2 s1 s2) : StExt (nb2 ++ nb1) s s2 := by
  subst h1; subst h2; simp [StExt, List.append_assoc]

theorem stext_bindVar (i : Nat) (t : TermK) (s : EngineState) :
    StExt [(i, t)] s (bindVar i t s) := rfl

theorem ustep_foldl_none (u : EngineState → TermK → TermK → Option (Bool × EngineState)) :
    ∀ l : List (TermK × TermK), l.foldl (ustep u) none = none := by
  intro l
  induction l with
  | nil => rfl
  | cons p rest ih => simpa [List.foldl_cons, ustep] using ih

theorem ustep_foldl_false (u : EngineState → TermK → TermK → Option (Bool × EngineState))
    (s1 : EngineState) :
    ∀ l : List (TermK × TermK), l.foldl (ustep u) (some (false, s1)) = some (false, s1) := by
  intro l
  induction l with
  | nil => rfl
  | cons p rest ih => simpa [List.foldl_cons, ustep] using ih

/-- `unify` only ever adds bindings: whenever it returns (success or failure),
the new state extends the old one by a block of fresh trail-recorded bindings. -/
theorem unify_extends : ∀ (fuel : Nat) (s : EngineState) (a b : TermK) (r : Bool)
    (s1 : EngineState), unify fuel s a b = some (r, s1) → ∃ nb, StExt nb s s1 := by
  intro fuel
  induction fuel with
  | zero => intro s a b r s1 h; simp [unify] at h
  | succ f ih =>
    intro s a b r s1 h
    rw [unify] at h
    by_cases hab : deref s.bind a = deref s.bind b
    · rw [if_pos hab] at h
      injection h with h2; injection h2 with h3 h4
      exact h4 ▸ ⟨[], stext_nil _⟩
    · rw [if_neg hab] at h
      rcases hA : deref s.bind a with i | x | ⟨na, as_⟩ <;>
        rcases hB : deref s.bind b with j | y | ⟨nb, bs⟩ <;>
          rw [hA, hB] at h
      · injection h with h2; injection h2 with h3 h4
        exact h4 ▸ ⟨_, stext_bindVar i (.var j) _⟩
      · injection h with h2; injection h2 with h3 h4
        exact h4 ▸ ⟨_, stext_bindVar i (.num y) _⟩
      · injection h with h2; injection h2 with h3 h4
        exact h4 ▸ ⟨_, stext_bindVar i (.struc nb bs) _⟩
      · injection h with h2; injection h2 with h3 h4
        exact h4 ▸ ⟨_, stext_bindVar j (.num x) _⟩
      · injection h with h2; injection h2 with h3 h4
        exact h4 ▸ ⟨[], stext_nil _⟩
      · injection h with h2; injection h2 with h3 h4
        exact h4 ▸ ⟨[], stext_nil _⟩
      · injection h with h2; injection h2 with h3 h4
        exact h4 ▸ ⟨_, stext_bindVar j (.struc na as_) _⟩
      · injection h with h2; injection h2 with h3 h4
        exact h4 ▸ ⟨[], stext_nil _⟩
      · -- both compounds: name test, arity test, then the argument fold
        have key : ∀ (l : List (TermK × TermK)) (s0 : EngineState) (r : Bool)
            (s1 : EngineState),
            l.foldl (ustep (fun s1 x y => unify f s1 x y)) (some (true, s0)) = some (r, s1) →
            ∃ nb, StExt nb s0 s1 := by
          intro l
          induction l with
          | nil =>
            intro s0 r s1 hl
            injection hl with h2; injection h2 with h3 h4
            exact h4 ▸ ⟨[], stext_nil _⟩
          | cons p rest ihl =>
            intro s0 r s1 hl
            rw [List.foldl_cons] at hl
            rcases hu : unify f s0 p.1 p.2 with _ | ⟨ok, sm⟩
            · rw [show ustep (fun s1 x y => unify f s1 x y) (some (true, s0)) p = none from by
                simp [ustep, hu]] at hl
              rw [ustep_foldl_none] at hl
              exact absurd hl (by simp)
            · rw [show ustep (fun s1 x y => unify f s1 x y) (some (true, s0)) p
                  = some (ok, sm) from by simp [ustep, hu]] at hl
              cases ok with
              | true =>
                obtain ⟨nb2, h2⟩ := ihl sm r s1 hl
                obtain ⟨nb1, h1⟩ := ih s0 p.1 p.2 true sm hu
                exact ⟨nb2 ++ nb1, stext_trans h1 h2⟩
              | false =>
                rw [ustep_foldl_false] at hl
                injection hl with h2; injection h2 with h3 h4
                exact h4 ▸ ih s0 p.1 p.2 false sm hu
        replace h : (if na = nb then
            (if as_.length = bs.length then
              List.foldl (ustep fun s1 x y => unify f s1 x y) (some (true, s)) (as_.zip bs)
            else some (false, s))
          else some (false, s)) = some (r, s1) := h
        by_cases hn : na = nb
        · rw [if_pos hn] at h
          by_cases hlen : as_.length = bs.length
          · rw [if_pos hlen] at h
            exact key _ s r s1 h
          · rw [if_neg hlen] at h
            injection h with h2; injection h2 with h3 h4
            exact h4 ▸ ⟨[], stext_nil _⟩
        · rw [if_neg hn] at h
          injection h with h2; injection h2 with h3 h4
          exact h4 ▸ ⟨[], stext_nil _⟩
theorem unbind1_cons_self (v : Nat) (t : TermK) (rest : Bind) :
    unbind1 v ((v, t) :: rest) = rest := by
  simp [unbind1]

theorem unwindLoop_ge : ∀ (tr : List Nat) (b : Bind) (mark : Nat),
    tr.length ≤ mark → unwindLoop tr b mark = (tr, b) := by
  intro tr b mark h
  cases tr with
  | nil => rfl
  | cons v rest =>
    simp only [List.length_cons] at h
    rw [unwindLoop, if_neg (by omega)]

theorem unwindLoop_restore : ∀ (nb : Bind) (tr : List Nat) (b : Bind),
    unwindLoop (nb.map Prod.fst ++ tr) (nb ++ b) tr.length = (tr, b) := by
  intro nb
  induction nb with
  | nil => intro tr b; simpa using unwindLoop_ge tr b tr.length le_rfl
  | cons p nb ih =>
    intro tr b
    obtain ⟨v, t⟩ := p
    simp only [List.map_cons, List.cons_append]
    rw [unwindLoop, if_pos (by simp; omega), unbind1_cons_self]
    exact ih tr b

theorem unwindLoop_fst_len : ∀ (tr : List Nat) (b : Bind) (mark : Nat),
    (unwindLoop tr b mark).1.length = min tr.length mark := by
  intro tr
  induction tr with
  | nil => intro b mark; simp [unwindLoop]
  | cons v rest ih =>
    intro b mark
    by_cases h : mark < rest.length + 1
    · rw [unwindLoop, if_pos h, ih]
      simp; omega
    · rw [unwindLoop, if_neg h]
      simp; omega

theorem trail_unwind_ge (mark : Nat) (s : EngineState) (h : s.trail.length ≤ mark) :
    trail_unwind mark s = s := by
  unfold trail_unwind
  rw [unwindLoop_ge s.trail s.bind mark h]

theorem trail_unwind_idem (mark : Nat) (s : EngineState) :
    trail_unwind mark (trail_unwind mark s) = trail_unwind mark s := by
  apply trail_unwind_ge
  show (trail_unwind mark s).trail.length ≤ mark
  unfold trail_unwind
  simp only [unwindLoop_fst_len]
  omega

/-- Unwinding to the mark taken before a `unify` call removes exactly the block
of bindings that call pushed, restoring the previous state completely. -/
theorem trail_unwind_stext {nb : Bind} {s s1 : EngineState} (h : StExt nb s s1) :
    trail_unwind s.trail.length s1 = s := by
  unfold StExt at h
  subst h
  unfold trail_unwind
  simp only [unwindLoop_restore]

/-! ## Ground terms and `unify` on them -/

theorem deref_ground (b : Bind) (t : TermK) (h : groundT t = true) : deref b t = t := by
  cases t with
  | var i => simp [groundT] at h
  | num x => rfl
  | struc n args => rfl

/-- On two ground terms `unify` decides structural equality and leaves the
state untouched, given fuel exceeding the first term's depth. -/
theorem unify_ground : ∀ (fuel : Nat) (a b : TermK) (s : EngineState),
    groundT a = true → groundT b = true → heightT a < fuel →
    unify fuel s a b = some (decide (a = b), s) := by
  intro fuel
  induction fuel with
  | zero => intro a b s _ _ hf; omega
  | succ f ih =>
    intro a b s ha hb hf
    rw [unify, deref_ground s.bind a ha, deref_ground s.bind b hb]
    by_cases heq : a = b
    · rw [if_pos heq]; simp [heq]
    · rw [if_neg heq]
      cases a with
      | var i => simp [groundT] at ha
      | num x =>
        cases b with
        | var j => simp [groundT] at hb
        | num y =>
          have : x ≠ y := fun hxy => heq (by rw [hxy])
          simp [this, heq]
        | struc nb bs => simp [heq]
      | struc na as_ =>
        cases b with
        | var j => simp [groundT] at hb
        | num y => simp [heq]
        | struc nb bs =>
          show (if na = nb then
              (if as_.length = bs.length then
                List.foldl (ustep fun s1 x y => unify f s1 x y) (some (true, s)) (as_.zip bs)
              else some (false, s))
            else some (false, s)) = some (decide (TermK.struc na as_ = TermK.struc nb bs), s)
          have hfL : heightL as_ < f := by
            have : heightT (TermK.struc na as_) = heightL as_ + 1 := rfl
            omega
          by_cases hn : na = nb
          · rw [if_pos hn]
            by_cases hlen : as_.length = bs.length
            · rw [if_pos hlen]
              have key : ∀ (xs ys : List TermK) (s0 : EngineState),
                  groundL xs = true → groundL ys = true → heightL xs < f →
                  xs.length = ys.length →
                  (xs.zip ys).foldl (ustep fun s1 x y => unify f s1 x y) (some (true, s0))
                    = some (decide (xs = ys), s0) := by
                intro xs
                induction xs with
                | nil =>
                  intro ys s0 _ _ _ hl
                  obtain rfl : ys = [] := by
                    cases ys with
                    | nil => rfl
                    | cons y ys => simp at hl
                  simp
                | cons x xs ihx =>
                  intro ys s0 hgx hgy hhx hl
                  cases ys with
                  | nil => simp at hl
                  | cons y ys =>
                    simp only [groundL, Bool.and_eq_true] at hgx hgy
                    simp only [List.length_cons] at hl
                    have hhx1 : heightT x < f := by
                      have : heightL (x :: xs) = max (heightT x) (heightL xs) := rfl
                      omega
                    have hhxs : heightL xs < f := by
                      have : heightL (x :: xs) = max (heightT x) (heightL xs) := rfl
                      omega
                    rw [List.zip_cons_cons, List.foldl_cons,
                      show ustep (fun s1 x y => unify f s1 x y) (some (true, s0)) (x, y)
                        = unify f s0 x y from rfl,
                      ih x y s0 hgx.1 hgy.1 hhx1]
                    by_cases hxy : x = y
                    · rw [show decide (x = y) = true from by simp [hxy]]
                      rw [ihx ys s0 hgx.2 hgy.2 hhxs (by omega)]
                      simp [hxy]
                    · rw [show decide (x = y) = false from by simp [hxy]]
                      rw [ustep_foldl_false]
                      simp [hxy]
              rw [key as_ bs s (by simpa [groundT] using ha) (by simpa [groundT] using hb)
                hfL hlen]
              have : as_ ≠ bs := fun hab => heq (by rw [hn, hab])
              simp [this, heq]
            · rw [if_neg hlen]
              have : as_ ≠ bs := fun hab => hlen (by rw [hab])
              simp [heq]
          · rw [if_neg hn]
            simp [heq]

/-! ## `builtin_call` and `solve` dispatch equations -/

theorem builtin_call_at_true {s : EngineState} {g : TermK} (fuel : Nat)
    (h : deref s.bind g = .struc "true" []) :
    builtin_call fuel s g = some (some true, s) := by
  unfold builtin_call; rw [h]; rfl

theorem builtin_call_at_fail {s : EngineState} {g : TermK} (fuel : Nat)
    (h : deref s.bind g = .struc "fail" []) :
    builtin_call fuel s g = some (some false, s) := by
  unfold builtin_call; rw [h]; rfl

theorem builtin_call_at_nl {s : EngineState} {g : TermK} (fuel : Nat)
    (h : deref s.bind g = .struc "nl" []) :
    builtin_call fuel s g = some (some true, { s with out := s.out ++ "\n" }) := by
  unfold builtin_call; rw [h]; rfl

theorem builtin_call_at_write {s : EngineState} {g : TermK} (fuel : Nat) (x : TermK)
    (h : deref s.bind g = .struc "write" [x]) :
    builtin_call fuel s g
      = some (some true, { s with out := s.out ++ printTerm (printFuel s.bind) s.bind x }) := by
  unfold builtin_call; rw [h]; rfl

theorem builtin_call_at_eq {s : EngineState} {g : TermK} (fuel : Nat) (x y : TermK)
    (h : deref s.bind g = .struc "=" [x, y]) :
    builtin_call fuel s g
      = match unify fuel s x y with
        | none => none
        | some (true, s1) => some (some true, s1)
        | some (false, s1) => some (some false, trail_unwind s.trail.length s1) := by
  unfold builtin_call; rw [h]; rfl

theorem builtin_call_at_dif {s : EngineState} {g : TermK} (fuel : Nat) (x y : TermK)
    (h : deref s.bind g = .struc "dif" [x, y]) :
    builtin_call fuel s g
      = match unify fuel s x y with
        | none => none
        | some (ok, s1) => some (some !ok, trail_unwind s.trail.length s1) := by
  unfold builtin_call; rw [h]; rfl

theorem builtin_call_at_num (fuel : Nat) (s : EngineState) (x : Int) :
    builtin_call fuel s (.num x) = some (none, s) := rfl

theorem solve_cons (fuel : Nat) (kb : List Clause) (qv : QVars) (g : TermK)
    (gs : List TermK) (s : EngineState) :
    solve (fuel + 1) kb qv (g :: gs) s
      = match builtin_call fuel s g with
        | none => none
        | some (some true, s1) => solve fuel kb qv gs s1
        | some (some false, s1) => some s1
        | some (none, s1) => tryClauses fuel kb kb qv g gs s1 := rfl

/-! ## Single-step execution lemmas for `solve`/`tryClauses`

Each lemma performs one transition of the clause loop symbolically, so that a
concrete run can be verified as a chain of small steps (head copy, head
unification, body copy, recursive result, unwind) without re-evaluating whole
subtrees. -/

theorem tryClauses_step_skip (fuel : Nat) (kb : List Clause) (c : Clause)
    (cls : List Clause) (qv : QVars) (g : TermK) (gs : List TermK) (s r : EngineState)
    (h1 : clause_filter (deref s.bind g) c.head = false)
    (h2 : tryClauses fuel kb cls qv g gs s = some r) :
    tryClauses (fuel + 1) kb (c :: cls) qv g gs s = some r := by
  rw [tryClauses, if_neg (by rw [h1]; exact Bool.false_ne_true)]
  exact h2

theorem tryClauses_step_attempt (fuel : Nat) (kb : List Clause) (c : Clause)
    (cls : List Clause) (qv : QVars) (g : TermK) (gs : List TermK) (s : EngineState)
    (gh hcopy : TermK) (M1 : List (Nat × Nat)) (f1 : Nat)
    (bcopy : List TermK) (M2 : List (Nat × Nat)) (f2 : Nat) (s2 s4 r : EngineState)
    (h1 : deref s.bind g = gh)
    (h2 : clause_filter gh c.head = true)
    (h3 : copy_term c.head [] s.fresh = (hcopy, M1, f1))
    (h4 : unify fuel { s with fresh := f1 } gh hcopy = some (true, s2))
    (h5 : copy_args c.body M1 s2.fresh = (bcopy, M2, f2))
    (h6 : solve fuel kb qv (bcopy ++ gs) { s2 with fresh := f2 } = some s4)
    (h7 : tryClauses fuel kb cls qv g gs (trail_unwind s.trail.length s4) = some r) :
    tryClauses (fuel + 1) kb (c :: cls) qv g gs s = some r := by
  rw [tryClauses]
  simp only [h1, h2, if_true, trail_mark, h3, h4, h5, h6]
  exact h7

theorem tryClauses_step_nomatch (fuel : Nat) (kb : List Clause) (c : Clause)
    (cls : List Clause) (qv : QVars) (g : TermK) (gs : List TermK) (s : EngineState)
    (gh hcopy : TermK) (M1 : List (Nat × Nat)) (f1 : Nat) (s2 r : EngineState)
    (h1 : deref s.bind g = gh)
    (h2 : clause_filter gh c.head = true)
    (h3 : copy_term c.head [] s.fresh = (hcopy, M1, f1))
    (h4 : unify fuel { s with fresh := f1 } gh hcopy = some (false, s2))
    (h7 : tryClauses fuel kb cls qv g gs (trail_unwind s.trail.length s2) = some r) :
    tryClauses (fuel + 1) kb (c :: cls) qv g gs s = some r := by
  rw [tryClauses]
  simp only [h1, h2, if_true, trail_mark, h3, h4]
  exact h7

theorem solve_step_goal (fuel : Nat) (kb : List Clause) (qv : QVars) (g : TermK)
    (gs : List TermK) (s s1 r : EngineState)
    (h1 : builtin_call fuel s g = some (none, s1))
    (h2 : tryClauses fuel kb kb qv g gs s1 = some r) :
    solve (fuel + 1) kb qv (g :: gs) s = some r := by
  rw [solve_cons, h1]
  exact h2

/-! ## Claim theorems -/

/-- C1: with the knowledge base holding the three `parent` facts and the two
`ancestor` rules in insertion order, `solve` on the query `ancestor(A, carol)`
reports exactly two solutions, `A = bob` first and `A = alice` second, and the
query `ancestor(A, nobody)` reports zero solutions. -/
theorem ancestor_demo_solutions :
    ((solve 100 kbDemo [("A", 5)] [ancT (.var 5) (atomT "carol")] st0).map EngineState.out
        = some "A = bob\nA = alice\n"
      ∧ (solve 100 kbDemo [("A", 5)] [ancT (.var 5) (atomT "carol")] st0).map EngineState.scount
        = some 2)
    ∧ ((solve 100 kbDemo [("A", 5)] [ancT (.var 5) (atomT "nobody")] st0).map EngineState.out
        = some ""
      ∧ (solve 100 kbDemo [("A", 5)] [ancT (.var 5) (atomT "nobody")] st0).map EngineState.scount
        = some 0) := by
  have hc1 : solve 92 kbDemo [("A", 5)] [] (⟨[(6, TermK.struc "bob" []), (7, TermK.struc "carol" []), (5, TermK.var 6)], [6, 7, 5], 8, "", 0⟩ : EngineState) = some (⟨[(6, TermK.struc "bob" []), (7, TermK.struc "carol" []), (5, TermK.var 6)], [6, 7, 5], 8, "A = bob\n", 1⟩ : EngineState) := rfl
  have hc2 : tryClauses 89 kbDemo [] [("A", 5)] (TermK.struc "parent" [TermK.var 6, TermK.var 7]) [] (⟨[(7, TermK.struc "carol" []), (5, TermK.var 6)], [7, 5], 8, "A = bob\n", 1⟩ : EngineState) = some (⟨[(7, TermK.struc "carol" []), (5, TermK.var 6)], [7, 5], 8, "A = bob\n", 1⟩ : EngineState) := rfl
  have hc3 : tryClauses 90 kbDemo [⟨TermK.struc "ancestor" [TermK.var 2, TermK.var 3], [TermK.struc "parent" [TermK.var 2, TermK.var 4], TermK.struc "ancestor" [TermK.var 4, TermK.var 3]]⟩] [("A", 5)] (TermK.struc "parent" [TermK.var 6, TermK.var 7]) [] (⟨[(7, TermK.struc "carol" []), (5, TermK.var 6)], [7, 5], 8, "A = bob\n", 1⟩ : EngineState) = some (⟨[(7, TermK.struc "carol" []), (5, TermK.var 6)], [7, 5], 8, "A = bob\n", 1⟩ : EngineState) := tryClauses_step_skip 89 kbDemo ⟨TermK.struc "ancestor" [TermK.var 2, TermK.var 3], [TermK.struc "parent" [TermK.var 2, TermK.var 4], TermK.struc "ancestor" [TermK.var 4, TermK.var 3]]⟩ [] [("A", 5)] (TermK.struc "parent" [TermK.var 6, TermK.var 7]) [] (⟨[(7, TermK.struc "carol" []), (5, TermK.var 6)], [7, 5], 8, "A = bob\n", 1⟩ : EngineState) (⟨[(7, TermK.struc "carol" []), (5, TermK.var 6)], [7, 5], 8, "A = bob\n", 1⟩ : EngineState) rfl hc2
  have hc4 : tryClauses 91 kbDemo [⟨TermK.struc "ancestor" [TermK.var 0, TermK.var 1], [TermK.struc "parent" [TermK.var 0, TermK.var 1]]⟩, ⟨TermK.struc "ancestor" [TermK.var 2, TermK.var 3], [TermK.struc "parent" [TermK.var 2, TermK.var 4], TermK.struc "ancestor" [TermK.var 4, TermK.var 3]]⟩] [("A", 5)] (TermK.struc "parent" [TermK.var 6, TermK.var 7]) [] (⟨[(7, TermK.struc "carol" []), (5, TermK.var 6)], [7, 5], 8, "A = bob\n", 1⟩ : EngineState) = some (⟨[(7, TermK.struc "carol" []), (5, TermK.var 6)], [7, 5], 8, "A = bob\n", 1⟩ : EngineState) := tryClauses_step_skip 90 kbDemo ⟨TermK.struc "ancestor" [TermK.var 0, TermK.var 1], [TermK.struc "parent" [TermK.var 0, TermK.var 1]]⟩ [⟨TermK.struc "ancestor" [TermK.var 2, TermK.var 3], [TermK.struc "parent" [TermK.var 2, TermK.var 4], TermK.struc "ancestor" [TermK.var 4, TermK.var 3]]⟩] [("A", 5)] (TermK.struc "parent" [TermK.var 6, TermK.var 7]) [] (⟨[(7, TermK.struc "carol" []), (5, TermK.var 6)], [7, 5], 8, "A = bob\n", 1⟩ : EngineState) (⟨[(7, TermK.struc "carol" []), (5, TermK.var 6)], [7, 5], 8, "A = bob\n", 1⟩ : EngineState) rfl hc3
  have hc5 : tryClauses 92 kbDemo [⟨TermK.struc "parent" [TermK.struc "alice" [], TermK.struc "dana" []], []⟩, ⟨TermK.struc "ancestor" [TermK.var 0, TermK.var 1], [TermK.struc "parent" [TermK.var 0, TermK.var 1]]⟩, ⟨TermK.struc "ancestor" [TermK.var 2, TermK.var 3], [TermK.struc "parent" [TermK.var 2, TermK.var 4], TermK.struc "ancestor" [TermK.var 4, TermK.var 3]]⟩] [("A", 5)] (TermK.struc "parent" [TermK.var 6, TermK.var 7]) [] (⟨[(7, TermK.struc "carol" []), (5, TermK.var 6)], [7, 5], 8, "A = bob\n", 1⟩ : EngineState) = some (⟨[(7, TermK.struc "carol" []), (5, TermK.var 6)], [7, 5], 8, "A = bob\n", 1⟩ : EngineState) := tryClauses_step_nomatch 91 kbDemo ⟨TermK.struc "parent" [TermK.struc "alice" [], TermK.struc "dana" []], []⟩ [⟨TermK.struc "ancestor" [TermK.var 0, TermK.var 1], [TermK.struc "parent" [TermK.var 0, TermK.var 1]]⟩, ⟨TermK.struc "ancestor" [TermK.var 2, TermK.var 3], [TermK.struc "parent" [TermK.var 2, TermK.var 4], TermK.struc "ancestor" [TermK.var 4, TermK.var 3]]⟩] [("A", 5)] (TermK.struc "parent" [TermK.var 6, TermK.var 7]) [] (⟨[(7, TermK.struc "carol" []), (5, TermK.var 6)], [7, 5], 8, "A = bob\n", 1⟩ : EngineState) (TermK.struc "parent" [TermK.var 6, TermK.var 7]) (TermK.struc "parent" [TermK.struc "alice" [], TermK.struc "dana" []]) [] 8 (⟨[(6, TermK.struc "alice" []), (7, TermK.struc "carol" []), (5, TermK.var 6)], [6, 7, 5], 8, "A = bob\n", 1⟩ : EngineState) (⟨[(7, TermK.struc "carol" []), (5, TermK.var 6)], [7, 5], 8, "A = bob\n", 1⟩ : EngineState) rfl rfl rfl rfl hc4
  have hc6 : tryClauses 93 kbDemo [⟨TermK.struc "parent" [TermK.struc "bob" [], TermK.struc "carol" []], []⟩, ⟨TermK.struc "parent" [TermK.struc "alice" [], TermK.struc "dana" []], []⟩, ⟨TermK.struc "ancestor" [TermK.var 0, TermK.var 1], [TermK.struc "parent" [TermK.var 0, TermK.var 1]]⟩, ⟨TermK.struc "ancestor" [TermK.var 2, TermK.var 3], [TermK.struc "parent" [TermK.var 2, TermK.var 4], TermK.struc "ancestor" [TermK.var 4, TermK.var 3]]⟩] [("A", 5)] (TermK.struc "parent" [TermK.var 6, TermK.var 7]) [] (⟨[(7, TermK.struc "carol" []), (5, TermK.var 6)], [7, 5], 8, "", 0⟩ : EngineState) = some (⟨[(7, TermK.struc "carol" []), (5, TermK.var 6)], [7, 5], 8, "A = bob\n", 1⟩ : EngineState) := tryClauses_step_attempt 92 kbDemo ⟨TermK.struc "parent" [TermK.struc "bob" [], TermK.struc "carol" []], []⟩ [⟨TermK.struc "parent" [TermK.struc "alice" [], TermK.struc "dana" []], []⟩, ⟨TermK.struc "ancestor" [TermK.var 0, TermK.var 1], [TermK.struc "parent" [TermK.var 0, TermK.var 1]]⟩, ⟨TermK.struc "ancestor" [TermK.var 2, TermK.var 3], [TermK.struc "parent" [TermK.var 2, TermK.var 4], TermK.struc "ancestor" [TermK.var 4, TermK.var 3]]⟩] [("A", 5)] (TermK.struc "parent" [TermK.var 6, TermK.var 7]) [] (⟨[(7, TermK.struc "carol" []), (5, TermK.var 6)], [7, 5], 8, "", 0⟩ : EngineState) (TermK.struc "parent" [TermK.var 6, TermK.var 7]) (TermK.struc "parent" [TermK.struc "bob" [], TermK.struc "carol" []]) [] 8 [] [] 8 (⟨[(6, TermK.struc "bob" []), (7, TermK.struc "carol" []), (5, TermK.var 6)], [6, 7, 5], 8, "", 0⟩ : EngineState) (⟨[(6, TermK.struc "bob" []), (7, TermK.struc "carol" []), (5, TermK.var 6)], [6, 7, 5], 8, "A = bob\n", 1⟩ : EngineState) (⟨[(7, TermK.struc "carol" []), (5, TermK.var 6)], [7, 5], 8, "A = bob\n", 1⟩ : EngineState) rfl rfl rfl rfl rfl hc1 hc5
  have hc7 : tryClauses 94 kbDemo [⟨TermK.struc "parent" [TermK.struc "alice" [], TermK.struc "bob" []], []⟩, ⟨TermK.struc "parent" [TermK.struc "bob" [], TermK.struc "carol" []], []⟩, ⟨TermK.struc "parent" [TermK.struc "alice" [], TermK.struc "dana" []], []⟩, ⟨TermK.struc "ancestor" [TermK.var 0, TermK.var 1], [TermK.struc "parent" [TermK.var 0, TermK.var 1]]⟩, ⟨TermK.struc "ancestor" [TermK.var 2, TermK.var 3], [TermK.struc "parent" [TermK.var 2, TermK.var 4], TermK.struc "ancestor" [TermK.var 4, TermK.var 3]]⟩] [("A", 5)] (TermK.struc "parent" [TermK.var 6, TermK.var 7]) [] (⟨[(7, TermK.struc "carol" []), (5, TermK.var 6)], [7, 5], 8, "", 0⟩ : EngineState) = some (⟨[(7, TermK.struc "carol" []), (5, TermK.var 6)], [7, 5], 8, "A = bob\n", 1⟩ : EngineState) := tryClauses_step_nomatch 93 kbDemo ⟨TermK.struc "parent" [TermK.struc "alice" [], TermK.struc "bob" []], []⟩ [⟨TermK.struc "parent" [TermK.struc "bob" [], TermK.struc "carol" []], []⟩, ⟨TermK.struc "parent" [TermK.struc "alice" [], TermK.struc "dana" []], []⟩, ⟨TermK.struc "ancestor" [TermK.var 0, TermK.var 1], [TermK.struc "parent" [TermK.var 0, TermK.var 1]]⟩, ⟨TermK.struc "ancestor" [TermK.var 2, TermK.var 3], [TermK.struc "parent" [TermK.var 2, TermK.var 4], TermK.struc "ancestor" [TermK.var 4, TermK.var 3]]⟩] [("A", 5)] (TermK.struc "parent" [TermK.var 6, TermK.var 7]) [] (⟨[(7, TermK.struc "carol" []), (5, TermK.var 6)], [7, 5], 8, "", 0⟩ : EngineState) (TermK.struc "parent" [TermK.var 6, TermK.var 7]) (TermK.struc "parent" [TermK.struc "alice" [], TermK.struc "bob" []]) [] 8 (⟨[(6, TermK.struc "alice" []), (7, TermK.struc "carol" []), (5, TermK.var 6)], [6, 7, 5], 8, "", 0⟩ : EngineState) (⟨[(7, TermK.struc "carol" []), (5, TermK.var 6)], [7, 5], 8, "A = bob\n", 1⟩ : EngineState) rfl rfl rfl rfl hc6
  have hc8 : solve 95 kbDemo [("A", 5)] [TermK.struc "parent" [TermK.var 6, TermK.var 7]] (⟨[(7, TermK.struc "carol" []), (5, TermK.var 6)], [7, 5], 8, "", 0⟩ : EngineState) = some (⟨[(7, TermK.struc "carol" []), (5, TermK.var 6)], [7, 5], 8, "A = bob\n", 1⟩ : EngineState) := solve_step_goal 94 kbDemo [("A", 5)] (TermK.struc "parent" [TermK.var 6, TermK.var 7]) [] (⟨[(7, TermK.struc "carol" []), (5, TermK.var 6)], [7, 5], 8, "", 0⟩ : EngineState) (⟨[(7, TermK.struc "carol" []), (5, TermK.var 6)], [7, 5], 8, "", 0⟩ : EngineState) (⟨[(7, TermK.struc "carol" []), (5, TermK.var 6)], [7, 5], 8, "A = bob\n", 1⟩ : EngineState) rfl hc7
  have hc9 : solve 84 kbDemo [("A", 5)] [] (⟨[(12, TermK.struc "carol" []), (11, TermK.struc "bob" []), (10, TermK.struc "bob" []), (8, TermK.struc "alice" []), (9, TermK.struc "carol" []), (5, TermK.var 8)], [12, 11, 10, 8, 9, 5], 13, "A = bob\n", 1⟩ : EngineState) = some (⟨[(12, TermK.struc "carol" []), (11, TermK.struc "bob" []), (10, TermK.struc "bob" []), (8, TermK.struc "alice" []), (9, TermK.struc "carol" []), (5, TermK.var 8)], [12, 11, 10, 8, 9, 5], 13, "A = bob\nA = alice\n", 2⟩ : EngineState) := rfl
  have hc10 : tryClauses 81 kbDemo [] [("A", 5)] (TermK.struc "parent" [TermK.var 11, TermK.var 12]) [] (⟨[(12, TermK.struc "carol" []), (11, TermK.struc "bob" []), (10, TermK.struc "bob" []), (8, TermK.struc "alice" []), (9, TermK.struc "carol" []), (5, TermK.var 8)], [12, 11, 10, 8, 9, 5], 13, "A = bob\nA = alice\n", 2⟩ : EngineState) = some (⟨[(12, TermK.struc "carol" []), (11, TermK.struc "bob" []), (10, TermK.struc "bob" []), (8, TermK.struc "alice" []), (9, TermK.struc "carol" []), (5, TermK.var 8)], [12, 11, 10, 8, 9, 5], 13, "A = bob\nA = alice\n", 2⟩ : EngineState) := rfl
  have hc11 : tryClauses 82 kbDemo [⟨TermK.struc "ancestor" [TermK.var 2, TermK.var 3], [TermK.struc "parent" [TermK.var 2, TermK.var 4], TermK.struc "ancestor" [TermK.var 4, TermK.var 3]]⟩] [("A", 5)] (TermK.struc "parent" [TermK.var 11, TermK.var 12]) [] (⟨[(12, TermK.struc "carol" []), (11, TermK.struc "bob" []), (10, TermK.struc "bob" []), (8, TermK.struc "alice" []), (9, TermK.struc "carol" []), (5, TermK.var 8)], [12, 11, 10, 8, 9, 5], 13, "A = bob\nA = alice\n", 2⟩ : EngineState) = some (⟨[(12, TermK.struc "carol" []), (11, TermK.struc "bob" []), (10, TermK.struc "bob" []), (8, TermK.struc "alice" []), (9, TermK.struc "carol" []), (5, TermK.var 8)], [12, 11, 10, 8, 9, 5], 13, "A = bob\nA = alice\n", 2⟩ : EngineState) := tryClauses_step_skip 81 kbDemo ⟨TermK.struc "ancestor" [TermK.var 2, TermK.var 3], [TermK.struc "parent" [TermK.var 2, TermK.var 4], TermK.struc "ancestor" [TermK.var 4, TermK.var 3]]⟩ [] [("A", 5)] (TermK.struc "parent" [TermK.var 11, TermK.var 12]) [] (⟨[(12, TermK.struc "carol" []), (11, TermK.struc "bob" []), (10, TermK.struc "bob" []), (8, TermK.struc "alice" []), (9, TermK.struc "carol" []), (5, TermK.var 8)], [12, 11, 10, 8, 9, 5], 13, "A = bob\nA = alice\n", 2⟩ : EngineState) (⟨[(12, TermK.struc "carol" []), (11, TermK.struc "bob" []), (10, TermK.struc "bob" []), (8, TermK.struc "alice" []), (9, TermK.struc "carol" []), (5, TermK.var 8)], [12, 11, 10, 8, 9, 5], 13, "A = bob\nA = alice\n", 2⟩ : EngineState) rfl hc10
  have hc12 : tryClauses 83 kbDemo [⟨TermK.struc "ancestor" [TermK.var 0, TermK.var 1], [TermK.struc "parent" [TermK.var 0, TermK.var 1]]⟩, ⟨TermK.struc "ancestor" [TermK.var 2, TermK.var 3], [TermK.struc "parent" [TermK.var 2, TermK.var 4], TermK.struc "ancestor" [TermK.var 4, TermK.var 3]]⟩] [("A", 5)] (TermK.struc "parent" [TermK.var 11, TermK.var 12]) [] (⟨[(12, TermK.struc "carol" []), (11, TermK.struc "bob" []), (10, TermK.struc "bob" []), (8, TermK.struc "alice" []), (9, TermK.struc "carol" []), (5, TermK.var 8)], [12, 11, 10, 8, 9, 5], 13, "A = bob\nA = alice\n", 2⟩ : EngineState) = some (⟨[(12, TermK.struc "carol" []), (11, TermK.struc "bob" []), (10, TermK.struc "bob" []), (8, TermK.struc "alice" []), (9, TermK.struc "carol" []), (5, TermK.var 8)], [12, 11, 10, 8, 9, 5], 13, "A = bob\nA = alice\n", 2⟩ : EngineState) := tryClauses_step_skip 82 kbDemo ⟨TermK.struc "ancestor" [TermK.var 0, TermK.var 1], [TermK.struc "parent" [TermK.var 0, TermK.var 1]]⟩ [⟨TermK.struc "ancestor" [TermK.var 2, TermK.var 3], [TermK.struc "parent" [TermK.var 2, TermK.var 4], TermK.struc "ancestor" [TermK.var 4, TermK.var 3]]⟩] [("A", 5)] (TermK.struc "parent" [TermK.var 11, TermK.var 12]) [] (⟨[(12, TermK.struc "carol" []), (11, TermK.struc "bob" []), (10, TermK.struc "bob" []), (8, TermK.struc "alice" []), (9, TermK.struc "carol" []), (5, TermK.var 8)], [12, 11, 10, 8, 9, 5], 13, "A = bob\nA = alice\n", 2⟩ : EngineState) (⟨[(12, TermK.struc "carol" []), (11, TermK.struc "bob" []), (10, TermK.struc "bob" []), (8, TermK.struc "alice" []), (9, TermK.struc "carol" []), (5, TermK.var 8)], [12, 11, 10, 8, 9, 5], 13, "A = bob\nA = alice\n", 2⟩ : EngineState) rfl hc11
  have hc13 : tryClauses 84 kbDemo [⟨TermK.struc "parent" [TermK.struc "alice" [], TermK.struc "dana" []], []⟩, ⟨TermK.struc "ancestor" [TermK.var 0, TermK.var 1], [TermK.struc "parent" [TermK.var 0, TermK.var 1]]⟩, ⟨TermK.struc "ancestor" [TermK.var 2, TermK.var 3], [TermK.struc "parent" [TermK.var 2, TermK.var 4], TermK.struc "ancestor" [TermK.var 4, TermK.var 3]]⟩] [("A", 5)] (TermK.struc "parent" [TermK.var 11, TermK.var 12]) [] (⟨[(12, TermK.struc "carol" []), (11, TermK.struc "bob" []), (10, TermK.struc "bob" []), (8, TermK.struc "alice" []), (9, TermK.struc "carol" []), (5, TermK.var 8)], [12, 11, 10, 8, 9, 5], 13, "A = bob\nA = alice\n", 2⟩ : EngineState) = some (⟨[(12, TermK.struc "carol" []), (11, TermK.struc "bob" []), (10, TermK.struc "bob" []), (8, TermK.struc "alice" []), (9, TermK.struc "carol" []), (5, TermK.var 8)], [12, 11, 10, 8, 9, 5], 13, "A = bob\nA = alice\n", 2⟩ : EngineState) := tryClauses_step_nomatch 83 kbDemo ⟨TermK.struc "parent" [TermK.struc "alice" [], TermK.struc "dana" []], []⟩ [⟨TermK.struc "ancestor" [TermK.var 0, TermK.var 1], [TermK.struc "parent" [TermK.var 0, TermK.var 1]]⟩, ⟨TermK.struc "ancestor" [TermK.var 2, TermK.var 3], [TermK.struc "parent" [TermK.var 2, TermK.var 4], TermK.struc "ancestor" [TermK.var 4, TermK.var 3]]⟩] [("A", 5)] (TermK.struc "parent" [TermK.var 11, TermK.var 12]) [] (⟨[(12, TermK.struc "carol" []), (11, TermK.struc "bob" []), (10, TermK.struc "bob" []), (8, TermK.struc "alice" []), (9, TermK.struc "carol" []), (5, TermK.var 8)], [12, 11, 10, 8, 9, 5], 13, "A = bob\nA = alice\n", 2⟩ : EngineState) (TermK.struc "parent" [TermK.var 11, TermK.var 12]) (TermK.struc "parent" [TermK.struc "alice" [], TermK.struc "dana" []]) [] 13 (⟨[(12, TermK.struc "carol" []), (11, TermK.struc "bob" []), (10, TermK.struc "bob" []), (8, TermK.struc "alice" []), (9, TermK.struc "carol" []), (5, TermK.var 8)], [12, 11, 10, 8, 9, 5], 13, "A = bob\nA = alice\n", 2⟩ : EngineState) (⟨[(12, TermK.struc "carol" []), (11, TermK.struc "bob" []), (10, TermK.struc "bob" []), (8, TermK.struc "alice" []), (9, TermK.struc "carol" []), (5, TermK.var 8)], [12, 11, 10, 8, 9, 5], 13, "A = bob\nA = alice\n", 2⟩ : EngineState) rfl rfl rfl rfl hc12
  have hc14 : tryClauses 85 kbDemo [⟨TermK.struc "parent" [TermK.struc "bob" [], TermK.struc "carol" []], []⟩, ⟨TermK.struc "parent" [TermK.struc "alice" [], TermK.struc "dana" []], []⟩, ⟨TermK.struc "ancestor" [TermK.var 0, TermK.var 1], [TermK.struc "parent" [TermK.var 0, TermK.var 1]]⟩, ⟨TermK.struc "ancestor" [TermK.var 2, TermK.var 3], [TermK.struc "parent" [TermK.var 2, TermK.var 4], TermK.struc "ancestor" [TermK.var 4, TermK.var 3]]⟩] [("A", 5)] (TermK.struc "parent" [TermK.var 11, TermK.var 12]) [] (⟨[(12, TermK.struc "carol" []), (11, TermK.struc "bob" []), (10, TermK.struc "bob" []), (8, TermK.struc "alice" []), (9, TermK.struc "carol" []), (5, TermK.var 8)], [12, 11, 10, 8, 9, 5], 13, "A = bob\n", 1⟩ : EngineState) = some (⟨[(12, TermK.struc "carol" []), (11, TermK.struc "bob" []), (10, TermK.struc "bob" []), (8, TermK.struc "alice" []), (9, TermK.struc "carol" []), (5, TermK.var 8)], [12, 11, 10, 8, 9, 5], 13, "A = bob\nA = alice\n", 2⟩ : EngineState) := tryClauses_step_attempt 84 kbDemo ⟨TermK.struc "parent" [TermK.struc "bob" [], TermK.struc "carol" []], []⟩ [⟨TermK.struc "parent" [TermK.struc "alice" [], TermK.struc "dana" []], []⟩, ⟨TermK.struc "ancestor" [TermK.var 0, TermK.var 1], [TermK.struc "parent" [TermK.var 0, TermK.var 1]]⟩, ⟨TermK.struc "ancestor" [TermK.var 2, TermK.var 3], [TermK.struc "parent" [TermK.var 2, TermK.var 4], TermK.struc "ancestor" [TermK.var 4, TermK.var 3]]⟩] [("A", 5)] (TermK.struc "parent" [TermK.var 11, TermK.var 12]) [] (⟨[(12, TermK.struc "carol" []), (11, TermK.struc "bob" []), (10, TermK.struc "bob" []), (8, TermK.struc "alice" []), (9, TermK.struc "carol" []), (5, TermK.var 8)], [12, 11, 10, 8, 9, 5], 13, "A = bob\n", 1⟩ : EngineState) (TermK.struc "parent" [TermK.var 11, TermK.var 12]) (TermK.struc "parent" [TermK.struc "bob" [], TermK.struc "carol" []]) [] 13 [] [] 13 (⟨[(12, TermK.struc "carol" []), (11, TermK.struc "bob" []), (10, TermK.struc "bob" []), (8, TermK.struc "alice" []), (9, TermK.struc "carol" []), (5, TermK.var 8)], [12, 11, 10, 8, 9, 5], 13, "A = bob\n", 1⟩ : EngineState) (⟨[(12, TermK.struc "carol" []), (11, TermK.struc "bob" []), (10, TermK.struc "bob" []), (8, TermK.struc "alice" []), (9, TermK.struc "carol" []), (5, TermK.var 8)], [12, 11, 10, 8, 9, 5], 13, "A = bob\nA = alice\n", 2⟩ : EngineState) (⟨[(12, TermK.struc "carol" []), (11, TermK.struc "bob" []), (10, TermK.struc "bob" []), (8, TermK.struc "alice" []), (9, TermK.struc "carol" []), (5, TermK.var 8)], [12, 11, 10, 8, 9, 5], 13, "A = bob\nA = alice\n", 2⟩ : EngineState) rfl rfl rfl rfl rfl hc9 hc13
  have hc15 : tryClauses 86 kbDemo [⟨TermK.struc "parent" [TermK.struc "alice" [], TermK.struc "bob" []], []⟩, ⟨TermK.struc "parent" [TermK.struc "bob" [], TermK.struc "carol" []], []⟩, ⟨TermK.struc "parent" [TermK.struc "alice" [], TermK.struc "dana" []], []⟩, ⟨TermK.struc "ancestor" [TermK.var 0, TermK.var 1], [TermK.struc "parent" [TermK.var 0, TermK.var 1]]⟩, ⟨TermK.struc "ancestor" [TermK.var 2, TermK.var 3], [TermK.struc "parent" [TermK.var 2, TermK.var 4], TermK.struc "ancestor" [TermK.var 4, TermK.var 3]]⟩] [("A", 5)] (TermK.struc "parent" [TermK.var 11, TermK.var 12]) [] (⟨[(12, TermK.struc "carol" []), (11, TermK.struc "bob" []), (10, TermK.struc "bob" []), (8, TermK.struc "alice" []), (9, TermK.struc "carol" []), (5, TermK.var 8)], [12, 11, 10, 8, 9, 5], 13, "A = bob\n", 1⟩ : EngineState) = some (⟨[(12, TermK.struc "carol" []), (11, TermK.struc "bob" []), (10, TermK.struc "bob" []), (8, TermK.struc "alice" []), (9, TermK.struc "carol" []), (5, TermK.var 8)], [12, 11, 10, 8, 9, 5], 13, "A = bob\nA = alice\n", 2⟩ : EngineState) := tryClauses_step_nomatch 85 kbDemo ⟨TermK.struc "parent" [TermK.struc "alice" [], TermK.struc "bob" []], []⟩ [⟨TermK.struc "parent" [TermK.struc "bob" [], TermK.struc "carol" []], []⟩, ⟨TermK.struc "parent" [TermK.struc "alice" [], TermK.struc "dana" []], []⟩, ⟨TermK.struc "ancestor" [TermK.var 0, TermK.var 1], [TermK.struc "parent" [TermK.var 0, TermK.var 1]]⟩, ⟨TermK.struc "ancestor" [TermK.var 2, TermK.var 3], [TermK.struc "parent" [TermK.var 2, TermK.var 4], TermK.struc "ancestor" [TermK.var 4, TermK.var 3]]⟩] [("A", 5)] (TermK.struc "parent" [TermK.var 11, TermK.var 12]) [] (⟨[(12, TermK.struc "carol" []), (11, TermK.struc "bob" []), (10, TermK.struc "bob" []), (8, TermK.struc "alice" []), (9, TermK.struc "carol" []), (5, TermK.var 8)], [12, 11, 10, 8, 9, 5], 13, "A = bob\n", 1⟩ : EngineState) (TermK.struc "parent" [TermK.var 11, TermK.var 12]) (TermK.struc "parent" [TermK.struc "alice" [], TermK.struc "bob" []]) [] 13 (⟨[(12, TermK.struc "carol" []), (11, TermK.struc "bob" []), (10, TermK.struc "bob" []), (8, TermK.struc "alice" []), (9, TermK.struc "carol" []), (5, TermK.var 8)], [12, 11, 10, 8, 9, 5], 13, "A = bob\n", 1⟩ : EngineState) (⟨[(12, TermK.struc "carol" []), (11, TermK.struc "bob" []), (10, TermK.struc "bob" []), (8, TermK.struc "alice" []), (9, TermK.struc "carol" []), (5, TermK.var 8)], [12, 11, 10, 8, 9, 5], 13, "A = bob\nA = alice\n", 2⟩ : EngineState) rfl rfl rfl rfl hc14
  have hc16 : solve 87 kbDemo [("A", 5)] [TermK.struc "parent" [TermK.var 11, TermK.var 12]] (⟨[(12, TermK.struc "carol" []), (11, TermK.struc "bob" []), (10, TermK.struc "bob" []), (8, TermK.struc "alice" []), (9, TermK.struc "carol" []), (5, TermK.var 8)], [12, 11, 10, 8, 9, 5], 13, "A = bob\n", 1⟩ : EngineState) = some (⟨[(12, TermK.struc "carol" []), (11, TermK.struc "bob" []), (10, TermK.struc "bob" []), (8, TermK.struc "alice" []), (9, TermK.struc "carol" []), (5, TermK.var 8)], [12, 11, 10, 8, 9, 5], 13, "A = bob\nA = alice\n", 2⟩ : EngineState) := solve_step_goal 86 kbDemo [("A", 5)] (TermK.struc "parent" [TermK.var 11, TermK.var 12]) [] (⟨[(12, TermK.struc "carol" []), (11, TermK.struc "bob" []), (10, TermK.struc "bob" []), (8, TermK.struc "alice" []), (9, TermK.struc "carol" []), (5, TermK.var 8)], [12, 11, 10, 8, 9, 5], 13, "A = bob\n", 1⟩ : EngineState) (⟨[(12, TermK.struc "carol" []), (11, TermK.struc "bob" []), (10, TermK.struc "bob" []), (8, TermK.struc "alice" []), (9, TermK.struc "carol" []), (5, TermK.var 8)], [12, 11, 10, 8, 9, 5], 13, "A = bob\n", 1⟩ : EngineState) (⟨[(12, TermK.struc "carol" []), (11, TermK.struc "bob" []), (10, TermK.struc "bob" []), (8, TermK.struc "alice" []), (9, TermK.struc "carol" []), (5, TermK.var 8)], [12, 11, 10, 8, 9, 5], 13, "A = bob\nA = alice\n", 2⟩ : EngineState) rfl hc15
  have hc17 : tryClauses 72 kbDemo [] [("A", 5)] (TermK.struc "parent" [TermK.var 16, TermK.var 17]) [] (⟨[(17, TermK.struc "carol" []), (16, TermK.struc "carol" []), (15, TermK.struc "carol" []), (14, TermK.struc "carol" []), (13, TermK.struc "bob" []), (10, TermK.struc "bob" []), (8, TermK.struc "alice" []), (9, TermK.struc "carol" []), (5, TermK.var 8)], [17, 16, 15, 14, 13, 10, 8, 9, 5], 18, "A = bob\nA = alice\n", 2⟩ : EngineState) = some (⟨[(17, TermK.struc "carol" []), (16, TermK.struc "carol" []), (15, TermK.struc "carol" []), (14, TermK.struc "carol" []), (13, TermK.struc "bob" []), (10, TermK.struc "bob" []), (8, TermK.struc "alice" []), (9, TermK.struc "carol" []), (5, TermK.var 8)], [17, 16, 15, 14, 13, 10, 8, 9, 5], 18, "A = bob\nA = alice\n", 2⟩ : EngineState) := rfl
  have hc18 : tryClauses 73 kbDemo [⟨TermK.struc "ancestor" [TermK.var 2, TermK.var 3], [TermK.struc "parent" [TermK.var 2, TermK.var 4], TermK.struc "ancestor" [TermK.var 4, TermK.var 3]]⟩] [("A", 5)] (TermK.struc "parent" [TermK.var 16, TermK.var 17]) [] (⟨[(17, TermK.struc "carol" []), (16, TermK.struc "carol" []), (15, TermK.struc "carol" []), (14, TermK.struc "carol" []), (13, TermK.struc "bob" []), (10, TermK.struc "bob" []), (8, TermK.struc "alice" []), (9, TermK.struc "carol" []), (5, TermK.var 8)], [17, 16, 15, 14, 13, 10, 8, 9, 5], 18, "A = bob\nA = alice\n", 2⟩ : EngineState) = some (⟨[(17, TermK.struc "carol" []), (16, TermK.struc "carol" []), (15, TermK.struc "carol" []), (14, TermK.struc "carol" []), (13, TermK.struc "bob" []), (10, TermK.struc "bob" []), (8, TermK.struc "alice" []), (9, TermK.struc "carol" []), (5, TermK.var 8)], [17, 16, 15, 14, 13, 10, 8, 9, 5], 18, "A = bob\nA = alice\n", 2⟩ : EngineState) := tryClauses_step_skip 72 kbDemo ⟨TermK.struc "ancestor" [TermK.var 2, TermK.var 3], [TermK.struc "parent" [TermK.var 2, TermK.var 4], TermK.struc "ancestor" [TermK.var 4, TermK.var 3]]⟩ [] [("A", 5)] (TermK.struc "parent" [TermK.var 16, TermK.var 17]) [] (⟨[(17, TermK.struc "carol" []), (16, TermK.struc "carol" []), (15, TermK.struc "carol" []), (14, TermK.struc "carol" []), (13, TermK.struc "bob" []), (10, TermK.struc "bob" []), (8, TermK.struc "alice" []), (9, TermK.struc "carol" []), (5, TermK.var 8)], [17, 16, 15, 14, 13, 10, 8, 9, 5], 18, "A = bob\nA = alice\n", 2⟩ : EngineState) (⟨[(17, TermK.struc "carol" []), (16, TermK.struc "carol" []), (15, TermK.struc "carol" []), (14, TermK.struc "carol" []), (13, TermK.struc "bob" []), (10, TermK.struc "bob" []), (8, TermK.struc "alice" []), (9, TermK.struc "carol" []), (5, TermK.var 8)], [17, 16, 15, 14, 13, 10, 8, 9, 5], 18, "A = bob\nA = alice\n", 2⟩ : EngineState) rfl hc17
  have hc19 : tryClauses 74 kbDemo [⟨TermK.struc "ancestor" [TermK.var 0, TermK.var 1], [TermK.struc "parent" [TermK.var 0, TermK.var 1]]⟩, ⟨TermK.struc "ancestor" [TermK.var 2, TermK.var 3], [TermK.struc "parent" [TermK.var 2, TermK.var 4], TermK.struc "ancestor" [TermK.var 4, TermK.var 3]]⟩] [("A", 5)] (TermK.struc "parent" [TermK.var 16, TermK.var 17]) [] (⟨[(17, TermK.struc "carol" []), (16, TermK.struc "carol" []), (15, TermK.struc "carol" []), (14, TermK.struc "carol" []), (13, TermK.struc "bob" []), (10, TermK.struc "bob" []), (8, TermK.struc "alice" []), (9, TermK.struc "carol" []), (5, TermK.var 8)], [17, 16, 15, 14, 13, 10, 8, 9, 5], 18, "A = bob\nA = alice\n", 2⟩ : EngineState) = some (⟨[(17, TermK.struc "carol" []), (16, TermK.struc "carol" []), (15, TermK.struc "carol" []), (14, TermK.struc "carol" []), (13, TermK.struc "bob" []), (10, TermK.struc "bob" []), (8, TermK.struc "alice" []), (9, TermK.struc "carol" []), (5, TermK.var 8)], [17, 16, 15, 14, 13, 10, 8, 9, 5], 18, "A = bob\nA = alice\n", 2⟩ : EngineState) := tryClauses_step_skip 73 kbDemo ⟨TermK.struc "ancestor" [TermK.var 0, TermK.var 1], [TermK.struc "parent" [TermK.var 0, TermK.var 1]]⟩ [⟨TermK.struc "ancestor" [TermK.var 2, TermK.var 3], [TermK.struc "parent" [TermK.var 2, TermK.var 4], TermK.struc "ancestor" [TermK.var 4, TermK.var 3]]⟩] [("A", 5)] (TermK.struc "parent" [TermK.var 16, TermK.var 17]) [] (⟨[(17, TermK.struc "carol" []), (16, TermK.struc "carol" []), (15, TermK.struc "carol" []), (14, TermK.struc "carol" []), (13, TermK.struc "bob" []), (10, TermK.struc "bob" []), (8, TermK.struc "alice" []), (9, TermK.struc "carol" []), (5, TermK.var 8)], [17, 16, 15, 14, 13, 10, 8, 9, 5], 18, "A = bob\nA = alice\n", 2⟩ : EngineState) (⟨[(17, TermK.struc "carol" []), (16, TermK.struc "carol" []), (15, TermK.struc "carol" []), (14, TermK.struc "carol" []), (13, TermK.struc "bob" []), (10, TermK.struc "bob" []), (8, TermK.struc "alice" []), (9, TermK.struc "carol" []), (5, TermK.var 8)], [17, 16, 15, 14, 13, 10, 8, 9, 5], 18, "A = bob\nA = alice\n", 2⟩ : EngineState) rfl hc18
  have hc20 : tryClauses 75 kbDemo [⟨TermK.struc "parent" [TermK.struc "alice" [], TermK.struc "dana" []], []⟩, ⟨TermK.struc "ancestor" [TermK.var 0, TermK.var 1], [TermK.struc "parent" [TermK.var 0, TermK.var 1]]⟩, ⟨TermK.struc "ancestor" [TermK.var 2, TermK.var 3], [TermK.struc "parent" [TermK.var 2, TermK.var 4], TermK.struc "ancestor" [TermK.var 4, TermK.var 3]]⟩] [("A", 5)] (TermK.struc "parent" [TermK.var 16, TermK.var 17]) [] (⟨[(17, TermK.struc "carol" []), (16, TermK.struc "carol" []), (15, TermK.struc "carol" []), (14, TermK.struc "carol" []), (13, TermK.struc "bob" []), (10, TermK.struc "bob" []), (8, TermK.struc "alice" []), (9, TermK.struc "carol" []), (5, TermK.var 8)], [17, 16, 15, 14, 13, 10, 8, 9, 5], 18, "A = bob\nA = alice\n", 2⟩ : EngineState) = some (⟨[(17, TermK.struc "carol" []), (16, TermK.struc "carol" []), (15, TermK.struc "carol" []), (14, TermK.struc "carol" []), (13, TermK.struc "bob" []), (10, TermK.struc "bob" []), (8, TermK.struc "alice" []), (9, TermK.struc "carol" []), (5, TermK.var 8)], [17, 16, 15, 14, 13, 10, 8, 9, 5], 18, "A = bob\nA = alice\n", 2⟩ : EngineState) := tryClauses_step_nomatch 74 kbDemo ⟨TermK.struc "parent" [TermK.struc "alice" [], TermK.struc "dana" []], []⟩ [⟨TermK.struc "ancestor" [TermK.var 0, TermK.var 1], [TermK.struc "parent" [TermK.var 0, TermK.var 1]]⟩, ⟨TermK.struc "ancestor" [TermK.var 2, TermK.var 3], [TermK.struc "parent" [TermK.var 2, TermK.var 4], TermK.struc "ancestor" [TermK.var 4, TermK.var 3]]⟩] [("A", 5)] (TermK.struc "parent" [TermK.var 16, TermK.var 17]) [] (⟨[(17, TermK.struc "carol" []), (16, TermK.struc "carol" []), (15, TermK.struc "carol" []), (14, TermK.struc "carol" []), (13, TermK.struc "bob" []), (10, TermK.struc "bob" []), (8, TermK.struc "alice" []), (9, TermK.struc "carol" []), (5, TermK.var 8)], [17, 16, 15, 14, 13, 10, 8, 9, 5], 18, "A = bob\nA = alice\n", 2⟩ : EngineState) (TermK.struc "parent" [TermK.var 16, TermK.var 17]) (TermK.struc "parent" [TermK.struc "alice" [], TermK.struc "dana" []]) [] 18 (⟨[(17, TermK.struc "carol" []), (16, TermK.struc "carol" []), (15, TermK.struc "carol" []), (14, TermK.struc "carol" []), (13, TermK.struc "bob" []), (10, TermK.struc "bob" []), (8, TermK.struc "alice" []), (9, TermK.struc "carol" []), (5, TermK.var 8)], [17, 16, 15, 14, 13, 10, 8, 9, 5], 18, "A = bob\nA = alice\n", 2⟩ : EngineState) (⟨[(17, TermK.struc "carol" []), (16, TermK.struc "carol" []), (15, TermK.struc "carol" []), (14, TermK.struc "carol" []), (13, TermK.struc "bob" []), (10, TermK.struc "bob" []), (8, TermK.struc "alice" []), (9, TermK.struc "carol" []), (5, TermK.var 8)], [17, 16, 15, 14, 13, 10, 8, 9, 5], 18, "A = bob\nA = alice\n", 2⟩ : EngineState) rfl rfl rfl rfl hc19
  have hc21 : tryClauses 76 kbDemo [⟨TermK.struc "parent" [TermK.struc "bob" [], TermK.struc "carol" []], []⟩, ⟨TermK.struc "parent" [TermK.struc "alice" [], TermK.struc "dana" []], []⟩, ⟨TermK.struc "ancestor" [TermK.var 0, TermK.var 1], [TermK.struc "parent" [TermK.var 0, TermK.var 1]]⟩, ⟨TermK.struc "ancestor" [TermK.var 2, TermK.var 3], [TermK.struc "parent" [TermK.var 2, TermK.var 4], TermK.struc "ancestor" [TermK.var 4, TermK.var 3]]⟩] [("A", 5)] (TermK.struc "parent" [TermK.var 16, TermK.var 17]) [] (⟨[(17, TermK.struc "carol" []), (16, TermK.struc "carol" []), (15, TermK.struc "carol" []), (14, TermK.struc "carol" []), (13, TermK.struc "bob" []), (10, TermK.struc "bob" []), (8, TermK.struc "alice" []), (9, TermK.struc "carol" []), (5, TermK.var 8)], [17, 16, 15, 14, 13, 10, 8, 9, 5], 18, "A = bob\nA = alice\n", 2⟩ : EngineState) = some (⟨[(17, TermK.struc "carol" []), (16, TermK.struc "carol" []), (15, TermK.struc "carol" []), (14, TermK.struc "carol" []), (13, TermK.struc "bob" []), (10, TermK.struc "bob" []), (8, TermK.struc "alice" []), (9, TermK.struc "carol" []), (5, TermK.var 8)], [17, 16, 15, 14, 13, 10, 8, 9, 5], 18, "A = bob\nA = alice\n", 2⟩ : EngineState) := tryClauses_step_nomatch 75 kbDemo ⟨TermK.struc "parent" [TermK.struc "bob" [], TermK.struc "carol" []], []⟩ [⟨TermK.struc "parent" [TermK.struc "alice" [], TermK.struc "dana" []], []⟩, ⟨TermK.struc "ancestor" [TermK.var 0, TermK.var 1], [TermK.struc "parent" [TermK.var 0, TermK.var 1]]⟩, ⟨TermK.struc "ancestor" [TermK.var 2, TermK.var 3], [TermK.struc "parent" [TermK.var 2, TermK.var 4], TermK.struc "ancestor" [TermK.var 4, TermK.var 3]]⟩] [("A", 5)] (TermK.struc "parent" [TermK.var 16, TermK.var 17]) [] (⟨[(17, TermK.struc "carol" []), (16, TermK.struc "carol" []), (15, TermK.struc "carol" []), (14, TermK.struc "carol" []), (13, TermK.struc "bob" []), (10, TermK.struc "bob" []), (8, TermK.struc "alice" []), (9, TermK.struc "carol" []), (5, TermK.var 8)], [17, 16, 15, 14, 13, 10, 8, 9, 5], 18, "A = bob\nA = alice\n", 2⟩ : EngineState) (TermK.struc "parent" [TermK.var 16, TermK.var 17]) (TermK.struc "parent" [TermK.struc "bob" [], TermK.struc "carol" []]) [] 18 (⟨[(17, TermK.struc "carol" []), (16, TermK.struc "carol" []), (15, TermK.struc "carol" []), (14, TermK.struc "carol" []), (13, TermK.struc "bob" []), (10, TermK.struc "bob" []), (8, TermK.struc "alice" []), (9, TermK.struc "carol" []), (5, TermK.var 8)], [17, 16, 15, 14, 13, 10, 8, 9, 5], 18, "A = bob\nA = alice\n", 2⟩ : EngineState) (⟨[(17, TermK.struc "carol" []), (16, TermK.struc "carol" []), (15, TermK.struc "carol" []), (14, TermK.struc "carol" []), (13, TermK.struc "bob" []), (10, TermK.struc "bob" []), (8, TermK.struc "alice" []), (9, TermK.struc "carol" []), (5, TermK.var 8)], [17, 16, 15, 14, 13, 10, 8, 9, 5], 18, "A = bob\nA = alice\n", 2⟩ : EngineState) rfl rfl rfl rfl hc20
  have hc22 : tryClauses 77 kbDemo [⟨TermK.struc "parent" [TermK.struc "alice" [], TermK.struc "bob" []], []⟩, ⟨TermK.struc "parent" [TermK.struc "bob" [], TermK.struc "carol" []], []⟩, ⟨TermK.struc "parent" [TermK.struc "alice" [], TermK.struc "dana" []], []⟩, ⟨TermK.struc "ancestor" [TermK.var 0, TermK.var 1], [TermK.struc "parent" [TermK.var 0, TermK.var 1]]⟩, ⟨TermK.struc "ancestor" [TermK.var 2, TermK.var 3], [TermK.struc "parent" [TermK.var 2, TermK.var 4], TermK.struc "ancestor" [TermK.var 4, TermK.var 3]]⟩] [("A", 5)] (TermK.struc "parent" [TermK.var 16, TermK.var 17]) [] (⟨[(17, TermK.struc "carol" []), (16, TermK.struc "carol" []), (15, TermK.struc "carol" []), (14, TermK.struc "carol" []), (13, TermK.struc "bob" []), (10, TermK.struc "bob" []), (8, TermK.struc "alice" []), (9, TermK.struc "carol" []), (5, TermK.var 8)], [17, 16, 15, 14, 13, 10, 8, 9, 5], 18, "A = bob\nA = alice\n", 2⟩ : EngineState) = some (⟨[(17, TermK.struc "carol" []), (16, TermK.struc "carol" []), (15, TermK.struc "carol" []), (14, TermK.struc "carol" []), (13, TermK.struc "bob" []), (10, TermK.struc "bob" []), (8, TermK.struc "alice" []), (9, TermK.struc "carol" []), (5, TermK.var 8)], [17, 16, 15, 14, 13, 10, 8, 9, 5], 18, "A = bob\nA = alice\n", 2⟩ : EngineState) := tryClauses_step_nomatch 76 kbDemo ⟨TermK.struc "parent" [TermK.struc "alice" [], TermK.struc "bob" []], []⟩ [⟨TermK.struc "parent" [TermK.struc "bob" [], TermK.struc "carol" []], []⟩, ⟨TermK.struc "parent" [TermK.struc "alice" [], TermK.struc "dana" []], []⟩, ⟨TermK.struc "ancestor" [TermK.var 0, TermK.var 1], [TermK.struc "parent" [TermK.var 0, TermK.var 1]]⟩, ⟨TermK.struc "ancestor" [TermK.var 2, TermK.var 3], [TermK.struc "parent" [TermK.var 2, TermK.var 4], TermK.struc "ancestor" [TermK.var 4, TermK.var 3]]⟩] [("A", 5)] (TermK.struc "parent" [TermK.var 16, TermK.var 17]) [] (⟨[(17, TermK.struc "carol" []), (16, TermK.struc "carol" []), (15, TermK.struc "carol" []), (14, TermK.struc "carol" []), (13, TermK.struc "bob" []), (10, TermK.struc "bob" []), (8, TermK.struc "alice" []), (9, TermK.struc "carol" []), (5, TermK.var 8)], [17, 16, 15, 14, 13, 10, 8, 9, 5], 18, "A = bob\nA = alice\n", 2⟩ : EngineState) (TermK.struc "parent" [TermK.var 16, TermK.var 17]) (TermK.struc "parent" [TermK.struc "alice" [], TermK.struc "bob" []]) [] 18 (⟨[(17, TermK.struc "carol" []), (16, TermK.struc "carol" []), (15, TermK.struc "carol" []), (14, TermK.struc "carol" []), (13, TermK.struc "bob" []), (10, TermK.struc "bob" []), (8, TermK.struc "alice" []), (9, TermK.struc "carol" []), (5, TermK.var 8)], [17, 16, 15, 14, 13, 10, 8, 9, 5], 18, "A = bob\nA = alice\n", 2⟩ : EngineState) (⟨[(17, TermK.struc "carol" []), (16, TermK.struc "carol" []), (15, TermK.struc "carol" []), (14, TermK.struc "carol" []), (13, TermK.struc "bob" []), (10, TermK.struc "bob" []), (8, TermK.struc "alice" []), (9, TermK.struc "carol" []), (5, TermK.var 8)], [17, 16, 15, 14, 13, 10, 8, 9, 5], 18, "A = bob\nA = alice\n", 2⟩ : EngineState) rfl rfl rfl rfl hc21
  have hc23 : solve 78 kbDemo [("A", 5)] [TermK.struc "parent" [TermK.var 16, TermK.var 17]] (⟨[(17, TermK.struc "carol" []), (16, TermK.struc "carol" []), (15, TermK.struc "carol" []), (14, TermK.struc "carol" []), (13, TermK.struc "bob" []), (10, TermK.struc "bob" []), (8, TermK.struc "alice" []), (9, TermK.struc "carol" []), (5, TermK.var 8)], [17, 16, 15, 14, 13, 10, 8, 9, 5], 18, "A = bob\nA = alice\n", 2⟩ : EngineState) = some (⟨[(17, TermK.struc "carol" []), (16, TermK.struc "carol" []), (15, TermK.struc "carol" []), (14, TermK.struc "carol" []), (13, TermK.struc "bob" []), (10, TermK.struc "bob" []), (8, TermK.struc "alice" []), (9, TermK.struc "carol" []), (5, TermK.var 8)], [17, 16, 15, 14, 13, 10, 8, 9, 5], 18, "A = bob\nA = alice\n", 2⟩ : EngineState) := solve_step_goal 77 kbDemo [("A", 5)] (TermK.struc "parent" [TermK.var 16, TermK.var 17]) [] (⟨[(17, TermK.struc "carol" []), (16, TermK.struc "carol" []), (15, TermK.struc "carol" []), (14, TermK.struc "carol" []), (13, TermK.struc "bob" []), (10, TermK.struc "bob" []), (8, TermK.struc "alice" []), (9, TermK.struc "carol" []), (5, TermK.var 8)], [17, 16, 15, 14, 13, 10, 8, 9, 5], 18, "A = bob\nA = alice\n", 2⟩ : EngineState) (⟨[(17, TermK.struc "carol" []), (16, TermK.struc "carol" []), (15, TermK.struc "carol" []), (14, TermK.struc "carol" []), (13, TermK.struc "bob" []), (10, TermK.struc "bob" []), (8, TermK.struc "alice" []), (9, TermK.struc "carol" []), (5, TermK.var 8)], [17, 16, 15, 14, 13, 10, 8, 9, 5], 18, "A = bob\nA = alice\n", 2⟩ : EngineState) (⟨[(17, TermK.struc "carol" []), (16, TermK.struc "carol" []), (15, TermK.struc "carol" []), (14, TermK.struc "carol" []), (13, TermK.struc "bob" []), (10, TermK.struc "bob" []), (8, TermK.struc "alice" []), (9, TermK.struc "carol" []), (5, TermK.var 8)], [17, 16, 15, 14, 13, 10, 8, 9, 5], 18, "A = bob\nA = alice\n", 2⟩ : EngineState) rfl hc22
  have hc24 : tryClauses 71 kbDemo [] [("A", 5)] (TermK.struc "parent" [TermK.var 18, TermK.var 20]) [TermK.struc "ancestor" [TermK.var 20, TermK.var 19]] (⟨[(19, TermK.struc "carol" []), (18, TermK.struc "carol" []), (15, TermK.struc "carol" []), (14, TermK.struc "carol" []), (13, TermK.struc "bob" []), (10, TermK.struc "bob" []), (8, TermK.struc "alice" []), (9, TermK.struc "carol" []), (5, TermK.var 8)], [19, 18, 15, 14, 13, 10, 8, 9, 5], 21, "A = bob\nA = alice\n", 2⟩ : EngineState) = some (⟨[(19, TermK.struc "carol" []), (18, TermK.struc "carol" []), (15, TermK.struc "carol" []), (14, TermK.struc "carol" []), (13, TermK.struc "bob" []), (10, TermK.struc "bob" []), (8, TermK.struc "alice" []), (9, TermK.struc "carol" []), (5, TermK.var 8)], [19, 18, 15, 14, 13, 10, 8, 9, 5], 21, "A = bob\nA = alice\n", 2⟩ : EngineState) := rfl
  have hc25 : tryClauses 72 kbDemo [⟨TermK.struc "ancestor" [TermK.var 2, TermK.var 3], [TermK.struc "parent" [TermK.var 2, TermK.var 4], TermK.struc "ancestor" [TermK.var 4, TermK.var 3]]⟩] [("A", 5)] (TermK.struc "parent" [TermK.var 18, TermK.var 20]) [TermK.struc "ancestor" [TermK.var 20, TermK.var 19]] (⟨[(19, TermK.struc "carol" []), (18, TermK.struc "carol" []), (15, TermK.struc "carol" []), (14, TermK.struc "carol" []), (13, TermK.struc "bob" []), (10, TermK.struc "bob" []), (8, TermK.struc "alice" []), (9, TermK.struc "carol" []), (5, TermK.var 8)], [19, 18, 15, 14, 13, 10, 8, 9, 5], 21, "A = bob\nA = alice\n", 2⟩ : EngineState) = some (⟨[(19, TermK.struc "carol" []), (18, TermK.struc "carol" []), (15, TermK.struc "carol" []), (14, TermK.struc "carol" []), (13, TermK.struc "bob" []), (10, TermK.struc "bob" []), (8, TermK.struc "alice" []), (9, TermK.struc "carol" []), (5, TermK.var 8)], [19, 18, 15, 14, 13, 10, 8, 9, 5], 21, "A = bob\nA = alice\n", 2⟩ : EngineState) := tryClauses_step_skip 71 kbDemo ⟨TermK.struc "ancestor" [TermK.var 2, TermK.var 3], [TermK.struc "parent" [TermK.var 2, TermK.var 4], TermK.struc "ancestor" [TermK.var 4, TermK.var 3]]⟩ [] [("A", 5)] (TermK.struc "parent" [TermK.var 18, TermK.var 20]) [TermK.struc "ancestor" [TermK.var 20, TermK.var 19]] (⟨[(19, TermK.struc "carol" []), (18, TermK.struc "carol" []), (15, TermK.struc "carol" []), (14, TermK.struc "carol" []), (13, TermK.struc "bob" []), (10, TermK.struc "bob" []), (8, TermK.struc "alice" []), (9, TermK.struc "carol" []), (5, TermK.var 8)], [19, 18, 15, 14, 13, 10, 8, 9, 5], 21, "A = bob\nA = alice\n", 2⟩ : EngineState) (⟨[(19, TermK.struc "carol" []), (18, TermK.struc "carol" []), (15, TermK.struc "carol" []), (14, TermK.struc "carol" []), (13, TermK.struc "bob" []), (10, TermK.struc "bob" []), (8, TermK.struc "alice" []), (9, TermK.struc "carol" []), (5, TermK.var 8)], [19, 18, 15, 14, 13, 10, 8, 9, 5], 21, "A = bob\nA = alice\n", 2⟩ : EngineState) rfl hc24
  have hc26 : tryClauses 73 kbDemo [⟨TermK.struc "ancestor" [TermK.var 0, TermK.var 1], [TermK.struc "parent" [TermK.var 0, TermK.var 1]]⟩, ⟨TermK.struc "ancestor" [TermK.var 2, TermK.var 3], [TermK.struc "parent" [TermK.var 2, TermK.var 4], TermK.struc "ancestor" [TermK.var 4, TermK.var 3]]⟩] [("A", 5)] (TermK.struc "parent" [TermK.var 18, TermK.var 20]) [TermK.struc "ancestor" [TermK.var 20, TermK.var 19]] (⟨[(19, TermK.struc "carol" []), (18, TermK.struc "carol" []), (15, TermK.struc "carol" []), (14, TermK.struc "carol" []), (13, TermK.struc "bob" []), (10, TermK.struc "bob" []), (8, TermK.struc "alice" []), (9, TermK.struc "carol" []), (5, TermK.var 8)], [19, 18, 15, 14, 13, 10, 8, 9, 5], 21, "A = bob\nA = alice\n", 2⟩ : EngineState) = some (⟨[(19, TermK.struc "carol" []), (18, TermK.struc "carol" []), (15, TermK.struc "carol" []), (14, TermK.struc "carol" []), (13, TermK.struc "bob" []), (10, TermK.struc "bob" []), (8, TermK.struc "alice" []), (9, TermK.struc "carol" []), (5, TermK.var 8)], [19, 18, 15, 14, 13, 10, 8, 9, 5], 21, "A = bob\nA = alice\n", 2⟩ : EngineState) := tryClauses_step_skip 72 kbDemo ⟨TermK.struc "ancestor" [TermK.var 0, TermK.var 1], [TermK.struc "parent" [TermK.var 0, TermK.var 1]]⟩ [⟨TermK.struc "ancestor" [TermK.var 2, TermK.var 3], [TermK.struc "parent" [TermK.var 2, TermK.var 4], TermK.struc "ancestor" [TermK.var 4, TermK.var 3]]⟩] [("A", 5)] (TermK.struc "parent" [TermK.var 18, TermK.var 20]) [TermK.struc "ancestor" [TermK.var 20, TermK.var 19]] (⟨[(19, TermK.struc "carol" []), (18, TermK.struc "carol" []), (15, TermK.struc "carol" []), (14, TermK.struc "carol" []), (13, TermK.struc "bob" []), (10, TermK.struc "bob" []), (8, TermK.struc "alice" []), (9, TermK.struc "carol" []), (5, TermK.var 8)], [19, 18, 15, 14, 13, 10, 8, 9, 5], 21, "A = bob\nA = alice\n", 2⟩ : EngineState) (⟨[(19, TermK.struc "carol" []), (18, TermK.struc "carol" []), (15, TermK.struc "carol" []), (14, TermK.struc "carol" []), (13, TermK.struc "bob" []), (10, TermK.struc "bob" []), (8, TermK.struc "alice" []), (9, TermK.struc "carol" []), (5, TermK.var 8)], [19, 18, 15, 14, 13, 10, 8, 9, 5], 21, "A = bob\nA = alice\n", 2⟩ : EngineState) rfl hc25
  have hc27 : tryClauses 74 kbDemo [⟨TermK.struc "parent" [TermK.struc "alice" [], TermK.struc "dana" []], []⟩, ⟨TermK.struc "ancestor" [TermK.var 0, TermK.var 1], [TermK.struc "parent" [TermK.var 0, TermK.var 1]]⟩, ⟨TermK.struc "ancestor" [TermK.var 2, TermK.var 3], [TermK.struc "parent" [TermK.var 2, TermK.var 4], TermK.struc "ancestor" [TermK.var 4, TermK.var 3]]⟩] [("A", 5)] (TermK.struc "parent" [TermK.var 18, TermK.var 20]) [TermK.struc "ancestor" [TermK.var 20, TermK.var 19]] (⟨[(19, TermK.struc "carol" []), (18, TermK.struc "carol" []), (15, TermK.struc "carol" []), (14, TermK.struc "carol" []), (13, TermK.struc "bob" []), (10, TermK.struc "bob" []), (8, TermK.struc "alice" []), (9, TermK.struc "carol" []), (5, TermK.var 8)], [19, 18, 15, 14, 13, 10, 8, 9, 5], 21, "A = bob\nA = alice\n", 2⟩ : EngineState) = some (⟨[(19, TermK.struc "carol" []), (18, TermK.struc "carol" []), (15, TermK.struc "carol" []), (14, TermK.struc "carol" []), (13, TermK.struc "bob" []), (10, TermK.struc "bob" []), (8, TermK.struc "alice" []), (9, TermK.struc "carol" []), (5, TermK.var 8)], [19, 18, 15, 14, 13, 10, 8, 9, 5], 21, "A = bob\nA = alice\n", 2⟩ : EngineState) := tryClauses_step_nomatch 73 kbDemo ⟨TermK.struc "parent" [TermK.struc "alice" [], TermK.struc "dana" []], []⟩ [⟨TermK.struc "ancestor" [TermK.var 0, TermK.var 1], [TermK.struc "parent" [TermK.var 0, TermK.var 1]]⟩, ⟨TermK.struc "ancestor" [TermK.var 2, TermK.var 3], [TermK.struc "parent" [TermK.var 2, TermK.var 4], TermK.struc "ancestor" [TermK.var 4, TermK.var 3]]⟩] [("A", 5)] (TermK.struc "parent" [TermK.var 18, TermK.var 20]) [TermK.struc "ancestor" [TermK.var 20, TermK.var 19]] (⟨[(19, TermK.struc "carol" []), (18, TermK.struc "carol" []), (15, TermK.struc "carol" []), (14, TermK.struc "carol" []), (13, TermK.struc "bob" []), (10, TermK.struc "bob" []), (8, TermK.struc "alice" []), (9, TermK.struc "carol" []), (5, TermK.var 8)], [19, 18, 15, 14, 13, 10, 8, 9, 5], 21, "A = bob\nA = alice\n", 2⟩ : EngineState) (TermK.struc "parent" [TermK.var 18, TermK.var 20]) (TermK.struc "parent" [TermK.struc "alice" [], TermK.struc "dana" []]) [] 21 (⟨[(19, TermK.struc "carol" []), (18, TermK.struc "carol" []), (15, TermK.struc "carol" []), (14, TermK.struc "carol" []), (13, TermK.struc "bob" []), (10, TermK.struc "bob" []), (8, TermK.struc "alice" []), (9, TermK.struc "carol" []), (5, TermK.var 8)], [19, 18, 15, 14, 13, 10, 8, 9, 5], 21, "A = bob\nA = alice\n", 2⟩ : EngineState) (⟨[(19, TermK.struc "carol" []), (18, TermK.struc "carol" []), (15, TermK.struc "carol" []), (14, TermK.struc "carol" []), (13, TermK.struc "bob" []), (10, TermK.struc "bob" []), (8, TermK.struc "alice" []), (9, TermK.struc "carol" []), (5, TermK.var 8)], [19, 18, 15, 14, 13, 10, 8, 9, 5], 21, "A = bob\nA = alice\n", 2⟩ : EngineState) rfl rfl rfl rfl hc26
  have hc28 : tryClauses 75 kbDemo [⟨TermK.struc "parent" [TermK.struc "bob" [], TermK.struc "carol" []], []⟩, ⟨TermK.struc "parent" [TermK.struc "alice" [], TermK.struc "dana" []], []⟩, ⟨TermK.struc "ancestor" [TermK.var 0, TermK.var 1], [TermK.struc "parent" [TermK.var 0, TermK.var 1]]⟩, ⟨TermK.struc "ancestor" [TermK.var 2, TermK.var 3], [TermK.struc "parent" [TermK.var 2, TermK.var 4], TermK.struc "ancestor" [TermK.var 4, TermK.var 3]]⟩] [("A", 5)] (TermK.struc "parent" [TermK.var 18, TermK.var 20]) [TermK.struc "ancestor" [TermK.var 20, TermK.var 19]] (⟨[(19, TermK.struc "carol" []), (18, TermK.struc "carol" []), (15, TermK.struc "carol" []), (14, TermK.struc "carol" []), (13, TermK.struc "bob" []), (10, TermK.struc "bob" []), (8, TermK.struc "alice" []), (9, TermK.struc "carol" []), (5, TermK.var 8)], [19, 18, 15, 14, 13, 10, 8, 9, 5], 21, "A = bob\nA = alice\n", 2⟩ : EngineState) = some (⟨[(19, TermK.struc "carol" []), (18, TermK.struc "carol" []), (15, TermK.struc "carol" []), (14, TermK.struc "carol" []), (13, TermK.struc "bob" []), (10, TermK.struc "bob" []), (8, TermK.struc "alice" []), (9, TermK.struc "carol" []), (5, TermK.var 8)], [19, 18, 15, 14, 13, 10, 8, 9, 5], 21, "A = bob\nA = alice\n", 2⟩ : EngineState) := tryClauses_step_nomatch 74 kbDemo ⟨TermK.struc "parent" [TermK.struc "bob" [], TermK.struc "carol" []], []⟩ [⟨TermK.struc "parent" [TermK.struc "alice" [], TermK.struc "dana" []], []⟩, ⟨TermK.struc "ancestor" [TermK.var 0, TermK.var 1], [TermK.struc "parent" [TermK.var 0, TermK.var 1]]⟩, ⟨TermK.struc "ancestor" [TermK.var 2, TermK.var 3], [TermK.struc "parent" [TermK.var 2, TermK.var 4], TermK.struc "ancestor" [TermK.var 4, TermK.var 3]]⟩] [("A", 5)] (TermK.struc "parent" [TermK.var 18, TermK.var 20]) [TermK.struc "ancestor" [TermK.var 20, TermK.var 19]] (⟨[(19, TermK.struc "carol" []), (18, TermK.struc "carol" []), (15, TermK.struc "carol" []), (14, TermK.struc "carol" []), (13, TermK.struc "bob" []), (10, TermK.struc "bob" []), (8, TermK.struc "alice" []), (9, TermK.struc "carol" []), (5, TermK.var 8)], [19, 18, 15, 14, 13, 10, 8, 9, 5], 21, "A = bob\nA = alice\n", 2⟩ : EngineState) (TermK.struc "parent" [TermK.var 18, TermK.var 20]) (TermK.struc "parent" [TermK.struc "bob" [], TermK.struc "carol" []]) [] 21 (⟨[(19, TermK.struc "carol" []), (18, TermK.struc "carol" []), (15, TermK.struc "carol" []), (14, TermK.struc "carol" []), (13, TermK.struc "bob" []), (10, TermK.struc "bob" []), (8, TermK.struc "alice" []), (9, TermK.struc "carol" []), (5, TermK.var 8)], [19, 18, 15, 14, 13, 10, 8, 9, 5], 21, "A = bob\nA = alice\n", 2⟩ : EngineState) (⟨[(19, TermK.struc "carol" []), (18, TermK.struc "carol" []), (15, TermK.struc "carol" []), (14, TermK.struc "carol" []), (13, TermK.struc "bob" []), (10, TermK.struc "bob" []), (8, TermK.struc "alice" []), (9, TermK.struc "carol" []), (5, TermK.var 8)], [19, 18, 15, 14, 13, 10, 8, 9, 5], 21, "A = bob\nA = alice\n", 2⟩ : EngineState) rfl rfl rfl rfl hc27
  have hc29 : tryClauses 76 kbDemo [⟨TermK.struc "parent" [TermK.struc "alice" [], TermK.struc "bob" []], []⟩, ⟨TermK.struc "parent" [TermK.struc "bob" [], TermK.struc "carol" []], []⟩, ⟨TermK.struc "parent" [TermK.struc "alice" [], TermK.struc "dana" []], []⟩, ⟨TermK.struc "ancestor" [TermK.var 0, TermK.var 1], [TermK.struc "parent" [TermK.var 0, TermK.var 1]]⟩, ⟨TermK.struc "ancestor" [TermK.var 2, TermK.var 3], [TermK.struc "parent" [TermK.var 2, TermK.var 4], TermK.struc "ancestor" [TermK.var 4, TermK.var 3]]⟩] [("A", 5)] (TermK.struc "parent" [TermK.var 18, TermK.var 20]) [TermK.struc "ancestor" [TermK.var 20, TermK.var 19]] (⟨[(19, TermK.struc "carol" []), (18, TermK.struc "carol" []), (15, TermK.struc "carol" []), (14, TermK.struc "carol" []), (13, TermK.struc "bob" []), (10, TermK.struc "bob" []), (8, TermK.struc "alice" []), (9, TermK.struc "carol" []), (5, TermK.var 8)], [19, 18, 15, 14, 13, 10, 8, 9, 5], 21, "A = bob\nA = alice\n", 2⟩ : EngineState) = some (⟨[(19, TermK.struc "carol" []), (18, TermK.struc "carol" []), (15, TermK.struc "carol" []), (14, TermK.struc "carol" []), (13, TermK.struc "bob" []), (10, TermK.struc "bob" []), (8, TermK.struc "alice" []), (9, TermK.struc "carol" []), (5, TermK.var 8)], [19, 18, 15, 14, 13, 10, 8, 9, 5], 21, "A = bob\nA = alice\n", 2⟩ : EngineState) := tryClauses_step_nomatch 75 kbDemo ⟨TermK.struc "parent" [TermK.struc "alice" [], TermK.struc "bob" []], []⟩ [⟨TermK.struc "parent" [TermK.struc "bob" [], TermK.struc "carol" []], []⟩, ⟨TermK.struc "parent" [TermK.struc "alice" [], TermK.struc "dana" []], []⟩, ⟨TermK.struc "ancestor" [TermK.var 0, TermK.var 1], [TermK.struc "parent" [TermK.var 0, TermK.var 1]]⟩, ⟨TermK.struc "ancestor" [TermK.var 2, TermK.var 3], [TermK.struc "parent" [TermK.var 2, TermK.var 4], TermK.struc "ancestor" [TermK.var 4, TermK.var 3]]⟩] [("A", 5)] (TermK.struc "parent" [TermK.var 18, TermK.var 20]) [TermK.struc "ancestor" [TermK.var 20, TermK.var 19]] (⟨[(19, TermK.struc "carol" []), (18, TermK.struc "carol" []), (15, TermK.struc "carol" []), (14, TermK.struc "carol" []), (13, TermK.struc "bob" []), (10, TermK.struc "bob" []), (8, TermK.struc "alice" []), (9, TermK.struc "carol" []), (5, TermK.var 8)], [19, 18, 15, 14, 13, 10, 8, 9, 5], 21, "A = bob\nA = alice\n", 2⟩ : EngineState) (TermK.struc "parent" [TermK.var 18, TermK.var 20]) (TermK.struc "parent" [TermK.struc "alice" [], TermK.struc "bob" []]) [] 21 (⟨[(19, TermK.struc "carol" []), (18, TermK.struc "carol" []), (15, TermK.struc "carol" []), (14, TermK.struc "carol" []), (13, TermK.struc "bob" []), (10, TermK.struc "bob" []), (8, TermK.struc "alice" []), (9, TermK.struc "carol" []), (5, TermK.var 8)], [19, 18, 15, 14, 13, 10, 8, 9, 5], 21, "A = bob\nA = alice\n", 2⟩ : EngineState) (⟨[(19, TermK.struc "carol" []), (18, TermK.struc "carol" []), (15, TermK.struc "carol" []), (14, TermK.struc "carol" []), (13, TermK.struc "bob" []), (10, TermK.struc "bob" []), (8, TermK.struc "alice" []), (9, TermK.struc "carol" []), (5, TermK.var 8)], [19, 18, 15, 14, 13, 10, 8, 9, 5], 21, "A = bob\nA = alice\n", 2⟩ : EngineState) rfl rfl rfl rfl hc28
  have hc30 : solve 77 kbDemo [("A", 5)] [TermK.struc "parent" [TermK.var 18, TermK.var 20], TermK.struc "ancestor" [TermK.var 20, TermK.var 19]] (⟨[(19, TermK.struc "carol" []), (18, TermK.struc "carol" []), (15, TermK.struc "carol" []), (14, TermK.struc "carol" []), (13, TermK.struc "bob" []), (10, TermK.struc "bob" []), (8, TermK.struc "alice" []), (9, TermK.struc "carol" []), (5, TermK.var 8)], [19, 18, 15, 14, 13, 10, 8, 9, 5], 21, "A = bob\nA = alice\n", 2⟩ : EngineState) = some (⟨[(19, TermK.struc "carol" []), (18, TermK.struc "carol" []), (15, TermK.struc "carol" []), (14, TermK.struc "carol" []), (13, TermK.struc "bob" []), (10, TermK.struc "bob" []), (8, TermK.struc "alice" []), (9, TermK.struc "carol" []), (5, TermK.var 8)], [19, 18, 15, 14, 13, 10, 8, 9, 5], 21, "A = bob\nA = alice\n", 2⟩ : EngineState) := solve_step_goal 76 kbDemo [("A", 5)] (TermK.struc "parent" [TermK.var 18, TermK.var 20]) [TermK.struc "ancestor" [TermK.var 20, TermK.var 19]] (⟨[(19, TermK.struc "carol" []), (18, TermK.struc "carol" []), (15, TermK.struc "carol" []), (14, TermK.struc "carol" []), (13, TermK.struc "bob" []), (10, TermK.struc "bob" []), (8, TermK.struc "alice" []), (9, TermK.struc "carol" []), (5, TermK.var 8)], [19, 18, 15, 14, 13, 10, 8, 9, 5], 21, "A = bob\nA = alice\n", 2⟩ : EngineState) (⟨[(19, TermK.struc "carol" []), (18, TermK.struc "carol" []), (15, TermK.struc "carol" []), (14, TermK.struc "carol" []), (13, TermK.struc "bob" []), (10, TermK.struc "bob" []), (8, TermK.struc "alice" []), (9, TermK.struc "carol" []), (5, TermK.var 8)], [19, 18, 15, 14, 13, 10, 8, 9, 5], 21, "A = bob\nA = alice\n", 2⟩ : EngineState) (⟨[(19, TermK.struc "carol" []), (18, TermK.struc "carol" []), (15, TermK.struc "carol" []), (14, TermK.struc "carol" []), (13, TermK.struc "bob" []), (10, TermK.struc "bob" []), (8, TermK.struc "alice" []), (9, TermK.struc "carol" []), (5, TermK.var 8)], [19, 18, 15, 14, 13, 10, 8, 9, 5], 21, "A = bob\nA = alice\n", 2⟩ : EngineState) rfl hc29
  have hc31 : tryClauses 77 kbDemo [] [("A", 5)] (TermK.struc "ancestor" [TermK.var 15, TermK.var 14]) [] (⟨[(15, TermK.struc "carol" []), (14, TermK.struc "carol" []), (13, TermK.struc "bob" []), (10, TermK.struc "bob" []), (8, TermK.struc "alice" []), (9, TermK.struc "carol" []), (5, TermK.var 8)], [15, 14, 13, 10, 8, 9, 5], 21, "A = bob\nA = alice\n", 2⟩ : EngineState) = some (⟨[(15, TermK.struc "carol" []), (14, TermK.struc "carol" []), (13, TermK.struc "bob" []), (10, TermK.struc "bob" []), (8, TermK.struc "alice" []), (9, TermK.struc "carol" []), (5, TermK.var 8)], [15, 14, 13, 10, 8, 9, 5], 21, "A = bob\nA = alice\n", 2⟩ : EngineState) := rfl
  have hc32 : tryClauses 78 kbDemo [⟨TermK.struc "ancestor" [TermK.var 2, TermK.var 3], [TermK.struc "parent" [TermK.var 2, TermK.var 4], TermK.struc "ancestor" [TermK.var 4, TermK.var 3]]⟩] [("A", 5)] (TermK.struc "ancestor" [TermK.var 15, TermK.var 14]) [] (⟨[(15, TermK.struc "carol" []), (14, TermK.struc "carol" []), (13, TermK.struc "bob" []), (10, TermK.struc "bob" []), (8, TermK.struc "alice" []), (9, TermK.struc "carol" []), (5, TermK.var 8)], [15, 14, 13, 10, 8, 9, 5], 18, "A = bob\nA = alice\n", 2⟩ : EngineState) = some (⟨[(15, TermK.struc "carol" []), (14, TermK.struc "carol" []), (13, TermK.struc "bob" []), (10, TermK.struc "bob" []), (8, TermK.struc "alice" []), (9, TermK.struc "carol" []), (5, TermK.var 8)], [15, 14, 13, 10, 8, 9, 5], 21, "A = bob\nA = alice\n", 2⟩ : EngineState) := tryClauses_step_attempt 77 kbDemo ⟨TermK.struc "ancestor" [TermK.var 2, TermK.var 3], [TermK.struc "parent" [TermK.var 2, TermK.var 4], TermK.struc "ancestor" [TermK.var 4, TermK.var 3]]⟩ [] [("A", 5)] (TermK.struc "ancestor" [TermK.var 15, TermK.var 14]) [] (⟨[(15, TermK.struc "carol" []), (14, TermK.struc "carol" []), (13, TermK.struc "bob" []), (10, TermK.struc "bob" []), (8, TermK.struc "alice" []), (9, TermK.struc "carol" []), (5, TermK.var 8)], [15, 14, 13, 10, 8, 9, 5], 18, "A = bob\nA = alice\n", 2⟩ : EngineState) (TermK.struc "ancestor" [TermK.var 15, TermK.var 14]) (TermK.struc "ancestor" [TermK.var 18, TermK.var 19]) [(3, 19), (2, 18)] 20 [TermK.struc "parent" [TermK.var 18, TermK.var 20], TermK.struc "ancestor" [TermK.var 20, TermK.var 19]] [(4, 20), (3, 19), (2, 18)] 21 (⟨[(19, TermK.struc "carol" []), (18, TermK.struc "carol" []), (15, TermK.struc "carol" []), (14, TermK.struc "carol" []), (13, TermK.struc "bob" []), (10, TermK.struc "bob" []), (8, TermK.struc "alice" []), (9, TermK.struc "carol" []), (5, TermK.var 8)], [19, 18, 15, 14, 13, 10, 8, 9, 5], 20, "A = bob\nA = alice\n", 2⟩ : EngineState) (⟨[(19, TermK.struc "carol" []), (18, TermK.struc "carol" []), (15, TermK.struc "carol" []), (14, TermK.struc "carol" []), (13, TermK.struc "bob" []), (10, TermK.struc "bob" []), (8, TermK.struc "alice" []), (9, TermK.struc "carol" []), (5, TermK.var 8)], [19, 18, 15, 14, 13, 10, 8, 9, 5], 21, "A = bob\nA = alice\n", 2⟩ : EngineState) (⟨[(15, TermK.struc "carol" []), (14, TermK.struc "carol" []), (13, TermK.struc "bob" []), (10, TermK.struc "bob" []), (8, TermK.struc "alice" []), (9, TermK.struc "carol" []), (5, TermK.var 8)], [15, 14, 13, 10, 8, 9, 5], 21, "A = bob\nA = alice\n", 2⟩ : EngineState) rfl rfl rfl rfl rfl hc30 hc31
  have hc33 : tryClauses 79 kbDemo [⟨TermK.struc "ancestor" [TermK.var 0, TermK.var 1], [TermK.struc "parent" [TermK.var 0, TermK.var 1]]⟩, ⟨TermK.struc "ancestor" [TermK.var 2, TermK.var 3], [TermK.struc "parent" [TermK.var 2, TermK.var 4], TermK.struc "ancestor" [TermK.var 4, TermK.var 3]]⟩] [("A", 5)] (TermK.struc "ancestor" [TermK.var 15, TermK.var 14]) [] (⟨[(15, TermK.struc "carol" []), (14, TermK.struc "carol" []), (13, TermK.struc "bob" []), (10, TermK.struc "bob" []), (8, TermK.struc "alice" []), (9, TermK.struc "carol" []), (5, TermK.var 8)], [15, 14, 13, 10, 8, 9, 5], 16, "A = bob\nA = alice\n", 2⟩ : EngineState) = some (⟨[(15, TermK.struc "carol" []), (14, TermK.struc "carol" []), (13, TermK.struc "bob" []), (10, TermK.struc "bob" []), (8, TermK.struc "alice" []), (9, TermK.struc "carol" []), (5, TermK.var 8)], [15, 14, 13, 10, 8, 9, 5], 21, "A = bob\nA = alice\n", 2⟩ : EngineState) := tryClauses_step_attempt 78 kbDemo ⟨TermK.struc "ancestor" [TermK.var 0, TermK.var 1], [TermK.struc "parent" [TermK.var 0, TermK.var 1]]⟩ [⟨TermK.struc "ancestor" [TermK.var 2, TermK.var 3], [TermK.struc "parent" [TermK.var 2, TermK.var 4], TermK.struc "ancestor" [TermK.var 4, TermK.var 3]]⟩] [("A", 5)] (TermK.struc "ancestor" [TermK.var 15, TermK.var 14]) [] (⟨[(15, TermK.struc "carol" []), (14, TermK.struc "carol" []), (13, TermK.struc "bob" []), (10, TermK.struc "bob" []), (8, TermK.struc "alice" []), (9, TermK.struc "carol" []), (5, TermK.var 8)], [15, 14, 13, 10, 8, 9, 5], 16, "A = bob\nA = alice\n", 2⟩ : EngineState) (TermK.struc "ancestor" [TermK.var 15, TermK.var 14]) (TermK.struc "ancestor" [TermK.var 16, TermK.var 17]) [(1, 17), (0, 16)] 18 [TermK.struc "parent" [TermK.var 16, TermK.var 17]] [(1, 17), (0, 16)] 18 (⟨[(17, TermK.struc "carol" []), (16, TermK.struc "carol" []), (15, TermK.struc "carol" []), (14, TermK.struc "carol" []), (13, TermK.struc "bob" []), (10, TermK.struc "bob" []), (8, TermK.struc "alice" []), (9, TermK.struc "carol" []), (5, TermK.var 8)], [17, 16, 15, 14, 13, 10, 8, 9, 5], 18, "A = bob\nA = alice\n", 2⟩ : EngineState) (⟨[(17, TermK.struc "carol" []), (16, TermK.struc "carol" []), (15, TermK.struc "carol" []), (14, TermK.struc "carol" []), (13, TermK.struc "bob" []), (10, TermK.struc "bob" []), (8, TermK.struc "alice" []), (9, TermK.struc "carol" []), (5, TermK.var 8)], [17, 16, 15, 14, 13, 10, 8, 9, 5], 18, "A = bob\nA = alice\n", 2⟩ : EngineState) (⟨[(15, TermK.struc "carol" []), (14, TermK.struc "carol" []), (13, TermK.struc "bob" []), (10, TermK.struc "bob" []), (8, TermK.struc "alice" []), (9, TermK.struc "carol" []), (5, TermK.var 8)], [15, 14, 13, 10, 8, 9, 5], 21, "A = bob\nA = alice\n", 2⟩ : EngineState) rfl rfl rfl rfl rfl hc23 hc32
  have hc34 : tryClauses 80 kbDemo [⟨TermK.struc "parent" [TermK.struc "alice" [], TermK.struc "dana" []], []⟩, ⟨TermK.struc "ancestor" [TermK.var 0, TermK.var 1], [TermK.struc "parent" [TermK.var 0, TermK.var 1]]⟩, ⟨TermK.struc "ancestor" [TermK.var 2, TermK.var 3], [TermK.struc "parent" [TermK.var 2, TermK.var 4], TermK.struc "ancestor" [TermK.var 4, TermK.var 3]]⟩] [("A", 5)] (TermK.struc "ancestor" [TermK.var 15, TermK.var 14]) [] (⟨[(15, TermK.struc "carol" []), (14, TermK.struc "carol" []), (13, TermK.struc "bob" []), (10, TermK.struc "bob" []), (8, TermK.struc "alice" []), (9, TermK.struc "carol" []), (5, TermK.var 8)], [15, 14, 13, 10, 8, 9, 5], 16, "A = bob\nA = alice\n", 2⟩ : EngineState) = some (⟨[(15, TermK.struc "carol" []), (14, TermK.struc "carol" []), (13, TermK.struc "bob" []), (10, TermK.struc "bob" []), (8, TermK.struc "alice" []), (9, TermK.struc "carol" []), (5, TermK.var 8)], [15, 14, 13, 10, 8, 9, 5], 21, "A = bob\nA = alice\n", 2⟩ : EngineState) := tryClauses_step_skip 79 kbDemo ⟨TermK.struc "parent" [TermK.struc "alice" [], TermK.struc "dana" []], []⟩ [⟨TermK.struc "ancestor" [TermK.var 0, TermK.var 1], [TermK.struc "parent" [TermK.var 0, TermK.var 1]]⟩, ⟨TermK.struc "ancestor" [TermK.var 2, TermK.var 3], [TermK.struc "parent" [TermK.var 2, TermK.var 4], TermK.struc "ancestor" [TermK.var 4, TermK.var 3]]⟩] [("A", 5)] (TermK.struc "ancestor" [TermK.var 15, TermK.var 14]) [] (⟨[(15, TermK.struc "carol" []), (14, TermK.struc "carol" []), (13, TermK.struc "bob" []), (10, TermK.struc "bob" []), (8, TermK.struc "alice" []), (9, TermK.struc "carol" []), (5, TermK.var 8)], [15, 14, 13, 10, 8, 9, 5], 16, "A = bob\nA = alice\n", 2⟩ : EngineState) (⟨[(15, TermK.struc "carol" []), (14, TermK.struc "carol" []), (13, TermK.struc "bob" []), (10, TermK.struc "bob" []), (8, TermK.struc "alice" []), (9, TermK.struc "carol" []), (5, TermK.var 8)], [15, 14, 13, 10, 8, 9, 5], 21, "A = bob\nA = alice\n", 2⟩ : EngineState) rfl hc33
  have hc35 : tryClauses 81 kbDemo [⟨TermK.struc "parent" [TermK.struc "bob" [], TermK.struc "carol" []], []⟩, ⟨TermK.struc "parent" [TermK.struc "alice" [], TermK.struc "dana" []], []⟩, ⟨TermK.struc "ancestor" [TermK.var 0, TermK.var 1], [TermK.struc "parent" [TermK.var 0, TermK.var 1]]⟩, ⟨TermK.struc "ancestor" [TermK.var 2, TermK.var 3], [TermK.struc "parent" [TermK.var 2, TermK.var 4], TermK.struc "ancestor" [TermK.var 4, TermK.var 3]]⟩] [("A", 5)] (TermK.struc "ancestor" [TermK.var 15, TermK.var 14]) [] (⟨[(15, TermK.struc "carol" []), (14, TermK.struc "carol" []), (13, TermK.struc "bob" []), (10, TermK.struc "bob" []), (8, TermK.struc "alice" []), (9, TermK.struc "carol" []), (5, TermK.var 8)], [15, 14, 13, 10, 8, 9, 5], 16, "A = bob\nA = alice\n", 2⟩ : EngineState) = some (⟨[(15, TermK.struc "carol" []), (14, TermK.struc "carol" []), (13, TermK.struc "bob" []), (10, TermK.struc "bob" []), (8, TermK.struc "alice" []), (9, TermK.struc "carol" []), (5, TermK.var 8)], [15, 14, 13, 10, 8, 9, 5], 21, "A = bob\nA = alice\n", 2⟩ : EngineState) := tryClauses_step_skip 80 kbDemo ⟨TermK.struc "parent" [TermK.struc "bob" [], TermK.struc "carol" []], []⟩ [⟨TermK.struc "parent" [TermK.struc "alice" [], TermK.struc "dana" []], []⟩, ⟨TermK.struc "ancestor" [TermK.var 0, TermK.var 1], [TermK.struc "parent" [TermK.var 0, TermK.var 1]]⟩, ⟨TermK.struc "ancestor" [TermK.var 2, TermK.var 3], [TermK.struc "parent" [TermK.var 2, TermK.var 4], TermK.struc "ancestor" [TermK.var 4, TermK.var 3]]⟩] [("A", 5)] (TermK.struc "ancestor" [TermK.var 15, TermK.var 14]) [] (⟨[(15, TermK.struc "carol" []), (14, TermK.struc "carol" []), (13, TermK.struc "bob" []), (10, TermK.struc "bob" []), (8, TermK.struc "alice" []), (9, TermK.struc "carol" []), (5, TermK.var 8)], [15, 14, 13, 10, 8, 9, 5], 16, "A = bob\nA = alice\n", 2⟩ : EngineState) (⟨[(15, TermK.struc "carol" []), (14, TermK.struc "carol" []), (13, TermK.struc "bob" []), (10, TermK.struc "bob" []), (8, TermK.struc "alice" []), (9, TermK.struc "carol" []), (5, TermK.var 8)], [15, 14, 13, 10, 8, 9, 5], 21, "A = bob\nA = alice\n", 2⟩ : EngineState) rfl hc34
  have hc36 : tryClauses 82 kbDemo [⟨TermK.struc "parent" [TermK.struc "alice" [], TermK.struc "bob" []], []⟩, ⟨TermK.struc "parent" [TermK.struc "bob" [], TermK.struc "carol" []], []⟩, ⟨TermK.struc "parent" [TermK.struc "alice" [], TermK.struc "dana" []], []⟩, ⟨TermK.struc "ancestor" [TermK.var 0, TermK.var 1], [TermK.struc "parent" [TermK.var 0, TermK.var 1]]⟩, ⟨TermK.struc "ancestor" [TermK.var 2, TermK.var 3], [TermK.struc "parent" [TermK.var 2, TermK.var 4], TermK.struc "ancestor" [TermK.var 4, TermK.var 3]]⟩] [("A", 5)] (TermK.struc "ancestor" [TermK.var 15, TermK.var 14]) [] (⟨[(15, TermK.struc "carol" []), (14, TermK.struc "carol" []), (13, TermK.struc "bob" []), (10, TermK.struc "bob" []), (8, TermK.struc "alice" []), (9, TermK.struc "carol" []), (5, TermK.var 8)], [15, 14, 13, 10, 8, 9, 5], 16, "A = bob\nA = alice\n", 2⟩ : EngineState) = some (⟨[(15, TermK.struc "carol" []), (14, TermK.struc "carol" []), (13, TermK.struc "bob" []), (10, TermK.struc "bob" []), (8, TermK.struc "alice" []), (9, TermK.struc "carol" []), (5, TermK.var 8)], [15, 14, 13, 10, 8, 9, 5], 21, "A = bob\nA = alice\n", 2⟩ : EngineState) := tryClauses_step_skip 81 kbDemo ⟨TermK.struc "parent" [TermK.struc "alice" [], TermK.struc "bob" []], []⟩ [⟨TermK.struc "parent" [TermK.struc "bob" [], TermK.struc "carol" []], []⟩, ⟨TermK.struc "parent" [TermK.struc "alice" [], TermK.struc "dana" []], []⟩, ⟨TermK.struc "ancestor" [TermK.var 0, TermK.var 1], [TermK.struc "parent" [TermK.var 0, TermK.var 1]]⟩, ⟨TermK.struc "ancestor" [TermK.var 2, TermK.var 3], [TermK.struc "parent" [TermK.var 2, TermK.var 4], TermK.struc "ancestor" [TermK.var 4, TermK.var 3]]⟩] [("A", 5)] (TermK.struc "ancestor" [TermK.var 15, TermK.var 14]) [] (⟨[(15, TermK.struc "carol" []), (14, TermK.struc "carol" []), (13, TermK.struc "bob" []), (10, TermK.struc "bob" []), (8, TermK.struc "alice" []), (9, TermK.struc "carol" []), (5, TermK.var 8)], [15, 14, 13, 10, 8, 9, 5], 16, "A = bob\nA = alice\n", 2⟩ : EngineState) (⟨[(15, TermK.struc "carol" []), (14, TermK.struc "carol" []), (13, TermK.struc "bob" []), (10, TermK.struc "bob" []), (8, TermK.struc "alice" []), (9, TermK.struc "carol" []), (5, TermK.var 8)], [15, 14, 13, 10, 8, 9, 5], 21, "A = bob\nA = alice\n", 2⟩ : EngineState) rfl hc35
  have hc37 : solve 83 kbDemo [("A", 5)] [TermK.struc "ancestor" [TermK.var 15, TermK.var 14]] (⟨[(15, TermK.struc "carol" []), (14, TermK.struc "carol" []), (13, TermK.struc "bob" []), (10, TermK.struc "bob" []), (8, TermK.struc "alice" []), (9, TermK.struc "carol" []), (5, TermK.var 8)], [15, 14, 13, 10, 8, 9, 5], 16, "A = bob\nA = alice\n", 2⟩ : EngineState) = some (⟨[(15, TermK.struc "carol" []), (14, TermK.struc "carol" []), (13, TermK.struc "bob" []), (10, TermK.struc "bob" []), (8, TermK.struc "alice" []), (9, TermK.struc "carol" []), (5, TermK.var 8)], [15, 14, 13, 10, 8, 9, 5], 21, "A = bob\nA = alice\n", 2⟩ : EngineState) := solve_step_goal 82 kbDemo [("A", 5)] (TermK.struc "ancestor" [TermK.var 15, TermK.var 14]) [] (⟨[(15, TermK.struc "carol" []), (14, TermK.struc "carol" []), (13, TermK.struc "bob" []), (10, TermK.struc "bob" []), (8, TermK.struc "alice" []), (9, TermK.struc "carol" []), (5, TermK.var 8)], [15, 14, 13, 10, 8, 9, 5], 16, "A = bob\nA = alice\n", 2⟩ : EngineState) (⟨[(15, TermK.struc "carol" []), (14, TermK.struc "carol" []), (13, TermK.struc "bob" []), (10, TermK.struc "bob" []), (8, TermK.struc "alice" []), (9, TermK.struc "carol" []), (5, TermK.var 8)], [15, 14, 13, 10, 8, 9, 5], 16, "A = bob\nA = alice\n", 2⟩ : EngineState) (⟨[(15, TermK.struc "carol" []), (14, TermK.struc "carol" []), (13, TermK.struc "bob" []), (10, TermK.struc "bob" []), (8, TermK.struc "alice" []), (9, TermK.struc "carol" []), (5, TermK.var 8)], [15, 14, 13, 10, 8, 9, 5], 21, "A = bob\nA = alice\n", 2⟩ : EngineState) rfl hc36
  have hc38 : tryClauses 80 kbDemo [] [("A", 5)] (TermK.struc "parent" [TermK.var 13, TermK.var 15]) [TermK.struc "ancestor" [TermK.var 15, TermK.var 14]] (⟨[(14, TermK.struc "carol" []), (13, TermK.struc "bob" []), (10, TermK.struc "bob" []), (8, TermK.struc "alice" []), (9, TermK.struc "carol" []), (5, TermK.var 8)], [14, 13, 10, 8, 9, 5], 21, "A = bob\nA = alice\n", 2⟩ : EngineState) = some (⟨[(14, TermK.struc "carol" []), (13, TermK.struc "bob" []), (10, TermK.struc "bob" []), (8, TermK.struc "alice" []), (9, TermK.struc "carol" []), (5, TermK.var 8)], [14, 13, 10, 8, 9, 5], 21, "A = bob\nA = alice\n", 2⟩ : EngineState) := rfl
  have hc39 : tryClauses 81 kbDemo [⟨TermK.struc "ancestor" [TermK.var 2, TermK.var 3], [TermK.struc "parent" [TermK.var 2, TermK.var 4], TermK.struc "ancestor" [TermK.var 4, TermK.var 3]]⟩] [("A", 5)] (TermK.struc "parent" [TermK.var 13, TermK.var 15]) [TermK.struc "ancestor" [TermK.var 15, TermK.var 14]] (⟨[(14, TermK.struc "carol" []), (13, TermK.struc "bob" []), (10, TermK.struc "bob" []), (8, TermK.struc "alice" []), (9, TermK.struc "carol" []), (5, TermK.var 8)], [14, 13, 10, 8, 9, 5], 21, "A = bob\nA = alice\n", 2⟩ : EngineState) = some (⟨[(14, TermK.struc "carol" []), (13, TermK.struc "bob" []), (10, TermK.struc "bob" []), (8, TermK.struc "alice" []), (9, TermK.struc "carol" []), (5, TermK.var 8)], [14, 13, 10, 8, 9, 5], 21, "A = bob\nA = alice\n", 2⟩ : EngineState) := tryClauses_step_skip 80 kbDemo ⟨TermK.struc "ancestor" [TermK.var 2, TermK.var 3], [TermK.struc "parent" [TermK.var 2, TermK.var 4], TermK.struc "ancestor" [TermK.var 4, TermK.var 3]]⟩ [] [("A", 5)] (TermK.struc "parent" [TermK.var 13, TermK.var 15]) [TermK.struc "ancestor" [TermK.var 15, TermK.var 14]] (⟨[(14, TermK.struc "carol" []), (13, TermK.struc "bob" []), (10, TermK.struc "bob" []), (8, TermK.struc "alice" []), (9, TermK.struc "carol" []), (5, TermK.var 8)], [14, 13, 10, 8, 9, 5], 21, "A = bob\nA = alice\n", 2⟩ : EngineState) (⟨[(14, TermK.struc "carol" []), (13, TermK.struc "bob" []), (10, TermK.struc "bob" []), (8, TermK.struc "alice" []), (9, TermK.struc "carol" []), (5, TermK.var 8)], [14, 13, 10, 8, 9, 5], 21, "A = bob\nA = alice\n", 2⟩ : EngineState) rfl hc38
  have hc40 : tryClauses 82 kbDemo [⟨TermK.struc "ancestor" [TermK.var 0, TermK.var 1], [TermK.struc "parent" [TermK.var 0, TermK.var 1]]⟩, ⟨TermK.struc "ancestor" [TermK.var 2, TermK.var 3], [TermK.struc "parent" [TermK.var 2, TermK.var 4], TermK.struc "ancestor" [TermK.var 4, TermK.var 3]]⟩] [("A", 5)] (TermK.struc "parent" [TermK.var 13, TermK.var 15]) [TermK.struc "ancestor" [TermK.var 15, TermK.var 14]] (⟨[(14, TermK.struc "carol" []), (13, TermK.struc "bob" []), (10, TermK.struc "bob" []), (8, TermK.struc "alice" []), (9, TermK.struc "carol" []), (5, TermK.var 8)], [14, 13, 10, 8, 9, 5], 21, "A = bob\nA = alice\n", 2⟩ : EngineState) = some (⟨[(14, TermK.struc "carol" []), (13, TermK.struc "bob" []), (10, TermK.struc "bob" []), (8, TermK.struc "alice" []), (9, TermK.struc "carol" []), (5, TermK.var 8)], [14, 13, 10, 8, 9, 5], 21, "A = bob\nA = alice\n", 2⟩ : EngineState) := tryClauses_step_skip 81 kbDemo ⟨TermK.struc "ancestor" [TermK.var 0, TermK.var 1], [TermK.struc "parent" [TermK.var 0, TermK.var 1]]⟩ [⟨TermK.struc "ancestor" [TermK.var 2, TermK.var 3], [TermK.struc "parent" [TermK.var 2, TermK.var 4], TermK.struc "ancestor" [TermK.var 4, TermK.var 3]]⟩] [("A", 5)] (TermK.struc "parent" [TermK.var 13, TermK.var 15]) [TermK.struc "ancestor" [TermK.var 15, TermK.var 14]] (⟨[(14, TermK.struc "carol" []), (13, TermK.struc "bob" []), (10, TermK.struc "bob" []), (8, TermK.struc "alice" []), (9, TermK.struc "carol" []), (5, TermK.var 8)], [14, 13, 10, 8, 9, 5], 21, "A = bob\nA = alice\n", 2⟩ : EngineState) (⟨[(14, TermK.struc "carol" []), (13, TermK.struc "bob" []), (10, TermK.struc "bob" []), (8, TermK.struc "alice" []), (9, TermK.struc "carol" []), (5, TermK.var 8)], [14, 13, 10, 8, 9, 5], 21, "A = bob\nA = alice\n", 2⟩ : EngineState) rfl hc39
  have hc41 : tryClauses 83 kbDemo [⟨TermK.struc "parent" [TermK.struc "alice" [], TermK.struc "dana" []], []⟩, ⟨TermK.struc "ancestor" [TermK.var 0, TermK.var 1], [TermK.struc "parent" [TermK.var 0, TermK.var 1]]⟩, ⟨TermK.struc "ancestor" [TermK.var 2, TermK.var 3], [TermK.struc "parent" [TermK.var 2, TermK.var 4], TermK.struc "ancestor" [TermK.var 4, TermK.var 3]]⟩] [("A", 5)] (TermK.struc "parent" [TermK.var 13, TermK.var 15]) [TermK.struc "ancestor" [TermK.var 15, TermK.var 14]] (⟨[(14, TermK.struc "carol" []), (13, TermK.struc "bob" []), (10, TermK.struc "bob" []), (8, TermK.struc "alice" []), (9, TermK.struc "carol" []), (5, TermK.var 8)], [14, 13, 10, 8, 9, 5], 21, "A = bob\nA = alice\n", 2⟩ : EngineState) = some (⟨[(14, TermK.struc "carol" []), (13, TermK.struc "bob" []), (10, TermK.struc "bob" []), (8, TermK.struc "alice" []), (9, TermK.struc "carol" []), (5, TermK.var 8)], [14, 13, 10, 8, 9, 5], 21, "A = bob\nA = alice\n", 2⟩ : EngineState) := tryClauses_step_nomatch 82 kbDemo ⟨TermK.struc "parent" [TermK.struc "alice" [], TermK.struc "dana" []], []⟩ [⟨TermK.struc "ancestor" [TermK.var 0, TermK.var 1], [TermK.struc "parent" [TermK.var 0, TermK.var 1]]⟩, ⟨TermK.struc "ancestor" [TermK.var 2, TermK.var 3], [TermK.struc "parent" [TermK.var 2, TermK.var 4], TermK.struc "ancestor" [TermK.var 4, TermK.var 3]]⟩] [("A", 5)] (TermK.struc "parent" [TermK.var 13, TermK.var 15]) [TermK.struc "ancestor" [TermK.var 15, TermK.var 14]] (⟨[(14, TermK.struc "carol" []), (13, TermK.struc "bob" []), (10, TermK.struc "bob" []), (8, TermK.struc "alice" []), (9, TermK.struc "carol" []), (5, TermK.var 8)], [14, 13, 10, 8, 9, 5], 21, "A = bob\nA = alice\n", 2⟩ : EngineState) (TermK.struc "parent" [TermK.var 13, TermK.var 15]) (TermK.struc "parent" [TermK.struc "alice" [], TermK.struc "dana" []]) [] 21 (⟨[(14, TermK.struc "carol" []), (13, TermK.struc "bob" []), (10, TermK.struc "bob" []), (8, TermK.struc "alice" []), (9, TermK.struc "carol" []), (5, TermK.var 8)], [14, 13, 10, 8, 9, 5], 21, "A = bob\nA = alice\n", 2⟩ : EngineState) (⟨[(14, TermK.struc "carol" []), (13, TermK.struc "bob" []), (10, TermK.struc "bob" []), (8, TermK.struc "alice" []), (9, TermK.struc "carol" []), (5, TermK.var 8)], [14, 13, 10, 8, 9, 5], 21, "A = bob\nA = alice\n", 2⟩ : EngineState) rfl rfl rfl rfl hc40
  have hc42 : tryClauses 84 kbDemo [⟨TermK.struc "parent" [TermK.struc "bob" [], TermK.struc "carol" []], []⟩, ⟨TermK.struc "parent" [TermK.struc "alice" [], TermK.struc "dana" []], []⟩, ⟨TermK.struc "ancestor" [TermK.var 0, TermK.var 1], [TermK.struc "parent" [TermK.var 0, TermK.var 1]]⟩, ⟨TermK.struc "ancestor" [TermK.var 2, TermK.var 3], [TermK.struc "parent" [TermK.var 2, TermK.var 4], TermK.struc "ancestor" [TermK.var 4, TermK.var 3]]⟩] [("A", 5)] (TermK.struc "parent" [TermK.var 13, TermK.var 15]) [TermK.struc "ancestor" [TermK.var 15, TermK.var 14]] (⟨[(14, TermK.struc "carol" []), (13, TermK.struc "bob" []), (10, TermK.struc "bob" []), (8, TermK.struc "alice" []), (9, TermK.struc "carol" []), (5, TermK.var 8)], [14, 13, 10, 8, 9, 5], 16, "A = bob\nA = alice\n", 2⟩ : EngineState) = some (⟨[(14, TermK.struc "carol" []), (13, TermK.struc "bob" []), (10, TermK.struc "bob" []), (8, TermK.struc "alice" []), (9, TermK.struc "carol" []), (5, TermK.var 8)], [14, 13, 10, 8, 9, 5], 21, "A = bob\nA = alice\n", 2⟩ : EngineState) := tryClauses_step_attempt 83 kbDemo ⟨TermK.struc "parent" [TermK.struc "bob" [], TermK.struc "carol" []], []⟩ [⟨TermK.struc "parent" [TermK.struc "alice" [], TermK.struc "dana" []], []⟩, ⟨TermK.struc "ancestor" [TermK.var 0, TermK.var 1], [TermK.struc "parent" [TermK.var 0, TermK.var 1]]⟩, ⟨TermK.struc "ancestor" [TermK.var 2, TermK.var 3], [TermK.struc "parent" [TermK.var 2, TermK.var 4], TermK.struc "ancestor" [TermK.var 4, TermK.var 3]]⟩] [("A", 5)] (TermK.struc "parent" [TermK.var 13, TermK.var 15]) [TermK.struc "ancestor" [TermK.var 15, TermK.var 14]] (⟨[(14, TermK.struc "carol" []), (13, TermK.struc "bob" []), (10, TermK.struc "bob" []), (8, TermK.struc "alice" []), (9, TermK.struc "carol" []), (5, TermK.var 8)], [14, 13, 10, 8, 9, 5], 16, "A = bob\nA = alice\n", 2⟩ : EngineState) (TermK.struc "parent" [TermK.var 13, TermK.var 15]) (TermK.struc "parent" [TermK.struc "bob" [], TermK.struc "carol" []]) [] 16 [] [] 16 (⟨[(15, TermK.struc "carol" []), (14, TermK.struc "carol" []), (13, TermK.struc "bob" []), (10, TermK.struc "bob" []), (8, TermK.struc "alice" []), (9, TermK.struc "carol" []), (5, TermK.var 8)], [15, 14, 13, 10, 8, 9, 5], 16, "A = bob\nA = alice\n", 2⟩ : EngineState) (⟨[(15, TermK.struc "carol" []), (14, TermK.struc "carol" []), (13, TermK.struc "bob" []), (10, TermK.struc "bob" []), (8, TermK.struc "alice" []), (9, TermK.struc "carol" []), (5, TermK.var 8)], [15, 14, 13, 10, 8, 9, 5], 21, "A = bob\nA = alice\n", 2⟩ : EngineState) (⟨[(14, TermK.struc "carol" []), (13, TermK.struc "bob" []), (10, TermK.struc "bob" []), (8, TermK.struc "alice" []), (9, TermK.struc "carol" []), (5, TermK.var 8)], [14, 13, 10, 8, 9, 5], 21, "A = bob\nA = alice\n", 2⟩ : EngineState) rfl rfl rfl rfl rfl hc37 hc41
  have hc43 : tryClauses 85 kbDemo [⟨TermK.struc "parent" [TermK.struc "alice" [], TermK.struc "bob" []], []⟩, ⟨TermK.struc "parent" [TermK.struc "bob" [], TermK.struc "carol" []], []⟩, ⟨TermK.struc "parent" [TermK.struc "alice" [], TermK.struc "dana" []], []⟩, ⟨TermK.struc "ancestor" [TermK.var 0, TermK.var 1], [TermK.struc "parent" [TermK.var 0, TermK.var 1]]⟩, ⟨TermK.struc "ancestor" [TermK.var 2, TermK.var 3], [TermK.struc "parent" [TermK.var 2, TermK.var 4], TermK.struc "ancestor" [TermK.var 4, TermK.var 3]]⟩] [("A", 5)] (TermK.struc "parent" [TermK.var 13, TermK.var 15]) [TermK.struc "ancestor" [TermK.var 15, TermK.var 14]] (⟨[(14, TermK.struc "carol" []), (13, TermK.struc "bob" []), (10, TermK.struc "bob" []), (8, TermK.struc "alice" []), (9, TermK.struc "carol" []), (5, TermK.var 8)], [14, 13, 10, 8, 9, 5], 16, "A = bob\nA = alice\n", 2⟩ : EngineState) = some (⟨[(14, TermK.struc "carol" []), (13, TermK.struc "bob" []), (10, TermK.struc "bob" []), (8, TermK.struc "alice" []), (9, TermK.struc "carol" []), (5, TermK.var 8)], [14, 13, 10, 8, 9, 5], 21, "A = bob\nA = alice\n", 2⟩ : EngineState) := tryClauses_step_nomatch 84 kbDemo ⟨TermK.struc "parent" [TermK.struc "alice" [], TermK.struc "bob" []], []⟩ [⟨TermK.struc "parent" [TermK.struc "bob" [], TermK.struc "carol" []], []⟩, ⟨TermK.struc "parent" [TermK.struc "alice" [], TermK.struc "dana" []], []⟩, ⟨TermK.struc "ancestor" [TermK.var 0, TermK.var 1], [TermK.struc "parent" [TermK.var 0, TermK.var 1]]⟩, ⟨TermK.struc "ancestor" [TermK.var 2, TermK.var 3], [TermK.struc "parent" [TermK.var 2, TermK.var 4], TermK.struc "ancestor" [TermK.var 4, TermK.var 3]]⟩] [("A", 5)] (TermK.struc "parent" [TermK.var 13, TermK.var 15]) [TermK.struc "ancestor" [TermK.var 15, TermK.var 14]] (⟨[(14, TermK.struc "carol" []), (13, TermK.struc "bob" []), (10, TermK.struc "bob" []), (8, TermK.struc "alice" []), (9, TermK.struc "carol" []), (5, TermK.var 8)], [14, 13, 10, 8, 9, 5], 16, "A = bob\nA = alice\n", 2⟩ : EngineState) (TermK.struc "parent" [TermK.var 13, TermK.var 15]) (TermK.struc "parent" [TermK.struc "alice" [], TermK.struc "bob" []]) [] 16 (⟨[(14, TermK.struc "carol" []), (13, TermK.struc "bob" []), (10, TermK.struc "bob" []), (8, TermK.struc "alice" []), (9, TermK.struc "carol" []), (5, TermK.var 8)], [14, 13, 10, 8, 9, 5], 16, "A = bob\nA = alice\n", 2⟩ : EngineState) (⟨[(14, TermK.struc "carol" []), (13, TermK.struc "bob" []), (10, TermK.struc "bob" []), (8, TermK.struc "alice" []), (9, TermK.struc "carol" []), (5, TermK.var 8)], [14, 13, 10, 8, 9, 5], 21, "A = bob\nA = alice\n", 2⟩ : EngineState) rfl rfl rfl rfl hc42
  have hc44 : solve 86 kbDemo [("A", 5)] [TermK.struc "parent" [TermK.var 13, TermK.var 15], TermK.struc "ancestor" [TermK.var 15, TermK.var 14]] (⟨[(14, TermK.struc "carol" []), (13, TermK.struc "bob" []), (10, TermK.struc "bob" []), (8, TermK.struc "alice" []), (9, TermK.struc "carol" []), (5, TermK.var 8)], [14, 13, 10, 8, 9, 5], 16, "A = bob\nA = alice\n", 2⟩ : EngineState) = some (⟨[(14, TermK.struc "carol" []), (13, TermK.struc "bob" []), (10, TermK.struc "bob" []), (8, TermK.struc "alice" []), (9, TermK.struc "carol" []), (5, TermK.var 8)], [14, 13, 10, 8, 9, 5], 21, "A = bob\nA = alice\n", 2⟩ : EngineState) := solve_step_goal 85 kbDemo [("A", 5)] (TermK.struc "parent" [TermK.var 13, TermK.var 15]) [TermK.struc "ancestor" [TermK.var 15, TermK.var 14]] (⟨[(14, TermK.struc "carol" []), (13, TermK.struc "bob" []), (10, TermK.struc "bob" []), (8, TermK.struc "alice" []), (9, TermK.struc "carol" []), (5, TermK.var 8)], [14, 13, 10, 8, 9, 5], 16, "A = bob\nA = alice\n", 2⟩ : EngineState) (⟨[(14, TermK.struc "carol" []), (13, TermK.struc "bob" []), (10, TermK.struc "bob" []), (8, TermK.struc "alice" []), (9, TermK.struc "carol" []), (5, TermK.var 8)], [14, 13, 10, 8, 9, 5], 16, "A = bob\nA = alice\n", 2⟩ : EngineState) (⟨[(14, TermK.struc "carol" []), (13, TermK.struc "bob" []), (10, TermK.struc "bob" []), (8, TermK.struc "alice" []), (9, TermK.struc "carol" []), (5, TermK.var 8)], [14, 13, 10, 8, 9, 5], 21, "A = bob\nA = alice\n", 2⟩ : EngineState) rfl hc43
  have hc45 : tryClauses 86 kbDemo [] [("A", 5)] (TermK.struc "ancestor" [TermK.var 10, TermK.var 9]) [] (⟨[(10, TermK.struc "bob" []), (8, TermK.struc "alice" []), (9, TermK.struc "carol" []), (5, TermK.var 8)], [10, 8, 9, 5], 21, "A = bob\nA = alice\n", 2⟩ : EngineState) = some (⟨[(10, TermK.struc "bob" []), (8, TermK.struc "alice" []), (9, TermK.struc "carol" []), (5, TermK.var 8)], [10, 8, 9, 5], 21, "A = bob\nA = alice\n", 2⟩ : EngineState) := rfl
  have hc46 : tryClauses 87 kbDemo [⟨TermK.struc "ancestor" [TermK.var 2, TermK.var 3], [TermK.struc "parent" [TermK.var 2, TermK.var 4], TermK.struc "ancestor" [TermK.var 4, TermK.var 3]]⟩] [("A", 5)] (TermK.struc "ancestor" [TermK.var 10, TermK.var 9]) [] (⟨[(10, TermK.struc "bob" []), (8, TermK.struc "alice" []), (9, TermK.struc "carol" []), (5, TermK.var 8)], [10, 8, 9, 5], 13, "A = bob\nA = alice\n", 2⟩ : EngineState) = some (⟨[(10, TermK.struc "bob" []), (8, TermK.struc "alice" []), (9, TermK.struc "carol" []), (5, TermK.var 8)], [10, 8, 9, 5], 21, "A = bob\nA = alice\n", 2⟩ : EngineState) := tryClauses_step_attempt 86 kbDemo ⟨TermK.struc "ancestor" [TermK.var 2, TermK.var 3], [TermK.struc "parent" [TermK.var 2, TermK.var 4], TermK.struc "ancestor" [TermK.var 4, TermK.var 3]]⟩ [] [("A", 5)] (TermK.struc "ancestor" [TermK.var 10, TermK.var 9]) [] (⟨[(10, TermK.struc "bob" []), (8, TermK.struc "alice" []), (9, TermK.struc "carol" []), (5, TermK.var 8)], [10, 8, 9, 5], 13, "A = bob\nA = alice\n", 2⟩ : EngineState) (TermK.struc "ancestor" [TermK.var 10, TermK.var 9]) (TermK.struc "ancestor" [TermK.var 13, TermK.var 14]) [(3, 14), (2, 13)] 15 [TermK.struc "parent" [TermK.var 13, TermK.var 15], TermK.struc "ancestor" [TermK.var 15, TermK.var 14]] [(4, 15), (3, 14), (2, 13)] 16 (⟨[(14, TermK.struc "carol" []), (13, TermK.struc "bob" []), (10, TermK.struc "bob" []), (8, TermK.struc "alice" []), (9, TermK.struc "carol" []), (5, TermK.var 8)], [14, 13, 10, 8, 9, 5], 15, "A = bob\nA = alice\n", 2⟩ : EngineState) (⟨[(14, TermK.struc "carol" []), (13, TermK.struc "bob" []), (10, TermK.struc "bob" []), (8, TermK.struc "alice" []), (9, TermK.struc "carol" []), (5, TermK.var 8)], [14, 13, 10, 8, 9, 5], 21, "A = bob\nA = alice\n", 2⟩ : EngineState) (⟨[(10, TermK.struc "bob" []), (8, TermK.struc "alice" []), (9, TermK.struc "carol" []), (5, TermK.var 8)], [10, 8, 9, 5], 21, "A = bob\nA = alice\n", 2⟩ : EngineState) rfl rfl rfl rfl rfl hc44 hc45
  have hc47 : tryClauses 88 kbDemo [⟨TermK.struc "ancestor" [TermK.var 0, TermK.var 1], [TermK.struc "parent" [TermK.var 0, TermK.var 1]]⟩, ⟨TermK.struc "ancestor" [TermK.var 2, TermK.var 3], [TermK.struc "parent" [TermK.var 2, TermK.var 4], TermK.struc "ancestor" [TermK.var 4, TermK.var 3]]⟩] [("A", 5)] (TermK.struc "ancestor" [TermK.var 10, TermK.var 9]) [] (⟨[(10, TermK.struc "bob" []), (8, TermK.struc "alice" []), (9, TermK.struc "carol" []), (5, TermK.var 8)], [10, 8, 9, 5], 11, "A = bob\n", 1⟩ : EngineState) = some (⟨[(10, TermK.struc "bob" []), (8, TermK.struc "alice" []), (9, TermK.struc "carol" []), (5, TermK.var 8)], [10, 8, 9, 5], 21, "A = bob\nA = alice\n", 2⟩ : EngineState) := tryClauses_step_attempt 87 kbDemo ⟨TermK.struc "ancestor" [TermK.var 0, TermK.var 1], [TermK.struc "parent" [TermK.var 0, TermK.var 1]]⟩ [⟨TermK.struc "ancestor" [TermK.var 2, TermK.var 3], [TermK.struc "parent" [TermK.var 2, TermK.var 4], TermK.struc "ancestor" [TermK.var 4, TermK.var 3]]⟩] [("A", 5)] (TermK.struc "ancestor" [TermK.var 10, TermK.var 9]) [] (⟨[(10, TermK.struc "bob" []), (8, TermK.struc "alice" []), (9, TermK.struc "carol" []), (5, TermK.var 8)], [10, 8, 9, 5], 11, "A = bob\n", 1⟩ : EngineState) (TermK.struc "ancestor" [TermK.var 10, TermK.var 9]) (TermK.struc "ancestor" [TermK.var 11, TermK.var 12]) [(1, 12), (0, 11)] 13 [TermK.struc "parent" [TermK.var 11, TermK.var 12]] [(1, 12), (0, 11)] 13 (⟨[(12, TermK.struc "carol" []), (11, TermK.struc "bob" []), (10, TermK.struc "bob" []), (8, TermK.struc "alice" []), (9, TermK.struc "carol" []), (5, TermK.var 8)], [12, 11, 10, 8, 9, 5], 13, "A = bob\n", 1⟩ : EngineState) (⟨[(12, TermK.struc "carol" []), (11, TermK.struc "bob" []), (10, TermK.struc "bob" []), (8, TermK.struc "alice" []), (9, TermK.struc "carol" []), (5, TermK.var 8)], [12, 11, 10, 8, 9, 5], 13, "A = bob\nA = alice\n", 2⟩ : EngineState) (⟨[(10, TermK.struc "bob" []), (8, TermK.struc "alice" []), (9, TermK.struc "carol" []), (5, TermK.var 8)], [10, 8, 9, 5], 21, "A = bob\nA = alice\n", 2⟩ : EngineState) rfl rfl rfl rfl rfl hc16 hc46
  have hc48 : tryClauses 89 kbDemo [⟨TermK.struc "parent" [TermK.struc "alice" [], TermK.struc "dana" []], []⟩, ⟨TermK.struc "ancestor" [TermK.var 0, TermK.var 1], [TermK.struc "parent" [TermK.var 0, TermK.var 1]]⟩, ⟨TermK.struc "ancestor" [TermK.var 2, TermK.var 3], [TermK.struc "parent" [TermK.var 2, TermK.var 4], TermK.struc "ancestor" [TermK.var 4, TermK.var 3]]⟩] [("A", 5)] (TermK.struc "ancestor" [TermK.var 10, TermK.var 9]) [] (⟨[(10, TermK.struc "bob" []), (8, TermK.struc "alice" []), (9, TermK.struc "carol" []), (5, TermK.var 8)], [10, 8, 9, 5], 11, "A = bob\n", 1⟩ : EngineState) = some (⟨[(10, TermK.struc "bob" []), (8, TermK.struc "alice" []), (9, TermK.struc "carol" []), (5, TermK.var 8)], [10, 8, 9, 5], 21, "A = bob\nA = alice\n", 2⟩ : EngineState) := tryClauses_step_skip 88 kbDemo ⟨TermK.struc "parent" [TermK.struc "alice" [], TermK.struc "dana" []], []⟩ [⟨TermK.struc "ancestor" [TermK.var 0, TermK.var 1], [TermK.struc "parent" [TermK.var 0, TermK.var 1]]⟩, ⟨TermK.struc "ancestor" [TermK.var 2, TermK.var 3], [TermK.struc "parent" [TermK.var 2, TermK.var 4], TermK.struc "ancestor" [TermK.var 4, TermK.var 3]]⟩] [("A", 5)] (TermK.struc "ancestor" [TermK.var 10, TermK.var 9]) [] (⟨[(10, TermK.struc "bob" []), (8, TermK.struc "alice" []), (9, TermK.struc "carol" []), (5, TermK.var 8)], [10, 8, 9, 5], 11, "A = bob\n", 1⟩ : EngineState) (⟨[(10, TermK.struc "bob" []), (8, TermK.struc "alice" []), (9, TermK.struc "carol" []), (5, TermK.var 8)], [10, 8, 9, 5], 21, "A = bob\nA = alice\n", 2⟩ : EngineState) rfl hc47
  have hc49 : tryClauses 90 kbDemo [⟨TermK.struc "parent" [TermK.struc "bob" [], TermK.struc "carol" []], []⟩, ⟨TermK.struc "parent" [TermK.struc "alice" [], TermK.struc "dana" []], []⟩, ⟨TermK.struc "ancestor" [TermK.var 0, TermK.var 1], [TermK.struc "parent" [TermK.var 0, TermK.var 1]]⟩, ⟨TermK.struc "ancestor" [TermK.var 2, TermK.var 3], [TermK.struc "parent" [TermK.var 2, TermK.var 4], TermK.struc "ancestor" [TermK.var 4, TermK.var 3]]⟩] [("A", 5)] (TermK.struc "ancestor" [TermK.var 10, TermK.var 9]) [] (⟨[(10, TermK.struc "bob" []), (8, TermK.struc "alice" []), (9, TermK.struc "carol" []), (5, TermK.var 8)], [10, 8, 9, 5], 11, "A = bob\n", 1⟩ : EngineState) = some (⟨[(10, TermK.struc "bob" []), (8, TermK.struc "alice" []), (9, TermK.struc "carol" []), (5, TermK.var 8)], [10, 8, 9, 5], 21, "A = bob\nA = alice\n", 2⟩ : EngineState) := tryClauses_step_skip 89 kbDemo ⟨TermK.struc "parent" [TermK.struc "bob" [], TermK.struc "carol" []], []⟩ [⟨TermK.struc "parent" [TermK.struc "alice" [], TermK.struc "dana" []], []⟩, ⟨TermK.struc "ancestor" [TermK.var 0, TermK.var 1], [TermK.struc "parent" [TermK.var 0, TermK.var 1]]⟩, ⟨TermK.struc "ancestor" [TermK.var 2, TermK.var 3], [TermK.struc "parent" [TermK.var 2, TermK.var 4], TermK.struc "ancestor" [TermK.var 4, TermK.var 3]]⟩] [("A", 5)] (TermK.struc "ancestor" [TermK.var 10, TermK.var 9]) [] (⟨[(10, TermK.struc "bob" []), (8, TermK.struc "alice" []), (9, TermK.struc "carol" []), (5, TermK.var 8)], [10, 8, 9, 5], 11, "A = bob\n", 1⟩ : EngineState) (⟨[(10, TermK.struc "bob" []), (8, TermK.struc "alice" []), (9, TermK.struc "carol" []), (5, TermK.var 8)], [10, 8, 9, 5], 21, "A = bob\nA = alice\n", 2⟩ : EngineState) rfl hc48
  have hc50 : tryClauses 91 kbDemo [⟨TermK.struc "parent" [TermK.struc "alice" [], TermK.struc "bob" []], []⟩, ⟨TermK.struc "parent" [TermK.struc "bob" [], TermK.struc "carol" []], []⟩, ⟨TermK.struc "parent" [TermK.struc "alice" [], TermK.struc "dana" []], []⟩, ⟨TermK.struc "ancestor" [TermK.var 0, TermK.var 1], [TermK.struc "parent" [TermK.var 0, TermK.var 1]]⟩, ⟨TermK.struc "ancestor" [TermK.var 2, TermK.var 3], [TermK.struc "parent" [TermK.var 2, TermK.var 4], TermK.struc "ancestor" [TermK.var 4, TermK.var 3]]⟩] [("A", 5)] (TermK.struc "ancestor" [TermK.var 10, TermK.var 9]) [] (⟨[(10, TermK.struc "bob" []), (8, TermK.struc "alice" []), (9, TermK.struc "carol" []), (5, TermK.var 8)], [10, 8, 9, 5], 11, "A = bob\n", 1⟩ : EngineState) = some (⟨[(10, TermK.struc "bob" []), (8, TermK.struc "alice" []), (9, TermK.struc "carol" []), (5, TermK.var 8)], [10, 8, 9, 5], 21, "A = bob\nA = alice\n", 2⟩ : EngineState) := tryClauses_step_skip 90 kbDemo ⟨TermK.struc "parent" [TermK.struc "alice" [], TermK.struc "bob" []], []⟩ [⟨TermK.struc "parent" [TermK.struc "bob" [], TermK.struc "carol" []], []⟩, ⟨TermK.struc "parent" [TermK.struc "alice" [], TermK.struc "dana" []], []⟩, ⟨TermK.struc "ancestor" [TermK.var 0, TermK.var 1], [TermK.struc "parent" [TermK.var 0, TermK.var 1]]⟩, ⟨TermK.struc "ancestor" [TermK.var 2, TermK.var 3], [TermK.struc "parent" [TermK.var 2, TermK.var 4], TermK.struc "ancestor" [TermK.var 4, TermK.var 3]]⟩] [("A", 5)] (TermK.struc "ancestor" [TermK.var 10, TermK.var 9]) [] (⟨[(10, TermK.struc "bob" []), (8, TermK.struc "alice" []), (9, TermK.struc "carol" []), (5, TermK.var 8)], [10, 8, 9, 5], 11, "A = bob\n", 1⟩ : EngineState) (⟨[(10, TermK.struc "bob" []), (8, TermK.struc "alice" []), (9, TermK.struc "carol" []), (5, TermK.var 8)], [10, 8, 9, 5], 21, "A = bob\nA = alice\n", 2⟩ : EngineState) rfl hc49
  have hc51 : solve 92 kbDemo [("A", 5)] [TermK.struc "ancestor" [TermK.var 10, TermK.var 9]] (⟨[(10, TermK.struc "bob" []), (8, TermK.struc "alice" []), (9, TermK.struc "carol" []), (5, TermK.var 8)], [10, 8, 9, 5], 11, "A = bob\n", 1⟩ : EngineState) = some (⟨[(10, TermK.struc "bob" []), (8, TermK.struc "alice" []), (9, TermK.struc "carol" []), (5, TermK.var 8)], [10, 8, 9, 5], 21, "A = bob\nA = alice\n", 2⟩ : EngineState) := solve_step_goal 91 kbDemo [("A", 5)] (TermK.struc "ancestor" [TermK.var 10, TermK.var 9]) [] (⟨[(10, TermK.struc "bob" []), (8, TermK.struc "alice" []), (9, TermK.struc "carol" []), (5, TermK.var 8)], [10, 8, 9, 5], 11, "A = bob\n", 1⟩ : EngineState) (⟨[(10, TermK.struc "bob" []), (8, TermK.struc "alice" []), (9, TermK.struc "carol" []), (5, TermK.var 8)], [10, 8, 9, 5], 11, "A = bob\n", 1⟩ : EngineState) (⟨[(10, TermK.struc "bob" []), (8, TermK.struc "alice" []), (9, TermK.struc "carol" []), (5, TermK.var 8)], [10, 8, 9, 5], 21, "A = bob\nA = alice\n", 2⟩ : EngineState) rfl hc50
  have hc52 : tryClauses 80 kbDemo [] [("A", 5)] (TermK.struc "parent" [TermK.var 21, TermK.var 22]) [] (⟨[(22, TermK.struc "carol" []), (21, TermK.struc "carol" []), (10, TermK.struc "carol" []), (8, TermK.struc "bob" []), (9, TermK.struc "carol" []), (5, TermK.var 8)], [22, 21, 10, 8, 9, 5], 23, "A = bob\nA = alice\n", 2⟩ : EngineState) = some (⟨[(22, TermK.struc "carol" []), (21, TermK.struc "carol" []), (10, TermK.struc "carol" []), (8, TermK.struc "bob" []), (9, TermK.struc "carol" []), (5, TermK.var 8)], [22, 21, 10, 8, 9, 5], 23, "A = bob\nA = alice\n", 2⟩ : EngineState) := rfl
  have hc53 : tryClauses 81 kbDemo [⟨TermK.struc "ancestor" [TermK.var 2, TermK.var 3], [TermK.struc "parent" [TermK.var 2, TermK.var 4], TermK.struc "ancestor" [TermK.var 4, TermK.var 3]]⟩] [("A", 5)] (TermK.struc "parent" [TermK.var 21, TermK.var 22]) [] (⟨[(22, TermK.struc "carol" []), (21, TermK.struc "carol" []), (10, TermK.struc "carol" []), (8, TermK.struc "bob" []), (9, TermK.struc "carol" []), (5, TermK.var 8)], [22, 21, 10, 8, 9, 5], 23, "A = bob\nA = alice\n", 2⟩ : EngineState) = some (⟨[(22, TermK.struc "carol" []), (21, TermK.struc "carol" []), (10, TermK.struc "carol" []), (8, TermK.struc "bob" []), (9, TermK.struc "carol" []), (5, TermK.var 8)], [22, 21, 10, 8, 9, 5], 23, "A = bob\nA = alice\n", 2⟩ : EngineState) := tryClauses_step_skip 80 kbDemo ⟨TermK.struc "ancestor" [TermK.var 2, TermK.var 3], [TermK.struc "parent" [TermK.var 2, TermK.var 4], TermK.struc "ancestor" [TermK.var 4, TermK.var 3]]⟩ [] [("A", 5)] (TermK.struc "parent" [TermK.var 21, TermK.var 22]) [] (⟨[(22, TermK.struc "carol" []), (21, TermK.struc "carol" []), (10, TermK.struc "carol" []), (8, TermK.struc "bob" []), (9, TermK.struc "carol" []), (5, TermK.var 8)], [22, 21, 10, 8, 9, 5], 23, "A = bob\nA = alice\n", 2⟩ : EngineState) (⟨[(22, TermK.struc "carol" []), (21, TermK.struc "carol" []), (10, TermK.struc "carol" []), (8, TermK.struc "bob" []), (9, TermK.struc "carol" []), (5, TermK.var 8)], [22, 21, 10, 8, 9, 5], 23, "A = bob\nA = alice\n", 2⟩ : EngineState) rfl hc52
  have hc54 : tryClauses 82 kbDemo [⟨TermK.struc "ancestor" [TermK.var 0, TermK.var 1], [TermK.struc "parent" [TermK.var 0, TermK.var 1]]⟩, ⟨TermK.struc "ancestor" [TermK.var 2, TermK.var 3], [TermK.struc "parent" [TermK.var 2, TermK.var 4], TermK.struc "ancestor" [TermK.var 4, TermK.var 3]]⟩] [("A", 5)] (TermK.struc "parent" [TermK.var 21, TermK.var 22]) [] (⟨[(22, TermK.struc "carol" []), (21, TermK.struc "carol" []), (10, TermK.struc "carol" []), (8, TermK.struc "bob" []), (9, TermK.struc "carol" []), (5, TermK.var 8)], [22, 21, 10, 8, 9, 5], 23, "A = bob\nA = alice\n", 2⟩ : EngineState) = some (⟨[(22, TermK.struc "carol" []), (21, TermK.struc "carol" []), (10, TermK.struc "carol" []), (8, TermK.struc "bob" []), (9, TermK.struc "carol" []), (5, TermK.var 8)], [22, 21, 10, 8, 9, 5], 23, "A = bob\nA = alice\n", 2⟩ : EngineState) := tryClauses_step_skip 81 kbDemo ⟨TermK.struc "ancestor" [TermK.var 0, TermK.var 1], [TermK.struc "parent" [TermK.var 0, TermK.var 1]]⟩ [⟨TermK.struc "ancestor" [TermK.var 2, TermK.var 3], [TermK.struc "parent" [TermK.var 2, TermK.var 4], TermK.struc "ancestor" [TermK.var 4, TermK.var 3]]⟩] [("A", 5)] (TermK.struc "parent" [TermK.var 21, TermK.var 22]) [] (⟨[(22, TermK.struc "carol" []), (21, TermK.struc "carol" []), (10, TermK.struc "carol" []), (8, TermK.struc "bob" []), (9, TermK.struc "carol" []), (5, TermK.var 8)], [22, 21, 10, 8, 9, 5], 23, "A = bob\nA = alice\n", 2⟩ : EngineState) (⟨[(22, TermK.struc "carol" []), (21, TermK.struc "carol" []), (10, TermK.struc "carol" []), (8, TermK.struc "bob" []), (9, TermK.struc "carol" []), (5, TermK.var 8)], [22, 21, 10, 8, 9, 5], 23, "A = bob\nA = alice\n", 2⟩ : EngineState) rfl hc53
  have hc55 : tryClauses 83 kbDemo [⟨TermK.struc "parent" [TermK.struc "alice" [], TermK.struc "dana" []], []⟩, ⟨TermK.struc "ancestor" [TermK.var 0, TermK.var 1], [TermK.struc "parent" [TermK.var 0, TermK.var 1]]⟩, ⟨TermK.struc "ancestor" [TermK.var 2, TermK.var 3], [TermK.struc "parent" [TermK.var 2, TermK.var 4], TermK.struc "ancestor" [TermK.var 4, TermK.var 3]]⟩] [("A", 5)] (TermK.struc "parent" [TermK.var 21, TermK.var 22]) [] (⟨[(22, TermK.struc "carol" []), (21, TermK.struc "carol" []), (10, TermK.struc "carol" []), (8, TermK.struc "bob" []), (9, TermK.struc "carol" []), (5, TermK.var 8)], [22, 21, 10, 8, 9, 5], 23, "A = bob\nA = alice\n", 2⟩ : EngineState) = some (⟨[(22, TermK.struc "carol" []), (21, TermK.struc "carol" []), (10, TermK.struc "carol" []), (8, TermK.struc "bob" []), (9, TermK.struc "carol" []), (5, TermK.var 8)], [22, 21, 10, 8, 9, 5], 23, "A = bob\nA = alice\n", 2⟩ : EngineState) := tryClauses_step_nomatch 82 kbDemo ⟨TermK.struc "parent" [TermK.struc "alice" [], TermK.struc "dana" []], []⟩ [⟨TermK.struc "ancestor" [TermK.var 0, TermK.var 1], [TermK.struc "parent" [TermK.var 0, TermK.var 1]]⟩, ⟨TermK.struc "ancestor" [TermK.var 2, TermK.var 3], [TermK.struc "parent" [TermK.var 2, TermK.var 4], TermK.struc "ancestor" [TermK.var 4, TermK.var 3]]⟩] [("A", 5)] (TermK.struc "parent" [TermK.var 21, TermK.var 22]) [] (⟨[(22, TermK.struc "carol" []), (21, TermK.struc "carol" []), (10, TermK.struc "carol" []), (8, TermK.struc "bob" []), (9, TermK.struc "carol" []), (5, TermK.var 8)], [22, 21, 10, 8, 9, 5], 23, "A = bob\nA = alice\n", 2⟩ : EngineState) (TermK.struc "parent" [TermK.var 21, TermK.var 22]) (TermK.struc "parent" [TermK.struc "alice" [], TermK.struc "dana" []]) [] 23 (⟨[(22, TermK.struc "carol" []), (21, TermK.struc "carol" []), (10, TermK.struc "carol" []), (8, TermK.struc "bob" []), (9, TermK.struc "carol" []), (5, TermK.var 8)], [22, 21, 10, 8, 9, 5], 23, "A = bob\nA = alice\n", 2⟩ : EngineState) (⟨[(22, TermK.struc "carol" []), (21, TermK.struc "carol" []), (10, TermK.struc "carol" []), (8, TermK.struc "bob" []), (9, TermK.struc "carol" []), (5, TermK.var 8)], [22, 21, 10, 8, 9, 5], 23, "A = bob\nA = alice\n", 2⟩ : EngineState) rfl rfl rfl rfl hc54
  have hc56 : tryClauses 84 kbDemo [⟨TermK.struc "parent" [TermK.struc "bob" [], TermK.struc "carol" []], []⟩, ⟨TermK.struc "parent" [TermK.struc "alice" [], TermK.struc "dana" []], []⟩, ⟨TermK.struc "ancestor" [TermK.var 0, TermK.var 1], [TermK.struc "parent" [TermK.var 0, TermK.var 1]]⟩, ⟨TermK.struc "ancestor" [TermK.var 2, TermK.var 3], [TermK.struc "parent" [TermK.var 2, TermK.var 4], TermK.struc "ancestor" [TermK.var 4, TermK.var 3]]⟩] [("A", 5)] (TermK.struc "parent" [TermK.var 21, TermK.var 22]) [] (⟨[(22, TermK.struc "carol" []), (21, TermK.struc "carol" []), (10, TermK.struc "carol" []), (8, TermK.struc "bob" []), (9, TermK.struc "carol" []), (5, TermK.var 8)], [22, 21, 10, 8, 9, 5], 23, "A = bob\nA = alice\n", 2⟩ : EngineState) = some (⟨[(22, TermK.struc "carol" []), (21, TermK.struc "carol" []), (10, TermK.struc "carol" []), (8, TermK.struc "bob" []), (9, TermK.struc "carol" []), (5, TermK.var 8)], [22, 21, 10, 8, 9, 5], 23, "A = bob\nA = alice\n", 2⟩ : EngineState) := tryClauses_step_nomatch 83 kbDemo ⟨TermK.struc "parent" [TermK.struc "bob" [], TermK.struc "carol" []], []⟩ [⟨TermK.struc "parent" [TermK.struc "alice" [], TermK.struc "dana" []], []⟩, ⟨TermK.struc "ancestor" [TermK.var 0, TermK.var 1], [TermK.struc "parent" [TermK.var 0, TermK.var 1]]⟩, ⟨TermK.struc "ancestor" [TermK.var 2, TermK.var 3], [TermK.struc "parent" [TermK.var 2, TermK.var 4], TermK.struc "ancestor" [TermK.var 4, TermK.var 3]]⟩] [("A", 5)] (TermK.struc "parent" [TermK.var 21, TermK.var 22]) [] (⟨[(22, TermK.struc "carol" []), (21, TermK.struc "carol" []), (10, TermK.struc "carol" []), (8, TermK.struc "bob" []), (9, TermK.struc "carol" []), (5, TermK.var 8)], [22, 21, 10, 8, 9, 5], 23, "A = bob\nA = alice\n", 2⟩ : EngineState) (TermK.struc "parent" [TermK.var 21, TermK.var 22]) (TermK.struc "parent" [TermK.struc "bob" [], TermK.struc "carol" []]) [] 23 (⟨[(22, TermK.struc "carol" []), (21, TermK.struc "carol" []), (10, TermK.struc "carol" []), (8, TermK.struc "bob" []), (9, TermK.struc "carol" []), (5, TermK.var 8)], [22, 21, 10, 8, 9, 5], 23, "A = bob\nA = alice\n", 2⟩ : EngineState) (⟨[(22, TermK.struc "carol" []), (21, TermK.struc "carol" []), (10, TermK.struc "carol" []), (8, TermK.struc "bob" []), (9, TermK.struc "carol" []), (5, TermK.var 8)], [22, 21, 10, 8, 9, 5], 23, "A = bob\nA = alice\n", 2⟩ : EngineState) rfl rfl rfl rfl hc55
  have hc57 : tryClauses 85 kbDemo [⟨TermK.struc "parent" [TermK.struc "alice" [], TermK.struc "bob" []], []⟩, ⟨TermK.struc "parent" [TermK.struc "bob" [], TermK.struc "carol" []], []⟩, ⟨TermK.struc "parent" [TermK.struc "alice" [], TermK.struc "dana" []], []⟩, ⟨TermK.struc "ancestor" [TermK.var 0, TermK.var 1], [TermK.struc "parent" [TermK.var 0, TermK.var 1]]⟩, ⟨TermK.struc "ancestor" [TermK.var 2, TermK.var 3], [TermK.struc "parent" [TermK.var 2, TermK.var 4], TermK.struc "ancestor" [TermK.var 4, TermK.var 3]]⟩] [("A", 5)] (TermK.struc "parent" [TermK.var 21, TermK.var 22]) [] (⟨[(22, TermK.struc "carol" []), (21, TermK.struc "carol" []), (10, TermK.struc "carol" []), (8, TermK.struc "bob" []), (9, TermK.struc "carol" []), (5, TermK.var 8)], [22, 21, 10, 8, 9, 5], 23, "A = bob\nA = alice\n", 2⟩ : EngineState) = some (⟨[(22, TermK.struc "carol" []), (21, TermK.struc "carol" []), (10, TermK.struc "carol" []), (8, TermK.struc "bob" []), (9, TermK.struc "carol" []), (5, TermK.var 8)], [22, 21, 10, 8, 9, 5], 23, "A = bob\nA = alice\n", 2⟩ : EngineState) := tryClauses_step_nomatch 84 kbDemo ⟨TermK.struc "parent" [TermK.struc "alice" [], TermK.struc "bob" []], []⟩ [⟨TermK.struc "parent" [TermK.struc "bob" [], TermK.struc "carol" []], []⟩, ⟨TermK.struc "parent" [TermK.struc "alice" [], TermK.struc "dana" []], []⟩, ⟨TermK.struc "ancestor" [TermK.var 0, TermK.var 1], [TermK.struc "parent" [TermK.var 0, TermK.var 1]]⟩, ⟨TermK.struc "ancestor" [TermK.var 2, TermK.var 3], [TermK.struc "parent" [TermK.var 2, TermK.var 4], TermK.struc "ancestor" [TermK.var 4, TermK.var 3]]⟩] [("A", 5)] (TermK.struc "parent" [TermK.var 21, TermK.var 22]) [] (⟨[(22, TermK.struc "carol" []), (21, TermK.struc "carol" []), (10, TermK.struc "carol" []), (8, TermK.struc "bob" []), (9, TermK.struc "carol" []), (5, TermK.var 8)], [22, 21, 10, 8, 9, 5], 23, "A = bob\nA = alice\n", 2⟩ : EngineState) (TermK.struc "parent" [TermK.var 21, TermK.var 22]) (TermK.struc "parent" [TermK.struc "alice" [], TermK.struc "bob" []]) [] 23 (⟨[(22, TermK.struc "carol" []), (21, TermK.struc "carol" []), (10, TermK.struc "carol" []), (8, TermK.struc "bob" []), (9, TermK.struc "carol" []), (5, TermK.var 8)], [22, 21, 10, 8, 9, 5], 23, "A = bob\nA = alice\n", 2⟩ : EngineState) (⟨[(22, TermK.struc "carol" []), (21, TermK.struc "carol" []), (10, TermK.struc "carol" []), (8, TermK.struc "bob" []), (9, TermK.struc "carol" []), (5, TermK.var 8)], [22, 21, 10, 8, 9, 5], 23, "A = bob\nA = alice\n", 2⟩ : EngineState) rfl rfl rfl rfl hc56
  have hc58 : solve 86 kbDemo [("A", 5)] [TermK.struc "parent" [TermK.var 21, TermK.var 22]] (⟨[(22, TermK.struc "carol" []), (21, TermK.struc "carol" []), (10, TermK.struc "carol" []), (8, TermK.struc "bob" []), (9, TermK.struc "carol" []), (5, TermK.var 8)], [22, 21, 10, 8, 9, 5], 23, "A = bob\nA = alice\n", 2⟩ : EngineState) = some (⟨[(22, TermK.struc "carol" []), (21, TermK.struc "carol" []), (10, TermK.struc "carol" []), (8, TermK.struc "bob" []), (9, TermK.struc "carol" []), (5, TermK.var 8)], [22, 21, 10, 8, 9, 5], 23, "A = bob\nA = alice\n", 2⟩ : EngineState) := solve_step_goal 85 kbDemo [("A", 5)] (TermK.struc "parent" [TermK.var 21, TermK.var 22]) [] (⟨[(22, TermK.struc "carol" []), (21, TermK.struc "carol" []), (10, TermK.struc "carol" []), (8, TermK.struc "bob" []), (9, TermK.struc "carol" []), (5, TermK.var 8)], [22, 21, 10, 8, 9, 5], 23, "A = bob\nA = alice\n", 2⟩ : EngineState) (⟨[(22, TermK.struc "carol" []), (21, TermK.struc "carol" []), (10, TermK.struc "carol" []), (8, TermK.struc "bob" []), (9, TermK.struc "carol" []), (5, TermK.var 8)], [22, 21, 10, 8, 9, 5], 23, "A = bob\nA = alice\n", 2⟩ : EngineState) (⟨[(22, TermK.struc "carol" []), (21, TermK.struc "carol" []), (10, TermK.struc "carol" []), (8, TermK.struc "bob" []), (9, TermK.struc "carol" []), (5, TermK.var 8)], [22, 21, 10, 8, 9, 5], 23, "A = bob\nA = alice\n", 2⟩ : EngineState) rfl hc57
  have hc59 : tryClauses 79 kbDemo [] [("A", 5)] (TermK.struc "parent" [TermK.var 23, TermK.var 25]) [TermK.struc "ancestor" [TermK.var 25, TermK.var 24]] (⟨[(24, TermK.struc "carol" []), (23, TermK.struc "carol" []), (10, TermK.struc "carol" []), (8, TermK.struc "bob" []), (9, TermK.struc "carol" []), (5, TermK.var 8)], [24, 23, 10, 8, 9, 5], 26, "A = bob\nA = alice\n", 2⟩ : EngineState) = some (⟨[(24, TermK.struc "carol" []), (23, TermK.struc "carol" []), (10, TermK.struc "carol" []), (8, TermK.struc "bob" []), (9, TermK.struc "carol" []), (5, TermK.var 8)], [24, 23, 10, 8, 9, 5], 26, "A = bob\nA = alice\n", 2⟩ : EngineState) := rfl
  have hc60 : tryClauses 80 kbDemo [⟨TermK.struc "ancestor" [TermK.var 2, TermK.var 3], [TermK.struc "parent" [TermK.var 2, TermK.var 4], TermK.struc "ancestor" [TermK.var 4, TermK.var 3]]⟩] [("A", 5)] (TermK.struc "parent" [TermK.var 23, TermK.var 25]) [TermK.struc "ancestor" [TermK.var 25, TermK.var 24]] (⟨[(24, TermK.struc "carol" []), (23, TermK.struc "carol" []), (10, TermK.struc "carol" []), (8, TermK.struc "bob" []), (9, TermK.struc "carol" []), (5, TermK.var 8)], [24, 23, 10, 8, 9, 5], 26, "A = bob\nA = alice\n", 2⟩ : EngineState) = some (⟨[(24, TermK.struc "carol" []), (23, TermK.struc "carol" []), (10, TermK.struc "carol" []), (8, TermK.struc "bob" []), (9, TermK.struc "carol" []), (5, TermK.var 8)], [24, 23, 10, 8, 9, 5], 26, "A = bob\nA = alice\n", 2⟩ : EngineState) := tryClauses_step_skip 79 kbDemo ⟨TermK.struc "ancestor" [TermK.var 2, TermK.var 3], [TermK.struc "parent" [TermK.var 2, TermK.var 4], TermK.struc "ancestor" [TermK.var 4, TermK.var 3]]⟩ [] [("A", 5)] (TermK.struc "parent" [TermK.var 23, TermK.var 25]) [TermK.struc "ancestor" [TermK.var 25, TermK.var 24]] (⟨[(24, TermK.struc "carol" []), (23, TermK.struc "carol" []), (10, TermK.struc "carol" []), (8, TermK.struc "bob" []), (9, TermK.struc "carol" []), (5, TermK.var 8)], [24, 23, 10, 8, 9, 5], 26, "A = bob\nA = alice\n", 2⟩ : EngineState) (⟨[(24, TermK.struc "carol" []), (23, TermK.struc "carol" []), (10, TermK.struc "carol" []), (8, TermK.struc "bob" []), (9, TermK.struc "carol" []), (5, TermK.var 8)], [24, 23, 10, 8, 9, 5], 26, "A = bob\nA = alice\n", 2⟩ : EngineState) rfl hc59
  have hc61 : tryClauses 81 kbDemo [⟨TermK.struc "ancestor" [TermK.var 0, TermK.var 1], [TermK.struc "parent" [TermK.var 0, TermK.var 1]]⟩, ⟨TermK.struc "ancestor" [TermK.var 2, TermK.var 3], [TermK.struc "parent" [TermK.var 2, TermK.var 4], TermK.struc "ancestor" [TermK.var 4, TermK.var 3]]⟩] [("A", 5)] (TermK.struc "parent" [TermK.var 23, TermK.var 25]) [TermK.struc "ancestor" [TermK.var 25, TermK.var 24]] (⟨[(24, TermK.struc "carol" []), (23, TermK.struc "carol" []), (10, TermK.struc "carol" []), (8, TermK.struc "bob" []), (9, TermK.struc "carol" []), (5, TermK.var 8)], [24, 23, 10, 8, 9, 5], 26, "A = bob\nA = alice\n", 2⟩ : EngineState) = some (⟨[(24, TermK.struc "carol" []), (23, TermK.struc "carol" []), (10, TermK.struc "carol" []), (8, TermK.struc "bob" []), (9, TermK.struc "carol" []), (5, TermK.var 8)], [24, 23, 10, 8, 9, 5], 26, "A = bob\nA = alice\n", 2⟩ : EngineState) := tryClauses_step_skip 80 kbDemo ⟨TermK.struc "ancestor" [TermK.var 0, TermK.var 1], [TermK.struc "parent" [TermK.var 0, TermK.var 1]]⟩ [⟨TermK.struc "ancestor" [TermK.var 2, TermK.var 3], [TermK.struc "parent" [TermK.var 2, TermK.var 4], TermK.struc "ancestor" [TermK.var 4, TermK.var 3]]⟩] [("A", 5)] (TermK.struc "parent" [TermK.var 23, TermK.var 25]) [TermK.struc "ancestor" [TermK.var 25, TermK.var 24]] (⟨[(24, TermK.struc "carol" []), (23, TermK.struc "carol" []), (10, TermK.struc "carol" []), (8, TermK.struc "bob" []), (9, TermK.struc "carol" []), (5, TermK.var 8)], [24, 23, 10, 8, 9, 5], 26, "A = bob\nA = alice\n", 2⟩ : EngineState) (⟨[(24, TermK.struc "carol" []), (23, TermK.struc "carol" []), (10, TermK.struc "carol" []), (8, TermK.struc "bob" []), (9, TermK.struc "carol" []), (5, TermK.var 8)], [24, 23, 10, 8, 9, 5], 26, "A = bob\nA = alice\n", 2⟩ : EngineState) rfl hc60
  have hc62 : tryClauses 82 kbDemo [⟨TermK.struc "parent" [TermK.struc "alice" [], TermK.struc "dana" []], []⟩, ⟨TermK.struc "ancestor" [TermK.var 0, TermK.var 1], [TermK.struc "parent" [TermK.var 0, TermK.var 1]]⟩, ⟨TermK.struc "ancestor" [TermK.var 2, TermK.var 3], [TermK.struc "parent" [TermK.var 2, TermK.var 4], TermK.struc "ancestor" [TermK.var 4, TermK.var 3]]⟩] [("A", 5)] (TermK.struc "parent" [TermK.var 23, TermK.var 25]) [TermK.struc "ancestor" [TermK.var 25, TermK.var 24]] (⟨[(24, TermK.struc "carol" []), (23, TermK.struc "carol" []), (10, TermK.struc "carol" []), (8, TermK.struc "bob" []), (9, TermK.struc "carol" []), (5, TermK.var 8)], [24, 23, 10, 8, 9, 5], 26, "A = bob\nA = alice\n", 2⟩ : EngineState) = some (⟨[(24, TermK.struc "carol" []), (23, TermK.struc "carol" []), (10, TermK.struc "carol" []), (8, TermK.struc "bob" []), (9, TermK.struc "carol" []), (5, TermK.var 8)], [24, 23, 10, 8, 9, 5], 26, "A = bob\nA = alice\n", 2⟩ : EngineState) := tryClauses_step_nomatch 81 kbDemo ⟨TermK.struc "parent" [TermK.struc "alice" [], TermK.struc "dana" []], []⟩ [⟨TermK.struc "ancestor" [TermK.var 0, TermK.var 1], [TermK.struc "parent" [TermK.var 0, TermK.var 1]]⟩, ⟨TermK.struc "ancestor" [TermK.var 2, TermK.var 3], [TermK.struc "parent" [TermK.var 2, TermK.var 4], TermK.struc "ancestor" [TermK.var 4, TermK.var 3]]⟩] [("A", 5)] (TermK.struc "parent" [TermK.var 23, TermK.var 25]) [TermK.struc "ancestor" [TermK.var 25, TermK.var 24]] (⟨[(24, TermK.struc "carol" []), (23, TermK.struc "carol" []), (10, TermK.struc "carol" []), (8, TermK.struc "bob" []), (9, TermK.struc "carol" []), (5, TermK.var 8)], [24, 23, 10, 8, 9, 5], 26, "A = bob\nA = alice\n", 2⟩ : EngineState) (TermK.struc "parent" [TermK.var 23, TermK.var 25]) (TermK.struc "parent" [TermK.struc "alice" [], TermK.struc "dana" []]) [] 26 (⟨[(24, TermK.struc "carol" []), (23, TermK.struc "carol" []), (10, TermK.struc "carol" []), (8, TermK.struc "bob" []), (9, TermK.struc "carol" []), (5, TermK.var 8)], [24, 23, 10, 8, 9, 5], 26, "A = bob\nA = alice\n", 2⟩ : EngineState) (⟨[(24, TermK.struc "carol" []), (23, TermK.struc "carol" []), (10, TermK.struc "carol" []), (8, TermK.struc "bob" []), (9, TermK.struc "carol" []), (5, TermK.var 8)], [24, 23, 10, 8, 9, 5], 26, "A = bob\nA = alice\n", 2⟩ : EngineState) rfl rfl rfl rfl hc61
  have hc63 : tryClauses 83 kbDemo [⟨TermK.struc "parent" [TermK.struc "bob" [], TermK.struc "carol" []], []⟩, ⟨TermK.struc "parent" [TermK.struc "alice" [], TermK.struc "dana" []], []⟩, ⟨TermK.struc "ancestor" [TermK.var 0, TermK.var 1], [TermK.struc "parent" [TermK.var 0, TermK.var 1]]⟩, ⟨TermK.struc "ancestor" [TermK.var 2, TermK.var 3], [TermK.struc "parent" [TermK.var 2, TermK.var 4], TermK.struc "ancestor" [TermK.var 4, TermK.var 3]]⟩] [("A", 5)] (TermK.struc "parent" [TermK.var 23, TermK.var 25]) [TermK.struc "ancestor" [TermK.var 25, TermK.var 24]] (⟨[(24, TermK.struc "carol" []), (23, TermK.struc "carol" []), (10, TermK.struc "carol" []), (8, TermK.struc "bob" []), (9, TermK.struc "carol" []), (5, TermK.var 8)], [24, 23, 10, 8, 9, 5], 26, "A = bob\nA = alice\n", 2⟩ : EngineState) = some (⟨[(24, TermK.struc "carol" []), (23, TermK.struc "carol" []), (10, TermK.struc "carol" []), (8, TermK.struc "bob" []), (9, TermK.struc "carol" []), (5, TermK.var 8)], [24, 23, 10, 8, 9, 5], 26, "A = bob\nA = alice\n", 2⟩ : EngineState) := tryClauses_step_nomatch 82 kbDemo ⟨TermK.struc "parent" [TermK.struc "bob" [], TermK.struc "carol" []], []⟩ [⟨TermK.struc "parent" [TermK.struc "alice" [], TermK.struc "dana" []], []⟩, ⟨TermK.struc "ancestor" [TermK.var 0, TermK.var 1], [TermK.struc "parent" [TermK.var 0, TermK.var 1]]⟩, ⟨TermK.struc "ancestor" [TermK.var 2, TermK.var 3], [TermK.struc "parent" [TermK.var 2, TermK.var 4], TermK.struc "ancestor" [TermK.var 4, TermK.var 3]]⟩] [("A", 5)] (TermK.struc "parent" [TermK.var 23, TermK.var 25]) [TermK.struc "ancestor" [TermK.var 25, TermK.var 24]] (⟨[(24, TermK.struc "carol" []), (23, TermK.struc "carol" []), (10, TermK.struc "carol" []), (8, TermK.struc "bob" []), (9, TermK.struc "carol" []), (5, TermK.var 8)], [24, 23, 10, 8, 9, 5], 26, "A = bob\nA = alice\n", 2⟩ : EngineState) (TermK.struc "parent" [TermK.var 23, TermK.var 25]) (TermK.struc "parent" [TermK.struc "bob" [], TermK.struc "carol" []]) [] 26 (⟨[(24, TermK.struc "carol" []), (23, TermK.struc "carol" []), (10, TermK.struc "carol" []), (8, TermK.struc "bob" []), (9, TermK.struc "carol" []), (5, TermK.var 8)], [24, 23, 10, 8, 9, 5], 26, "A = bob\nA = alice\n", 2⟩ : EngineState) (⟨[(24, TermK.struc "carol" []), (23, TermK.struc "carol" []), (10, TermK.struc "carol" []), (8, TermK.struc "bob" []), (9, TermK.struc "carol" []), (5, TermK.var 8)], [24, 23, 10, 8, 9, 5], 26, "A = bob\nA = alice\n", 2⟩ : EngineState) rfl rfl rfl rfl hc62
  have hc64 : tryClauses 84 kbDemo [⟨TermK.struc "parent" [TermK.struc "alice" [], TermK.struc "bob" []], []⟩, ⟨TermK.struc "parent" [TermK.struc "bob" [], TermK.struc "carol" []], []⟩, ⟨TermK.struc "parent" [TermK.struc "alice" [], TermK.struc "dana" []], []⟩, ⟨TermK.struc "ancestor" [TermK.var 0, TermK.var 1], [TermK.struc "parent" [TermK.var 0, TermK.var 1]]⟩, ⟨TermK.struc "ancestor" [TermK.var 2, TermK.var 3], [TermK.struc "parent" [TermK.var 2, TermK.var 4], TermK.struc "ancestor" [TermK.var 4, TermK.var 3]]⟩] [("A", 5)] (TermK.struc "parent" [TermK.var 23, TermK.var 25]) [TermK.struc "ancestor" [TermK.var 25, TermK.var 24]] (⟨[(24, TermK.struc "carol" []), (23, TermK.struc "carol" []), (10, TermK.struc "carol" []), (8, TermK.struc "bob" []), (9, TermK.struc "carol" []), (5, TermK.var 8)], [24, 23, 10, 8, 9, 5], 26, "A = bob\nA = alice\n", 2⟩ : EngineState) = some (⟨[(24, TermK.struc "carol" []), (23, TermK.struc "carol" []), (10, TermK.struc "carol" []), (8, TermK.struc "bob" []), (9, TermK.struc "carol" []), (5, TermK.var 8)], [24, 23, 10, 8, 9, 5], 26, "A = bob\nA = alice\n", 2⟩ : EngineState) := tryClauses_step_nomatch 83 kbDemo ⟨TermK.struc "parent" [TermK.struc "alice" [], TermK.struc "bob" []], []⟩ [⟨TermK.struc "parent" [TermK.struc "bob" [], TermK.struc "carol" []], []⟩, ⟨TermK.struc "parent" [TermK.struc "alice" [], TermK.struc "dana" []], []⟩, ⟨TermK.struc "ancestor" [TermK.var 0, TermK.var 1], [TermK.struc "parent" [TermK.var 0, TermK.var 1]]⟩, ⟨TermK.struc "ancestor" [TermK.var 2, TermK.var 3], [TermK.struc "parent" [TermK.var 2, TermK.var 4], TermK.struc "ancestor" [TermK.var 4, TermK.var 3]]⟩] [("A", 5)] (TermK.struc "parent" [TermK.var 23, TermK.var 25]) [TermK.struc "ancestor" [TermK.var 25, TermK.var 24]] (⟨[(24, TermK.struc "carol" []), (23, TermK.struc "carol" []), (10, TermK.struc "carol" []), (8, TermK.struc "bob" []), (9, TermK.struc "carol" []), (5, TermK.var 8)], [24, 23, 10, 8, 9, 5], 26, "A = bob\nA = alice\n", 2⟩ : EngineState) (TermK.struc "parent" [TermK.var 23, TermK.var 25]) (TermK.struc "parent" [TermK.struc "alice" [], TermK.struc "bob" []]) [] 26 (⟨[(24, TermK.struc "carol" []), (23, TermK.struc "carol" []), (10, TermK.struc "carol" []), (8, TermK.struc "bob" []), (9, TermK.struc "carol" []), (5, TermK.var 8)], [24, 23, 10, 8, 9, 5], 26, "A = bob\nA = alice\n", 2⟩ : EngineState) (⟨[(24, TermK.struc "carol" []), (23, TermK.struc "carol" []), (10, TermK.struc "carol" []), (8, TermK.struc "bob" []), (9, TermK.struc "carol" []), (5, TermK.var 8)], [24, 23, 10, 8, 9, 5], 26, "A = bob\nA = alice\n", 2⟩ : EngineState) rfl rfl rfl rfl hc63
  have hc65 : solve 85 kbDemo [("A", 5)] [TermK.struc "parent" [TermK.var 23, TermK.var 25], TermK.struc "ancestor" [TermK.var 25, TermK.var 24]] (⟨[(24, TermK.struc "carol" []), (23, TermK.struc "carol" []), (10, TermK.struc "carol" []), (8, TermK.struc "bob" []), (9, TermK.struc "carol" []), (5, TermK.var 8)], [24, 23, 10, 8, 9, 5], 26, "A = bob\nA = alice\n", 2⟩ : EngineState) = some (⟨[(24, TermK.struc "carol" []), (23, TermK.struc "carol" []), (10, TermK.struc "carol" []), (8, TermK.struc "bob" []), (9, TermK.struc "carol" []), (5, TermK.var 8)], [24, 23, 10, 8, 9, 5], 26, "A = bob\nA = alice\n", 2⟩ : EngineState) := solve_step_goal 84 kbDemo [("A", 5)] (TermK.struc "parent" [TermK.var 23, TermK.var 25]) [TermK.struc "ancestor" [TermK.var 25, TermK.var 24]] (⟨[(24, TermK.struc "carol" []), (23, TermK.struc "carol" []), (10, TermK.struc "carol" []), (8, TermK.struc "bob" []), (9, TermK.struc "carol" []), (5, TermK.var 8)], [24, 23, 10, 8, 9, 5], 26, "A = bob\nA = alice\n", 2⟩ : EngineState) (⟨[(24, TermK.struc "carol" []), (23, TermK.struc "carol" []), (10, TermK.struc "carol" []), (8, TermK.struc "bob" []), (9, TermK.struc "carol" []), (5, TermK.var 8)], [24, 23, 10, 8, 9, 5], 26, "A = bob\nA = alice\n", 2⟩ : EngineState) (⟨[(24, TermK.struc "carol" []), (23, TermK.struc "carol" []), (10, TermK.struc "carol" []), (8, TermK.struc "bob" []), (9, TermK.struc "carol" []), (5, TermK.var 8)], [24, 23, 10, 8, 9, 5], 26, "A = bob\nA = alice\n", 2⟩ : EngineState) rfl hc64
  have hc66 : tryClauses 85 kbDemo [] [("A", 5)] (TermK.struc "ancestor" [TermK.var 10, TermK.var 9]) [] (⟨[(10, TermK.struc "carol" []), (8, TermK.struc "bob" []), (9, TermK.struc "carol" []), (5, TermK.var 8)], [10, 8, 9, 5], 26, "A = bob\nA = alice\n", 2⟩ : EngineState) = some (⟨[(10, TermK.struc "carol" []), (8, TermK.struc "bob" []), (9, TermK.struc "carol" []), (5, TermK.var 8)], [10, 8, 9, 5], 26, "A = bob\nA = alice\n", 2⟩ : EngineState) := rfl
  have hc67 : tryClauses 86 kbDemo [⟨TermK.struc "ancestor" [TermK.var 2, TermK.var 3], [TermK.struc "parent" [TermK.var 2, TermK.var 4], TermK.struc "ancestor" [TermK.var 4, TermK.var 3]]⟩] [("A", 5)] (TermK.struc "ancestor" [TermK.var 10, TermK.var 9]) [] (⟨[(10, TermK.struc "carol" []), (8, TermK.struc "bob" []), (9, TermK.struc "carol" []), (5, TermK.var 8)], [10, 8, 9, 5], 23, "A = bob\nA = alice\n", 2⟩ : EngineState) = some (⟨[(10, TermK.struc "carol" []), (8, TermK.struc "bob" []), (9, TermK.struc "carol" []), (5, TermK.var 8)], [10, 8, 9, 5], 26, "A = bob\nA = alice\n", 2⟩ : EngineState) := tryClauses_step_attempt 85 kbDemo ⟨TermK.struc "ancestor" [TermK.var 2, TermK.var 3], [TermK.struc "parent" [TermK.var 2, TermK.var 4], TermK.struc "ancestor" [TermK.var 4, TermK.var 3]]⟩ [] [("A", 5)] (TermK.struc "ancestor" [TermK.var 10, TermK.var 9]) [] (⟨[(10, TermK.struc "carol" []), (8, TermK.struc "bob" []), (9, TermK.struc "carol" []), (5, TermK.var 8)], [10, 8, 9, 5], 23, "A = bob\nA = alice\n", 2⟩ : EngineState) (TermK.struc "ancestor" [TermK.var 10, TermK.var 9]) (TermK.struc "ancestor" [TermK.var 23, TermK.var 24]) [(3, 24), (2, 23)] 25 [TermK.struc "parent" [TermK.var 23, TermK.var 25], TermK.struc "ancestor" [TermK.var 25, TermK.var 24]] [(4, 25), (3, 24), (2, 23)] 26 (⟨[(24, TermK.struc "carol" []), (23, TermK.struc "carol" []), (10, TermK.struc "carol" []), (8, TermK.struc "bob" []), (9, TermK.struc "carol" []), (5, TermK.var 8)], [24, 23, 10, 8, 9, 5], 25, "A = bob\nA = alice\n", 2⟩ : EngineState) (⟨[(24, TermK.struc "carol" []), (23, TermK.struc "carol" []), (10, TermK.struc "carol" []), (8, TermK.struc "bob" []), (9, TermK.struc "carol" []), (5, TermK.var 8)], [24, 23, 10, 8, 9, 5], 26, "A = bob\nA = alice\n", 2⟩ : EngineState) (⟨[(10, TermK.struc "carol" []), (8, TermK.struc "bob" []), (9, TermK.struc "carol" []), (5, TermK.var 8)], [10, 8, 9, 5], 26, "A = bob\nA = alice\n", 2⟩ : EngineState) rfl rfl rfl rfl rfl hc65 hc66
  have hc68 : tryClauses 87 kbDemo [⟨TermK.struc "ancestor" [TermK.var 0, TermK.var 1], [TermK.struc "parent" [TermK.var 0, TermK.var 1]]⟩, ⟨TermK.struc "ancestor" [TermK.var 2, TermK.var 3], [TermK.struc "parent" [TermK.var 2, TermK.var 4], TermK.struc "ancestor" [TermK.var 4, TermK.var 3]]⟩] [("A", 5)] (TermK.struc "ancestor" [TermK.var 10, TermK.var 9]) [] (⟨[(10, TermK.struc "carol" []), (8, TermK.struc "bob" []), (9, TermK.struc "carol" []), (5, TermK.var 8)], [10, 8, 9, 5], 21, "A = bob\nA = alice\n", 2⟩ : EngineState) = some (⟨[(10, TermK.struc "carol" []), (8, TermK.struc "bob" []), (9, TermK.struc "carol" []), (5, TermK.var 8)], [10, 8, 9, 5], 26, "A = bob\nA = alice\n", 2⟩ : EngineState) := tryClauses_step_attempt 86 kbDemo ⟨TermK.struc "ancestor" [TermK.var 0, TermK.var 1], [TermK.struc "parent" [TermK.var 0, TermK.var 1]]⟩ [⟨TermK.struc "ancestor" [TermK.var 2, TermK.var 3], [TermK.struc "parent" [TermK.var 2, TermK.var 4], TermK.struc "ancestor" [TermK.var 4, TermK.var 3]]⟩] [("A", 5)] (TermK.struc "ancestor" [TermK.var 10, TermK.var 9]) [] (⟨[(10, TermK.struc "carol" []), (8, TermK.struc "bob" []), (9, TermK.struc "carol" []), (5, TermK.var 8)], [10, 8, 9, 5], 21, "A = bob\nA = alice\n", 2⟩ : EngineState) (TermK.struc "ancestor" [TermK.var 10, TermK.var 9]) (TermK.struc "ancestor" [TermK.var 21, TermK.var 22]) [(1, 22), (0, 21)] 23 [TermK.struc "parent" [TermK.var 21, TermK.var 22]] [(1, 22), (0, 21)] 23 (⟨[(22, TermK.struc "carol" []), (21, TermK.struc "carol" []), (10, TermK.struc "carol" []), (8, TermK.struc "bob" []), (9, TermK.struc "carol" []), (5, TermK.var 8)], [22, 21, 10, 8, 9, 5], 23, "A = bob\nA = alice\n", 2⟩ : EngineState) (⟨[(22, TermK.struc "carol" []), (21, TermK.struc "carol" []), (10, TermK.struc "carol" []), (8, TermK.struc "bob" []), (9, TermK.struc "carol" []), (5, TermK.var 8)], [22, 21, 10, 8, 9, 5], 23, "A = bob\nA = alice\n", 2⟩ : EngineState) (⟨[(10, TermK.struc "carol" []), (8, TermK.struc "bob" []), (9, TermK.struc "carol" []), (5, TermK.var 8)], [10, 8, 9, 5], 26, "A = bob\nA = alice\n", 2⟩ : EngineState) rfl rfl rfl rfl rfl hc58 hc67
  have hc69 : tryClauses 88 kbDemo [⟨TermK.struc "parent" [TermK.struc "alice" [], TermK.struc "dana" []], []⟩, ⟨TermK.struc "ancestor" [TermK.var 0, TermK.var 1], [TermK.struc "parent" [TermK.var 0, TermK.var 1]]⟩, ⟨TermK.struc "ancestor" [TermK.var 2, TermK.var 3], [TermK.struc "parent" [TermK.var 2, TermK.var 4], TermK.struc "ancestor" [TermK.var 4, TermK.var 3]]⟩] [("A", 5)] (TermK.struc "ancestor" [TermK.var 10, TermK.var 9]) [] (⟨[(10, TermK.struc "carol" []), (8, TermK.struc "bob" []), (9, TermK.struc "carol" []), (5, TermK.var 8)], [10, 8, 9, 5], 21, "A = bob\nA = alice\n", 2⟩ : EngineState) = some (⟨[(10, TermK.struc "carol" []), (8, TermK.struc "bob" []), (9, TermK.struc "carol" []), (5, TermK.var 8)], [10, 8, 9, 5], 26, "A = bob\nA = alice\n", 2⟩ : EngineState) := tryClauses_step_skip 87 kbDemo ⟨TermK.struc "parent" [TermK.struc "alice" [], TermK.struc "dana" []], []⟩ [⟨TermK.struc "ancestor" [TermK.var 0, TermK.var 1], [TermK.struc "parent" [TermK.var 0, TermK.var 1]]⟩, ⟨TermK.struc "ancestor" [TermK.var 2, TermK.var 3], [TermK.struc "parent" [TermK.var 2, TermK.var 4], TermK.struc "ancestor" [TermK.var 4, TermK.var 3]]⟩] [("A", 5)] (TermK.struc "ancestor" [TermK.var 10, TermK.var 9]) [] (⟨[(10, TermK.struc "carol" []), (8, TermK.struc "bob" []), (9, TermK.struc "carol" []), (5, TermK.var 8)], [10, 8, 9, 5], 21, "A = bob\nA = alice\n", 2⟩ : EngineState) (⟨[(10, TermK.struc "carol" []), (8, TermK.struc "bob" []), (9, TermK.struc "carol" []), (5, TermK.var 8)], [10, 8, 9, 5], 26, "A = bob\nA = alice\n", 2⟩ : EngineState) rfl hc68
  have hc70 : tryClauses 89 kbDemo [⟨TermK.struc "parent" [TermK.struc "bob" [], TermK.struc "carol" []], []⟩, ⟨TermK.struc "parent" [TermK.struc "alice" [], TermK.struc "dana" []], []⟩, ⟨TermK.struc "ancestor" [TermK.var 0, TermK.var 1], [TermK.struc "parent" [TermK.var 0, TermK.var 1]]⟩, ⟨TermK.struc "ancestor" [TermK.var 2, TermK.var 3], [TermK.struc "parent" [TermK.var 2, TermK.var 4], TermK.struc "ancestor" [TermK.var 4, TermK.var 3]]⟩] [("A", 5)] (TermK.struc "ancestor" [TermK.var 10, TermK.var 9]) [] (⟨[(10, TermK.struc "carol" []), (8, TermK.struc "bob" []), (9, TermK.struc "carol" []), (5, TermK.var 8)], [10, 8, 9, 5], 21, "A = bob\nA = alice\n", 2⟩ : EngineState) = some (⟨[(10, TermK.struc "carol" []), (8, TermK.struc "bob" []), (9, TermK.struc "carol" []), (5, TermK.var 8)], [10, 8, 9, 5], 26, "A = bob\nA = alice\n", 2⟩ : EngineState) := tryClauses_step_skip 88 kbDemo ⟨TermK.struc "parent" [TermK.struc "bob" [], TermK.struc "carol" []], []⟩ [⟨TermK.struc "parent" [TermK.struc "alice" [], TermK.struc "dana" []], []⟩, ⟨TermK.struc "ancestor" [TermK.var 0, TermK.var 1], [TermK.struc "parent" [TermK.var 0, TermK.var 1]]⟩, ⟨TermK.struc "ancestor" [TermK.var 2, TermK.var 3], [TermK.struc "parent" [TermK.var 2, TermK.var 4], TermK.struc "ancestor" [TermK.var 4, TermK.var 3]]⟩] [("A", 5)] (TermK.struc "ancestor" [TermK.var 10, TermK.var 9]) [] (⟨[(10, TermK.struc "carol" []), (8, TermK.struc "bob" []), (9, TermK.struc "carol" []), (5, TermK.var 8)], [10, 8, 9, 5], 21, "A = bob\nA = alice\n", 2⟩ : EngineState) (⟨[(10, TermK.struc "carol" []), (8, TermK.struc "bob" []), (9, TermK.struc "carol" []), (5, TermK.var 8)], [10, 8, 9, 5], 26, "A = bob\nA = alice\n", 2⟩ : EngineState) rfl hc69
  have hc71 : tryClauses 90 kbDemo [⟨TermK.struc "parent" [TermK.struc "alice" [], TermK.struc "bob" []], []⟩, ⟨TermK.struc "parent" [TermK.struc "bob" [], TermK.struc "carol" []], []⟩, ⟨TermK.struc "parent" [TermK.struc "alice" [], TermK.struc "dana" []], []⟩, ⟨TermK.struc "ancestor" [TermK.var 0, TermK.var 1], [TermK.struc "parent" [TermK.var 0, TermK.var 1]]⟩, ⟨TermK.struc "ancestor" [TermK.var 2, TermK.var 3], [TermK.struc "parent" [TermK.var 2, TermK.var 4], TermK.struc "ancestor" [TermK.var 4, TermK.var 3]]⟩] [("A", 5)] (TermK.struc "ancestor" [TermK.var 10, TermK.var 9]) [] (⟨[(10, TermK.struc "carol" []), (8, TermK.struc "bob" []), (9, TermK.struc "carol" []), (5, TermK.var 8)], [10, 8, 9, 5], 21, "A = bob\nA = alice\n", 2⟩ : EngineState) = some (⟨[(10, TermK.struc "carol" []), (8, TermK.struc "bob" []), (9, TermK.struc "carol" []), (5, TermK.var 8)], [10, 8, 9, 5], 26, "A = bob\nA = alice\n", 2⟩ : EngineState) := tryClauses_step_skip 89 kbDemo ⟨TermK.struc "parent" [TermK.struc "alice" [], TermK.struc "bob" []], []⟩ [⟨TermK.struc "parent" [TermK.struc "bob" [], TermK.struc "carol" []], []⟩, ⟨TermK.struc "parent" [TermK.struc "alice" [], TermK.struc "dana" []], []⟩, ⟨TermK.struc "ancestor" [TermK.var 0, TermK.var 1], [TermK.struc "parent" [TermK.var 0, TermK.var 1]]⟩, ⟨TermK.struc "ancestor" [TermK.var 2, TermK.var 3], [TermK.struc "parent" [TermK.var 2, TermK.var 4], TermK.struc "ancestor" [TermK.var 4, TermK.var 3]]⟩] [("A", 5)] (TermK.struc "ancestor" [TermK.var 10, TermK.var 9]) [] (⟨[(10, TermK.struc "carol" []), (8, TermK.struc "bob" []), (9, TermK.struc "carol" []), (5, TermK.var 8)], [10, 8, 9, 5], 21, "A = bob\nA = alice\n", 2⟩ : EngineState) (⟨[(10, TermK.struc "carol" []), (8, TermK.struc "bob" []), (9, TermK.struc "carol" []), (5, TermK.var 8)], [10, 8, 9, 5], 26, "A = bob\nA = alice\n", 2⟩ : EngineState) rfl hc70
  have hc72 : solve 91 kbDemo [("A", 5)] [TermK.struc "ancestor" [TermK.var 10, TermK.var 9]] (⟨[(10, TermK.struc "carol" []), (8, TermK.struc "bob" []), (9, TermK.struc "carol" []), (5, TermK.var 8)], [10, 8, 9, 5], 21, "A = bob\nA = alice\n", 2⟩ : EngineState) = some (⟨[(10, TermK.struc "carol" []), (8, TermK.struc "bob" []), (9, TermK.struc "carol" []), (5, TermK.var 8)], [10, 8, 9, 5], 26, "A = bob\nA = alice\n", 2⟩ : EngineState) := solve_step_goal 90 kbDemo [("A", 5)] (TermK.struc "ancestor" [TermK.var 10, TermK.var 9]) [] (⟨[(10, TermK.struc "carol" []), (8, TermK.struc "bob" []), (9, TermK.struc "carol" []), (5, TermK.var 8)], [10, 8, 9, 5], 21, "A = bob\nA = alice\n", 2⟩ : EngineState) (⟨[(10, TermK.struc "carol" []), (8, TermK.struc "bob" []), (9, TermK.struc "carol" []), (5, TermK.var 8)], [10, 8, 9, 5], 21, "A = bob\nA = alice\n", 2⟩ : EngineState) (⟨[(10, TermK.struc "carol" []), (8, TermK.struc "bob" []), (9, TermK.struc "carol" []), (5, TermK.var 8)], [10, 8, 9, 5], 26, "A = bob\nA = alice\n", 2⟩ : EngineState) rfl hc71
  have hc73 : tryClauses 79 kbDemo [] [("A", 5)] (TermK.struc "parent" [TermK.var 26, TermK.var 27]) [] (⟨[(27, TermK.struc "carol" []), (26, TermK.struc "dana" []), (10, TermK.struc "dana" []), (8, TermK.struc "alice" []), (9, TermK.struc "carol" []), (5, TermK.var 8)], [27, 26, 10, 8, 9, 5], 28, "A = bob\nA = alice\n", 2⟩ : EngineState) = some (⟨[(27, TermK.struc "carol" []), (26, TermK.struc "dana" []), (10, TermK.struc "dana" []), (8, TermK.struc "alice" []), (9, TermK.struc "carol" []), (5, TermK.var 8)], [27, 26, 10, 8, 9, 5], 28, "A = bob\nA = alice\n", 2⟩ : EngineState) := rfl
  have hc74 : tryClauses 80 kbDemo [⟨TermK.struc "ancestor" [TermK.var 2, TermK.var 3], [TermK.struc "parent" [TermK.var 2, TermK.var 4], TermK.struc "ancestor" [TermK.var 4, TermK.var 3]]⟩] [("A", 5)] (TermK.struc "parent" [TermK.var 26, TermK.var 27]) [] (⟨[(27, TermK.struc "carol" []), (26, TermK.struc "dana" []), (10, TermK.struc "dana" []), (8, TermK.struc "alice" []), (9, TermK.struc "carol" []), (5, TermK.var 8)], [27, 26, 10, 8, 9, 5], 28, "A = bob\nA = alice\n", 2⟩ : EngineState) = some (⟨[(27, TermK.struc "carol" []), (26, TermK.struc "dana" []), (10, TermK.struc "dana" []), (8, TermK.struc "alice" []), (9, TermK.struc "carol" []), (5, TermK.var 8)], [27, 26, 10, 8, 9, 5], 28, "A = bob\nA = alice\n", 2⟩ : EngineState) := tryClauses_step_skip 79 kbDemo ⟨TermK.struc "ancestor" [TermK.var 2, TermK.var 3], [TermK.struc "parent" [TermK.var 2, TermK.var 4], TermK.struc "ancestor" [TermK.var 4, TermK.var 3]]⟩ [] [("A", 5)] (TermK.struc "parent" [TermK.var 26, TermK.var 27]) [] (⟨[(27, TermK.struc "carol" []), (26, TermK.struc "dana" []), (10, TermK.struc "dana" []), (8, TermK.struc "alice" []), (9, TermK.struc "carol" []), (5, TermK.var 8)], [27, 26, 10, 8, 9, 5], 28, "A = bob\nA = alice\n", 2⟩ : EngineState) (⟨[(27, TermK.struc "carol" []), (26, TermK.struc "dana" []), (10, TermK.struc "dana" []), (8, TermK.struc "alice" []), (9, TermK.struc "carol" []), (5, TermK.var 8)], [27, 26, 10, 8, 9, 5], 28, "A = bob\nA = alice\n", 2⟩ : EngineState) rfl hc73
  have hc75 : tryClauses 81 kbDemo [⟨TermK.struc "ancestor" [TermK.var 0, TermK.var 1], [TermK.struc "parent" [TermK.var 0, TermK.var 1]]⟩, ⟨TermK.struc "ancestor" [TermK.var 2, TermK.var 3], [TermK.struc "parent" [TermK.var 2, TermK.var 4], TermK.struc "ancestor" [TermK.var 4, TermK.var 3]]⟩] [("A", 5)] (TermK.struc "parent" [TermK.var 26, TermK.var 27]) [] (⟨[(27, TermK.struc "carol" []), (26, TermK.struc "dana" []), (10, TermK.struc "dana" []), (8, TermK.struc "alice" []), (9, TermK.struc "carol" []), (5, TermK.var 8)], [27, 26, 10, 8, 9, 5], 28, "A = bob\nA = alice\n", 2⟩ : EngineState) = some (⟨[(27, TermK.struc "carol" []), (26, TermK.struc "dana" []), (10, TermK.struc "dana" []), (8, TermK.struc "alice" []), (9, TermK.struc "carol" []), (5, TermK.var 8)], [27, 26, 10, 8, 9, 5], 28, "A = bob\nA = alice\n", 2⟩ : EngineState) := tryClauses_step_skip 80 kbDemo ⟨TermK.struc "ancestor" [TermK.var 0, TermK.var 1], [TermK.struc "parent" [TermK.var 0, TermK.var 1]]⟩ [⟨TermK.struc "ancestor" [TermK.var 2, TermK.var 3], [TermK.struc "parent" [TermK.var 2, TermK.var 4], TermK.struc "ancestor" [TermK.var 4, TermK.var 3]]⟩] [("A", 5)] (TermK.struc "parent" [TermK.var 26, TermK.var 27]) [] (⟨[(27, TermK.struc "carol" []), (26, TermK.struc "dana" []), (10, TermK.struc "dana" []), (8, TermK.struc "alice" []), (9, TermK.struc "carol" []), (5, TermK.var 8)], [27, 26, 10, 8, 9, 5], 28, "A = bob\nA = alice\n", 2⟩ : EngineState) (⟨[(27, TermK.struc "carol" []), (26, TermK.struc "dana" []), (10, TermK.struc "dana" []), (8, TermK.struc "alice" []), (9, TermK.struc "carol" []), (5, TermK.var 8)], [27, 26, 10, 8, 9, 5], 28, "A = bob\nA = alice\n", 2⟩ : EngineState) rfl hc74
  have hc76 : tryClauses 82 kbDemo [⟨TermK.struc "parent" [TermK.struc "alice" [], TermK.struc "dana" []], []⟩, ⟨TermK.struc "ancestor" [TermK.var 0, TermK.var 1], [TermK.struc "parent" [TermK.var 0, TermK.var 1]]⟩, ⟨TermK.struc "ancestor" [TermK.var 2, TermK.var 3], [TermK.struc "parent" [TermK.var 2, TermK.var 4], TermK.struc "ancestor" [TermK.var 4, TermK.var 3]]⟩] [("A", 5)] (TermK.struc "parent" [TermK.var 26, TermK.var 27]) [] (⟨[(27, TermK.struc "carol" []), (26, TermK.struc "dana" []), (10, TermK.struc "dana" []), (8, TermK.struc "alice" []), (9, TermK.struc "carol" []), (5, TermK.var 8)], [27, 26, 10, 8, 9, 5], 28, "A = bob\nA = alice\n", 2⟩ : EngineState) = some (⟨[(27, TermK.struc "carol" []), (26, TermK.struc "dana" []), (10, TermK.struc "dana" []), (8, TermK.struc "alice" []), (9, TermK.struc "carol" []), (5, TermK.var 8)], [27, 26, 10, 8, 9, 5], 28, "A = bob\nA = alice\n", 2⟩ : EngineState) := tryClauses_step_nomatch 81 kbDemo ⟨TermK.struc "parent" [TermK.struc "alice" [], TermK.struc "dana" []], []⟩ [⟨TermK.struc "ancestor" [TermK.var 0, TermK.var 1], [TermK.struc "parent" [TermK.var 0, TermK.var 1]]⟩, ⟨TermK.struc "ancestor" [TermK.var 2, TermK.var 3], [TermK.struc "parent" [TermK.var 2, TermK.var 4], TermK.struc "ancestor" [TermK.var 4, TermK.var 3]]⟩] [("A", 5)] (TermK.struc "parent" [TermK.var 26, TermK.var 27]) [] (⟨[(27, TermK.struc "carol" []), (26, TermK.struc "dana" []), (10, TermK.struc "dana" []), (8, TermK.struc "alice" []), (9, TermK.struc "carol" []), (5, TermK.var 8)], [27, 26, 10, 8, 9, 5], 28, "A = bob\nA = alice\n", 2⟩ : EngineState) (TermK.struc "parent" [TermK.var 26, TermK.var 27]) (TermK.struc "parent" [TermK.struc "alice" [], TermK.struc "dana" []]) [] 28 (⟨[(27, TermK.struc "carol" []), (26, TermK.struc "dana" []), (10, TermK.struc "dana" []), (8, TermK.struc "alice" []), (9, TermK.struc "carol" []), (5, TermK.var 8)], [27, 26, 10, 8, 9, 5], 28, "A = bob\nA = alice\n", 2⟩ : EngineState) (⟨[(27, TermK.struc "carol" []), (26, TermK.struc "dana" []), (10, TermK.struc "dana" []), (8, TermK.struc "alice" []), (9, TermK.struc "carol" []), (5, TermK.var 8)], [27, 26, 10, 8, 9, 5], 28, "A = bob\nA = alice\n", 2⟩ : EngineState) rfl rfl rfl rfl hc75
  have hc77 : tryClauses 83 kbDemo [⟨TermK.struc "parent" [TermK.struc "bob" [], TermK.struc "carol" []], []⟩, ⟨TermK.struc "parent" [TermK.struc "alice" [], TermK.struc "dana" []], []⟩, ⟨TermK.struc "ancestor" [TermK.var 0, TermK.var 1], [TermK.struc "parent" [TermK.var 0, TermK.var 1]]⟩, ⟨TermK.struc "ancestor" [TermK.var 2, TermK.var 3], [TermK.struc "parent" [TermK.var 2, TermK.var 4], TermK.struc "ancestor" [TermK.var 4, TermK.var 3]]⟩] [("A", 5)] (TermK.struc "parent" [TermK.var 26, TermK.var 27]) [] (⟨[(27, TermK.struc "carol" []), (26, TermK.struc "dana" []), (10, TermK.struc "dana" []), (8, TermK.struc "alice" []), (9, TermK.struc "carol" []), (5, TermK.var 8)], [27, 26, 10, 8, 9, 5], 28, "A = bob\nA = alice\n", 2⟩ : EngineState) = some (⟨[(27, TermK.struc "carol" []), (26, TermK.struc "dana" []), (10, TermK.struc "dana" []), (8, TermK.struc "alice" []), (9, TermK.struc "carol" []), (5, TermK.var 8)], [27, 26, 10, 8, 9, 5], 28, "A = bob\nA = alice\n", 2⟩ : EngineState) := tryClauses_step_nomatch 82 kbDemo ⟨TermK.struc "parent" [TermK.struc "bob" [], TermK.struc "carol" []], []⟩ [⟨TermK.struc "parent" [TermK.struc "alice" [], TermK.struc "dana" []], []⟩, ⟨TermK.struc "ancestor" [TermK.var 0, TermK.var 1], [TermK.struc "parent" [TermK.var 0, TermK.var 1]]⟩, ⟨TermK.struc "ancestor" [TermK.var 2, TermK.var 3], [TermK.struc "parent" [TermK.var 2, TermK.var 4], TermK.struc "ancestor" [TermK.var 4, TermK.var 3]]⟩] [("A", 5)] (TermK.struc "parent" [TermK.var 26, TermK.var 27]) [] (⟨[(27, TermK.struc "carol" []), (26, TermK.struc "dana" []), (10, TermK.struc "dana" []), (8, TermK.struc "alice" []), (9, TermK.struc "carol" []), (5, TermK.var 8)], [27, 26, 10, 8, 9, 5], 28, "A = bob\nA = alice\n", 2⟩ : EngineState) (TermK.struc "parent" [TermK.var 26, TermK.var 27]) (TermK.struc "parent" [TermK.struc "bob" [], TermK.struc "carol" []]) [] 28 (⟨[(27, TermK.struc "carol" []), (26, TermK.struc "dana" []), (10, TermK.struc "dana" []), (8, TermK.struc "alice" []), (9, TermK.struc "carol" []), (5, TermK.var 8)], [27, 26, 10, 8, 9, 5], 28, "A = bob\nA = alice\n", 2⟩ : EngineState) (⟨[(27, TermK.struc "carol" []), (26, TermK.struc "dana" []), (10, TermK.struc "dana" []), (8, TermK.struc "alice" []), (9, TermK.struc "carol" []), (5, TermK.var 8)], [27, 26, 10, 8, 9, 5], 28, "A = bob\nA = alice\n", 2⟩ : EngineState) rfl rfl rfl rfl hc76
  have hc78 : tryClauses 84 kbDemo [⟨TermK.struc "parent" [TermK.struc "alice" [], TermK.struc "bob" []], []⟩, ⟨TermK.struc "parent" [TermK.struc "bob" [], TermK.struc "carol" []], []⟩, ⟨TermK.struc "parent" [TermK.struc "alice" [], TermK.struc "dana" []], []⟩, ⟨TermK.struc "ancestor" [TermK.var 0, TermK.var 1], [TermK.struc "parent" [TermK.var 0, TermK.var 1]]⟩, ⟨TermK.struc "ancestor" [TermK.var 2, TermK.var 3], [TermK.struc "parent" [TermK.var 2, TermK.var 4], TermK.struc "ancestor" [TermK.var 4, TermK.var 3]]⟩] [("A", 5)] (TermK.struc "parent" [TermK.var 26, TermK.var 27]) [] (⟨[(27, TermK.struc "carol" []), (26, TermK.struc "dana" []), (10, TermK.struc "dana" []), (8, TermK.struc "alice" []), (9, TermK.struc "carol" []), (5, TermK.var 8)], [27, 26, 10, 8, 9, 5], 28, "A = bob\nA = alice\n", 2⟩ : EngineState) = some (⟨[(27, TermK.struc "carol" []), (26, TermK.struc "dana" []), (10, TermK.struc "dana" []), (8, TermK.struc "alice" []), (9, TermK.struc "carol" []), (5, TermK.var 8)], [27, 26, 10, 8, 9, 5], 28, "A = bob\nA = alice\n", 2⟩ : EngineState) := tryClauses_step_nomatch 83 kbDemo ⟨TermK.struc "parent" [TermK.struc "alice" [], TermK.struc "bob" []], []⟩ [⟨TermK.struc "parent" [TermK.struc "bob" [], TermK.struc "carol" []], []⟩, ⟨TermK.struc "parent" [TermK.struc "alice" [], TermK.struc "dana" []], []⟩, ⟨TermK.struc "ancestor" [TermK.var 0, TermK.var 1], [TermK.struc "parent" [TermK.var 0, TermK.var 1]]⟩, ⟨TermK.struc "ancestor" [TermK.var 2, TermK.var 3], [TermK.struc "parent" [TermK.var 2, TermK.var 4], TermK.struc "ancestor" [TermK.var 4, TermK.var 3]]⟩] [("A", 5)] (TermK.struc "parent" [TermK.var 26, TermK.var 27]) [] (⟨[(27, TermK.struc "carol" []), (26, TermK.struc "dana" []), (10, TermK.struc "dana" []), (8, TermK.struc "alice" []), (9, TermK.struc "carol" []), (5, TermK.var 8)], [27, 26, 10, 8, 9, 5], 28, "A = bob\nA = alice\n", 2⟩ : EngineState) (TermK.struc "parent" [TermK.var 26, TermK.var 27]) (TermK.struc "parent" [TermK.struc "alice" [], TermK.struc "bob" []]) [] 28 (⟨[(27, TermK.struc "carol" []), (26, TermK.struc "dana" []), (10, TermK.struc "dana" []), (8, TermK.struc "alice" []), (9, TermK.struc "carol" []), (5, TermK.var 8)], [27, 26, 10, 8, 9, 5], 28, "A = bob\nA = alice\n", 2⟩ : EngineState) (⟨[(27, TermK.struc "carol" []), (26, TermK.struc "dana" []), (10, TermK.struc "dana" []), (8, TermK.struc "alice" []), (9, TermK.struc "carol" []), (5, TermK.var 8)], [27, 26, 10, 8, 9, 5], 28, "A = bob\nA = alice\n", 2⟩ : EngineState) rfl rfl rfl rfl hc77
  have hc79 : solve 85 kbDemo [("A", 5)] [TermK.struc "parent" [TermK.var 26, TermK.var 27]] (⟨[(27, TermK.struc "carol" []), (26, TermK.struc "dana" []), (10, TermK.struc "dana" []), (8, TermK.struc "alice" []), (9, TermK.struc "carol" []), (5, TermK.var 8)], [27, 26, 10, 8, 9, 5], 28, "A = bob\nA = alice\n", 2⟩ : EngineState) = some (⟨[(27, TermK.struc "carol" []), (26, TermK.struc "dana" []), (10, TermK.struc "dana" []), (8, TermK.struc "alice" []), (9, TermK.struc "carol" []), (5, TermK.var 8)], [27, 26, 10, 8, 9, 5], 28, "A = bob\nA = alice\n", 2⟩ : EngineState) := solve_step_goal 84 kbDemo [("A", 5)] (TermK.struc "parent" [TermK.var 26, TermK.var 27]) [] (⟨[(27, TermK.struc "carol" []), (26, TermK.struc "dana" []), (10, TermK.struc "dana" []), (8, TermK.struc "alice" []), (9, TermK.struc "carol" []), (5, TermK.var 8)], [27, 26, 10, 8, 9, 5], 28, "A = bob\nA = alice\n", 2⟩ : EngineState) (⟨[(27, TermK.struc "carol" []), (26, TermK.struc "dana" []), (10, TermK.struc "dana" []), (8, TermK.struc "alice" []), (9, TermK.struc "carol" []), (5, TermK.var 8)], [27, 26, 10, 8, 9, 5], 28, "A = bob\nA = alice\n", 2⟩ : EngineState) (⟨[(27, TermK.struc "carol" []), (26, TermK.struc "dana" []), (10, TermK.struc "dana" []), (8, TermK.struc "alice" []), (9, TermK.struc "carol" []), (5, TermK.var 8)], [27, 26, 10, 8, 9, 5], 28, "A = bob\nA = alice\n", 2⟩ : EngineState) rfl hc78
  have hc80 : tryClauses 78 kbDemo [] [("A", 5)] (TermK.struc "parent" [TermK.var 28, TermK.var 30]) [TermK.struc "ancestor" [TermK.var 30, TermK.var 29]] (⟨[(29, TermK.struc "carol" []), (28, TermK.struc "dana" []), (10, TermK.struc "dana" []), (8, TermK.struc "alice" []), (9, TermK.struc "carol" []), (5, TermK.var 8)], [29, 28, 10, 8, 9, 5], 31, "A = bob\nA = alice\n", 2⟩ : EngineState) = some (⟨[(29, TermK.struc "carol" []), (28, TermK.struc "dana" []), (10, TermK.struc "dana" []), (8, TermK.struc "alice" []), (9, TermK.struc "carol" []), (5, TermK.var 8)], [29, 28, 10, 8, 9, 5], 31, "A = bob\nA = alice\n", 2⟩ : EngineState) := rfl
  have hc81 : tryClauses 79 kbDemo [⟨TermK.struc "ancestor" [TermK.var 2, TermK.var 3], [TermK.struc "parent" [TermK.var 2, TermK.var 4], TermK.struc "ancestor" [TermK.var 4, TermK.var 3]]⟩] [("A", 5)] (TermK.struc "parent" [TermK.var 28, TermK.var 30]) [TermK.struc "ancestor" [TermK.var 30, TermK.var 29]] (⟨[(29, TermK.struc "carol" []), (28, TermK.struc "dana" []), (10, TermK.struc "dana" []), (8, TermK.struc "alice" []), (9, TermK.struc "carol" []), (5, TermK.var 8)], [29, 28, 10, 8, 9, 5], 31, "A = bob\nA = alice\n", 2⟩ : EngineState) = some (⟨[(29, TermK.struc "carol" []), (28, TermK.struc "dana" []), (10, TermK.struc "dana" []), (8, TermK.struc "alice" []), (9, TermK.struc "carol" []), (5, TermK.var 8)], [29, 28, 10, 8, 9, 5], 31, "A = bob\nA = alice\n", 2⟩ : EngineState) := tryClauses_step_skip 78 kbDemo ⟨TermK.struc "ancestor" [TermK.var 2, TermK.var 3], [TermK.struc "parent" [TermK.var 2, TermK.var 4], TermK.struc "ancestor" [TermK.var 4, TermK.var 3]]⟩ [] [("A", 5)] (TermK.struc "parent" [TermK.var 28, TermK.var 30]) [TermK.struc "ancestor" [TermK.var 30, TermK.var 29]] (⟨[(29, TermK.struc "carol" []), (28, TermK.struc "dana" []), (10, TermK.struc "dana" []), (8, TermK.struc "alice" []), (9, TermK.struc "carol" []), (5, TermK.var 8)], [29, 28, 10, 8, 9, 5], 31, "A = bob\nA = alice\n", 2⟩ : EngineState) (⟨[(29, TermK.struc "carol" []), (28, TermK.struc "dana" []), (10, TermK.struc "dana" []), (8, TermK.struc "alice" []), (9, TermK.struc "carol" []), (5, TermK.var 8)], [29, 28, 10, 8, 9, 5], 31, "A = bob\nA = alice\n", 2⟩ : EngineState) rfl hc80
  have hc82 : tryClauses 80 kbDemo [⟨TermK.struc "ancestor" [TermK.var 0, TermK.var 1], [TermK.struc "parent" [TermK.var 0, TermK.var 1]]⟩, ⟨TermK.struc "ancestor" [TermK.var 2, TermK.var 3], [TermK.struc "parent" [TermK.var 2, TermK.var 4], TermK.struc "ancestor" [TermK.var 4, TermK.var 3]]⟩] [("A", 5)] (TermK.struc "parent" [TermK.var 28, TermK.var 30]) [TermK.struc "ancestor" [TermK.var 30, TermK.var 29]] (⟨[(29, TermK.struc "carol" []), (28, TermK.struc "dana" []), (10, TermK.struc "dana" []), (8, TermK.struc "alice" []), (9, TermK.struc "carol" []), (5, TermK.var 8)], [29, 28, 10, 8, 9, 5], 31, "A = bob\nA = alice\n", 2⟩ : EngineState) = some (⟨[(29, TermK.struc "carol" []), (28, TermK.struc "dana" []), (10, TermK.struc "dana" []), (8, TermK.struc "alice" []), (9, TermK.struc "carol" []), (5, TermK.var 8)], [29, 28, 10, 8, 9, 5], 31, "A = bob\nA = alice\n", 2⟩ : EngineState) := tryClauses_step_skip 79 kbDemo ⟨TermK.struc "ancestor" [TermK.var 0, TermK.var 1], [TermK.struc "parent" [TermK.var 0, TermK.var 1]]⟩ [⟨TermK.struc "ancestor" [TermK.var 2, TermK.var 3], [TermK.struc "parent" [TermK.var 2, TermK.var 4], TermK.struc "ancestor" [TermK.var 4, TermK.var 3]]⟩] [("A", 5)] (TermK.struc "parent" [TermK.var 28, TermK.var 30]) [TermK.struc "ancestor" [TermK.var 30, TermK.var 29]] (⟨[(29, TermK.struc "carol" []), (28, TermK.struc "dana" []), (10, TermK.struc "dana" []), (8, TermK.struc "alice" []), (9, TermK.struc "carol" []), (5, TermK.var 8)], [29, 28, 10, 8, 9, 5], 31, "A = bob\nA = alice\n", 2⟩ : EngineState) (⟨[(29, TermK.struc "carol" []), (28, TermK.struc "dana" []), (10, TermK.struc "dana" []), (8, TermK.struc "alice" []), (9, TermK.struc "carol" []), (5, TermK.var 8)], [29, 28, 10, 8, 9, 5], 31, "A = bob\nA = alice\n", 2⟩ : EngineState) rfl hc81
  have hc83 : tryClauses 81 kbDemo [⟨TermK.struc "parent" [TermK.struc "alice" [], TermK.struc "dana" []], []⟩, ⟨TermK.struc "ancestor" [TermK.var 0, TermK.var 1], [TermK.struc "parent" [TermK.var 0, TermK.var 1]]⟩, ⟨TermK.struc "ancestor" [TermK.var 2, TermK.var 3], [TermK.struc "parent" [TermK.var 2, TermK.var 4], TermK.struc "ancestor" [TermK.var 4, TermK.var 3]]⟩] [("A", 5)] (TermK.struc "parent" [TermK.var 28, TermK.var 30]) [TermK.struc "ancestor" [TermK.var 30, TermK.var 29]] (⟨[(29, TermK.struc "carol" []), (28, TermK.struc "dana" []), (10, TermK.struc "dana" []), (8, TermK.struc "alice" []), (9, TermK.struc "carol" []), (5, TermK.var 8)], [29, 28, 10, 8, 9, 5], 31, "A = bob\nA = alice\n", 2⟩ : EngineState) = some (⟨[(29, TermK.struc "carol" []), (28, TermK.struc "dana" []), (10, TermK.struc "dana" []), (8, TermK.struc "alice" []), (9, TermK.struc "carol" []), (5, TermK.var 8)], [29, 28, 10, 8, 9, 5], 31, "A = bob\nA = alice\n", 2⟩ : EngineState) := tryClauses_step_nomatch 80 kbDemo ⟨TermK.struc "parent" [TermK.struc "alice" [], TermK.struc "dana" []], []⟩ [⟨TermK.struc "ancestor" [TermK.var 0, TermK.var 1], [TermK.struc "parent" [TermK.var 0, TermK.var 1]]⟩, ⟨TermK.struc "ancestor" [TermK.var 2, TermK.var 3], [TermK.struc "parent" [TermK.var 2, TermK.var 4], TermK.struc "ancestor" [TermK.var 4, TermK.var 3]]⟩] [("A", 5)] (TermK.struc "parent" [TermK.var 28, TermK.var 30]) [TermK.struc "ancestor" [TermK.var 30, TermK.var 29]] (⟨[(29, TermK.struc "carol" []), (28, TermK.struc "dana" []), (10, TermK.struc "dana" []), (8, TermK.struc "alice" []), (9, TermK.struc "carol" []), (5, TermK.var 8)], [29, 28, 10, 8, 9, 5], 31, "A = bob\nA = alice\n", 2⟩ : EngineState) (TermK.struc "parent" [TermK.var 28, TermK.var 30]) (TermK.struc "parent" [TermK.struc "alice" [], TermK.struc "dana" []]) [] 31 (⟨[(29, TermK.struc "carol" []), (28, TermK.struc "dana" []), (10, TermK.struc "dana" []), (8, TermK.struc "alice" []), (9, TermK.struc "carol" []), (5, TermK.var 8)], [29, 28, 10, 8, 9, 5], 31, "A = bob\nA = alice\n", 2⟩ : EngineState) (⟨[(29, TermK.struc "carol" []), (28, TermK.struc "dana" []), (10, TermK.struc "dana" []), (8, TermK.struc "alice" []), (9, TermK.struc "carol" []), (5, TermK.var 8)], [29, 28, 10, 8, 9, 5], 31, "A = bob\nA = alice\n", 2⟩ : EngineState) rfl rfl rfl rfl hc82
  have hc84 : tryClauses 82 kbDemo [⟨TermK.struc "parent" [TermK.struc "bob" [], TermK.struc "carol" []], []⟩, ⟨TermK.struc "parent" [TermK.struc "alice" [], TermK.struc "dana" []], []⟩, ⟨TermK.struc "ancestor" [TermK.var 0, TermK.var 1], [TermK.struc "parent" [TermK.var 0, TermK.var 1]]⟩, ⟨TermK.struc "ancestor" [TermK.var 2, TermK.var 3], [TermK.struc "parent" [TermK.var 2, TermK.var 4], TermK.struc "ancestor" [TermK.var 4, TermK.var 3]]⟩] [("A", 5)] (TermK.struc "parent" [TermK.var 28, TermK.var 30]) [TermK.struc "ancestor" [TermK.var 30, TermK.var 29]] (⟨[(29, TermK.struc "carol" []), (28, TermK.struc "dana" []), (10, TermK.struc "dana" []), (8, TermK.struc "alice" []), (9, TermK.struc "carol" []), (5, TermK.var 8)], [29, 28, 10, 8, 9, 5], 31, "A = bob\nA = alice\n", 2⟩ : EngineState) = some (⟨[(29, TermK.struc "carol" []), (28, TermK.struc "dana" []), (10, TermK.struc "dana" []), (8, TermK.struc "alice" []), (9, TermK.struc "carol" []), (5, TermK.var 8)], [29, 28, 10, 8, 9, 5], 31, "A = bob\nA = alice\n", 2⟩ : EngineState) := tryClauses_step_nomatch 81 kbDemo ⟨TermK.struc "parent" [TermK.struc "bob" [], TermK.struc "carol" []], []⟩ [⟨TermK.struc "parent" [TermK.struc "alice" [], TermK.struc "dana" []], []⟩, ⟨TermK.struc "ancestor" [TermK.var 0, TermK.var 1], [TermK.struc "parent" [TermK.var 0, TermK.var 1]]⟩, ⟨TermK.struc "ancestor" [TermK.var 2, TermK.var 3], [TermK.struc "parent" [TermK.var 2, TermK.var 4], TermK.struc "ancestor" [TermK.var 4, TermK.var 3]]⟩] [("A", 5)] (TermK.struc "parent" [TermK.var 28, TermK.var 30]) [TermK.struc "ancestor" [TermK.var 30, TermK.var 29]] (⟨[(29, TermK.struc "carol" []), (28, TermK.struc "dana" []), (10, TermK.struc "dana" []), (8, TermK.struc "alice" []), (9, TermK.struc "carol" []), (5, TermK.var 8)], [29, 28, 10, 8, 9, 5], 31, "A = bob\nA = alice\n", 2⟩ : EngineState) (TermK.struc "parent" [TermK.var 28, TermK.var 30]) (TermK.struc "parent" [TermK.struc "bob" [], TermK.struc "carol" []]) [] 31 (⟨[(29, TermK.struc "carol" []), (28, TermK.struc "dana" []), (10, TermK.struc "dana" []), (8, TermK.struc "alice" []), (9, TermK.struc "carol" []), (5, TermK.var 8)], [29, 28, 10, 8, 9, 5], 31, "A = bob\nA = alice\n", 2⟩ : EngineState) (⟨[(29, TermK.struc "carol" []), (28, TermK.struc "dana" []), (10, TermK.struc "dana" []), (8, TermK.struc "alice" []), (9, TermK.struc "carol" []), (5, TermK.var 8)], [29, 28, 10, 8, 9, 5], 31, "A = bob\nA = alice\n", 2⟩ : EngineState) rfl rfl rfl rfl hc83
  have hc85 : tryClauses 83 kbDemo [⟨TermK.struc "parent" [TermK.struc "alice" [], TermK.struc "bob" []], []⟩, ⟨TermK.struc "parent" [TermK.struc "bob" [], TermK.struc "carol" []], []⟩, ⟨TermK.struc "parent" [TermK.struc "alice" [], TermK.struc "dana" []], []⟩, ⟨TermK.struc "ancestor" [TermK.var 0, TermK.var 1], [TermK.struc "parent" [TermK.var 0, TermK.var 1]]⟩, ⟨TermK.struc "ancestor" [TermK.var 2, TermK.var 3], [TermK.struc "parent" [TermK.var 2, TermK.var 4], TermK.struc "ancestor" [TermK.var 4, TermK.var 3]]⟩] [("A", 5)] (TermK.struc "parent" [TermK.var 28, TermK.var 30]) [TermK.struc "ancestor" [TermK.var 30, TermK.var 29]] (⟨[(29, TermK.struc "carol" []), (28, TermK.struc "dana" []), (10, TermK.struc "dana" []), (8, TermK.struc "alice" []), (9, TermK.struc "carol" []), (5, TermK.var 8)], [29, 28, 10, 8, 9, 5], 31, "A = bob\nA = alice\n", 2⟩ : EngineState) = some (⟨[(29, TermK.struc "carol" []), (28, TermK.struc "dana" []), (10, TermK.struc "dana" []), (8, TermK.struc "alice" []), (9, TermK.struc "carol" []), (5, TermK.var 8)], [29, 28, 10, 8, 9, 5], 31, "A = bob\nA = alice\n", 2⟩ : EngineState) := tryClauses_step_nomatch 82 kbDemo ⟨TermK.struc "parent" [TermK.struc "alice" [], TermK.struc "bob" []], []⟩ [⟨TermK.struc "parent" [TermK.struc "bob" [], TermK.struc "carol" []], []⟩, ⟨TermK.struc "parent" [TermK.struc "alice" [], TermK.struc "dana" []], []⟩, ⟨TermK.struc "ancestor" [TermK.var 0, TermK.var 1], [TermK.struc "parent" [TermK.var 0, TermK.var 1]]⟩, ⟨TermK.struc "ancestor" [TermK.var 2, TermK.var 3], [TermK.struc "parent" [TermK.var 2, TermK.var 4], TermK.struc "ancestor" [TermK.var 4, TermK.var 3]]⟩] [("A", 5)] (TermK.struc "parent" [TermK.var 28, TermK.var 30]) [TermK.struc "ancestor" [TermK.var 30, TermK.var 29]] (⟨[(29, TermK.struc "carol" []), (28, TermK.struc "dana" []), (10, TermK.struc "dana" []), (8, TermK.struc "alice" []), (9, TermK.struc "carol" []), (5, TermK.var 8)], [29, 28, 10, 8, 9, 5], 31, "A = bob\nA = alice\n", 2⟩ : EngineState) (TermK.struc "parent" [TermK.var 28, TermK.var 30]) (TermK.struc "parent" [TermK.struc "alice" [], TermK.struc "bob" []]) [] 31 (⟨[(29, TermK.struc "carol" []), (28, TermK.struc "dana" []), (10, TermK.struc "dana" []), (8, TermK.struc "alice" []), (9, TermK.struc "carol" []), (5, TermK.var 8)], [29, 28, 10, 8, 9, 5], 31, "A = bob\nA = alice\n", 2⟩ : EngineState) (⟨[(29, TermK.struc "carol" []), (28, TermK.struc "dana" []), (10, TermK.struc "dana" []), (8, TermK.struc "alice" []), (9, TermK.struc "carol" []), (5, TermK.var 8)], [29, 28, 10, 8, 9, 5], 31, "A = bob\nA = alice\n", 2⟩ : EngineState) rfl rfl rfl rfl hc84
  have hc86 : solve 84 kbDemo [("A", 5)] [TermK.struc "parent" [TermK.var 28, TermK.var 30], TermK.struc "ancestor" [TermK.var 30, TermK.var 29]] (⟨[(29, TermK.struc "carol" []), (28, TermK.struc "dana" []), (10, TermK.struc "dana" []), (8, TermK.struc "alice" []), (9, TermK.struc "carol" []), (5, TermK.var 8)], [29, 28, 10, 8, 9, 5], 31, "A = bob\nA = alice\n", 2⟩ : EngineState) = some (⟨[(29, TermK.struc "carol" []), (28, TermK.struc "dana" []), (10, TermK.struc "dana" []), (8, TermK.struc "alice" []), (9, TermK.struc "carol" []), (5, TermK.var 8)], [29, 28, 10, 8, 9, 5], 31, "A = bob\nA = alice\n", 2⟩ : EngineState) := solve_step_goal 83 kbDemo [("A", 5)] (TermK.struc "parent" [TermK.var 28, TermK.var 30]) [TermK.struc "ancestor" [TermK.var 30, TermK.var 29]] (⟨[(29, TermK.struc "carol" []), (28, TermK.struc "dana" []), (10, TermK.struc "dana" []), (8, TermK.struc "alice" []), (9, TermK.struc "carol" []), (5, TermK.var 8)], [29, 28, 10, 8, 9, 5], 31, "A = bob\nA = alice\n", 2⟩ : EngineState) (⟨[(29, TermK.struc "carol" []), (28, TermK.struc "dana" []), (10, TermK.struc "dana" []), (8, TermK.struc "alice" []), (9, TermK.struc "carol" []), (5, TermK.var 8)], [29, 28, 10, 8, 9, 5], 31, "A = bob\nA = alice\n", 2⟩ : EngineState) (⟨[(29, TermK.struc "carol" []), (28, TermK.struc "dana" []), (10, TermK.struc "dana" []), (8, TermK.struc "alice" []), (9, TermK.struc "carol" []), (5, TermK.var 8)], [29, 28, 10, 8, 9, 5], 31, "A = bob\nA = alice\n", 2⟩ : EngineState) rfl hc85
  have hc87 : tryClauses 84 kbDemo [] [("A", 5)] (TermK.struc "ancestor" [TermK.var 10, TermK.var 9]) [] (⟨[(10, TermK.struc "dana" []), (8, TermK.struc "alice" []), (9, TermK.struc "carol" []), (5, TermK.var 8)], [10, 8, 9, 5], 31, "A = bob\nA = alice\n", 2⟩ : EngineState) = some (⟨[(10, TermK.struc "dana" []), (8, TermK.struc "alice" []), (9, TermK.struc "carol" []), (5, TermK.var 8)], [10, 8, 9, 5], 31, "A = bob\nA = alice\n", 2⟩ : EngineState) := rfl
  have hc88 : tryClauses 85 kbDemo [⟨TermK.struc "ancestor" [TermK.var 2, TermK.var 3], [TermK.struc "parent" [TermK.var 2, TermK.var 4], TermK.struc "ancestor" [TermK.var 4, TermK.var 3]]⟩] [("A", 5)] (TermK.struc "ancestor" [TermK.var 10, TermK.var 9]) [] (⟨[(10, TermK.struc "dana" []), (8, TermK.struc "alice" []), (9, TermK.struc "carol" []), (5, TermK.var 8)], [10, 8, 9, 5], 28, "A = bob\nA = alice\n", 2⟩ : EngineState) = some (⟨[(10, TermK.struc "dana" []), (8, TermK.struc "alice" []), (9, TermK.struc "carol" []), (5, TermK.var 8)], [10, 8, 9, 5], 31, "A = bob\nA = alice\n", 2⟩ : EngineState) := tryClauses_step_attempt 84 kbDemo ⟨TermK.struc "ancestor" [TermK.var 2, TermK.var 3], [TermK.struc "parent" [TermK.var 2, TermK.var 4], TermK.struc "ancestor" [TermK.var 4, TermK.var 3]]⟩ [] [("A", 5)] (TermK.struc "ancestor" [TermK.var 10, TermK.var 9]) [] (⟨[(10, TermK.struc "dana" []), (8, TermK.struc "alice" []), (9, TermK.struc "carol" []), (5, TermK.var 8)], [10, 8, 9, 5], 28, "A = bob\nA = alice\n", 2⟩ : EngineState) (TermK.struc "ancestor" [TermK.var 10, TermK.var 9]) (TermK.struc "ancestor" [TermK.var 28, TermK.var 29]) [(3, 29), (2, 28)] 30 [TermK.struc "parent" [TermK.var 28, TermK.var 30], TermK.struc "ancestor" [TermK.var 30, TermK.var 29]] [(4, 30), (3, 29), (2, 28)] 31 (⟨[(29, TermK.struc "carol" []), (28, TermK.struc "dana" []), (10, TermK.struc "dana" []), (8, TermK.struc "alice" []), (9, TermK.struc "carol" []), (5, TermK.var 8)], [29, 28, 10, 8, 9, 5], 30, "A = bob\nA = alice\n", 2⟩ : EngineState) (⟨[(29, TermK.struc "carol" []), (28, TermK.struc "dana" []), (10, TermK.struc "dana" []), (8, TermK.struc "alice" []), (9, TermK.struc "carol" []), (5, TermK.var 8)], [29, 28, 10, 8, 9, 5], 31, "A = bob\nA = alice\n", 2⟩ : EngineState) (⟨[(10, TermK.struc "dana" []), (8, TermK.struc "alice" []), (9, TermK.struc "carol" []), (5, TermK.var 8)], [10, 8, 9, 5], 31, "A = bob\nA = alice\n", 2⟩ : EngineState) rfl rfl rfl rfl rfl hc86 hc87
  have hc89 : tryClauses 86 kbDemo [⟨TermK.struc "ancestor" [TermK.var 0, TermK.var 1], [TermK.struc "parent" [TermK.var 0, TermK.var 1]]⟩, ⟨TermK.struc "ancestor" [TermK.var 2, TermK.var 3], [TermK.struc "parent" [TermK.var 2, TermK.var 4], TermK.struc "ancestor" [TermK.var 4, TermK.var 3]]⟩] [("A", 5)] (TermK.struc "ancestor" [TermK.var 10, TermK.var 9]) [] (⟨[(10, TermK.struc "dana" []), (8, TermK.struc "alice" []), (9, TermK.struc "carol" []), (5, TermK.var 8)], [10, 8, 9, 5], 26, "A = bob\nA = alice\n", 2⟩ : EngineState) = some (⟨[(10, TermK.struc "dana" []), (8, TermK.struc "alice" []), (9, TermK.struc "carol" []), (5, TermK.var 8)], [10, 8, 9, 5], 31, "A = bob\nA = alice\n", 2⟩ : EngineState) := tryClauses_step_attempt 85 kbDemo ⟨TermK.struc "ancestor" [TermK.var 0, TermK.var 1], [TermK.struc "parent" [TermK.var 0, TermK.var 1]]⟩ [⟨TermK.struc "ancestor" [TermK.var 2, TermK.var 3], [TermK.struc "parent" [TermK.var 2, TermK.var 4], TermK.struc "ancestor" [TermK.var 4, TermK.var 3]]⟩] [("A", 5)] (TermK.struc "ancestor" [TermK.var 10, TermK.var 9]) [] (⟨[(10, TermK.struc "dana" []), (8, TermK.struc "alice" []), (9, TermK.struc "carol" []), (5, TermK.var 8)], [10, 8, 9, 5], 26, "A = bob\nA = alice\n", 2⟩ : EngineState) (TermK.struc "ancestor" [TermK.var 10, TermK.var 9]) (TermK.struc "ancestor" [TermK.var 26, TermK.var 27]) [(1, 27), (0, 26)] 28 [TermK.struc "parent" [TermK.var 26, TermK.var 27]] [(1, 27), (0, 26)] 28 (⟨[(27, TermK.struc "carol" []), (26, TermK.struc "dana" []), (10, TermK.struc "dana" []), (8, TermK.struc "alice" []), (9, TermK.struc "carol" []), (5, TermK.var 8)], [27, 26, 10, 8, 9, 5], 28, "A = bob\nA = alice\n", 2⟩ : EngineState) (⟨[(27, TermK.struc "carol" []), (26, TermK.struc "dana" []), (10, TermK.struc "dana" []), (8, TermK.struc "alice" []), (9, TermK.struc "carol" []), (5, TermK.var 8)], [27, 26, 10, 8, 9, 5], 28, "A = bob\nA = alice\n", 2⟩ : EngineState) (⟨[(10, TermK.struc "dana" []), (8, TermK.struc "alice" []), (9, TermK.struc "carol" []), (5, TermK.var 8)], [10, 8, 9, 5], 31, "A = bob\nA = alice\n", 2⟩ : EngineState) rfl rfl rfl rfl rfl hc79 hc88
  have hc90 : tryClauses 87 kbDemo [⟨TermK.struc "parent" [TermK.struc "alice" [], TermK.struc "dana" []], []⟩, ⟨TermK.struc "ancestor" [TermK.var 0, TermK.var 1], [TermK.struc "parent" [TermK.var 0, TermK.var 1]]⟩, ⟨TermK.struc "ancestor" [TermK.var 2, TermK.var 3], [TermK.struc "parent" [TermK.var 2, TermK.var 4], TermK.struc "ancestor" [TermK.var 4, TermK.var 3]]⟩] [("A", 5)] (TermK.struc "ancestor" [TermK.var 10, TermK.var 9]) [] (⟨[(10, TermK.struc "dana" []), (8, TermK.struc "alice" []), (9, TermK.struc "carol" []), (5, TermK.var 8)], [10, 8, 9, 5], 26, "A = bob\nA = alice\n", 2⟩ : EngineState) = some (⟨[(10, TermK.struc "dana" []), (8, TermK.struc "alice" []), (9, TermK.struc "carol" []), (5, TermK.var 8)], [10, 8, 9, 5], 31, "A = bob\nA = alice\n", 2⟩ : EngineState) := tryClauses_step_skip 86 kbDemo ⟨TermK.struc "parent" [TermK.struc "alice" [], TermK.struc "dana" []], []⟩ [⟨TermK.struc "ancestor" [TermK.var 0, TermK.var 1], [TermK.struc "parent" [TermK.var 0, TermK.var 1]]⟩, ⟨TermK.struc "ancestor" [TermK.var 2, TermK.var 3], [TermK.struc "parent" [TermK.var 2, TermK.var 4], TermK.struc "ancestor" [TermK.var 4, TermK.var 3]]⟩] [("A", 5)] (TermK.struc "ancestor" [TermK.var 10, TermK.var 9]) [] (⟨[(10, TermK.struc "dana" []), (8, TermK.struc "alice" []), (9, TermK.struc "carol" []), (5, TermK.var 8)], [10, 8, 9, 5], 26, "A = bob\nA = alice\n", 2⟩ : EngineState) (⟨[(10, TermK.struc "dana" []), (8, TermK.struc "alice" []), (9, TermK.struc "carol" []), (5, TermK.var 8)], [10, 8, 9, 5], 31, "A = bob\nA = alice\n", 2⟩ : EngineState) rfl hc89
  have hc91 : tryClauses 88 kbDemo [⟨TermK.struc "parent" [TermK.struc "bob" [], TermK.struc "carol" []], []⟩, ⟨TermK.struc "parent" [TermK.struc "alice" [], TermK.struc "dana" []], []⟩, ⟨TermK.struc "ancestor" [TermK.var 0, TermK.var 1], [TermK.struc "parent" [TermK.var 0, TermK.var 1]]⟩, ⟨TermK.struc "ancestor" [TermK.var 2, TermK.var 3], [TermK.struc "parent" [TermK.var 2, TermK.var 4], TermK.struc "ancestor" [TermK.var 4, TermK.var 3]]⟩] [("A", 5)] (TermK.struc "ancestor" [TermK.var 10, TermK.var 9]) [] (⟨[(10, TermK.struc "dana" []), (8, TermK.struc "alice" []), (9, TermK.struc "carol" []), (5, TermK.var 8)], [10, 8, 9, 5], 26, "A = bob\nA = alice\n", 2⟩ : EngineState) = some (⟨[(10, TermK.struc "dana" []), (8, TermK.struc "alice" []), (9, TermK.struc "carol" []), (5, TermK.var 8)], [10, 8, 9, 5], 31, "A = bob\nA = alice\n", 2⟩ : EngineState) := tryClauses_step_skip 87 kbDemo ⟨TermK.struc "parent" [TermK.struc "bob" [], TermK.struc "carol" []], []⟩ [⟨TermK.struc "parent" [TermK.struc "alice" [], TermK.struc "dana" []], []⟩, ⟨TermK.struc "ancestor" [TermK.var 0, TermK.var 1], [TermK.struc "parent" [TermK.var 0, TermK.var 1]]⟩, ⟨TermK.struc "ancestor" [TermK.var 2, TermK.var 3], [TermK.struc "parent" [TermK.var 2, TermK.var 4], TermK.struc "ancestor" [TermK.var 4, TermK.var 3]]⟩] [("A", 5)] (TermK.struc "ancestor" [TermK.var 10, TermK.var 9]) [] (⟨[(10, TermK.struc "dana" []), (8, TermK.struc "alice" []), (9, TermK.struc "carol" []), (5, TermK.var 8)], [10, 8, 9, 5], 26, "A = bob\nA = alice\n", 2⟩ : EngineState) (⟨[(10, TermK.struc "dana" []), (8, TermK.struc "alice" []), (9, TermK.struc "carol" []), (5, TermK.var 8)], [10, 8, 9, 5], 31, "A = bob\nA = alice\n", 2⟩ : EngineState) rfl hc90
  have hc92 : tryClauses 89 kbDemo [⟨TermK.struc "parent" [TermK.struc "alice" [], TermK.struc "bob" []], []⟩, ⟨TermK.struc "parent" [TermK.struc "bob" [], TermK.struc "carol" []], []⟩, ⟨TermK.struc "parent" [TermK.struc "alice" [], TermK.struc "dana" []], []⟩, ⟨TermK.struc "ancestor" [TermK.var 0, TermK.var 1], [TermK.struc "parent" [TermK.var 0, TermK.var 1]]⟩, ⟨TermK.struc "ancestor" [TermK.var 2, TermK.var 3], [TermK.struc "parent" [TermK.var 2, TermK.var 4], TermK.struc "ancestor" [TermK.var 4, TermK.var 3]]⟩] [("A", 5)] (TermK.struc "ancestor" [TermK.var 10, TermK.var 9]) [] (⟨[(10, TermK.struc "dana" []), (8, TermK.struc "alice" []), (9, TermK.struc "carol" []), (5, TermK.var 8)], [10, 8, 9, 5], 26, "A = bob\nA = alice\n", 2⟩ : EngineState) = some (⟨[(10, TermK.struc "dana" []), (8, TermK.struc "alice" []), (9, TermK.struc "carol" []), (5, TermK.var 8)], [10, 8, 9, 5], 31, "A = bob\nA = alice\n", 2⟩ : EngineState) := tryClauses_step_skip 88 kbDemo ⟨TermK.struc "parent" [TermK.struc "alice" [], TermK.struc "bob" []], []⟩ [⟨TermK.struc "parent" [TermK.struc "bob" [], TermK.struc "carol" []], []⟩, ⟨TermK.struc "parent" [TermK.struc "alice" [], TermK.struc "dana" []], []⟩, ⟨TermK.struc "ancestor" [TermK.var 0, TermK.var 1], [TermK.struc "parent" [TermK.var 0, TermK.var 1]]⟩, ⟨TermK.struc "ancestor" [TermK.var 2, TermK.var 3], [TermK.struc "parent" [TermK.var 2, TermK.var 4], TermK.struc "ancestor" [TermK.var 4, TermK.var 3]]⟩] [("A", 5)] (TermK.struc "ancestor" [TermK.var 10, TermK.var 9]) [] (⟨[(10, TermK.struc "dana" []), (8, TermK.struc "alice" []), (9, TermK.struc "carol" []), (5, TermK.var 8)], [10, 8, 9, 5], 26, "A = bob\nA = alice\n", 2⟩ : EngineState) (⟨[(10, TermK.struc "dana" []), (8, TermK.struc "alice" []), (9, TermK.struc "carol" []), (5, TermK.var 8)], [10, 8, 9, 5], 31, "A = bob\nA = alice\n", 2⟩ : EngineState) rfl hc91
  have hc93 : solve 90 kbDemo [("A", 5)] [TermK.struc "ancestor" [TermK.var 10, TermK.var 9]] (⟨[(10, TermK.struc "dana" []), (8, TermK.struc "alice" []), (9, TermK.struc "carol" []), (5, TermK.var 8)], [10, 8, 9, 5], 26, "A = bob\nA = alice\n", 2⟩ : EngineState) = some (⟨[(10, TermK.struc "dana" []), (8, TermK.struc "alice" []), (9, TermK.struc "carol" []), (5, TermK.var 8)], [10, 8, 9, 5], 31, "A = bob\nA = alice\n", 2⟩ : EngineState) := solve_step_goal 89 kbDemo [("A", 5)] (TermK.struc "ancestor" [TermK.var 10, TermK.var 9]) [] (⟨[(10, TermK.struc "dana" []), (8, TermK.struc "alice" []), (9, TermK.struc "carol" []), (5, TermK.var 8)], [10, 8, 9, 5], 26, "A = bob\nA = alice\n", 2⟩ : EngineState) (⟨[(10, TermK.struc "dana" []), (8, TermK.struc "alice" []), (9, TermK.struc "carol" []), (5, TermK.var 8)], [10, 8, 9, 5], 26, "A = bob\nA = alice\n", 2⟩ : EngineState) (⟨[(10, TermK.struc "dana" []), (8, TermK.struc "alice" []), (9, TermK.struc "carol" []), (5, TermK.var 8)], [10, 8, 9, 5], 31, "A = bob\nA = alice\n", 2⟩ : EngineState) rfl hc92
  have hc94 : tryClauses 88 kbDemo [] [("A", 5)] (TermK.struc "parent" [TermK.var 8, TermK.var 10]) [TermK.struc "ancestor" [TermK.var 10, TermK.var 9]] (⟨[(9, TermK.struc "carol" []), (5, TermK.var 8)], [9, 5], 31, "A = bob\nA = alice\n", 2⟩ : EngineState) = some (⟨[(9, TermK.struc "carol" []), (5, TermK.var 8)], [9, 5], 31, "A = bob\nA = alice\n", 2⟩ : EngineState) := rfl
  have hc95 : tryClauses 89 kbDemo [⟨TermK.struc "ancestor" [TermK.var 2, TermK.var 3], [TermK.struc "parent" [TermK.var 2, TermK.var 4], TermK.struc "ancestor" [TermK.var 4, TermK.var 3]]⟩] [("A", 5)] (TermK.struc "parent" [TermK.var 8, TermK.var 10]) [TermK.struc "ancestor" [TermK.var 10, TermK.var 9]] (⟨[(9, TermK.struc "carol" []), (5, TermK.var 8)], [9, 5], 31, "A = bob\nA = alice\n", 2⟩ : EngineState) = some (⟨[(9, TermK.struc "carol" []), (5, TermK.var 8)], [9, 5], 31, "A = bob\nA = alice\n", 2⟩ : EngineState) := tryClauses_step_skip 88 kbDemo ⟨TermK.struc "ancestor" [TermK.var 2, TermK.var 3], [TermK.struc "parent" [TermK.var 2, TermK.var 4], TermK.struc "ancestor" [TermK.var 4, TermK.var 3]]⟩ [] [("A", 5)] (TermK.struc "parent" [TermK.var 8, TermK.var 10]) [TermK.struc "ancestor" [TermK.var 10, TermK.var 9]] (⟨[(9, TermK.struc "carol" []), (5, TermK.var 8)], [9, 5], 31, "A = bob\nA = alice\n", 2⟩ : EngineState) (⟨[(9, TermK.struc "carol" []), (5, TermK.var 8)], [9, 5], 31, "A = bob\nA = alice\n", 2⟩ : EngineState) rfl hc94
  have hc96 : tryClauses 90 kbDemo [⟨TermK.struc "ancestor" [TermK.var 0, TermK.var 1], [TermK.struc "parent" [TermK.var 0, TermK.var 1]]⟩, ⟨TermK.struc "ancestor" [TermK.var 2, TermK.var 3], [TermK.struc "parent" [TermK.var 2, TermK.var 4], TermK.struc "ancestor" [TermK.var 4, TermK.var 3]]⟩] [("A", 5)] (TermK.struc "parent" [TermK.var 8, TermK.var 10]) [TermK.struc "ancestor" [TermK.var 10, TermK.var 9]] (⟨[(9, TermK.struc "carol" []), (5, TermK.var 8)], [9, 5], 31, "A = bob\nA = alice\n", 2⟩ : EngineState) = some (⟨[(9, TermK.struc "carol" []), (5, TermK.var 8)], [9, 5], 31, "A = bob\nA = alice\n", 2⟩ : EngineState) := tryClauses_step_skip 89 kbDemo ⟨TermK.struc "ancestor" [TermK.var 0, TermK.var 1], [TermK.struc "parent" [TermK.var 0, TermK.var 1]]⟩ [⟨TermK.struc "ancestor" [TermK.var 2, TermK.var 3], [TermK.struc "parent" [TermK.var 2, TermK.var 4], TermK.struc "ancestor" [TermK.var 4, TermK.var 3]]⟩] [("A", 5)] (TermK.struc "parent" [TermK.var 8, TermK.var 10]) [TermK.struc "ancestor" [TermK.var 10, TermK.var 9]] (⟨[(9, TermK.struc "carol" []), (5, TermK.var 8)], [9, 5], 31, "A = bob\nA = alice\n", 2⟩ : EngineState) (⟨[(9, TermK.struc "carol" []), (5, TermK.var 8)], [9, 5], 31, "A = bob\nA = alice\n", 2⟩ : EngineState) rfl hc95
  have hc97 : tryClauses 91 kbDemo [⟨TermK.struc "parent" [TermK.struc "alice" [], TermK.struc "dana" []], []⟩, ⟨TermK.struc "ancestor" [TermK.var 0, TermK.var 1], [TermK.struc "parent" [TermK.var 0, TermK.var 1]]⟩, ⟨TermK.struc "ancestor" [TermK.var 2, TermK.var 3], [TermK.struc "parent" [TermK.var 2, TermK.var 4], TermK.struc "ancestor" [TermK.var 4, TermK.var 3]]⟩] [("A", 5)] (TermK.struc "parent" [TermK.var 8, TermK.var 10]) [TermK.struc "ancestor" [TermK.var 10, TermK.var 9]] (⟨[(9, TermK.struc "carol" []), (5, TermK.var 8)], [9, 5], 26, "A = bob\nA = alice\n", 2⟩ : EngineState) = some (⟨[(9, TermK.struc "carol" []), (5, TermK.var 8)], [9, 5], 31, "A = bob\nA = alice\n", 2⟩ : EngineState) := tryClauses_step_attempt 90 kbDemo ⟨TermK.struc "parent" [TermK.struc "alice" [], TermK.struc "dana" []], []⟩ [⟨TermK.struc "ancestor" [TermK.var 0, TermK.var 1], [TermK.struc "parent" [TermK.var 0, TermK.var 1]]⟩, ⟨TermK.struc "ancestor" [TermK.var 2, TermK.var 3], [TermK.struc "parent" [TermK.var 2, TermK.var 4], TermK.struc "ancestor" [TermK.var 4, TermK.var 3]]⟩] [("A", 5)] (TermK.struc "parent" [TermK.var 8, TermK.var 10]) [TermK.struc "ancestor" [TermK.var 10, TermK.var 9]] (⟨[(9, TermK.struc "carol" []), (5, TermK.var 8)], [9, 5], 26, "A = bob\nA = alice\n", 2⟩ : EngineState) (TermK.struc "parent" [TermK.var 8, TermK.var 10]) (TermK.struc "parent" [TermK.struc "alice" [], TermK.struc "dana" []]) [] 26 [] [] 26 (⟨[(10, TermK.struc "dana" []), (8, TermK.struc "alice" []), (9, TermK.struc "carol" []), (5, TermK.var 8)], [10, 8, 9, 5], 26, "A = bob\nA = alice\n", 2⟩ : EngineState) (⟨[(10, TermK.struc "dana" []), (8, TermK.struc "alice" []), (9, TermK.struc "carol" []), (5, TermK.var 8)], [10, 8, 9, 5], 31, "A = bob\nA = alice\n", 2⟩ : EngineState) (⟨[(9, TermK.struc "carol" []), (5, TermK.var 8)], [9, 5], 31, "A = bob\nA = alice\n", 2⟩ : EngineState) rfl rfl rfl rfl rfl hc93 hc96
  have hc98 : tryClauses 92 kbDemo [⟨TermK.struc "parent" [TermK.struc "bob" [], TermK.struc "carol" []], []⟩, ⟨TermK.struc "parent" [TermK.struc "alice" [], TermK.struc "dana" []], []⟩, ⟨TermK.struc "ancestor" [TermK.var 0, TermK.var 1], [TermK.struc "parent" [TermK.var 0, TermK.var 1]]⟩, ⟨TermK.struc "ancestor" [TermK.var 2, TermK.var 3], [TermK.struc "parent" [TermK.var 2, TermK.var 4], TermK.struc "ancestor" [TermK.var 4, TermK.var 3]]⟩] [("A", 5)] (TermK.struc "parent" [TermK.var 8, TermK.var 10]) [TermK.struc "ancestor" [TermK.var 10, TermK.var 9]] (⟨[(9, TermK.struc "carol" []), (5, TermK.var 8)], [9, 5], 21, "A = bob\nA = alice\n", 2⟩ : EngineState) = some (⟨[(9, TermK.struc "carol" []), (5, TermK.var 8)], [9, 5], 31, "A = bob\nA = alice\n", 2⟩ : EngineState) := tryClauses_step_attempt 91 kbDemo ⟨TermK.struc "parent" [TermK.struc "bob" [], TermK.struc "carol" []], []⟩ [⟨TermK.struc "parent" [TermK.struc "alice" [], TermK.struc "dana" []], []⟩, ⟨TermK.struc "ancestor" [TermK.var 0, TermK.var 1], [TermK.struc "parent" [TermK.var 0, TermK.var 1]]⟩, ⟨TermK.struc "ancestor" [TermK.var 2, TermK.var 3], [TermK.struc "parent" [TermK.var 2, TermK.var 4], TermK.struc "ancestor" [TermK.var 4, TermK.var 3]]⟩] [("A", 5)] (TermK.struc "parent" [TermK.var 8, TermK.var 10]) [TermK.struc "ancestor" [TermK.var 10, TermK.var 9]] (⟨[(9, TermK.struc "carol" []), (5, TermK.var 8)], [9, 5], 21, "A = bob\nA = alice\n", 2⟩ : EngineState) (TermK.struc "parent" [TermK.var 8, TermK.var 10]) (TermK.struc "parent" [TermK.struc "bob" [], TermK.struc "carol" []]) [] 21 [] [] 21 (⟨[(10, TermK.struc "carol" []), (8, TermK.struc "bob" []), (9, TermK.struc "carol" []), (5, TermK.var 8)], [10, 8, 9, 5], 21, "A = bob\nA = alice\n", 2⟩ : EngineState) (⟨[(10, TermK.struc "carol" []), (8, TermK.struc "bob" []), (9, TermK.struc "carol" []), (5, TermK.var 8)], [10, 8, 9, 5], 26, "A = bob\nA = alice\n", 2⟩ : EngineState) (⟨[(9, TermK.struc "carol" []), (5, TermK.var 8)], [9, 5], 31, "A = bob\nA = alice\n", 2⟩ : EngineState) rfl rfl rfl rfl rfl hc72 hc97
  have hc99 : tryClauses 93 kbDemo [⟨TermK.struc "parent" [TermK.struc "alice" [], TermK.struc "bob" []], []⟩, ⟨TermK.struc "parent" [TermK.struc "bob" [], TermK.struc "carol" []], []⟩, ⟨TermK.struc "parent" [TermK.struc "alice" [], TermK.struc "dana" []], []⟩, ⟨TermK.struc "ancestor" [TermK.var 0, TermK.var 1], [TermK.struc "parent" [TermK.var 0, TermK.var 1]]⟩, ⟨TermK.struc "ancestor" [TermK.var 2, TermK.var 3], [TermK.struc "parent" [TermK.var 2, TermK.var 4], TermK.struc "ancestor" [TermK.var 4, TermK.var 3]]⟩] [("A", 5)] (TermK.struc "parent" [TermK.var 8, TermK.var 10]) [TermK.struc "ancestor" [TermK.var 10, TermK.var 9]] (⟨[(9, TermK.struc "carol" []), (5, TermK.var 8)], [9, 5], 11, "A = bob\n", 1⟩ : EngineState) = some (⟨[(9, TermK.struc "carol" []), (5, TermK.var 8)], [9, 5], 31, "A = bob\nA = alice\n", 2⟩ : EngineState) := tryClauses_step_attempt 92 kbDemo ⟨TermK.struc "parent" [TermK.struc "alice" [], TermK.struc "bob" []], []⟩ [⟨TermK.struc "parent" [TermK.struc "bob" [], TermK.struc "carol" []], []⟩, ⟨TermK.struc "parent" [TermK.struc "alice" [], TermK.struc "dana" []], []⟩, ⟨TermK.struc "ancestor" [TermK.var 0, TermK.var 1], [TermK.struc "parent" [TermK.var 0, TermK.var 1]]⟩, ⟨TermK.struc "ancestor" [TermK.var 2, TermK.var 3], [TermK.struc "parent" [TermK.var 2, TermK.var 4], TermK.struc "ancestor" [TermK.var 4, TermK.var 3]]⟩] [("A", 5)] (TermK.struc "parent" [TermK.var 8, TermK.var 10]) [TermK.struc "ancestor" [TermK.var 10, TermK.var 9]] (⟨[(9, TermK.struc "carol" []), (5, TermK.var 8)], [9, 5], 11, "A = bob\n", 1⟩ : EngineState) (TermK.struc "parent" [TermK.var 8, TermK.var 10]) (TermK.struc "parent" [TermK.struc "alice" [], TermK.struc "bob" []]) [] 11 [] [] 11 (⟨[(10, TermK.struc "bob" []), (8, TermK.struc "alice" []), (9, TermK.struc "carol" []), (5, TermK.var 8)], [10, 8, 9, 5], 11, "A = bob\n", 1⟩ : EngineState) (⟨[(10, TermK.struc "bob" []), (8, TermK.struc "alice" []), (9, TermK.struc "carol" []), (5, TermK.var 8)], [10, 8, 9, 5], 21, "A = bob\nA = alice\n", 2⟩ : EngineState) (⟨[(9, TermK.struc "carol" []), (5, TermK.var 8)], [9, 5], 31, "A = bob\nA = alice\n", 2⟩ : EngineState) rfl rfl rfl rfl rfl hc51 hc98
  have hc100 : solve 94 kbDemo [("A", 5)] [TermK.struc "parent" [TermK.var 8, TermK.var 10], TermK.struc "ancestor" [TermK.var 10, TermK.var 9]] (⟨[(9, TermK.struc "carol" []), (5, TermK.var 8)], [9, 5], 11, "A = bob\n", 1⟩ : EngineState) = some (⟨[(9, TermK.struc "carol" []), (5, TermK.var 8)], [9, 5], 31, "A = bob\nA = alice\n", 2⟩ : EngineState) := solve_step_goal 93 kbDemo [("A", 5)] (TermK.struc "parent" [TermK.var 8, TermK.var 10]) [TermK.struc "ancestor" [TermK.var 10, TermK.var 9]] (⟨[(9, TermK.struc "carol" []), (5, TermK.var 8)], [9, 5], 11, "A = bob\n", 1⟩ : EngineState) (⟨[(9, TermK.struc "carol" []), (5, TermK.var 8)], [9, 5], 11, "A = bob\n", 1⟩ : EngineState) (⟨[(9, TermK.struc "carol" []), (5, TermK.var 8)], [9, 5], 31, "A = bob\nA = alice\n", 2⟩ : EngineState) rfl hc99
  have hc101 : tryClauses 94 kbDemo [] [("A", 5)] (TermK.struc "ancestor" [TermK.var 5, TermK.struc "carol" []]) [] (⟨[], [], 31, "A = bob\nA = alice\n", 2⟩ : EngineState) = some (⟨[], [], 31, "A = bob\nA = alice\n", 2⟩ : EngineState) := rfl
  have hc102 : tryClauses 95 kbDemo [⟨TermK.struc "ancestor" [TermK.var 2, TermK.var 3], [TermK.struc "parent" [TermK.var 2, TermK.var 4], TermK.struc "ancestor" [TermK.var 4, TermK.var 3]]⟩] [("A", 5)] (TermK.struc "ancestor" [TermK.var 5, TermK.struc "carol" []]) [] (⟨[], [], 8, "A = bob\n", 1⟩ : EngineState) = some (⟨[], [], 31, "A = bob\nA = alice\n", 2⟩ : EngineState) := tryClauses_step_attempt 94 kbDemo ⟨TermK.struc "ancestor" [TermK.var 2, TermK.var 3], [TermK.struc "parent" [TermK.var 2, TermK.var 4], TermK.struc "ancestor" [TermK.var 4, TermK.var 3]]⟩ [] [("A", 5)] (TermK.struc "ancestor" [TermK.var 5, TermK.struc "carol" []]) [] (⟨[], [], 8, "A = bob\n", 1⟩ : EngineState) (TermK.struc "ancestor" [TermK.var 5, TermK.struc "carol" []]) (TermK.struc "ancestor" [TermK.var 8, TermK.var 9]) [(3, 9), (2, 8)] 10 [TermK.struc "parent" [TermK.var 8, TermK.var 10], TermK.struc "ancestor" [TermK.var 10, TermK.var 9]] [(4, 10), (3, 9), (2, 8)] 11 (⟨[(9, TermK.struc "carol" []), (5, TermK.var 8)], [9, 5], 10, "A = bob\n", 1⟩ : EngineState) (⟨[(9, TermK.struc "carol" []), (5, TermK.var 8)], [9, 5], 31, "A = bob\nA = alice\n", 2⟩ : EngineState) (⟨[], [], 31, "A = bob\nA = alice\n", 2⟩ : EngineState) rfl rfl rfl rfl rfl hc100 hc101
  have hc103 : tryClauses 96 kbDemo [⟨TermK.struc "ancestor" [TermK.var 0, TermK.var 1], [TermK.struc "parent" [TermK.var 0, TermK.var 1]]⟩, ⟨TermK.struc "ancestor" [TermK.var 2, TermK.var 3], [TermK.struc "parent" [TermK.var 2, TermK.var 4], TermK.struc "ancestor" [TermK.var 4, TermK.var 3]]⟩] [("A", 5)] (TermK.struc "ancestor" [TermK.var 5, TermK.struc "carol" []]) [] (⟨[], [], 6, "", 0⟩ : EngineState) = some (⟨[], [], 31, "A = bob\nA = alice\n", 2⟩ : EngineState) := tryClauses_step_attempt 95 kbDemo ⟨TermK.struc "ancestor" [TermK.var 0, TermK.var 1], [TermK.struc "parent" [TermK.var 0, TermK.var 1]]⟩ [⟨TermK.struc "ancestor" [TermK.var 2, TermK.var 3], [TermK.struc "parent" [TermK.var 2, TermK.var 4], TermK.struc "ancestor" [TermK.var 4, TermK.var 3]]⟩] [("A", 5)] (TermK.struc "ancestor" [TermK.var 5, TermK.struc "carol" []]) [] (⟨[], [], 6, "", 0⟩ : EngineState) (TermK.struc "ancestor" [TermK.var 5, TermK.struc "carol" []]) (TermK.struc "ancestor" [TermK.var 6, TermK.var 7]) [(1, 7), (0, 6)] 8 [TermK.struc "parent" [TermK.var 6, TermK.var 7]] [(1, 7), (0, 6)] 8 (⟨[(7, TermK.struc "carol" []), (5, TermK.var 6)], [7, 5], 8, "", 0⟩ : EngineState) (⟨[(7, TermK.struc "carol" []), (5, TermK.var 6)], [7, 5], 8, "A = bob\n", 1⟩ : EngineState) (⟨[], [], 31, "A = bob\nA = alice\n", 2⟩ : EngineState) rfl rfl rfl rfl rfl hc8 hc102
  have hc104 : tryClauses 97 kbDemo [⟨TermK.struc "parent" [TermK.struc "alice" [], TermK.struc "dana" []], []⟩, ⟨TermK.struc "ancestor" [TermK.var 0, TermK.var 1], [TermK.struc "parent" [TermK.var 0, TermK.var 1]]⟩, ⟨TermK.struc "ancestor" [TermK.var 2, TermK.var 3], [TermK.struc "parent" [TermK.var 2, TermK.var 4], TermK.struc "ancestor" [TermK.var 4, TermK.var 3]]⟩] [("A", 5)] (TermK.struc "ancestor" [TermK.var 5, TermK.struc "carol" []]) [] (⟨[], [], 6, "", 0⟩ : EngineState) = some (⟨[], [], 31, "A = bob\nA = alice\n", 2⟩ : EngineState) := tryClauses_step_skip 96 kbDemo ⟨TermK.struc "parent" [TermK.struc "alice" [], TermK.struc "dana" []], []⟩ [⟨TermK.struc "ancestor" [TermK.var 0, TermK.var 1], [TermK.struc "parent" [TermK.var 0, TermK.var 1]]⟩, ⟨TermK.struc "ancestor" [TermK.var 2, TermK.var 3], [TermK.struc "parent" [TermK.var 2, TermK.var 4], TermK.struc "ancestor" [TermK.var 4, TermK.var 3]]⟩] [("A", 5)] (TermK.struc "ancestor" [TermK.var 5, TermK.struc "carol" []]) [] (⟨[], [], 6, "", 0⟩ : EngineState) (⟨[], [], 31, "A = bob\nA = alice\n", 2⟩ : EngineState) rfl hc103
  have hc105 : tryClauses 98 kbDemo [⟨TermK.struc "parent" [TermK.struc "bob" [], TermK.struc "carol" []], []⟩, ⟨TermK.struc "parent" [TermK.struc "alice" [], TermK.struc "dana" []], []⟩, ⟨TermK.struc "ancestor" [TermK.var 0, TermK.var 1], [TermK.struc "parent" [TermK.var 0, TermK.var 1]]⟩, ⟨TermK.struc "ancestor" [TermK.var 2, TermK.var 3], [TermK.struc "parent" [TermK.var 2, TermK.var 4], TermK.struc "ancestor" [TermK.var 4, TermK.var 3]]⟩] [("A", 5)] (TermK.struc "ancestor" [TermK.var 5, TermK.struc "carol" []]) [] (⟨[], [], 6, "", 0⟩ : EngineState) = some (⟨[], [], 31, "A = bob\nA = alice\n", 2⟩ : EngineState) := tryClauses_step_skip 97 kbDemo ⟨TermK.struc "parent" [TermK.struc "bob" [], TermK.struc "carol" []], []⟩ [⟨TermK.struc "parent" [TermK.struc "alice" [], TermK.struc "dana" []], []⟩, ⟨TermK.struc "ancestor" [TermK.var 0, TermK.var 1], [TermK.struc "parent" [TermK.var 0, TermK.var 1]]⟩, ⟨TermK.struc "ancestor" [TermK.var 2, TermK.var 3], [TermK.struc "parent" [TermK.var 2, TermK.var 4], TermK.struc "ancestor" [TermK.var 4, TermK.var 3]]⟩] [("A", 5)] (TermK.struc "ancestor" [TermK.var 5, TermK.struc "carol" []]) [] (⟨[], [], 6, "", 0⟩ : EngineState) (⟨[], [], 31, "A = bob\nA = alice\n", 2⟩ : EngineState) rfl hc104
  have hc106 : tryClauses 99 kbDemo [⟨TermK.struc "parent" [TermK.struc "alice" [], TermK.struc "bob" []], []⟩, ⟨TermK.struc "parent" [TermK.struc "bob" [], TermK.struc "carol" []], []⟩, ⟨TermK.struc "parent" [TermK.struc "alice" [], TermK.struc "dana" []], []⟩, ⟨TermK.struc "ancestor" [TermK.var 0, TermK.var 1], [TermK.struc "parent" [TermK.var 0, TermK.var 1]]⟩, ⟨TermK.struc "ancestor" [TermK.var 2, TermK.var 3], [TermK.struc "parent" [TermK.var 2, TermK.var 4], TermK.struc "ancestor" [TermK.var 4, TermK.var 3]]⟩] [("A", 5)] (TermK.struc "ancestor" [TermK.var 5, TermK.struc "carol" []]) [] (⟨[], [], 6, "", 0⟩ : EngineState) = some (⟨[], [], 31, "A = bob\nA = alice\n", 2⟩ : EngineState) := tryClauses_step_skip 98 kbDemo ⟨TermK.struc "parent" [TermK.struc "alice" [], TermK.struc "bob" []], []⟩ [⟨TermK.struc "parent" [TermK.struc "bob" [], TermK.struc "carol" []], []⟩, ⟨TermK.struc "parent" [TermK.struc "alice" [], TermK.struc "dana" []], []⟩, ⟨TermK.struc "ancestor" [TermK.var 0, TermK.var 1], [TermK.struc "parent" [TermK.var 0, TermK.var 1]]⟩, ⟨TermK.struc "ancestor" [TermK.var 2, TermK.var 3], [TermK.struc "parent" [TermK.var 2, TermK.var 4], TermK.struc "ancestor" [TermK.var 4, TermK.var 3]]⟩] [("A", 5)] (TermK.struc "ancestor" [TermK.var 5, TermK.struc "carol" []]) [] (⟨[], [], 6, "", 0⟩ : EngineState) (⟨[], [], 31, "A = bob\nA = alice\n", 2⟩ : EngineState) rfl hc105
  have hc107 : solve 100 kbDemo [("A", 5)] [TermK.struc "ancestor" [TermK.var 5, TermK.struc "carol" []]] (⟨[], [], 6, "", 0⟩ : EngineState) = some (⟨[], [], 31, "A = bob\nA = alice\n", 2⟩ : EngineState) := solve_step_goal 99 kbDemo [("A", 5)] (TermK.struc "ancestor" [TermK.var 5, TermK.struc "carol" []]) [] (⟨[], [], 6, "", 0⟩ : EngineState) (⟨[], [], 6, "", 0⟩ : EngineState) (⟨[], [], 31, "A = bob\nA = alice\n", 2⟩ : EngineState) rfl hc106
  have hn1 : tryClauses 89 kbDemo [] [("A", 5)] (TermK.struc "parent" [TermK.var 6, TermK.var 7]) [] (⟨[(7, TermK.struc "nobody" []), (5, TermK.var 6)], [7, 5], 8, "", 0⟩ : EngineState) = some (⟨[(7, TermK.struc "nobody" []), (5, TermK.var 6)], [7, 5], 8, "", 0⟩ : EngineState) := rfl
  have hn2 : tryClauses 90 kbDemo [⟨TermK.struc "ancestor" [TermK.var 2, TermK.var 3], [TermK.struc "parent" [TermK.var 2, TermK.var 4], TermK.struc "ancestor" [TermK.var 4, TermK.var 3]]⟩] [("A", 5)] (TermK.struc "parent" [TermK.var 6, TermK.var 7]) [] (⟨[(7, TermK.struc "nobody" []), (5, TermK.var 6)], [7, 5], 8, "", 0⟩ : EngineState) = some (⟨[(7, TermK.struc "nobody" []), (5, TermK.var 6)], [7, 5], 8, "", 0⟩ : EngineState) := tryClauses_step_skip 89 kbDemo ⟨TermK.struc "ancestor" [TermK.var 2, TermK.var 3], [TermK.struc "parent" [TermK.var 2, TermK.var 4], TermK.struc "ancestor" [TermK.var 4, TermK.var 3]]⟩ [] [("A", 5)] (TermK.struc "parent" [TermK.var 6, TermK.var 7]) [] (⟨[(7, TermK.struc "nobody" []), (5, TermK.var 6)], [7, 5], 8, "", 0⟩ : EngineState) (⟨[(7, TermK.struc "nobody" []), (5, TermK.var 6)], [7, 5], 8, "", 0⟩ : EngineState) rfl hn1
  have hn3 : tryClauses 91 kbDemo [⟨TermK.struc "ancestor" [TermK.var 0, TermK.var 1], [TermK.struc "parent" [TermK.var 0, TermK.var 1]]⟩, ⟨TermK.struc "ancestor" [TermK.var 2, TermK.var 3], [TermK.struc "parent" [TermK.var 2, TermK.var 4], TermK.struc "ancestor" [TermK.var 4, TermK.var 3]]⟩] [("A", 5)] (TermK.struc "parent" [TermK.var 6, TermK.var 7]) [] (⟨[(7, TermK.struc "nobody" []), (5, TermK.var 6)], [7, 5], 8, "", 0⟩ : EngineState) = some (⟨[(7, TermK.struc "nobody" []), (5, TermK.var 6)], [7, 5], 8, "", 0⟩ : EngineState) := tryClauses_step_skip 90 kbDemo ⟨TermK.struc "ancestor" [TermK.var 0, TermK.var 1], [TermK.struc "parent" [TermK.var 0, TermK.var 1]]⟩ [⟨TermK.struc "ancestor" [TermK.var 2, TermK.var 3], [TermK.struc "parent" [TermK.var 2, TermK.var 4], TermK.struc "ancestor" [TermK.var 4, TermK.var 3]]⟩] [("A", 5)] (TermK.struc "parent" [TermK.var 6, TermK.var 7]) [] (⟨[(7, TermK.struc "nobody" []), (5, TermK.var 6)], [7, 5], 8, "", 0⟩ : EngineState) (⟨[(7, TermK.struc "nobody" []), (5, TermK.var 6)], [7, 5], 8, "", 0⟩ : EngineState) rfl hn2
  have hn4 : tryClauses 92 kbDemo [⟨TermK.struc "parent" [TermK.struc "alice" [], TermK.struc "dana" []], []⟩, ⟨TermK.struc "ancestor" [TermK.var 0, TermK.var 1], [TermK.struc "parent" [TermK.var 0, TermK.var 1]]⟩, ⟨TermK.struc "ancestor" [TermK.var 2, TermK.var 3], [TermK.struc "parent" [TermK.var 2, TermK.var 4], TermK.struc "ancestor" [TermK.var 4, TermK.var 3]]⟩] [("A", 5)] (TermK.struc "parent" [TermK.var 6, TermK.var 7]) [] (⟨[(7, TermK.struc "nobody" []), (5, TermK.var 6)], [7, 5], 8, "", 0⟩ : EngineState) = some (⟨[(7, TermK.struc "nobody" []), (5, TermK.var 6)], [7, 5], 8, "", 0⟩ : EngineState) := tryClauses_step_nomatch 91 kbDemo ⟨TermK.struc "parent" [TermK.struc "alice" [], TermK.struc "dana" []], []⟩ [⟨TermK.struc "ancestor" [TermK.var 0, TermK.var 1], [TermK.struc "parent" [TermK.var 0, TermK.var 1]]⟩, ⟨TermK.struc "ancestor" [TermK.var 2, TermK.var 3], [TermK.struc "parent" [TermK.var 2, TermK.var 4], TermK.struc "ancestor" [TermK.var 4, TermK.var 3]]⟩] [("A", 5)] (TermK.struc "parent" [TermK.var 6, TermK.var 7]) [] (⟨[(7, TermK.struc "nobody" []), (5, TermK.var 6)], [7, 5], 8, "", 0⟩ : EngineState) (TermK.struc "parent" [TermK.var 6, TermK.var 7]) (TermK.struc "parent" [TermK.struc "alice" [], TermK.struc "dana" []]) [] 8 (⟨[(6, TermK.struc "alice" []), (7, TermK.struc "nobody" []), (5, TermK.var 6)], [6, 7, 5], 8, "", 0⟩ : EngineState) (⟨[(7, TermK.struc "nobody" []), (5, TermK.var 6)], [7, 5], 8, "", 0⟩ : EngineState) rfl rfl rfl rfl hn3
  have hn5 : tryClauses 93 kbDemo [⟨TermK.struc "parent" [TermK.struc "bob" [], TermK.struc "carol" []], []⟩, ⟨TermK.struc "parent" [TermK.struc "alice" [], TermK.struc "dana" []], []⟩, ⟨TermK.struc "ancestor" [TermK.var 0, TermK.var 1], [TermK.struc "parent" [TermK.var 0, TermK.var 1]]⟩, ⟨TermK.struc "ancestor" [TermK.var 2, TermK.var 3], [TermK.struc "parent" [TermK.var 2, TermK.var 4], TermK.struc "ancestor" [TermK.var 4, TermK.var 3]]⟩] [("A", 5)] (TermK.struc "parent" [TermK.var 6, TermK.var 7]) [] (⟨[(7, TermK.struc "nobody" []), (5, TermK.var 6)], [7, 5], 8, "", 0⟩ : EngineState) = some (⟨[(7, TermK.struc "nobody" []), (5, TermK.var 6)], [7, 5], 8, "", 0⟩ : EngineState) := tryClauses_step_nomatch 92 kbDemo ⟨TermK.struc "parent" [TermK.struc "bob" [], TermK.struc "carol" []], []⟩ [⟨TermK.struc "parent" [TermK.struc "alice" [], TermK.struc "dana" []], []⟩, ⟨TermK.struc "ancestor" [TermK.var 0, TermK.var 1], [TermK.struc "parent" [TermK.var 0, TermK.var 1]]⟩, ⟨TermK.struc "ancestor" [TermK.var 2, TermK.var 3], [TermK.struc "parent" [TermK.var 2, TermK.var 4], TermK.struc "ancestor" [TermK.var 4, TermK.var 3]]⟩] [("A", 5)] (TermK.struc "parent" [TermK.var 6, TermK.var 7]) [] (⟨[(7, TermK.struc "nobody" []), (5, TermK.var 6)], [7, 5], 8, "", 0⟩ : EngineState) (TermK.struc "parent" [TermK.var 6, TermK.var 7]) (TermK.struc "parent" [TermK.struc "bob" [], TermK.struc "carol" []]) [] 8 (⟨[(6, TermK.struc "bob" []), (7, TermK.struc "nobody" []), (5, TermK.var 6)], [6, 7, 5], 8, "", 0⟩ : EngineState) (⟨[(7, TermK.struc "nobody" []), (5, TermK.var 6)], [7, 5], 8, "", 0⟩ : EngineState) rfl rfl rfl rfl hn4
  have hn6 : tryClauses 94 kbDemo [⟨TermK.struc "parent" [TermK.struc "alice" [], TermK.struc "bob" []], []⟩, ⟨TermK.struc "parent" [TermK.struc "bob" [], TermK.struc "carol" []], []⟩, ⟨TermK.struc "parent" [TermK.struc "alice" [], TermK.struc "dana" []], []⟩, ⟨TermK.struc "ancestor" [TermK.var 0, TermK.var 1], [TermK.struc "parent" [TermK.var 0, TermK.var 1]]⟩, ⟨TermK.struc "ancestor" [TermK.var 2, TermK.var 3], [TermK.struc "parent" [TermK.var 2, TermK.var 4], TermK.struc "ancestor" [TermK.var 4, TermK.var 3]]⟩] [("A", 5)] (TermK.struc "parent" [TermK.var 6, TermK.var 7]) [] (⟨[(7, TermK.struc "nobody" []), (5, TermK.var 6)], [7, 5], 8, "", 0⟩ : EngineState) = some (⟨[(7, TermK.struc "nobody" []), (5, TermK.var 6)], [7, 5], 8, "", 0⟩ : EngineState) := tryClauses_step_nomatch 93 kbDemo ⟨TermK.struc "parent" [TermK.struc "alice" [], TermK.struc "bob" []], []⟩ [⟨TermK.struc "parent" [TermK.struc "bob" [], TermK.struc "carol" []], []⟩, ⟨TermK.struc "parent" [TermK.struc "alice" [], TermK.struc "dana" []], []⟩, ⟨TermK.struc "ancestor" [TermK.var 0, TermK.var 1], [TermK.struc "parent" [TermK.var 0, TermK.var 1]]⟩, ⟨TermK.struc "ancestor" [TermK.var 2, TermK.var 3], [TermK.struc "parent" [TermK.var 2, TermK.var 4], TermK.struc "ancestor" [TermK.var 4, TermK.var 3]]⟩] [("A", 5)] (TermK.struc "parent" [TermK.var 6, TermK.var 7]) [] (⟨[(7, TermK.struc "nobody" []), (5, TermK.var 6)], [7, 5], 8, "", 0⟩ : EngineState) (TermK.struc "parent" [TermK.var 6, TermK.var 7]) (TermK.struc "parent" [TermK.struc "alice" [], TermK.struc "bob" []]) [] 8 (⟨[(6, TermK.struc "alice" []), (7, TermK.struc "nobody" []), (5, TermK.var 6)], [6, 7, 5], 8, "", 0⟩ : EngineState) (⟨[(7, TermK.struc "nobody" []), (5, TermK.var 6)], [7, 5], 8, "", 0⟩ : EngineState) rfl rfl rfl rfl hn5
  have hn7 : solve 95 kbDemo [("A", 5)] [TermK.struc "parent" [TermK.var 6, TermK.var 7]] (⟨[(7, TermK.struc "nobody" []), (5, TermK.var 6)], [7, 5], 8, "", 0⟩ : EngineState) = some (⟨[(7, TermK.struc "nobody" []), (5, TermK.var 6)], [7, 5], 8, "", 0⟩ : EngineState) := solve_step_goal 94 kbDemo [("A", 5)] (TermK.struc "parent" [TermK.var 6, TermK.var 7]) [] (⟨[(7, TermK.struc "nobody" []), (5, TermK.var 6)], [7, 5], 8, "", 0⟩ : EngineState) (⟨[(7, TermK.struc "nobody" []), (5, TermK.var 6)], [7, 5], 8, "", 0⟩ : EngineState) (⟨[(7, TermK.struc "nobody" []), (5, TermK.var 6)], [7, 5], 8, "", 0⟩ : EngineState) rfl hn6
  have hn8 : tryClauses 81 kbDemo [] [("A", 5)] (TermK.struc "parent" [TermK.var 11, TermK.var 12]) [] (⟨[(12, TermK.struc "nobody" []), (11, TermK.struc "bob" []), (10, TermK.struc "bob" []), (8, TermK.struc "alice" []), (9, TermK.struc "nobody" []), (5, TermK.var 8)], [12, 11, 10, 8, 9, 5], 13, "", 0⟩ : EngineState) = some (⟨[(12, TermK.struc "nobody" []), (11, TermK.struc "bob" []), (10, TermK.struc "bob" []), (8, TermK.struc "alice" []), (9, TermK.struc "nobody" []), (5, TermK.var 8)], [12, 11, 10, 8, 9, 5], 13, "", 0⟩ : EngineState) := rfl
  have hn9 : tryClauses 82 kbDemo [⟨TermK.struc "ancestor" [TermK.var 2, TermK.var 3], [TermK.struc "parent" [TermK.var 2, TermK.var 4], TermK.struc "ancestor" [TermK.var 4, TermK.var 3]]⟩] [("A", 5)] (TermK.struc "parent" [TermK.var 11, TermK.var 12]) [] (⟨[(12, TermK.struc "nobody" []), (11, TermK.struc "bob" []), (10, TermK.struc "bob" []), (8, TermK.struc "alice" []), (9, TermK.struc "nobody" []), (5, TermK.var 8)], [12, 11, 10, 8, 9, 5], 13, "", 0⟩ : EngineState) = some (⟨[(12, TermK.struc "nobody" []), (11, TermK.struc "bob" []), (10, TermK.struc "bob" []), (8, TermK.struc "alice" []), (9, TermK.struc "nobody" []), (5, TermK.var 8)], [12, 11, 10, 8, 9, 5], 13, "", 0⟩ : EngineState) := tryClauses_step_skip 81 kbDemo ⟨TermK.struc "ancestor" [TermK.var 2, TermK.var 3], [TermK.struc "parent" [TermK.var 2, TermK.var 4], TermK.struc "ancestor" [TermK.var 4, TermK.var 3]]⟩ [] [("A", 5)] (TermK.struc "parent" [TermK.var 11, TermK.var 12]) [] (⟨[(12, TermK.struc "nobody" []), (11, TermK.struc "bob" []), (10, TermK.struc "bob" []), (8, TermK.struc "alice" []), (9, TermK.struc "nobody" []), (5, TermK.var 8)], [12, 11, 10, 8, 9, 5], 13, "", 0⟩ : EngineState) (⟨[(12, TermK.struc "nobody" []), (11, TermK.struc "bob" []), (10, TermK.struc "bob" []), (8, TermK.struc "alice" []), (9, TermK.struc "nobody" []), (5, TermK.var 8)], [12, 11, 10, 8, 9, 5], 13, "", 0⟩ : EngineState) rfl hn8
  have hn10 : tryClauses 83 kbDemo [⟨TermK.struc "ancestor" [TermK.var 0, TermK.var 1], [TermK.struc "parent" [TermK.var 0, TermK.var 1]]⟩, ⟨TermK.struc "ancestor" [TermK.var 2, TermK.var 3], [TermK.struc "parent" [TermK.var 2, TermK.var 4], TermK.struc "ancestor" [TermK.var 4, TermK.var 3]]⟩] [("A", 5)] (TermK.struc "parent" [TermK.var 11, TermK.var 12]) [] (⟨[(12, TermK.struc "nobody" []), (11, TermK.struc "bob" []), (10, TermK.struc "bob" []), (8, TermK.struc "alice" []), (9, TermK.struc "nobody" []), (5, TermK.var 8)], [12, 11, 10, 8, 9, 5], 13, "", 0⟩ : EngineState) = some (⟨[(12, TermK.struc "nobody" []), (11, TermK.struc "bob" []), (10, TermK.struc "bob" []), (8, TermK.struc "alice" []), (9, TermK.struc "nobody" []), (5, TermK.var 8)], [12, 11, 10, 8, 9, 5], 13, "", 0⟩ : EngineState) := tryClauses_step_skip 82 kbDemo ⟨TermK.struc "ancestor" [TermK.var 0, TermK.var 1], [TermK.struc "parent" [TermK.var 0, TermK.var 1]]⟩ [⟨TermK.struc "ancestor" [TermK.var 2, TermK.var 3], [TermK.struc "parent" [TermK.var 2, TermK.var 4], TermK.struc "ancestor" [TermK.var 4, TermK.var 3]]⟩] [("A", 5)] (TermK.struc "parent" [TermK.var 11, TermK.var 12]) [] (⟨[(12, TermK.struc "nobody" []), (11, TermK.struc "bob" []), (10, TermK.struc "bob" []), (8, TermK.struc "alice" []), (9, TermK.struc "nobody" []), (5, TermK.var 8)], [12, 11, 10, 8, 9, 5], 13, "", 0⟩ : EngineState) (⟨[(12, TermK.struc "nobody" []), (11, TermK.struc "bob" []), (10, TermK.struc "bob" []), (8, TermK.struc "alice" []), (9, TermK.struc "nobody" []), (5, TermK.var 8)], [12, 11, 10, 8, 9, 5], 13, "", 0⟩ : EngineState) rfl hn9
  have hn11 : tryClauses 84 kbDemo [⟨TermK.struc "parent" [TermK.struc "alice" [], TermK.struc "dana" []], []⟩, ⟨TermK.struc "ancestor" [TermK.var 0, TermK.var 1], [TermK.struc "parent" [TermK.var 0, TermK.var 1]]⟩, ⟨TermK.struc "ancestor" [TermK.var 2, TermK.var 3], [TermK.struc "parent" [TermK.var 2, TermK.var 4], TermK.struc "ancestor" [TermK.var 4, TermK.var 3]]⟩] [("A", 5)] (TermK.struc "parent" [TermK.var 11, TermK.var 12]) [] (⟨[(12, TermK.struc "nobody" []), (11, TermK.struc "bob" []), (10, TermK.struc "bob" []), (8, TermK.struc "alice" []), (9, TermK.struc "nobody" []), (5, TermK.var 8)], [12, 11, 10, 8, 9, 5], 13, "", 0⟩ : EngineState) = some (⟨[(12, TermK.struc "nobody" []), (11, TermK.struc "bob" []), (10, TermK.struc "bob" []), (8, TermK.struc "alice" []), (9, TermK.struc "nobody" []), (5, TermK.var 8)], [12, 11, 10, 8, 9, 5], 13, "", 0⟩ : EngineState) := tryClauses_step_nomatch 83 kbDemo ⟨TermK.struc "parent" [TermK.struc "alice" [], TermK.struc "dana" []], []⟩ [⟨TermK.struc "ancestor" [TermK.var 0, TermK.var 1], [TermK.struc "parent" [TermK.var 0, TermK.var 1]]⟩, ⟨TermK.struc "ancestor" [TermK.var 2, TermK.var 3], [TermK.struc "parent" [TermK.var 2, TermK.var 4], TermK.struc "ancestor" [TermK.var 4, TermK.var 3]]⟩] [("A", 5)] (TermK.struc "parent" [TermK.var 11, TermK.var 12]) [] (⟨[(12, TermK.struc "nobody" []), (11, TermK.struc "bob" []), (10, TermK.struc "bob" []), (8, TermK.struc "alice" []), (9, TermK.struc "nobody" []), (5, TermK.var 8)], [12, 11, 10, 8, 9, 5], 13, "", 0⟩ : EngineState) (TermK.struc "parent" [TermK.var 11, TermK.var 12]) (TermK.struc "parent" [TermK.struc "alice" [], TermK.struc "dana" []]) [] 13 (⟨[(12, TermK.struc "nobody" []), (11, TermK.struc "bob" []), (10, TermK.struc "bob" []), (8, TermK.struc "alice" []), (9, TermK.struc "nobody" []), (5, TermK.var 8)], [12, 11, 10, 8, 9, 5], 13, "", 0⟩ : EngineState) (⟨[(12, TermK.struc "nobody" []), (11, TermK.struc "bob" []), (10, TermK.struc "bob" []), (8, TermK.struc "alice" []), (9, TermK.struc "nobody" []), (5, TermK.var 8)], [12, 11, 10, 8, 9, 5], 13, "", 0⟩ : EngineState) rfl rfl rfl rfl hn10
  have hn12 : tryClauses 85 kbDemo [⟨TermK.struc "parent" [TermK.struc "bob" [], TermK.struc "carol" []], []⟩, ⟨TermK.struc "parent" [TermK.struc "alice" [], TermK.struc "dana" []], []⟩, ⟨TermK.struc "ancestor" [TermK.var 0, TermK.var 1], [TermK.struc "parent" [TermK.var 0, TermK.var 1]]⟩, ⟨TermK.struc "ancestor" [TermK.var 2, TermK.var 3], [TermK.struc "parent" [TermK.var 2, TermK.var 4], TermK.struc "ancestor" [TermK.var 4, TermK.var 3]]⟩] [("A", 5)] (TermK.struc "parent" [TermK.var 11, TermK.var 12]) [] (⟨[(12, TermK.struc "nobody" []), (11, TermK.struc "bob" []), (10, TermK.struc "bob" []), (8, TermK.struc "alice" []), (9, TermK.struc "nobody" []), (5, TermK.var 8)], [12, 11, 10, 8, 9, 5], 13, "", 0⟩ : EngineState) = some (⟨[(12, TermK.struc "nobody" []), (11, TermK.struc "bob" []), (10, TermK.struc "bob" []), (8, TermK.struc "alice" []), (9, TermK.struc "nobody" []), (5, TermK.var 8)], [12, 11, 10, 8, 9, 5], 13, "", 0⟩ : EngineState) := tryClauses_step_nomatch 84 kbDemo ⟨TermK.struc "parent" [TermK.struc "bob" [], TermK.struc "carol" []], []⟩ [⟨TermK.struc "parent" [TermK.struc "alice" [], TermK.struc "dana" []], []⟩, ⟨TermK.struc "ancestor" [TermK.var 0, TermK.var 1], [TermK.struc "parent" [TermK.var 0, TermK.var 1]]⟩, ⟨TermK.struc "ancestor" [TermK.var 2, TermK.var 3], [TermK.struc "parent" [TermK.var 2, TermK.var 4], TermK.struc "ancestor" [TermK.var 4, TermK.var 3]]⟩] [("A", 5)] (TermK.struc "parent" [TermK.var 11, TermK.var 12]) [] (⟨[(12, TermK.struc "nobody" []), (11, TermK.struc "bob" []), (10, TermK.struc "bob" []), (8, TermK.struc "alice" []), (9, TermK.struc "nobody" []), (5, TermK.var 8)], [12, 11, 10, 8, 9, 5], 13, "", 0⟩ : EngineState) (TermK.struc "parent" [TermK.var 11, TermK.var 12]) (TermK.struc "parent" [TermK.struc "bob" [], TermK.struc "carol" []]) [] 13 (⟨[(12, TermK.struc "nobody" []), (11, TermK.struc "bob" []), (10, TermK.struc "bob" []), (8, TermK.struc "alice" []), (9, TermK.struc "nobody" []), (5, TermK.var 8)], [12, 11, 10, 8, 9, 5], 13, "", 0⟩ : EngineState) (⟨[(12, TermK.struc "nobody" []), (11, TermK.struc "bob" []), (10, TermK.struc "bob" []), (8, TermK.struc "alice" []), (9, TermK.struc "nobody" []), (5, TermK.var 8)], [12, 11, 10, 8, 9, 5], 13, "", 0⟩ : EngineState) rfl rfl rfl rfl hn11
  have hn13 : tryClauses 86 kbDemo [⟨TermK.struc "parent" [TermK.struc "alice" [], TermK.struc "bob" []], []⟩, ⟨TermK.struc "parent" [TermK.struc "bob" [], TermK.struc "carol" []], []⟩, ⟨TermK.struc "parent" [TermK.struc "alice" [], TermK.struc "dana" []], []⟩, ⟨TermK.struc "ancestor" [TermK.var 0, TermK.var 1], [TermK.struc "parent" [TermK.var 0, TermK.var 1]]⟩, ⟨TermK.struc "ancestor" [TermK.var 2, TermK.var 3], [TermK.struc "parent" [TermK.var 2, TermK.var 4], TermK.struc "ancestor" [TermK.var 4, TermK.var 3]]⟩] [("A", 5)] (TermK.struc "parent" [TermK.var 11, TermK.var 12]) [] (⟨[(12, TermK.struc "nobody" []), (11, TermK.struc "bob" []), (10, TermK.struc "bob" []), (8, TermK.struc "alice" []), (9, TermK.struc "nobody" []), (5, TermK.var 8)], [12, 11, 10, 8, 9, 5], 13, "", 0⟩ : EngineState) = some (⟨[(12, TermK.struc "nobody" []), (11, TermK.struc "bob" []), (10, TermK.struc "bob" []), (8, TermK.struc "alice" []), (9, TermK.struc "nobody" []), (5, TermK.var 8)], [12, 11, 10, 8, 9, 5], 13, "", 0⟩ : EngineState) := tryClauses_step_nomatch 85 kbDemo ⟨TermK.struc "parent" [TermK.struc "alice" [], TermK.struc "bob" []], []⟩ [⟨TermK.struc "parent" [TermK.struc "bob" [], TermK.struc "carol" []], []⟩, ⟨TermK.struc "parent" [TermK.struc "alice" [], TermK.struc "dana" []], []⟩, ⟨TermK.struc "ancestor" [TermK.var 0, TermK.var 1], [TermK.struc "parent" [TermK.var 0, TermK.var 1]]⟩, ⟨TermK.struc "ancestor" [TermK.var 2, TermK.var 3], [TermK.struc "parent" [TermK.var 2, TermK.var 4], TermK.struc "ancestor" [TermK.var 4, TermK.var 3]]⟩] [("A", 5)] (TermK.struc "parent" [TermK.var 11, TermK.var 12]) [] (⟨[(12, TermK.struc "nobody" []), (11, TermK.struc "bob" []), (10, TermK.struc "bob" []), (8, TermK.struc "alice" []), (9, TermK.struc "nobody" []), (5, TermK.var 8)], [12, 11, 10, 8, 9, 5], 13, "", 0⟩ : EngineState) (TermK.struc "parent" [TermK.var 11, TermK.var 12]) (TermK.struc "parent" [TermK.struc "alice" [], TermK.struc "bob" []]) [] 13 (⟨[(12, TermK.struc "nobody" []), (11, TermK.struc "bob" []), (10, TermK.struc "bob" []), (8, TermK.struc "alice" []), (9, TermK.struc "nobody" []), (5, TermK.var 8)], [12, 11, 10, 8, 9, 5], 13, "", 0⟩ : EngineState) (⟨[(12, TermK.struc "nobody" []), (11, TermK.struc "bob" []), (10, TermK.struc "bob" []), (8, TermK.struc "alice" []), (9, TermK.struc "nobody" []), (5, TermK.var 8)], [12, 11, 10, 8, 9, 5], 13, "", 0⟩ : EngineState) rfl rfl rfl rfl hn12
  have hn14 : solve 87 kbDemo [("A", 5)] [TermK.struc "parent" [TermK.var 11, TermK.var 12]] (⟨[(12, TermK.struc "nobody" []), (11, TermK.struc "bob" []), (10, TermK.struc "bob" []), (8, TermK.struc "alice" []), (9, TermK.struc "nobody" []), (5, TermK.var 8)], [12, 11, 10, 8, 9, 5], 13, "", 0⟩ : EngineState) = some (⟨[(12, TermK.struc "nobody" []), (11, TermK.struc "bob" []), (10, TermK.struc "bob" []), (8, TermK.struc "alice" []), (9, TermK.struc "nobody" []), (5, TermK.var 8)], [12, 11, 10, 8, 9, 5], 13, "", 0⟩ : EngineState) := solve_step_goal 86 kbDemo [("A", 5)] (TermK.struc "parent" [TermK.var 11, TermK.var 12]) [] (⟨[(12, TermK.struc "nobody" []), (11, TermK.struc "bob" []), (10, TermK.struc "bob" []), (8, TermK.struc "alice" []), (9, TermK.struc "nobody" []), (5, TermK.var 8)], [12, 11, 10, 8, 9, 5], 13, "", 0⟩ : EngineState) (⟨[(12, TermK.struc "nobody" []), (11, TermK.struc "bob" []), (10, TermK.struc "bob" []), (8, TermK.struc "alice" []), (9, TermK.struc "nobody" []), (5, TermK.var 8)], [12, 11, 10, 8, 9, 5], 13, "", 0⟩ : EngineState) (⟨[(12, TermK.struc "nobody" []), (11, TermK.struc "bob" []), (10, TermK.struc "bob" []), (8, TermK.struc "alice" []), (9, TermK.struc "nobody" []), (5, TermK.var 8)], [12, 11, 10, 8, 9, 5], 13, "", 0⟩ : EngineState) rfl hn13
  have hn15 : tryClauses 72 kbDemo [] [("A", 5)] (TermK.struc "parent" [TermK.var 16, TermK.var 17]) [] (⟨[(17, TermK.struc "nobody" []), (16, TermK.struc "carol" []), (15, TermK.struc "carol" []), (14, TermK.struc "nobody" []), (13, TermK.struc "bob" []), (10, TermK.struc "bob" []), (8, TermK.struc "alice" []), (9, TermK.struc "nobody" []), (5, TermK.var 8)], [17, 16, 15, 14, 13, 10, 8, 9, 5], 18, "", 0⟩ : EngineState) = some (⟨[(17, TermK.struc "nobody" []), (16, TermK.struc "carol" []), (15, TermK.struc "carol" []), (14, TermK.struc "nobody" []), (13, TermK.struc "bob" []), (10, TermK.struc "bob" []), (8, TermK.struc "alice" []), (9, TermK.struc "nobody" []), (5, TermK.var 8)], [17, 16, 15, 14, 13, 10, 8, 9, 5], 18, "", 0⟩ : EngineState) := rfl
  have hn16 : tryClauses 73 kbDemo [⟨TermK.struc "ancestor" [TermK.var 2, TermK.var 3], [TermK.struc "parent" [TermK.var 2, TermK.var 4], TermK.struc "ancestor" [TermK.var 4, TermK.var 3]]⟩] [("A", 5)] (TermK.struc "parent" [TermK.var 16, TermK.var 17]) [] (⟨[(17, TermK.struc "nobody" []), (16, TermK.struc "carol" []), (15, TermK.struc "carol" []), (14, TermK.struc "nobody" []), (13, TermK.struc "bob" []), (10, TermK.struc "bob" []), (8, TermK.struc "alice" []), (9, TermK.struc "nobody" []), (5, TermK.var 8)], [17, 16, 15, 14, 13, 10, 8, 9, 5], 18, "", 0⟩ : EngineState) = some (⟨[(17, TermK.struc "nobody" []), (16, TermK.struc "carol" []), (15, TermK.struc "carol" []), (14, TermK.struc "nobody" []), (13, TermK.struc "bob" []), (10, TermK.struc "bob" []), (8, TermK.struc "alice" []), (9, TermK.struc "nobody" []), (5, TermK.var 8)], [17, 16, 15, 14, 13, 10, 8, 9, 5], 18, "", 0⟩ : EngineState) := tryClauses_step_skip 72 kbDemo ⟨TermK.struc "ancestor" [TermK.var 2, TermK.var 3], [TermK.struc "parent" [TermK.var 2, TermK.var 4], TermK.struc "ancestor" [TermK.var 4, TermK.var 3]]⟩ [] [("A", 5)] (TermK.struc "parent" [TermK.var 16, TermK.var 17]) [] (⟨[(17, TermK.struc "nobody" []), (16, TermK.struc "carol" []), (15, TermK.struc "carol" []), (14, TermK.struc "nobody" []), (13, TermK.struc "bob" []), (10, TermK.struc "bob" []), (8, TermK.struc "alice" []), (9, TermK.struc "nobody" []), (5, TermK.var 8)], [17, 16, 15, 14, 13, 10, 8, 9, 5], 18, "", 0⟩ : EngineState) (⟨[(17, TermK.struc "nobody" []), (16, TermK.struc "carol" []), (15, TermK.struc "carol" []), (14, TermK.struc "nobody" []), (13, TermK.struc "bob" []), (10, TermK.struc "bob" []), (8, TermK.struc "alice" []), (9, TermK.struc "nobody" []), (5, TermK.var 8)], [17, 16, 15, 14, 13, 10, 8, 9, 5], 18, "", 0⟩ : EngineState) rfl hn15
  have hn17 : tryClauses 74 kbDemo [⟨TermK.struc "ancestor" [TermK.var 0, TermK.var 1], [TermK.struc "parent" [TermK.var 0, TermK.var 1]]⟩, ⟨TermK.struc "ancestor" [TermK.var 2, TermK.var 3], [TermK.struc "parent" [TermK.var 2, TermK.var 4], TermK.struc "ancestor" [TermK.var 4, TermK.var 3]]⟩] [("A", 5)] (TermK.struc "parent" [TermK.var 16, TermK.var 17]) [] (⟨[(17, TermK.struc "nobody" []), (16, TermK.struc "carol" []), (15, TermK.struc "carol" []), (14, TermK.struc "nobody" []), (13, TermK.struc "bob" []), (10, TermK.struc "bob" []), (8, TermK.struc "alice" []), (9, TermK.struc "nobody" []), (5, TermK.var 8)], [17, 16, 15, 14, 13, 10, 8, 9, 5], 18, "", 0⟩ : EngineState) = some (⟨[(17, TermK.struc "nobody" []), (16, TermK.struc "carol" []), (15, TermK.struc "carol" []), (14, TermK.struc "nobody" []), (13, TermK.struc "bob" []), (10, TermK.struc "bob" []), (8, TermK.struc "alice" []), (9, TermK.struc "nobody" []), (5, TermK.var 8)], [17, 16, 15, 14, 13, 10, 8, 9, 5], 18, "", 0⟩ : EngineState) := tryClauses_step_skip 73 kbDemo ⟨TermK.struc "ancestor" [TermK.var 0, TermK.var 1], [TermK.struc "parent" [TermK.var 0, TermK.var 1]]⟩ [⟨TermK.struc "ancestor" [TermK.var 2, TermK.var 3], [TermK.struc "parent" [TermK.var 2, TermK.var 4], TermK.struc "ancestor" [TermK.var 4, TermK.var 3]]⟩] [("A", 5)] (TermK.struc "parent" [TermK.var 16, TermK.var 17]) [] (⟨[(17, TermK.struc "nobody" []), (16, TermK.struc "carol" []), (15, TermK.struc "carol" []), (14, TermK.struc "nobody" []), (13, TermK.struc "bob" []), (10, TermK.struc "bob" []), (8, TermK.struc "alice" []), (9, TermK.struc "nobody" []), (5, TermK.var 8)], [17, 16, 15, 14, 13, 10, 8, 9, 5], 18, "", 0⟩ : EngineState) (⟨[(17, TermK.struc "nobody" []), (16, TermK.struc "carol" []), (15, TermK.struc "carol" []), (14, TermK.struc "nobody" []), (13, TermK.struc "bob" []), (10, TermK.struc "bob" []), (8, TermK.struc "alice" []), (9, TermK.struc "nobody" []), (5, TermK.var 8)], [17, 16, 15, 14, 13, 10, 8, 9, 5], 18, "", 0⟩ : EngineState) rfl hn16
  have hn18 : tryClauses 75 kbDemo [⟨TermK.struc "parent" [TermK.struc "alice" [], TermK.struc "dana" []], []⟩, ⟨TermK.struc "ancestor" [TermK.var 0, TermK.var 1], [TermK.struc "parent" [TermK.var 0, TermK.var 1]]⟩, ⟨TermK.struc "ancestor" [TermK.var 2, TermK.var 3], [TermK.struc "parent" [TermK.var 2, TermK.var 4], TermK.struc "ancestor" [TermK.var 4, TermK.var 3]]⟩] [("A", 5)] (TermK.struc "parent" [TermK.var 16, TermK.var 17]) [] (⟨[(17, TermK.struc "nobody" []), (16, TermK.struc "carol" []), (15, TermK.struc "carol" []), (14, TermK.struc "nobody" []), (13, TermK.struc "bob" []), (10, TermK.struc "bob" []), (8, TermK.struc "alice" []), (9, TermK.struc "nobody" []), (5, TermK.var 8)], [17, 16, 15, 14, 13, 10, 8, 9, 5], 18, "", 0⟩ : EngineState) = some (⟨[(17, TermK.struc "nobody" []), (16, TermK.struc "carol" []), (15, TermK.struc "carol" []), (14, TermK.struc "nobody" []), (13, TermK.struc "bob" []), (10, TermK.struc "bob" []), (8, TermK.struc "alice" []), (9, TermK.struc "nobody" []), (5, TermK.var 8)], [17, 16, 15, 14, 13, 10, 8, 9, 5], 18, "", 0⟩ : EngineState) := tryClauses_step_nomatch 74 kbDemo ⟨TermK.struc "parent" [TermK.struc "alice" [], TermK.struc "dana" []], []⟩ [⟨TermK.struc "ancestor" [TermK.var 0, TermK.var 1], [TermK.struc "parent" [TermK.var 0, TermK.var 1]]⟩, ⟨TermK.struc "ancestor" [TermK.var 2, TermK.var 3], [TermK.struc "parent" [TermK.var 2, TermK.var 4], TermK.struc "ancestor" [TermK.var 4, TermK.var 3]]⟩] [("A", 5)] (TermK.struc "parent" [TermK.var 16, TermK.var 17]) [] (⟨[(17, TermK.struc "nobody" []), (16, TermK.struc "carol" []), (15, TermK.struc "carol" []), (14, TermK.struc "nobody" []), (13, TermK.struc "bob" []), (10, TermK.struc "bob" []), (8, TermK.struc "alice" []), (9, TermK.struc "nobody" []), (5, TermK.var 8)], [17, 16, 15, 14, 13, 10, 8, 9, 5], 18, "", 0⟩ : EngineState) (TermK.struc "parent" [TermK.var 16, TermK.var 17]) (TermK.struc "parent" [TermK.struc "alice" [], TermK.struc "dana" []]) [] 18 (⟨[(17, TermK.struc "nobody" []), (16, TermK.struc "carol" []), (15, TermK.struc "carol" []), (14, TermK.struc "nobody" []), (13, TermK.struc "bob" []), (10, TermK.struc "bob" []), (8, TermK.struc "alice" []), (9, TermK.struc "nobody" []), (5, TermK.var 8)], [17, 16, 15, 14, 13, 10, 8, 9, 5], 18, "", 0⟩ : EngineState) (⟨[(17, TermK.struc "nobody" []), (16, TermK.struc "carol" []), (15, TermK.struc "carol" []), (14, TermK.struc "nobody" []), (13, TermK.struc "bob" []), (10, TermK.struc "bob" []), (8, TermK.struc "alice" []), (9, TermK.struc "nobody" []), (5, TermK.var 8)], [17, 16, 15, 14, 13, 10, 8, 9, 5], 18, "", 0⟩ : EngineState) rfl rfl rfl rfl hn17
  have hn19 : tryClauses 76 kbDemo [⟨TermK.struc "parent" [TermK.struc "bob" [], TermK.struc "carol" []], []⟩, ⟨TermK.struc "parent" [TermK.struc "alice" [], TermK.struc "dana" []], []⟩, ⟨TermK.struc "ancestor" [TermK.var 0, TermK.var 1], [TermK.struc "parent" [TermK.var 0, TermK.var 1]]⟩, ⟨TermK.struc "ancestor" [TermK.var 2, TermK.var 3], [TermK.struc "parent" [TermK.var 2, TermK.var 4], TermK.struc "ancestor" [TermK.var 4, TermK.var 3]]⟩] [("A", 5)] (TermK.struc "parent" [TermK.var 16, TermK.var 17]) [] (⟨[(17, TermK.struc "nobody" []), (16, TermK.struc "carol" []), (15, TermK.struc "carol" []), (14, TermK.struc "nobody" []), (13, TermK.struc "bob" []), (10, TermK.struc "bob" []), (8, TermK.struc "alice" []), (9, TermK.struc "nobody" []), (5, TermK.var 8)], [17, 16, 15, 14, 13, 10, 8, 9, 5], 18, "", 0⟩ : EngineState) = some (⟨[(17, TermK.struc "nobody" []), (16, TermK.struc "carol" []), (15, TermK.struc "carol" []), (14, TermK.struc "nobody" []), (13, TermK.struc "bob" []), (10, TermK.struc "bob" []), (8, TermK.struc "alice" []), (9, TermK.struc "nobody" []), (5, TermK.var 8)], [17, 16, 15, 14, 13, 10, 8, 9, 5], 18, "", 0⟩ : EngineState) := tryClauses_step_nomatch 75 kbDemo ⟨TermK.struc "parent" [TermK.struc "bob" [], TermK.struc "carol" []], []⟩ [⟨TermK.struc "parent" [TermK.struc "alice" [], TermK.struc "dana" []], []⟩, ⟨TermK.struc "ancestor" [TermK.var 0, TermK.var 1], [TermK.struc "parent" [TermK.var 0, TermK.var 1]]⟩, ⟨TermK.struc "ancestor" [TermK.var 2, TermK.var 3], [TermK.struc "parent" [TermK.var 2, TermK.var 4], TermK.struc "ancestor" [TermK.var 4, TermK.var 3]]⟩] [("A", 5)] (TermK.struc "parent" [TermK.var 16, TermK.var 17]) [] (⟨[(17, TermK.struc "nobody" []), (16, TermK.struc "carol" []), (15, TermK.struc "carol" []), (14, TermK.struc "nobody" []), (13, TermK.struc "bob" []), (10, TermK.struc "bob" []), (8, TermK.struc "alice" []), (9, TermK.struc "nobody" []), (5, TermK.var 8)], [17, 16, 15, 14, 13, 10, 8, 9, 5], 18, "", 0⟩ : EngineState) (TermK.struc "parent" [TermK.var 16, TermK.var 17]) (TermK.struc "parent" [TermK.struc "bob" [], TermK.struc "carol" []]) [] 18 (⟨[(17, TermK.struc "nobody" []), (16, TermK.struc "carol" []), (15, TermK.struc "carol" []), (14, TermK.struc "nobody" []), (13, TermK.struc "bob" []), (10, TermK.struc "bob" []), (8, TermK.struc "alice" []), (9, TermK.struc "nobody" []), (5, TermK.var 8)], [17, 16, 15, 14, 13, 10, 8, 9, 5], 18, "", 0⟩ : EngineState) (⟨[(17, TermK.struc "nobody" []), (16, TermK.struc "carol" []), (15, TermK.struc "carol" []), (14, TermK.struc "nobody" []), (13, TermK.struc "bob" []), (10, TermK.struc "bob" []), (8, TermK.struc "alice" []), (9, TermK.struc "nobody" []), (5, TermK.var 8)], [17, 16, 15, 14, 13, 10, 8, 9, 5], 18, "", 0⟩ : EngineState) rfl rfl rfl rfl hn18
  have hn20 : tryClauses 77 kbDemo [⟨TermK.struc "parent" [TermK.struc "alice" [], TermK.struc "bob" []], []⟩, ⟨TermK.struc "parent" [TermK.struc "bob" [], TermK.struc "carol" []], []⟩, ⟨TermK.struc "parent" [TermK.struc "alice" [], TermK.struc "dana" []], []⟩, ⟨TermK.struc "ancestor" [TermK.var 0, TermK.var 1], [TermK.struc "parent" [TermK.var 0, TermK.var 1]]⟩, ⟨TermK.struc "ancestor" [TermK.var 2, TermK.var 3], [TermK.struc "parent" [TermK.var 2, TermK.var 4], TermK.struc "ancestor" [TermK.var 4, TermK.var 3]]⟩] [("A", 5)] (TermK.struc "parent" [TermK.var 16, TermK.var 17]) [] (⟨[(17, TermK.struc "nobody" []), (16, TermK.struc "carol" []), (15, TermK.struc "carol" []), (14, TermK.struc "nobody" []), (13, TermK.struc "bob" []), (10, TermK.struc "bob" []), (8, TermK.struc "alice" []), (9, TermK.struc "nobody" []), (5, TermK.var 8)], [17, 16, 15, 14, 13, 10, 8, 9, 5], 18, "", 0⟩ : EngineState) = some (⟨[(17, TermK.struc "nobody" []), (16, TermK.struc "carol" []), (15, TermK.struc "carol" []), (14, TermK.struc "nobody" []), (13, TermK.struc "bob" []), (10, TermK.struc "bob" []), (8, TermK.struc "alice" []), (9, TermK.struc "nobody" []), (5, TermK.var 8)], [17, 16, 15, 14, 13, 10, 8, 9, 5], 18, "", 0⟩ : EngineState) := tryClauses_step_nomatch 76 kbDemo ⟨TermK.struc "parent" [TermK.struc "alice" [], TermK.struc "bob" []], []⟩ [⟨TermK.struc "parent" [TermK.struc "bob" [], TermK.struc "carol" []], []⟩, ⟨TermK.struc "parent" [TermK.struc "alice" [], TermK.struc "dana" []], []⟩, ⟨TermK.struc "ancestor" [TermK.var 0, TermK.var 1], [TermK.struc "parent" [TermK.var 0, TermK.var 1]]⟩, ⟨TermK.struc "ancestor" [TermK.var 2, TermK.var 3], [TermK.struc "parent" [TermK.var 2, TermK.var 4], TermK.struc "ancestor" [TermK.var 4, TermK.var 3]]⟩] [("A", 5)] (TermK.struc "parent" [TermK.var 16, TermK.var 17]) [] (⟨[(17, TermK.struc "nobody" []), (16, TermK.struc "carol" []), (15, TermK.struc "carol" []), (14, TermK.struc "nobody" []), (13, TermK.struc "bob" []), (10, TermK.struc "bob" []), (8, TermK.struc "alice" []), (9, TermK.struc "nobody" []), (5, TermK.var 8)], [17, 16, 15, 14, 13, 10, 8, 9, 5], 18, "", 0⟩ : EngineState) (TermK.struc "parent" [TermK.var 16, TermK.var 17]) (TermK.struc "parent" [TermK.struc "alice" [], TermK.struc "bob" []]) [] 18 (⟨[(17, TermK.struc "nobody" []), (16, TermK.struc "carol" []), (15, TermK.struc "carol" []), (14, TermK.struc "nobody" []), (13, TermK.struc "bob" []), (10, TermK.struc "bob" []), (8, TermK.struc "alice" []), (9, TermK.struc "nobody" []), (5, TermK.var 8)], [17, 16, 15, 14, 13, 10, 8, 9, 5], 18, "", 0⟩ : EngineState) (⟨[(17, TermK.struc "nobody" []), (16, TermK.struc "carol" []), (15, TermK.struc "carol" []), (14, TermK.struc "nobody" []), (13, TermK.struc "bob" []), (10, TermK.struc "bob" []), (8, TermK.struc "alice" []), (9, TermK.struc "nobody" []), (5, TermK.var 8)], [17, 16, 15, 14, 13, 10, 8, 9, 5], 18, "", 0⟩ : EngineState) rfl rfl rfl rfl hn19
  have hn21 : solve 78 kbDemo [("A", 5)] [TermK.struc "parent" [TermK.var 16, TermK.var 17]] (⟨[(17, TermK.struc "nobody" []), (16, TermK.struc "carol" []), (15, TermK.struc "carol" []), (14, TermK.struc "nobody" []), (13, TermK.struc "bob" []), (10, TermK.struc "bob" []), (8, TermK.struc "alice" []), (9, TermK.struc "nobody" []), (5, TermK.var 8)], [17, 16, 15, 14, 13, 10, 8, 9, 5], 18, "", 0⟩ : EngineState) = some (⟨[(17, TermK.struc "nobody" []), (16, TermK.struc "carol" []), (15, TermK.struc "carol" []), (14, TermK.struc "nobody" []), (13, TermK.struc "bob" []), (10, TermK.struc "bob" []), (8, TermK.struc "alice" []), (9, TermK.struc "nobody" []), (5, TermK.var 8)], [17, 16, 15, 14, 13, 10, 8, 9, 5], 18, "", 0⟩ : EngineState) := solve_step_goal 77 kbDemo [("A", 5)] (TermK.struc "parent" [TermK.var 16, TermK.var 17]) [] (⟨[(17, TermK.struc "nobody" []), (16, TermK.struc "carol" []), (15, TermK.struc "carol" []), (14, TermK.struc "nobody" []), (13, TermK.struc "bob" []), (10, TermK.struc "bob" []), (8, TermK.struc "alice" []), (9, TermK.struc "nobody" []), (5, TermK.var 8)], [17, 16, 15, 14, 13, 10, 8, 9, 5], 18, "", 0⟩ : EngineState) (⟨[(17, TermK.struc "nobody" []), (16, TermK.struc "carol" []), (15, TermK.struc "carol" []), (14, TermK.struc "nobody" []), (13, TermK.struc "bob" []), (10, TermK.struc "bob" []), (8, TermK.struc "alice" []), (9, TermK.struc "nobody" []), (5, TermK.var 8)], [17, 16, 15, 14, 13, 10, 8, 9, 5], 18, "", 0⟩ : EngineState) (⟨[(17, TermK.struc "nobody" []), (16, TermK.struc "carol" []), (15, TermK.struc "carol" []), (14, TermK.struc "nobody" []), (13, TermK.struc "bob" []), (10, TermK.struc "bob" []), (8, TermK.struc "alice" []), (9, TermK.struc "nobody" []), (5, TermK.var 8)], [17, 16, 15, 14, 13, 10, 8, 9, 5], 18, "", 0⟩ : EngineState) rfl hn20
  have hn22 : tryClauses 71 kbDemo [] [("A", 5)] (TermK.struc "parent" [TermK.var 18, TermK.var 20]) [TermK.struc "ancestor" [TermK.var 20, TermK.var 19]] (⟨[(19, TermK.struc "nobody" []), (18, TermK.struc "carol" []), (15, TermK.struc "carol" []), (14, TermK.struc "nobody" []), (13, TermK.struc "bob" []), (10, TermK.struc "bob" []), (8, TermK.struc "alice" []), (9, TermK.struc "nobody" []), (5, TermK.var 8)], [19, 18, 15, 14, 13, 10, 8, 9, 5], 21, "", 0⟩ : EngineState) = some (⟨[(19, TermK.struc "nobody" []), (18, TermK.struc "carol" []), (15, TermK.struc "carol" []), (14, TermK.struc "nobody" []), (13, TermK.struc "bob" []), (10, TermK.struc "bob" []), (8, TermK.struc "alice" []), (9, TermK.struc "nobody" []), (5, TermK.var 8)], [19, 18, 15, 14, 13, 10, 8, 9, 5], 21, "", 0⟩ : EngineState) := rfl
  have hn23 : tryClauses 72 kbDemo [⟨TermK.struc "ancestor" [TermK.var 2, TermK.var 3], [TermK.struc "parent" [TermK.var 2, TermK.var 4], TermK.struc "ancestor" [TermK.var 4, TermK.var 3]]⟩] [("A", 5)] (TermK.struc "parent" [TermK.var 18, TermK.var 20]) [TermK.struc "ancestor" [TermK.var 20, TermK.var 19]] (⟨[(19, TermK.struc "nobody" []), (18, TermK.struc "carol" []), (15, TermK.struc "carol" []), (14, TermK.struc "nobody" []), (13, TermK.struc "bob" []), (10, TermK.struc "bob" []), (8, TermK.struc "alice" []), (9, TermK.struc "nobody" []), (5, TermK.var 8)], [19, 18, 15, 14, 13, 10, 8, 9, 5], 21, "", 0⟩ : EngineState) = some (⟨[(19, TermK.struc "nobody" []), (18, TermK.struc "carol" []), (15, TermK.struc "carol" []), (14, TermK.struc "nobody" []), (13, TermK.struc "bob" []), (10, TermK.struc "bob" []), (8, TermK.struc "alice" []), (9, TermK.struc "nobody" []), (5, TermK.var 8)], [19, 18, 15, 14, 13, 10, 8, 9, 5], 21, "", 0⟩ : EngineState) := tryClauses_step_skip 71 kbDemo ⟨TermK.struc "ancestor" [TermK.var 2, TermK.var 3], [TermK.struc "parent" [TermK.var 2, TermK.var 4], TermK.struc "ancestor" [TermK.var 4, TermK.var 3]]⟩ [] [("A", 5)] (TermK.struc "parent" [TermK.var 18, TermK.var 20]) [TermK.struc "ancestor" [TermK.var 20, TermK.var 19]] (⟨[(19, TermK.struc "nobody" []), (18, TermK.struc "carol" []), (15, TermK.struc "carol" []), (14, TermK.struc "nobody" []), (13, TermK.struc "bob" []), (10, TermK.struc "bob" []), (8, TermK.struc "alice" []), (9, TermK.struc "nobody" []), (5, TermK.var 8)], [19, 18, 15, 14, 13, 10, 8, 9, 5], 21, "", 0⟩ : EngineState) (⟨[(19, TermK.struc "nobody" []), (18, TermK.struc "carol" []), (15, TermK.struc "carol" []), (14, TermK.struc "nobody" []), (13, TermK.struc "bob" []), (10, TermK.struc "bob" []), (8, TermK.struc "alice" []), (9, TermK.struc "nobody" []), (5, TermK.var 8)], [19, 18, 15, 14, 13, 10, 8, 9, 5], 21, "", 0⟩ : EngineState) rfl hn22
  have hn24 : tryClauses 73 kbDemo [⟨TermK.struc "ancestor" [TermK.var 0, TermK.var 1], [TermK.struc "parent" [TermK.var 0, TermK.var 1]]⟩, ⟨TermK.struc "ancestor" [TermK.var 2, TermK.var 3], [TermK.struc "parent" [TermK.var 2, TermK.var 4], TermK.struc "ancestor" [TermK.var 4, TermK.var 3]]⟩] [("A", 5)] (TermK.struc "parent" [TermK.var 18, TermK.var 20]) [TermK.struc "ancestor" [TermK.var 20, TermK.var 19]] (⟨[(19, TermK.struc "nobody" []), (18, TermK.struc "carol" []), (15, TermK.struc "carol" []), (14, TermK.struc "nobody" []), (13, TermK.struc "bob" []), (10, TermK.struc "bob" []), (8, TermK.struc "alice" []), (9, TermK.struc "nobody" []), (5, TermK.var 8)], [19, 18, 15, 14, 13, 10, 8, 9, 5], 21, "", 0⟩ : EngineState) = some (⟨[(19, TermK.struc "nobody" []), (18, TermK.struc "carol" []), (15, TermK.struc "carol" []), (14, TermK.struc "nobody" []), (13, TermK.struc "bob" []), (10, TermK.struc "bob" []), (8, TermK.struc "alice" []), (9, TermK.struc "nobody" []), (5, TermK.var 8)], [19, 18, 15, 14, 13, 10, 8, 9, 5], 21, "", 0⟩ : EngineState) := tryClauses_step_skip 72 kbDemo ⟨TermK.struc "ancestor" [TermK.var 0, TermK.var 1], [TermK.struc "parent" [TermK.var 0, TermK.var 1]]⟩ [⟨TermK.struc "ancestor" [TermK.var 2, TermK.var 3], [TermK.struc "parent" [TermK.var 2, TermK.var 4], TermK.struc "ancestor" [TermK.var 4, TermK.var 3]]⟩] [("A", 5)] (TermK.struc "parent" [TermK.var 18, TermK.var 20]) [TermK.struc "ancestor" [TermK.var 20, TermK.var 19]] (⟨[(19, TermK.struc "nobody" []), (18, TermK.struc "carol" []), (15, TermK.struc "carol" []), (14, TermK.struc "nobody" []), (13, TermK.struc "bob" []), (10, TermK.struc "bob" []), (8, TermK.struc "alice" []), (9, TermK.struc "nobody" []), (5, TermK.var 8)], [19, 18, 15, 14, 13, 10, 8, 9, 5], 21, "", 0⟩ : EngineState) (⟨[(19, TermK.struc "nobody" []), (18, TermK.struc "carol" []), (15, TermK.struc "carol" []), (14, TermK.struc "nobody" []), (13, TermK.struc "bob" []), (10, TermK.struc "bob" []), (8, TermK.struc "alice" []), (9, TermK.struc "nobody" []), (5, TermK.var 8)], [19, 18, 15, 14, 13, 10, 8, 9, 5], 21, "", 0⟩ : EngineState) rfl hn23
  have hn25 : tryClauses 74 kbDemo [⟨TermK.struc "parent" [TermK.struc "alice" [], TermK.struc "dana" []], []⟩, ⟨TermK.struc "ancestor" [TermK.var 0, TermK.var 1], [TermK.struc "parent" [TermK.var 0, TermK.var 1]]⟩, ⟨TermK.struc "ancestor" [TermK.var 2, TermK.var 3], [TermK.struc "parent" [TermK.var 2, TermK.var 4], TermK.struc "ancestor" [TermK.var 4, TermK.var 3]]⟩] [("A", 5)] (TermK.struc "parent" [TermK.var 18, TermK.var 20]) [TermK.struc "ancestor" [TermK.var 20, TermK.var 19]] (⟨[(19, TermK.struc "nobody" []), (18, TermK.struc "carol" []), (15, TermK.struc "carol" []), (14, TermK.struc "nobody" []), (13, TermK.struc "bob" []), (10, TermK.struc "bob" []), (8, TermK.struc "alice" []), (9, TermK.struc "nobody" []), (5, TermK.var 8)], [19, 18, 15, 14, 13, 10, 8, 9, 5], 21, "", 0⟩ : EngineState) = some (⟨[(19, TermK.struc "nobody" []), (18, TermK.struc "carol" []), (15, TermK.struc "carol" []), (14, TermK.struc "nobody" []), (13, TermK.struc "bob" []), (10, TermK.struc "bob" []), (8, TermK.struc "alice" []), (9, TermK.struc "nobody" []), (5, TermK.var 8)], [19, 18, 15, 14, 13, 10, 8, 9, 5], 21, "", 0⟩ : EngineState) := tryClauses_step_nomatch 73 kbDemo ⟨TermK.struc "parent" [TermK.struc "alice" [], TermK.struc "dana" []], []⟩ [⟨TermK.struc "ancestor" [TermK.var 0, TermK.var 1], [TermK.struc "parent" [TermK.var 0, TermK.var 1]]⟩, ⟨TermK.struc "ancestor" [TermK.var 2, TermK.var 3], [TermK.struc "parent" [TermK.var 2, TermK.var 4], TermK.struc "ancestor" [TermK.var 4, TermK.var 3]]⟩] [("A", 5)] (TermK.struc "parent" [TermK.var 18, TermK.var 20]) [TermK.struc "ancestor" [TermK.var 20, TermK.var 19]] (⟨[(19, TermK.struc "nobody" []), (18, TermK.struc "carol" []), (15, TermK.struc "carol" []), (14, TermK.struc "nobody" []), (13, TermK.struc "bob" []), (10, TermK.struc "bob" []), (8, TermK.struc "alice" []), (9, TermK.struc "nobody" []), (5, TermK.var 8)], [19, 18, 15, 14, 13, 10, 8, 9, 5], 21, "", 0⟩ : EngineState) (TermK.struc "parent" [TermK.var 18, TermK.var 20]) (TermK.struc "parent" [TermK.struc "alice" [], TermK.struc "dana" []]) [] 21 (⟨[(19, TermK.struc "nobody" []), (18, TermK.struc "carol" []), (15, TermK.struc "carol" []), (14, TermK.struc "nobody" []), (13, TermK.struc "bob" []), (10, TermK.struc "bob" []), (8, TermK.struc "alice" []), (9, TermK.struc "nobody" []), (5, TermK.var 8)], [19, 18, 15, 14, 13, 10, 8, 9, 5], 21, "", 0⟩ : EngineState) (⟨[(19, TermK.struc "nobody" []), (18, TermK.struc "carol" []), (15, TermK.struc "carol" []), (14, TermK.struc "nobody" []), (13, TermK.struc "bob" []), (10, TermK.struc "bob" []), (8, TermK.struc "alice" []), (9, TermK.struc "nobody" []), (5, TermK.var 8)], [19, 18, 15, 14, 13, 10, 8, 9, 5], 21, "", 0⟩ : EngineState) rfl rfl rfl rfl hn24
  have hn26 : tryClauses 75 kbDemo [⟨TermK.struc "parent" [TermK.struc "bob" [], TermK.struc "carol" []], []⟩, ⟨TermK.struc "parent" [TermK.struc "alice" [], TermK.struc "dana" []], []⟩, ⟨TermK.struc "ancestor" [TermK.var 0, TermK.var 1], [TermK.struc "parent" [TermK.var 0, TermK.var 1]]⟩, ⟨TermK.struc "ancestor" [TermK.var 2, TermK.var 3], [TermK.struc "parent" [TermK.var 2, TermK.var 4], TermK.struc "ancestor" [TermK.var 4, TermK.var 3]]⟩] [("A", 5)] (TermK.struc "parent" [TermK.var 18, TermK.var 20]) [TermK.struc "ancestor" [TermK.var 20, TermK.var 19]] (⟨[(19, TermK.struc "nobody" []), (18, TermK.struc "carol" []), (15, TermK.struc "carol" []), (14, TermK.struc "nobody" []), (13, TermK.struc "bob" []), (10, TermK.struc "bob" []), (8, TermK.struc "alice" []), (9, TermK.struc "nobody" []), (5, TermK.var 8)], [19, 18, 15, 14, 13, 10, 8, 9, 5], 21, "", 0⟩ : EngineState) = some (⟨[(19, TermK.struc "nobody" []), (18, TermK.struc "carol" []), (15, TermK.struc "carol" []), (14, TermK.struc "nobody" []), (13, TermK.struc "bob" []), (10, TermK.struc "bob" []), (8, TermK.struc "alice" []), (9, TermK.struc "nobody" []), (5, TermK.var 8)], [19, 18, 15, 14, 13, 10, 8, 9, 5], 21, "", 0⟩ : EngineState) := tryClauses_step_nomatch 74 kbDemo ⟨TermK.struc "parent" [TermK.struc "bob" [], TermK.struc "carol" []], []⟩ [⟨TermK.struc "parent" [TermK.struc "alice" [], TermK.struc "dana" []], []⟩, ⟨TermK.struc "ancestor" [TermK.var 0, TermK.var 1], [TermK.struc "parent" [TermK.var 0, TermK.var 1]]⟩, ⟨TermK.struc "ancestor" [TermK.var 2, TermK.var 3], [TermK.struc "parent" [TermK.var 2, TermK.var 4], TermK.struc "ancestor" [TermK.var 4, TermK.var 3]]⟩] [("A", 5)] (TermK.struc "parent" [TermK.var 18, TermK.var 20]) [TermK.struc "ancestor" [TermK.var 20, TermK.var 19]] (⟨[(19, TermK.struc "nobody" []), (18, TermK.struc "carol" []), (15, TermK.struc "carol" []), (14, TermK.struc "nobody" []), (13, TermK.struc "bob" []), (10, TermK.struc "bob" []), (8, TermK.struc "alice" []), (9, TermK.struc "nobody" []), (5, TermK.var 8)], [19, 18, 15, 14, 13, 10, 8, 9, 5], 21, "", 0⟩ : EngineState) (TermK.struc "parent" [TermK.var 18, TermK.var 20]) (TermK.struc "parent" [TermK.struc "bob" [], TermK.struc "carol" []]) [] 21 (⟨[(19, TermK.struc "nobody" []), (18, TermK.struc "carol" []), (15, TermK.struc "carol" []), (14, TermK.struc "nobody" []), (13, TermK.struc "bob" []), (10, TermK.struc "bob" []), (8, TermK.struc "alice" []), (9, TermK.struc "nobody" []), (5, TermK.var 8)], [19, 18, 15, 14, 13, 10, 8, 9, 5], 21, "", 0⟩ : EngineState) (⟨[(19, TermK.struc "nobody" []), (18, TermK.struc "carol" []), (15, TermK.struc "carol" []), (14, TermK.struc "nobody" []), (13, TermK.struc "bob" []), (10, TermK.struc "bob" []), (8, TermK.struc "alice" []), (9, TermK.struc "nobody" []), (5, TermK.var 8)], [19, 18, 15, 14, 13, 10, 8, 9, 5], 21, "", 0⟩ : EngineState) rfl rfl rfl rfl hn25
  have hn27 : tryClauses 76 kbDemo [⟨TermK.struc "parent" [TermK.struc "alice" [], TermK.struc "bob" []], []⟩, ⟨TermK.struc "parent" [TermK.struc "bob" [], TermK.struc "carol" []], []⟩, ⟨TermK.struc "parent" [TermK.struc "alice" [], TermK.struc "dana" []], []⟩, ⟨TermK.struc "ancestor" [TermK.var 0, TermK.var 1], [TermK.struc "parent" [TermK.var 0, TermK.var 1]]⟩, ⟨TermK.struc "ancestor" [TermK.var 2, TermK.var 3], [TermK.struc "parent" [TermK.var 2, TermK.var 4], TermK.struc "ancestor" [TermK.var 4, TermK.var 3]]⟩] [("A", 5)] (TermK.struc "parent" [TermK.var 18, TermK.var 20]) [TermK.struc "ancestor" [TermK.var 20, TermK.var 19]] (⟨[(19, TermK.struc "nobody" []), (18, TermK.struc "carol" []), (15, TermK.struc "carol" []), (14, TermK.struc "nobody" []), (13, TermK.struc "bob" []), (10, TermK.struc "bob" []), (8, TermK.struc "alice" []), (9, TermK.struc "nobody" []), (5, TermK.var 8)], [19, 18, 15, 14, 13, 10, 8, 9, 5], 21, "", 0⟩ : EngineState) = some (⟨[(19, TermK.struc "nobody" []), (18, TermK.struc "carol" []), (15, TermK.struc "carol" []), (14, TermK.struc "nobody" []), (13, TermK.struc "bob" []), (10, TermK.struc "bob" []), (8, TermK.struc "alice" []), (9, TermK.struc "nobody" []), (5, TermK.var 8)], [19, 18, 15, 14, 13, 10, 8, 9, 5], 21, "", 0⟩ : EngineState) := tryClauses_step_nomatch 75 kbDemo ⟨TermK.struc "parent" [TermK.struc "alice" [], TermK.struc "bob" []], []⟩ [⟨TermK.struc "parent" [TermK.struc "bob" [], TermK.struc "carol" []], []⟩, ⟨TermK.struc "parent" [TermK.struc "alice" [], TermK.struc "dana" []], []⟩, ⟨TermK.struc "ancestor" [TermK.var 0, TermK.var 1], [TermK.struc "parent" [TermK.var 0, TermK.var 1]]⟩, ⟨TermK.struc "ancestor" [TermK.var 2, TermK.var 3], [TermK.struc "parent" [TermK.var 2, TermK.var 4], TermK.struc "ancestor" [TermK.var 4, TermK.var 3]]⟩] [("A", 5)] (TermK.struc "parent" [TermK.var 18, TermK.var 20]) [TermK.struc "ancestor" [TermK.var 20, TermK.var 19]] (⟨[(19, TermK.struc "nobody" []), (18, TermK.struc "carol" []), (15, TermK.struc "carol" []), (14, TermK.struc "nobody" []), (13, TermK.struc "bob" []), (10, TermK.struc "bob" []), (8, TermK.struc "alice" []), (9, TermK.struc "nobody" []), (5, TermK.var 8)], [19, 18, 15, 14, 13, 10, 8, 9, 5], 21, "", 0⟩ : EngineState) (TermK.struc "parent" [TermK.var 18, TermK.var 20]) (TermK.struc "parent" [TermK.struc "alice" [], TermK.struc "bob" []]) [] 21 (⟨[(19, TermK.struc "nobody" []), (18, TermK.struc "carol" []), (15, TermK.struc "carol" []), (14, TermK.struc "nobody" []), (13, TermK.struc "bob" []), (10, TermK.struc "bob" []), (8, TermK.struc "alice" []), (9, TermK.struc "nobody" []), (5, TermK.var 8)], [19, 18, 15, 14, 13, 10, 8, 9, 5], 21, "", 0⟩ : EngineState) (⟨[(19, TermK.struc "nobody" []), (18, TermK.struc "carol" []), (15, TermK.struc "carol" []), (14, TermK.struc "nobody" []), (13, TermK.struc "bob" []), (10, TermK.struc "bob" []), (8, TermK.struc "alice" []), (9, TermK.struc "nobody" []), (5, TermK.var 8)], [19, 18, 15, 14, 13, 10, 8, 9, 5], 21, "", 0⟩ : EngineState) rfl rfl rfl rfl hn26
  have hn28 : solve 77 kbDemo [("A", 5)] [TermK.struc "parent" [TermK.var 18, TermK.var 20], TermK.struc "ancestor" [TermK.var 20, TermK.var 19]] (⟨[(19, TermK.struc "nobody" []), (18, TermK.struc "carol" []), (15, TermK.struc "carol" []), (14, TermK.struc "nobody" []), (13, TermK.struc "bob" []), (10, TermK.struc "bob" []), (8, TermK.struc "alice" []), (9, TermK.struc "nobody" []), (5, TermK.var 8)], [19, 18, 15, 14, 13, 10, 8, 9, 5], 21, "", 0⟩ : EngineState) = some (⟨[(19, TermK.struc "nobody" []), (18, TermK.struc "carol" []), (15, TermK.struc "carol" []), (14, TermK.struc "nobody" []), (13, TermK.struc "bob" []), (10, TermK.struc "bob" []), (8, TermK.struc "alice" []), (9, TermK.struc "nobody" []), (5, TermK.var 8)], [19, 18, 15, 14, 13, 10, 8, 9, 5], 21, "", 0⟩ : EngineState) := solve_step_goal 76 kbDemo [("A", 5)] (TermK.struc "parent" [TermK.var 18, TermK.var 20]) [TermK.struc "ancestor" [TermK.var 20, TermK.var 19]] (⟨[(19, TermK.struc "nobody" []), (18, TermK.struc "carol" []), (15, TermK.struc "carol" []), (14, TermK.struc "nobody" []), (13, TermK.struc "bob" []), (10, TermK.struc "bob" []), (8, TermK.struc "alice" []), (9, TermK.struc "nobody" []), (5, TermK.var 8)], [19, 18, 15, 14, 13, 10, 8, 9, 5], 21, "", 0⟩ : EngineState) (⟨[(19, TermK.struc "nobody" []), (18, TermK.struc "carol" []), (15, TermK.struc "carol" []), (14, TermK.struc "nobody" []), (13, TermK.struc "bob" []), (10, TermK.struc "bob" []), (8, TermK.struc "alice" []), (9, TermK.struc "nobody" []), (5, TermK.var 8)], [19, 18, 15, 14, 13, 10, 8, 9, 5], 21, "", 0⟩ : EngineState) (⟨[(19, TermK.struc "nobody" []), (18, TermK.struc "carol" []), (15, TermK.struc "carol" []), (14, TermK.struc "nobody" []), (13, TermK.struc "bob" []), (10, TermK.struc "bob" []), (8, TermK.struc "alice" []), (9, TermK.struc "nobody" []), (5, TermK.var 8)], [19, 18, 15, 14, 13, 10, 8, 9, 5], 21, "", 0⟩ : EngineState) rfl hn27
  have hn29 : tryClauses 77 kbDemo [] [("A", 5)] (TermK.struc "ancestor" [TermK.var 15, TermK.var 14]) [] (⟨[(15, TermK.struc "carol" []), (14, TermK.struc "nobody" []), (13, TermK.struc "bob" []), (10, TermK.struc "bob" []), (8, TermK.struc "alice" []), (9, TermK.struc "nobody" []), (5, TermK.var 8)], [15, 14, 13, 10, 8, 9, 5], 21, "", 0⟩ : EngineState) = some (⟨[(15, TermK.struc "carol" []), (14, TermK.struc "nobody" []), (13, TermK.struc "bob" []), (10, TermK.struc "bob" []), (8, TermK.struc "alice" []), (9, TermK.struc "nobody" []), (5, TermK.var 8)], [15, 14, 13, 10, 8, 9, 5], 21, "", 0⟩ : EngineState) := rfl
  have hn30 : tryClauses 78 kbDemo [⟨TermK.struc "ancestor" [TermK.var 2, TermK.var 3], [TermK.struc "parent" [TermK.var 2, TermK.var 4], TermK.struc "ancestor" [TermK.var 4, TermK.var 3]]⟩] [("A", 5)] (TermK.struc "ancestor" [TermK.var 15, TermK.var 14]) [] (⟨[(15, TermK.struc "carol" []), (14, TermK.struc "nobody" []), (13, TermK.struc "bob" []), (10, TermK.struc "bob" []), (8, TermK.struc "alice" []), (9, TermK.struc "nobody" []), (5, TermK.var 8)], [15, 14, 13, 10, 8, 9, 5], 18, "", 0⟩ : EngineState) = some (⟨[(15, TermK.struc "carol" []), (14, TermK.struc "nobody" []), (13, TermK.struc "bob" []), (10, TermK.struc "bob" []), (8, TermK.struc "alice" []), (9, TermK.struc "nobody" []), (5, TermK.var 8)], [15, 14, 13, 10, 8, 9, 5], 21, "", 0⟩ : EngineState) := tryClauses_step_attempt 77 kbDemo ⟨TermK.struc "ancestor" [TermK.var 2, TermK.var 3], [TermK.struc "parent" [TermK.var 2, TermK.var 4], TermK.struc "ancestor" [TermK.var 4, TermK.var 3]]⟩ [] [("A", 5)] (TermK.struc "ancestor" [TermK.var 15, TermK.var 14]) [] (⟨[(15, TermK.struc "carol" []), (14, TermK.struc "nobody" []), (13, TermK.struc "bob" []), (10, TermK.struc "bob" []), (8, TermK.struc "alice" []), (9, TermK.struc "nobody" []), (5, TermK.var 8)], [15, 14, 13, 10, 8, 9, 5], 18, "", 0⟩ : EngineState) (TermK.struc "ancestor" [TermK.var 15, TermK.var 14]) (TermK.struc "ancestor" [TermK.var 18, TermK.var 19]) [(3, 19), (2, 18)] 20 [TermK.struc "parent" [TermK.var 18, TermK.var 20], TermK.struc "ancestor" [TermK.var 20, TermK.var 19]] [(4, 20), (3, 19), (2, 18)] 21 (⟨[(19, TermK.struc "nobody" []), (18, TermK.struc "carol" []), (15, TermK.struc "carol" []), (14, TermK.struc "nobody" []), (13, TermK.struc "bob" []), (10, TermK.struc "bob" []), (8, TermK.struc "alice" []), (9, TermK.struc "nobody" []), (5, TermK.var 8)], [19, 18, 15, 14, 13, 10, 8, 9, 5], 20, "", 0⟩ : EngineState) (⟨[(19, TermK.struc "nobody" []), (18, TermK.struc "carol" []), (15, TermK.struc "carol" []), (14, TermK.struc "nobody" []), (13, TermK.struc "bob" []), (10, TermK.struc "bob" []), (8, TermK.struc "alice" []), (9, TermK.struc "nobody" []), (5, TermK.var 8)], [19, 18, 15, 14, 13, 10, 8, 9, 5], 21, "", 0⟩ : EngineState) (⟨[(15, TermK.struc "carol" []), (14, TermK.struc "nobody" []), (13, TermK.struc "bob" []), (10, TermK.struc "bob" []), (8, TermK.struc "alice" []), (9, TermK.struc "nobody" []), (5, TermK.var 8)], [15, 14, 13, 10, 8, 9, 5], 21, "", 0⟩ : EngineState) rfl rfl rfl rfl rfl hn28 hn29
  have hn31 : tryClauses 79 kbDemo [⟨TermK.struc "ancestor" [TermK.var 0, TermK.var 1], [TermK.struc "parent" [TermK.var 0, TermK.var 1]]⟩, ⟨TermK.struc "ancestor" [TermK.var 2, TermK.var 3], [TermK.struc "parent" [TermK.var 2, TermK.var 4], TermK.struc "ancestor" [TermK.var 4, TermK.var 3]]⟩] [("A", 5)] (TermK.struc "ancestor" [TermK.var 15, TermK.var 14]) [] (⟨[(15, TermK.struc "carol" []), (14, TermK.struc "nobody" []), (13, TermK.struc "bob" []), (10, TermK.struc "bob" []), (8, TermK.struc "alice" []), (9, TermK.struc "nobody" []), (5, TermK.var 8)], [15, 14, 13, 10, 8, 9, 5], 16, "", 0⟩ : EngineState) = some (⟨[(15, TermK.struc "carol" []), (14, TermK.struc "nobody" []), (13, TermK.struc "bob" []), (10, TermK.struc "bob" []), (8, TermK.struc "alice" []), (9, TermK.struc "nobody" []), (5, TermK.var 8)], [15, 14, 13, 10, 8, 9, 5], 21, "", 0⟩ : EngineState) := tryClauses_step_attempt 78 kbDemo ⟨TermK.struc "ancestor" [TermK.var 0, TermK.var 1], [TermK.struc "parent" [TermK.var 0, TermK.var 1]]⟩ [⟨TermK.struc "ancestor" [TermK.var 2, TermK.var 3], [TermK.struc "parent" [TermK.var 2, TermK.var 4], TermK.struc "ancestor" [TermK.var 4, TermK.var 3]]⟩] [("A", 5)] (TermK.struc "ancestor" [TermK.var 15, TermK.var 14]) [] (⟨[(15, TermK.struc "carol" []), (14, TermK.struc "nobody" []), (13, TermK.struc "bob" []), (10, TermK.struc "bob" []), (8, TermK.struc "alice" []), (9, TermK.struc "nobody" []), (5, TermK.var 8)], [15, 14, 13, 10, 8, 9, 5], 16, "", 0⟩ : EngineState) (TermK.struc "ancestor" [TermK.var 15, TermK.var 14]) (TermK.struc "ancestor" [TermK.var 16, TermK.var 17]) [(1, 17), (0, 16)] 18 [TermK.struc "parent" [TermK.var 16, TermK.var 17]] [(1, 17), (0, 16)] 18 (⟨[(17, TermK.struc "nobody" []), (16, TermK.struc "carol" []), (15, TermK.struc "carol" []), (14, TermK.struc "nobody" []), (13, TermK.struc "bob" []), (10, TermK.struc "bob" []), (8, TermK.struc "alice" []), (9, TermK.struc "nobody" []), (5, TermK.var 8)], [17, 16, 15, 14, 13, 10, 8, 9, 5], 18, "", 0⟩ : EngineState) (⟨[(17, TermK.struc "nobody" []), (16, TermK.struc "carol" []), (15, TermK.struc "carol" []), (14, TermK.struc "nobody" []), (13, TermK.struc "bob" []), (10, TermK.struc "bob" []), (8, TermK.struc "alice" []), (9, TermK.struc "nobody" []), (5, TermK.var 8)], [17, 16, 15, 14, 13, 10, 8, 9, 5], 18, "", 0⟩ : EngineState) (⟨[(15, TermK.struc "carol" []), (14, TermK.struc "nobody" []), (13, TermK.struc "bob" []), (10, TermK.struc "bob" []), (8, TermK.struc "alice" []), (9, TermK.struc "nobody" []), (5, TermK.var 8)], [15, 14, 13, 10, 8, 9, 5], 21, "", 0⟩ : EngineState) rfl rfl rfl rfl rfl hn21 hn30
  have hn32 : tryClauses 80 kbDemo [⟨TermK.struc "parent" [TermK.struc "alice" [], TermK.struc "dana" []], []⟩, ⟨TermK.struc "ancestor" [TermK.var 0, TermK.var 1], [TermK.struc "parent" [TermK.var 0, TermK.var 1]]⟩, ⟨TermK.struc "ancestor" [TermK.var 2, TermK.var 3], [TermK.struc "parent" [TermK.var 2, TermK.var 4], TermK.struc "ancestor" [TermK.var 4, TermK.var 3]]⟩] [("A", 5)] (TermK.struc "ancestor" [TermK.var 15, TermK.var 14]) [] (⟨[(15, TermK.struc "carol" []), (14, TermK.struc "nobody" []), (13, TermK.struc "bob" []), (10, TermK.struc "bob" []), (8, TermK.struc "alice" []), (9, TermK.struc "nobody" []), (5, TermK.var 8)], [15, 14, 13, 10, 8, 9, 5], 16, "", 0⟩ : EngineState) = some (⟨[(15, TermK.struc "carol" []), (14, TermK.struc "nobody" []), (13, TermK.struc "bob" []), (10, TermK.struc "bob" []), (8, TermK.struc "alice" []), (9, TermK.struc "nobody" []), (5, TermK.var 8)], [15, 14, 13, 10, 8, 9, 5], 21, "", 0⟩ : EngineState) := tryClauses_step_skip 79 kbDemo ⟨TermK.struc "parent" [TermK.struc "alice" [], TermK.struc "dana" []], []⟩ [⟨TermK.struc "ancestor" [TermK.var 0, TermK.var 1], [TermK.struc "parent" [TermK.var 0, TermK.var 1]]⟩, ⟨TermK.struc "ancestor" [TermK.var 2, TermK.var 3], [TermK.struc "parent" [TermK.var 2, TermK.var 4], TermK.struc "ancestor" [TermK.var 4, TermK.var 3]]⟩] [("A", 5)] (TermK.struc "ancestor" [TermK.var 15, TermK.var 14]) [] (⟨[(15, TermK.struc "carol" []), (14, TermK.struc "nobody" []), (13, TermK.struc "bob" []), (10, TermK.struc "bob" []), (8, TermK.struc "alice" []), (9, TermK.struc "nobody" []), (5, TermK.var 8)], [15, 14, 13, 10, 8, 9, 5], 16, "", 0⟩ : EngineState) (⟨[(15, TermK.struc "carol" []), (14, TermK.struc "nobody" []), (13, TermK.struc "bob" []), (10, TermK.struc "bob" []), (8, TermK.struc "alice" []), (9, TermK.struc "nobody" []), (5, TermK.var 8)], [15, 14, 13, 10, 8, 9, 5], 21, "", 0⟩ : EngineState) rfl hn31
  have hn33 : tryClauses 81 kbDemo [⟨TermK.struc "parent" [TermK.struc "bob" [], TermK.struc "carol" []], []⟩, ⟨TermK.struc "parent" [TermK.struc "alice" [], TermK.struc "dana" []], []⟩, ⟨TermK.struc "ancestor" [TermK.var 0, TermK.var 1], [TermK.struc "parent" [TermK.var 0, TermK.var 1]]⟩, ⟨TermK.struc "ancestor" [TermK.var 2, TermK.var 3], [TermK.struc "parent" [TermK.var 2, TermK.var 4], TermK.struc "ancestor" [TermK.var 4, TermK.var 3]]⟩] [("A", 5)] (TermK.struc "ancestor" [TermK.var 15, TermK.var 14]) [] (⟨[(15, TermK.struc "carol" []), (14, TermK.struc "nobody" []), (13, TermK.struc "bob" []), (10, TermK.struc "bob" []), (8, TermK.struc "alice" []), (9, TermK.struc "nobody" []), (5, TermK.var 8)], [15, 14, 13, 10, 8, 9, 5], 16, "", 0⟩ : EngineState) = some (⟨[(15, TermK.struc "carol" []), (14, TermK.struc "nobody" []), (13, TermK.struc "bob" []), (10, TermK.struc "bob" []), (8, TermK.struc "alice" []), (9, TermK.struc "nobody" []), (5, TermK.var 8)], [15, 14, 13, 10, 8, 9, 5], 21, "", 0⟩ : EngineState) := tryClauses_step_skip 80 kbDemo ⟨TermK.struc "parent" [TermK.struc "bob" [], TermK.struc "carol" []], []⟩ [⟨TermK.struc "parent" [TermK.struc "alice" [], TermK.struc "dana" []], []⟩, ⟨TermK.struc "ancestor" [TermK.var 0, TermK.var 1], [TermK.struc "parent" [TermK.var 0, TermK.var 1]]⟩, ⟨TermK.struc "ancestor" [TermK.var 2, TermK.var 3], [TermK.struc "parent" [TermK.var 2, TermK.var 4], TermK.struc "ancestor" [TermK.var 4, TermK.var 3]]⟩] [("A", 5)] (TermK.struc "ancestor" [TermK.var 15, TermK.var 14]) [] (⟨[(15, TermK.struc "carol" []), (14, TermK.struc "nobody" []), (13, TermK.struc "bob" []), (10, TermK.struc "bob" []), (8, TermK.struc "alice" []), (9, TermK.struc "nobody" []), (5, TermK.var 8)], [15, 14, 13, 10, 8, 9, 5], 16, "", 0⟩ : EngineState) (⟨[(15, TermK.struc "carol" []), (14, TermK.struc "nobody" []), (13, TermK.struc "bob" []), (10, TermK.struc "bob" []), (8, TermK.struc "alice" []), (9, TermK.struc "nobody" []), (5, TermK.var 8)], [15, 14, 13, 10, 8, 9, 5], 21, "", 0⟩ : EngineState) rfl hn32
  have hn34 : tryClauses 82 kbDemo [⟨TermK.struc "parent" [TermK.struc "alice" [], TermK.struc "bob" []], []⟩, ⟨TermK.struc "parent" [TermK.struc "bob" [], TermK.struc "carol" []], []⟩, ⟨TermK.struc "parent" [TermK.struc "alice" [], TermK.struc "dana" []], []⟩, ⟨TermK.struc "ancestor" [TermK.var 0, TermK.var 1], [TermK.struc "parent" [TermK.var 0, TermK.var 1]]⟩, ⟨TermK.struc "ancestor" [TermK.var 2, TermK.var 3], [TermK.struc "parent" [TermK.var 2, TermK.var 4], TermK.struc "ancestor" [TermK.var 4, TermK.var 3]]⟩] [("A", 5)] (TermK.struc "ancestor" [TermK.var 15, TermK.var 14]) [] (⟨[(15, TermK.struc "carol" []), (14, TermK.struc "nobody" []), (13, TermK.struc "bob" []), (10, TermK.struc "bob" []), (8, TermK.struc "alice" []), (9, TermK.struc "nobody" []), (5, TermK.var 8)], [15, 14, 13, 10, 8, 9, 5], 16, "", 0⟩ : EngineState) = some (⟨[(15, TermK.struc "carol" []), (14, TermK.struc "nobody" []), (13, TermK.struc "bob" []), (10, TermK.struc "bob" []), (8, TermK.struc "alice" []), (9, TermK.struc "nobody" []), (5, TermK.var 8)], [15, 14, 13, 10, 8, 9, 5], 21, "", 0⟩ : EngineState) := tryClauses_step_skip 81 kbDemo ⟨TermK.struc "parent" [TermK.struc "alice" [], TermK.struc "bob" []], []⟩ [⟨TermK.struc "parent" [TermK.struc "bob" [], TermK.struc "carol" []], []⟩, ⟨TermK.struc "parent" [TermK.struc "alice" [], TermK.struc "dana" []], []⟩, ⟨TermK.struc "ancestor" [TermK.var 0, TermK.var 1], [TermK.struc "parent" [TermK.var 0, TermK.var 1]]⟩, ⟨TermK.struc "ancestor" [TermK.var 2, TermK.var 3], [TermK.struc "parent" [TermK.var 2, TermK.var 4], TermK.struc "ancestor" [TermK.var 4, TermK.var 3]]⟩] [("A", 5)] (TermK.struc "ancestor" [TermK.var 15, TermK.var 14]) [] (⟨[(15, TermK.struc "carol" []), (14, TermK.struc "nobody" []), (13, TermK.struc "bob" []), (10, TermK.struc "bob" []), (8, TermK.struc "alice" []), (9, TermK.struc "nobody" []), (5, TermK.var 8)], [15, 14, 13, 10, 8, 9, 5], 16, "", 0⟩ : EngineState) (⟨[(15, TermK.struc "carol" []), (14, TermK.struc "nobody" []), (13, TermK.struc "bob" []), (10, TermK.struc "bob" []), (8, TermK.struc "alice" []), (9, TermK.struc "nobody" []), (5, TermK.var 8)], [15, 14, 13, 10, 8, 9, 5], 21, "", 0⟩ : EngineState) rfl hn33
  have hn35 : solve 83 kbDemo [("A", 5)] [TermK.struc "ancestor" [TermK.var 15, TermK.var 14]] (⟨[(15, TermK.struc "carol" []), (14, TermK.struc "nobody" []), (13, TermK.struc "bob" []), (10, TermK.struc "bob" []), (8, TermK.struc "alice" []), (9, TermK.struc "nobody" []), (5, TermK.var 8)], [15, 14, 13, 10, 8, 9, 5], 16, "", 0⟩ : EngineState) = some (⟨[(15, TermK.struc "carol" []), (14, TermK.struc "nobody" []), (13, TermK.struc "bob" []), (10, TermK.struc "bob" []), (8, TermK.struc "alice" []), (9, TermK.struc "nobody" []), (5, TermK.var 8)], [15, 14, 13, 10, 8, 9, 5], 21, "", 0⟩ : EngineState) := solve_step_goal 82 kbDemo [("A", 5)] (TermK.struc "ancestor" [TermK.var 15, TermK.var 14]) [] (⟨[(15, TermK.struc "carol" []), (14, TermK.struc "nobody" []), (13, TermK.struc "bob" []), (10, TermK.struc "bob" []), (8, TermK.struc "alice" []), (9, TermK.struc "nobody" []), (5, TermK.var 8)], [15, 14, 13, 10, 8, 9, 5], 16, "", 0⟩ : EngineState) (⟨[(15, TermK.struc "carol" []), (14, TermK.struc "nobody" []), (13, TermK.struc "bob" []), (10, TermK.struc "bob" []), (8, TermK.struc "alice" []), (9, TermK.struc "nobody" []), (5, TermK.var 8)], [15, 14, 13, 10, 8, 9, 5], 16, "", 0⟩ : EngineState) (⟨[(15, TermK.struc "carol" []), (14, TermK.struc "nobody" []), (13, TermK.struc "bob" []), (10, TermK.struc "bob" []), (8, TermK.struc "alice" []), (9, TermK.struc "nobody" []), (5, TermK.var 8)], [15, 14, 13, 10, 8, 9, 5], 21, "", 0⟩ : EngineState) rfl hn34
  have hn36 : tryClauses 80 kbDemo [] [("A", 5)] (TermK.struc "parent" [TermK.var 13, TermK.var 15]) [TermK.struc "ancestor" [TermK.var 15, TermK.var 14]] (⟨[(14, TermK.struc "nobody" []), (13, TermK.struc "bob" []), (10, TermK.struc "bob" []), (8, TermK.struc "alice" []), (9, TermK.struc "nobody" []), (5, TermK.var 8)], [14, 13, 10, 8, 9, 5], 21, "", 0⟩ : EngineState) = some (⟨[(14, TermK.struc "nobody" []), (13, TermK.struc "bob" []), (10, TermK.struc "bob" []), (8, TermK.struc "alice" []), (9, TermK.struc "nobody" []), (5, TermK.var 8)], [14, 13, 10, 8, 9, 5], 21, "", 0⟩ : EngineState) := rfl
  have hn37 : tryClauses 81 kbDemo [⟨TermK.struc "ancestor" [TermK.var 2, TermK.var 3], [TermK.struc "parent" [TermK.var 2, TermK.var 4], TermK.struc "ancestor" [TermK.var 4, TermK.var 3]]⟩] [("A", 5)] (TermK.struc "parent" [TermK.var 13, TermK.var 15]) [TermK.struc "ancestor" [TermK.var 15, TermK.var 14]] (⟨[(14, TermK.struc "nobody" []), (13, TermK.struc "bob" []), (10, TermK.struc "bob" []), (8, TermK.struc "alice" []), (9, TermK.struc "nobody" []), (5, TermK.var 8)], [14, 13, 10, 8, 9, 5], 21, "", 0⟩ : EngineState) = some (⟨[(14, TermK.struc "nobody" []), (13, TermK.struc "bob" []), (10, TermK.struc "bob" []), (8, TermK.struc "alice" []), (9, TermK.struc "nobody" []), (5, TermK.var 8)], [14, 13, 10, 8, 9, 5], 21, "", 0⟩ : EngineState) := tryClauses_step_skip 80 kbDemo ⟨TermK.struc "ancestor" [TermK.var 2, TermK.var 3], [TermK.struc "parent" [TermK.var 2, TermK.var 4], TermK.struc "ancestor" [TermK.var 4, TermK.var 3]]⟩ [] [("A", 5)] (TermK.struc "parent" [TermK.var 13, TermK.var 15]) [TermK.struc "ancestor" [TermK.var 15, TermK.var 14]] (⟨[(14, TermK.struc "nobody" []), (13, TermK.struc "bob" []), (10, TermK.struc "bob" []), (8, TermK.struc "alice" []), (9, TermK.struc "nobody" []), (5, TermK.var 8)], [14, 13, 10, 8, 9, 5], 21, "", 0⟩ : EngineState) (⟨[(14, TermK.struc "nobody" []), (13, TermK.struc "bob" []), (10, TermK.struc "bob" []), (8, TermK.struc "alice" []), (9, TermK.struc "nobody" []), (5, TermK.var 8)], [14, 13, 10, 8, 9, 5], 21, "", 0⟩ : EngineState) rfl hn36
  have hn38 : tryClauses 82 kbDemo [⟨TermK.struc "ancestor" [TermK.var 0, TermK.var 1], [TermK.struc "parent" [TermK.var 0, TermK.var 1]]⟩, ⟨TermK.struc "ancestor" [TermK.var 2, TermK.var 3], [TermK.struc "parent" [TermK.var 2, TermK.var 4], TermK.struc "ancestor" [TermK.var 4, TermK.var 3]]⟩] [("A", 5)] (TermK.struc "parent" [TermK.var 13, TermK.var 15]) [TermK.struc "ancestor" [TermK.var 15, TermK.var 14]] (⟨[(14, TermK.struc "nobody" []), (13, TermK.struc "bob" []), (10, TermK.struc "bob" []), (8, TermK.struc "alice" []), (9, TermK.struc "nobody" []), (5, TermK.var 8)], [14, 13, 10, 8, 9, 5], 21, "", 0⟩ : EngineState) = some (⟨[(14, TermK.struc "nobody" []), (13, TermK.struc "bob" []), (10, TermK.struc "bob" []), (8, TermK.struc "alice" []), (9, TermK.struc "nobody" []), (5, TermK.var 8)], [14, 13, 10, 8, 9, 5], 21, "", 0⟩ : EngineState) := tryClauses_step_skip 81 kbDemo ⟨TermK.struc "ancestor" [TermK.var 0, TermK.var 1], [TermK.struc "parent" [TermK.var 0, TermK.var 1]]⟩ [⟨TermK.struc "ancestor" [TermK.var 2, TermK.var 3], [TermK.struc "parent" [TermK.var 2, TermK.var 4], TermK.struc "ancestor" [TermK.var 4, TermK.var 3]]⟩] [("A", 5)] (TermK.struc "parent" [TermK.var 13, TermK.var 15]) [TermK.struc "ancestor" [TermK.var 15, TermK.var 14]] (⟨[(14, TermK.struc "nobody" []), (13, TermK.struc "bob" []), (10, TermK.struc "bob" []), (8, TermK.struc "alice" []), (9, TermK.struc "nobody" []), (5, TermK.var 8)], [14, 13, 10, 8, 9, 5], 21, "", 0⟩ : EngineState) (⟨[(14, TermK.struc "nobody" []), (13, TermK.struc "bob" []), (10, TermK.struc "bob" []), (8, TermK.struc "alice" []), (9, TermK.struc "nobody" []), (5, TermK.var 8)], [14, 13, 10, 8, 9, 5], 21, "", 0⟩ : EngineState) rfl hn37
  have hn39 : tryClauses 83 kbDemo [⟨TermK.struc "parent" [TermK.struc "alice" [], TermK.struc "dana" []], []⟩, ⟨TermK.struc "ancestor" [TermK.var 0, TermK.var 1], [TermK.struc "parent" [TermK.var 0, TermK.var 1]]⟩, ⟨TermK.struc "ancestor" [TermK.var 2, TermK.var 3], [TermK.struc "parent" [TermK.var 2, TermK.var 4], TermK.struc "ancestor" [TermK.var 4, TermK.var 3]]⟩] [("A", 5)] (TermK.struc "parent" [TermK.var 13, TermK.var 15]) [TermK.struc "ancestor" [TermK.var 15, TermK.var 14]] (⟨[(14, TermK.struc "nobody" []), (13, TermK.struc "bob" []), (10, TermK.struc "bob" []), (8, TermK.struc "alice" []), (9, TermK.struc "nobody" []), (5, TermK.var 8)], [14, 13, 10, 8, 9, 5], 21, "", 0⟩ : EngineState) = some (⟨[(14, TermK.struc "nobody" []), (13, TermK.struc "bob" []), (10, TermK.struc "bob" []), (8, TermK.struc "alice" []), (9, TermK.struc "nobody" []), (5, TermK.var 8)], [14, 13, 10, 8, 9, 5], 21, "", 0⟩ : EngineState) := tryClauses_step_nomatch 82 kbDemo ⟨TermK.struc "parent" [TermK.struc "alice" [], TermK.struc "dana" []], []⟩ [⟨TermK.struc "ancestor" [TermK.var 0, TermK.var 1], [TermK.struc "parent" [TermK.var 0, TermK.var 1]]⟩, ⟨TermK.struc "ancestor" [TermK.var 2, TermK.var 3], [TermK.struc "parent" [TermK.var 2, TermK.var 4], TermK.struc "ancestor" [TermK.var 4, TermK.var 3]]⟩] [("A", 5)] (TermK.struc "parent" [TermK.var 13, TermK.var 15]) [TermK.struc "ancestor" [TermK.var 15, TermK.var 14]] (⟨[(14, TermK.struc "nobody" []), (13, TermK.struc "bob" []), (10, TermK.struc "bob" []), (8, TermK.struc "alice" []), (9, TermK.struc "nobody" []), (5, TermK.var 8)], [14, 13, 10, 8, 9, 5], 21, "", 0⟩ : EngineState) (TermK.struc "parent" [TermK.var 13, TermK.var 15]) (TermK.struc "parent" [TermK.struc "alice" [], TermK.struc "dana" []]) [] 21 (⟨[(14, TermK.struc "nobody" []), (13, TermK.struc "bob" []), (10, TermK.struc "bob" []), (8, TermK.struc "alice" []), (9, TermK.struc "nobody" []), (5, TermK.var 8)], [14, 13, 10, 8, 9, 5], 21, "", 0⟩ : EngineState) (⟨[(14, TermK.struc "nobody" []), (13, TermK.struc "bob" []), (10, TermK.struc "bob" []), (8, TermK.struc "alice" []), (9, TermK.struc "nobody" []), (5, TermK.var 8)], [14, 13, 10, 8, 9, 5], 21, "", 0⟩ : EngineState) rfl rfl rfl rfl hn38
  have hn40 : tryClauses 84 kbDemo [⟨TermK.struc "parent" [TermK.struc "bob" [], TermK.struc "carol" []], []⟩, ⟨TermK.struc "parent" [TermK.struc "alice" [], TermK.struc "dana" []], []⟩, ⟨TermK.struc "ancestor" [TermK.var 0, TermK.var 1], [TermK.struc "parent" [TermK.var 0, TermK.var 1]]⟩, ⟨TermK.struc "ancestor" [TermK.var 2, TermK.var 3], [TermK.struc "parent" [TermK.var 2, TermK.var 4], TermK.struc "ancestor" [TermK.var 4, TermK.var 3]]⟩] [("A", 5)] (TermK.struc "parent" [TermK.var 13, TermK.var 15]) [TermK.struc "ancestor" [TermK.var 15, TermK.var 14]] (⟨[(14, TermK.struc "nobody" []), (13, TermK.struc "bob" []), (10, TermK.struc "bob" []), (8, TermK.struc "alice" []), (9, TermK.struc "nobody" []), (5, TermK.var 8)], [14, 13, 10, 8, 9, 5], 16, "", 0⟩ : EngineState) = some (⟨[(14, TermK.struc "nobody" []), (13, TermK.struc "bob" []), (10, TermK.struc "bob" []), (8, TermK.struc "alice" []), (9, TermK.struc "nobody" []), (5, TermK.var 8)], [14, 13, 10, 8, 9, 5], 21, "", 0⟩ : EngineState) := tryClauses_step_attempt 83 kbDemo ⟨TermK.struc "parent" [TermK.struc "bob" [], TermK.struc "carol" []], []⟩ [⟨TermK.struc "parent" [TermK.struc "alice" [], TermK.struc "dana" []], []⟩, ⟨TermK.struc "ancestor" [TermK.var 0, TermK.var 1], [TermK.struc "parent" [TermK.var 0, TermK.var 1]]⟩, ⟨TermK.struc "ancestor" [TermK.var 2, TermK.var 3], [TermK.struc "parent" [TermK.var 2, TermK.var 4], TermK.struc "ancestor" [TermK.var 4, TermK.var 3]]⟩] [("A", 5)] (TermK.struc "parent" [TermK.var 13, TermK.var 15]) [TermK.struc "ancestor" [TermK.var 15, TermK.var 14]] (⟨[(14, TermK.struc "nobody" []), (13, TermK.struc "bob" []), (10, TermK.struc "bob" []), (8, TermK.struc "alice" []), (9, TermK.struc "nobody" []), (5, TermK.var 8)], [14, 13, 10, 8, 9, 5], 16, "", 0⟩ : EngineState) (TermK.struc "parent" [TermK.var 13, TermK.var 15]) (TermK.struc "parent" [TermK.struc "bob" [], TermK.struc "carol" []]) [] 16 [] [] 16 (⟨[(15, TermK.struc "carol" []), (14, TermK.struc "nobody" []), (13, TermK.struc "bob" []), (10, TermK.struc "bob" []), (8, TermK.struc "alice" []), (9, TermK.struc "nobody" []), (5, TermK.var 8)], [15, 14, 13, 10, 8, 9, 5], 16, "", 0⟩ : EngineState) (⟨[(15, TermK.struc "carol" []), (14, TermK.struc "nobody" []), (13, TermK.struc "bob" []), (10, TermK.struc "bob" []), (8, TermK.struc "alice" []), (9, TermK.struc "nobody" []), (5, TermK.var 8)], [15, 14, 13, 10, 8, 9, 5], 21, "", 0⟩ : EngineState) (⟨[(14, TermK.struc "nobody" []), (13, TermK.struc "bob" []), (10, TermK.struc "bob" []), (8, TermK.struc "alice" []), (9, TermK.struc "nobody" []), (5, TermK.var 8)], [14, 13, 10, 8, 9, 5], 21, "", 0⟩ : EngineState) rfl rfl rfl rfl rfl hn35 hn39
  have hn41 : tryClauses 85 kbDemo [⟨TermK.struc "parent" [TermK.struc "alice" [], TermK.struc "bob" []], []⟩, ⟨TermK.struc "parent" [TermK.struc "bob" [], TermK.struc "carol" []], []⟩, ⟨TermK.struc "parent" [TermK.struc "alice" [], TermK.struc "dana" []], []⟩, ⟨TermK.struc "ancestor" [TermK.var 0, TermK.var 1], [TermK.struc "parent" [TermK.var 0, TermK.var 1]]⟩, ⟨TermK.struc "ancestor" [TermK.var 2, TermK.var 3], [TermK.struc "parent" [TermK.var 2, TermK.var 4], TermK.struc "ancestor" [TermK.var 4, TermK.var 3]]⟩] [("A", 5)] (TermK.struc "parent" [TermK.var 13, TermK.var 15]) [TermK.struc "ancestor" [TermK.var 15, TermK.var 14]] (⟨[(14, TermK.struc "nobody" []), (13, TermK.struc "bob" []), (10, TermK.struc "bob" []), (8, TermK.struc "alice" []), (9, TermK.struc "nobody" []), (5, TermK.var 8)], [14, 13, 10, 8, 9, 5], 16, "", 0⟩ : EngineState) = some (⟨[(14, TermK.struc "nobody" []), (13, TermK.struc "bob" []), (10, TermK.struc "bob" []), (8, TermK.struc "alice" []), (9, TermK.struc "nobody" []), (5, TermK.var 8)], [14, 13, 10, 8, 9, 5], 21, "", 0⟩ : EngineState) := tryClauses_step_nomatch 84 kbDemo ⟨TermK.struc "parent" [TermK.struc "alice" [], TermK.struc "bob" []], []⟩ [⟨TermK.struc "parent" [TermK.struc "bob" [], TermK.struc "carol" []], []⟩, ⟨TermK.struc "parent" [TermK.struc "alice" [], TermK.struc "dana" []], []⟩, ⟨TermK.struc "ancestor" [TermK.var 0, TermK.var 1], [TermK.struc "parent" [TermK.var 0, TermK.var 1]]⟩, ⟨TermK.struc "ancestor" [TermK.var 2, TermK.var 3], [TermK.struc "parent" [TermK.var 2, TermK.var 4], TermK.struc "ancestor" [TermK.var 4, TermK.var 3]]⟩] [("A", 5)] (TermK.struc "parent" [TermK.var 13, TermK.var 15]) [TermK.struc "ancestor" [TermK.var 15, TermK.var 14]] (⟨[(14, TermK.struc "nobody" []), (13, TermK.struc "bob" []), (10, TermK.struc "bob" []), (8, TermK.struc "alice" []), (9, TermK.struc "nobody" []), (5, TermK.var 8)], [14, 13, 10, 8, 9, 5], 16, "", 0⟩ : EngineState) (TermK.struc "parent" [TermK.var 13, TermK.var 15]) (TermK.struc "parent" [TermK.struc "alice" [], TermK.struc "bob" []]) [] 16 (⟨[(14, TermK.struc "nobody" []), (13, TermK.struc "bob" []), (10, TermK.struc "bob" []), (8, TermK.struc "alice" []), (9, TermK.struc "nobody" []), (5, TermK.var 8)], [14, 13, 10, 8, 9, 5], 16, "", 0⟩ : EngineState) (⟨[(14, TermK.struc "nobody" []), (13, TermK.struc "bob" []), (10, TermK.struc "bob" []), (8, TermK.struc "alice" []), (9, TermK.struc "nobody" []), (5, TermK.var 8)], [14, 13, 10, 8, 9, 5], 21, "", 0⟩ : EngineState) rfl rfl rfl rfl hn40
  have hn42 : solve 86 kbDemo [("A", 5)] [TermK.struc "parent" [TermK.var 13, TermK.var 15], TermK.struc "ancestor" [TermK.var 15, TermK.var 14]] (⟨[(14, TermK.struc "nobody" []), (13, TermK.struc "bob" []), (10, TermK.struc "bob" []), (8, TermK.struc "alice" []), (9, TermK.struc "nobody" []), (5, TermK.var 8)], [14, 13, 10, 8, 9, 5], 16, "", 0⟩ : EngineState) = some (⟨[(14, TermK.struc "nobody" []), (13, TermK.struc "bob" []), (10, TermK.struc "bob" []), (8, TermK.struc "alice" []), (9, TermK.struc "nobody" []), (5, TermK.var 8)], [14, 13, 10, 8, 9, 5], 21, "", 0⟩ : EngineState) := solve_step_goal 85 kbDemo [("A", 5)] (TermK.struc "parent" [TermK.var 13, TermK.var 15]) [TermK.struc "ancestor" [TermK.var 15, TermK.var 14]] (⟨[(14, TermK.struc "nobody" []), (13, TermK.struc "bob" []), (10, TermK.struc "bob" []), (8, TermK.struc "alice" []), (9, TermK.struc "nobody" []), (5, TermK.var 8)], [14, 13, 10, 8, 9, 5], 16, "", 0⟩ : EngineState) (⟨[(14, TermK.struc "nobody" []), (13, TermK.struc "bob" []), (10, TermK.struc "bob" []), (8, TermK.struc "alice" []), (9, TermK.struc "nobody" []), (5, TermK.var 8)], [14, 13, 10, 8, 9, 5], 16, "", 0⟩ : EngineState) (⟨[(14, TermK.struc "nobody" []), (13, TermK.struc "bob" []), (10, TermK.struc "bob" []), (8, TermK.struc "alice" []), (9, TermK.struc "nobody" []), (5, TermK.var 8)], [14, 13, 10, 8, 9, 5], 21, "", 0⟩ : EngineState) rfl hn41
  have hn43 : tryClauses 86 kbDemo [] [("A", 5)] (TermK.struc "ancestor" [TermK.var 10, TermK.var 9]) [] (⟨[(10, TermK.struc "bob" []), (8, TermK.struc "alice" []), (9, TermK.struc "nobody" []), (5, TermK.var 8)], [10, 8, 9, 5], 21, "", 0⟩ : EngineState) = some (⟨[(10, TermK.struc "bob" []), (8, TermK.struc "alice" []), (9, TermK.struc "nobody" []), (5, TermK.var 8)], [10, 8, 9, 5], 21, "", 0⟩ : EngineState) := rfl
  have hn44 : tryClauses 87 kbDemo [⟨TermK.struc "ancestor" [TermK.var 2, TermK.var 3], [TermK.struc "parent" [TermK.var 2, TermK.var 4], TermK.struc "ancestor" [TermK.var 4, TermK.var 3]]⟩] [("A", 5)] (TermK.struc "ancestor" [TermK.var 10, TermK.var 9]) [] (⟨[(10, TermK.struc "bob" []), (8, TermK.struc "alice" []), (9, TermK.struc "nobody" []), (5, TermK.var 8)], [10, 8, 9, 5], 13, "", 0⟩ : EngineState) = some (⟨[(10, TermK.struc "bob" []), (8, TermK.struc "alice" []), (9, TermK.struc "nobody" []), (5, TermK.var 8)], [10, 8, 9, 5], 21, "", 0⟩ : EngineState) := tryClauses_step_attempt 86 kbDemo ⟨TermK.struc "ancestor" [TermK.var 2, TermK.var 3], [TermK.struc "parent" [TermK.var 2, TermK.var 4], TermK.struc "ancestor" [TermK.var 4, TermK.var 3]]⟩ [] [("A", 5)] (TermK.struc "ancestor" [TermK.var 10, TermK.var 9]) [] (⟨[(10, TermK.struc "bob" []), (8, TermK.struc "alice" []), (9, TermK.struc "nobody" []), (5, TermK.var 8)], [10, 8, 9, 5], 13, "", 0⟩ : EngineState) (TermK.struc "ancestor" [TermK.var 10, TermK.var 9]) (TermK.struc "ancestor" [TermK.var 13, TermK.var 14]) [(3, 14), (2, 13)] 15 [TermK.struc "parent" [TermK.var 13, TermK.var 15], TermK.struc "ancestor" [TermK.var 15, TermK.var 14]] [(4, 15), (3, 14), (2, 13)] 16 (⟨[(14, TermK.struc "nobody" []), (13, TermK.struc "bob" []), (10, TermK.struc "bob" []), (8, TermK.struc "alice" []), (9, TermK.struc "nobody" []), (5, TermK.var 8)], [14, 13, 10, 8, 9, 5], 15, "", 0⟩ : EngineState) (⟨[(14, TermK.struc "nobody" []), (13, TermK.struc "bob" []), (10, TermK.struc "bob" []), (8, TermK.struc "alice" []), (9, TermK.struc "nobody" []), (5, TermK.var 8)], [14, 13, 10, 8, 9, 5], 21, "", 0⟩ : EngineState) (⟨[(10, TermK.struc "bob" []), (8, TermK.struc "alice" []), (9, TermK.struc "nobody" []), (5, TermK.var 8)], [10, 8, 9, 5], 21, "", 0⟩ : EngineState) rfl rfl rfl rfl rfl hn42 hn43
  have hn45 : tryClauses 88 kbDemo [⟨TermK.struc "ancestor" [TermK.var 0, TermK.var 1], [TermK.struc "parent" [TermK.var 0, TermK.var 1]]⟩, ⟨TermK.struc "ancestor" [TermK.var 2, TermK.var 3], [TermK.struc "parent" [TermK.var 2, TermK.var 4], TermK.struc "ancestor" [TermK.var 4, TermK.var 3]]⟩] [("A", 5)] (TermK.struc "ancestor" [TermK.var 10, TermK.var 9]) [] (⟨[(10, TermK.struc "bob" []), (8, TermK.struc "alice" []), (9, TermK.struc "nobody" []), (5, TermK.var 8)], [10, 8, 9, 5], 11, "", 0⟩ : EngineState) = some (⟨[(10, TermK.struc "bob" []), (8, TermK.struc "alice" []), (9, TermK.struc "nobody" []), (5, TermK.var 8)], [10, 8, 9, 5], 21, "", 0⟩ : EngineState) := tryClauses_step_attempt 87 kbDemo ⟨TermK.struc "ancestor" [TermK.var 0, TermK.var 1], [TermK.struc "parent" [TermK.var 0, TermK.var 1]]⟩ [⟨TermK.struc "ancestor" [TermK.var 2, TermK.var 3], [TermK.struc "parent" [TermK.var 2, TermK.var 4], TermK.struc "ancestor" [TermK.var 4, TermK.var 3]]⟩] [("A", 5)] (TermK.struc "ancestor" [TermK.var 10, TermK.var 9]) [] (⟨[(10, TermK.struc "bob" []), (8, TermK.struc "alice" []), (9, TermK.struc "nobody" []), (5, TermK.var 8)], [10, 8, 9, 5], 11, "", 0⟩ : EngineState) (TermK.struc "ancestor" [TermK.var 10, TermK.var 9]) (TermK.struc "ancestor" [TermK.var 11, TermK.var 12]) [(1, 12), (0, 11)] 13 [TermK.struc "parent" [TermK.var 11, TermK.var 12]] [(1, 12), (0, 11)] 13 (⟨[(12, TermK.struc "nobody" []), (11, TermK.struc "bob" []), (10, TermK.struc "bob" []), (8, TermK.struc "alice" []), (9, TermK.struc "nobody" []), (5, TermK.var 8)], [12, 11, 10, 8, 9, 5], 13, "", 0⟩ : EngineState) (⟨[(12, TermK.struc "nobody" []), (11, TermK.struc "bob" []), (10, TermK.struc "bob" []), (8, TermK.struc "alice" []), (9, TermK.struc "nobody" []), (5, TermK.var 8)], [12, 11, 10, 8, 9, 5], 13, "", 0⟩ : EngineState) (⟨[(10, TermK.struc "bob" []), (8, TermK.struc "alice" []), (9, TermK.struc "nobody" []), (5, TermK.var 8)], [10, 8, 9, 5], 21, "", 0⟩ : EngineState) rfl rfl rfl rfl rfl hn14 hn44
  have hn46 : tryClauses 89 kbDemo [⟨TermK.struc "parent" [TermK.struc "alice" [], TermK.struc "dana" []], []⟩, ⟨TermK.struc "ancestor" [TermK.var 0, TermK.var 1], [TermK.struc "parent" [TermK.var 0, TermK.var 1]]⟩, ⟨TermK.struc "ancestor" [TermK.var 2, TermK.var 3], [TermK.struc "parent" [TermK.var 2, TermK.var 4], TermK.struc "ancestor" [TermK.var 4, TermK.var 3]]⟩] [("A", 5)] (TermK.struc "ancestor" [TermK.var 10, TermK.var 9]) [] (⟨[(10, TermK.struc "bob" []), (8, TermK.struc "alice" []), (9, TermK.struc "nobody" []), (5, TermK.var 8)], [10, 8, 9, 5], 11, "", 0⟩ : EngineState) = some (⟨[(10, TermK.struc "bob" []), (8, TermK.struc "alice" []), (9, TermK.struc "nobody" []), (5, TermK.var 8)], [10, 8, 9, 5], 21, "", 0⟩ : EngineState) := tryClauses_step_skip 88 kbDemo ⟨TermK.struc "parent" [TermK.struc "alice" [], TermK.struc "dana" []], []⟩ [⟨TermK.struc "ancestor" [TermK.var 0, TermK.var 1], [TermK.struc "parent" [TermK.var 0, TermK.var 1]]⟩, ⟨TermK.struc "ancestor" [TermK.var 2, TermK.var 3], [TermK.struc "parent" [TermK.var 2, TermK.var 4], TermK.struc "ancestor" [TermK.var 4, TermK.var 3]]⟩] [("A", 5)] (TermK.struc "ancestor" [TermK.var 10, TermK.var 9]) [] (⟨[(10, TermK.struc "bob" []), (8, TermK.struc "alice" []), (9, TermK.struc "nobody" []), (5, TermK.var 8)], [10, 8, 9, 5], 11, "", 0⟩ : EngineState) (⟨[(10, TermK.struc "bob" []), (8, TermK.struc "alice" []), (9, TermK.struc "nobody" []), (5, TermK.var 8)], [10, 8, 9, 5], 21, "", 0⟩ : EngineState) rfl hn45
  have hn47 : tryClauses 90 kbDemo [⟨TermK.struc "parent" [TermK.struc "bob" [], TermK.struc "carol" []], []⟩, ⟨TermK.struc "parent" [TermK.struc "alice" [], TermK.struc "dana" []], []⟩, ⟨TermK.struc "ancestor" [TermK.var 0, TermK.var 1], [TermK.struc "parent" [TermK.var 0, TermK.var 1]]⟩, ⟨TermK.struc "ancestor" [TermK.var 2, TermK.var 3], [TermK.struc "parent" [TermK.var 2, TermK.var 4], TermK.struc "ancestor" [TermK.var 4, TermK.var 3]]⟩] [("A", 5)] (TermK.struc "ancestor" [TermK.var 10, TermK.var 9]) [] (⟨[(10, TermK.struc "bob" []), (8, TermK.struc "alice" []), (9, TermK.struc "nobody" []), (5, TermK.var 8)], [10, 8, 9, 5], 11, "", 0⟩ : EngineState) = some (⟨[(10, TermK.struc "bob" []), (8, TermK.struc "alice" []), (9, TermK.struc "nobody" []), (5, TermK.var 8)], [10, 8, 9, 5], 21, "", 0⟩ : EngineState) := tryClauses_step_skip 89 kbDemo ⟨TermK.struc "parent" [TermK.struc "bob" [], TermK.struc "carol" []], []⟩ [⟨TermK.struc "parent" [TermK.struc "alice" [], TermK.struc "dana" []], []⟩, ⟨TermK.struc "ancestor" [TermK.var 0, TermK.var 1], [TermK.struc "parent" [TermK.var 0, TermK.var 1]]⟩, ⟨TermK.struc "ancestor" [TermK.var 2, TermK.var 3], [TermK.struc "parent" [TermK.var 2, TermK.var 4], TermK.struc "ancestor" [TermK.var 4, TermK.var 3]]⟩] [("A", 5)] (TermK.struc "ancestor" [TermK.var 10, TermK.var 9]) [] (⟨[(10, TermK.struc "bob" []), (8, TermK.struc "alice" []), (9, TermK.struc "nobody" []), (5, TermK.var 8)], [10, 8, 9, 5], 11, "", 0⟩ : EngineState) (⟨[(10, TermK.struc "bob" []), (8, TermK.struc "alice" []), (9, TermK.struc "nobody" []), (5, TermK.var 8)], [10, 8, 9, 5], 21, "", 0⟩ : EngineState) rfl hn46
  have hn48 : tryClauses 91 kbDemo [⟨TermK.struc "parent" [TermK.struc "alice" [], TermK.struc "bob" []], []⟩, ⟨TermK.struc "parent" [TermK.struc "bob" [], TermK.struc "carol" []], []⟩, ⟨TermK.struc "parent" [TermK.struc "alice" [], TermK.struc "dana" []], []⟩, ⟨TermK.struc "ancestor" [TermK.var 0, TermK.var 1], [TermK.struc "parent" [TermK.var 0, TermK.var 1]]⟩, ⟨TermK.struc "ancestor" [TermK.var 2, TermK.var 3], [TermK.struc "parent" [TermK.var 2, TermK.var 4], TermK.struc "ancestor" [TermK.var 4, TermK.var 3]]⟩] [("A", 5)] (TermK.struc "ancestor" [TermK.var 10, TermK.var 9]) [] (⟨[(10, TermK.struc "bob" []), (8, TermK.struc "alice" []), (9, TermK.struc "nobody" []), (5, TermK.var 8)], [10, 8, 9, 5], 11, "", 0⟩ : EngineState) = some (⟨[(10, TermK.struc "bob" []), (8, TermK.struc "alice" []), (9, TermK.struc "nobody" []), (5, TermK.var 8)], [10, 8, 9, 5], 21, "", 0⟩ : EngineState) := tryClauses_step_skip 90 kbDemo ⟨TermK.struc "parent" [TermK.struc "alice" [], TermK.struc "bob" []], []⟩ [⟨TermK.struc "parent" [TermK.struc "bob" [], TermK.struc "carol" []], []⟩, ⟨TermK.struc "parent" [TermK.struc "alice" [], TermK.struc "dana" []], []⟩, ⟨TermK.struc "ancestor" [TermK.var 0, TermK.var 1], [TermK.struc "parent" [TermK.var 0, TermK.var 1]]⟩, ⟨TermK.struc "ancestor" [TermK.var 2, TermK.var 3], [TermK.struc "parent" [TermK.var 2, TermK.var 4], TermK.struc "ancestor" [TermK.var 4, TermK.var 3]]⟩] [("A", 5)] (TermK.struc "ancestor" [TermK.var 10, TermK.var 9]) [] (⟨[(10, TermK.struc "bob" []), (8, TermK.struc "alice" []), (9, TermK.struc "nobody" []), (5, TermK.var 8)], [10, 8, 9, 5], 11, "", 0⟩ : EngineState) (⟨[(10, TermK.struc "bob" []), (8, TermK.struc "alice" []), (9, TermK.struc "nobody" []), (5, TermK.var 8)], [10, 8, 9, 5], 21, "", 0⟩ : EngineState) rfl hn47
  have hn49 : solve 92 kbDemo [("A", 5)] [TermK.struc "ancestor" [TermK.var 10, TermK.var 9]] (⟨[(10, TermK.struc "bob" []), (8, TermK.struc "alice" []), (9, TermK.struc "nobody" []), (5, TermK.var 8)], [10, 8, 9, 5], 11, "", 0⟩ : EngineState) = some (⟨[(10, TermK.struc "bob" []), (8, TermK.struc "alice" []), (9, TermK.struc "nobody" []), (5, TermK.var 8)], [10, 8, 9, 5], 21, "", 0⟩ : EngineState) := solve_step_goal 91 kbDemo [("A", 5)] (TermK.struc "ancestor" [TermK.var 10, TermK.var 9]) [] (⟨[(10, TermK.struc "bob" []), (8, TermK.struc "alice" []), (9, TermK.struc "nobody" []), (5, TermK.var 8)], [10, 8, 9, 5], 11, "", 0⟩ : EngineState) (⟨[(10, TermK.struc "bob" []), (8, TermK.struc "alice" []), (9, TermK.struc "nobody" []), (5, TermK.var 8)], [10, 8, 9, 5], 11, "", 0⟩ : EngineState) (⟨[(10, TermK.struc "bob" []), (8, TermK.struc "alice" []), (9, TermK.struc "nobody" []), (5, TermK.var 8)], [10, 8, 9, 5], 21, "", 0⟩ : EngineState) rfl hn48
  have hn50 : tryClauses 80 kbDemo [] [("A", 5)] (TermK.struc "parent" [TermK.var 21, TermK.var 22]) [] (⟨[(22, TermK.struc "nobody" []), (21, TermK.struc "carol" []), (10, TermK.struc "carol" []), (8, TermK.struc "bob" []), (9, TermK.struc "nobody" []), (5, TermK.var 8)], [22, 21, 10, 8, 9, 5], 23, "", 0⟩ : EngineState) = some (⟨[(22, TermK.struc "nobody" []), (21, TermK.struc "carol" []), (10, TermK.struc "carol" []), (8, TermK.struc "bob" []), (9, TermK.struc "nobody" []), (5, TermK.var 8)], [22, 21, 10, 8, 9, 5], 23, "", 0⟩ : EngineState) := rfl
  have hn51 : tryClauses 81 kbDemo [⟨TermK.struc "ancestor" [TermK.var 2, TermK.var 3], [TermK.struc "parent" [TermK.var 2, TermK.var 4], TermK.struc "ancestor" [TermK.var 4, TermK.var 3]]⟩] [("A", 5)] (TermK.struc "parent" [TermK.var 21, TermK.var 22]) [] (⟨[(22, TermK.struc "nobody" []), (21, TermK.struc "carol" []), (10, TermK.struc "carol" []), (8, TermK.struc "bob" []), (9, TermK.struc "nobody" []), (5, TermK.var 8)], [22, 21, 10, 8, 9, 5], 23, "", 0⟩ : EngineState) = some (⟨[(22, TermK.struc "nobody" []), (21, TermK.struc "carol" []), (10, TermK.struc "carol" []), (8, TermK.struc "bob" []), (9, TermK.struc "nobody" []), (5, TermK.var 8)], [22, 21, 10, 8, 9, 5], 23, "", 0⟩ : EngineState) := tryClauses_step_skip 80 kbDemo ⟨TermK.struc "ancestor" [TermK.var 2, TermK.var 3], [TermK.struc "parent" [TermK.var 2, TermK.var 4], TermK.struc "ancestor" [TermK.var 4, TermK.var 3]]⟩ [] [("A", 5)] (TermK.struc "parent" [TermK.var 21, TermK.var 22]) [] (⟨[(22, TermK.struc "nobody" []), (21, TermK.struc "carol" []), (10, TermK.struc "carol" []), (8, TermK.struc "bob" []), (9, TermK.struc "nobody" []), (5, TermK.var 8)], [22, 21, 10, 8, 9, 5], 23, "", 0⟩ : EngineState) (⟨[(22, TermK.struc "nobody" []), (21, TermK.struc "carol" []), (10, TermK.struc "carol" []), (8, TermK.struc "bob" []), (9, TermK.struc "nobody" []), (5, TermK.var 8)], [22, 21, 10, 8, 9, 5], 23, "", 0⟩ : EngineState) rfl hn50
  have hn52 : tryClauses 82 kbDemo [⟨TermK.struc "ancestor" [TermK.var 0, TermK.var 1], [TermK.struc "parent" [TermK.var 0, TermK.var 1]]⟩, ⟨TermK.struc "ancestor" [TermK.var 2, TermK.var 3], [TermK.struc "parent" [TermK.var 2, TermK.var 4], TermK.struc "ancestor" [TermK.var 4, TermK.var 3]]⟩] [("A", 5)] (TermK.struc "parent" [TermK.var 21, TermK.var 22]) [] (⟨[(22, TermK.struc "nobody" []), (21, TermK.struc "carol" []), (10, TermK.struc "carol" []), (8, TermK.struc "bob" []), (9, TermK.struc "nobody" []), (5, TermK.var 8)], [22, 21, 10, 8, 9, 5], 23, "", 0⟩ : EngineState) = some (⟨[(22, TermK.struc "nobody" []), (21, TermK.struc "carol" []), (10, TermK.struc "carol" []), (8, TermK.struc "bob" []), (9, TermK.struc "nobody" []), (5, TermK.var 8)], [22, 21, 10, 8, 9, 5], 23, "", 0⟩ : EngineState) := tryClauses_step_skip 81 kbDemo ⟨TermK.struc "ancestor" [TermK.var 0, TermK.var 1], [TermK.struc "parent" [TermK.var 0, TermK.var 1]]⟩ [⟨TermK.struc "ancestor" [TermK.var 2, TermK.var 3], [TermK.struc "parent" [TermK.var 2, TermK.var 4], TermK.struc "ancestor" [TermK.var 4, TermK.var 3]]⟩] [("A", 5)] (TermK.struc "parent" [TermK.var 21, TermK.var 22]) [] (⟨[(22, TermK.struc "nobody" []), (21, TermK.struc "carol" []), (10, TermK.struc "carol" []), (8, TermK.struc "bob" []), (9, TermK.struc "nobody" []), (5, TermK.var 8)], [22, 21, 10, 8, 9, 5], 23, "", 0⟩ : EngineState) (⟨[(22, TermK.struc "nobody" []), (21, TermK.struc "carol" []), (10, TermK.struc "carol" []), (8, TermK.struc "bob" []), (9, TermK.struc "nobody" []), (5, TermK.var 8)], [22, 21, 10, 8, 9, 5], 23, "", 0⟩ : EngineState) rfl hn51
  have hn53 : tryClauses 83 kbDemo [⟨TermK.struc "parent" [TermK.struc "alice" [], TermK.struc "dana" []], []⟩, ⟨TermK.struc "ancestor" [TermK.var 0, TermK.var 1], [TermK.struc "parent" [TermK.var 0, TermK.var 1]]⟩, ⟨TermK.struc "ancestor" [TermK.var 2, TermK.var 3], [TermK.struc "parent" [TermK.var 2, TermK.var 4], TermK.struc "ancestor" [TermK.var 4, TermK.var 3]]⟩] [("A", 5)] (TermK.struc "parent" [TermK.var 21, TermK.var 22]) [] (⟨[(22, TermK.struc "nobody" []), (21, TermK.struc "carol" []), (10, TermK.struc "carol" []), (8, TermK.struc "bob" []), (9, TermK.struc "nobody" []), (5, TermK.var 8)], [22, 21, 10, 8, 9, 5], 23, "", 0⟩ : EngineState) = some (⟨[(22, TermK.struc "nobody" []), (21, TermK.struc "carol" []), (10, TermK.struc "carol" []), (8, TermK.struc "bob" []), (9, TermK.struc "nobody" []), (5, TermK.var 8)], [22, 21, 10, 8, 9, 5], 23, "", 0⟩ : EngineState) := tryClauses_step_nomatch 82 kbDemo ⟨TermK.struc "parent" [TermK.struc "alice" [], TermK.struc "dana" []], []⟩ [⟨TermK.struc "ancestor" [TermK.var 0, TermK.var 1], [TermK.struc "parent" [TermK.var 0, TermK.var 1]]⟩, ⟨TermK.struc "ancestor" [TermK.var 2, TermK.var 3], [TermK.struc "parent" [TermK.var 2, TermK.var 4], TermK.struc "ancestor" [TermK.var 4, TermK.var 3]]⟩] [("A", 5)] (TermK.struc "parent" [TermK.var 21, TermK.var 22]) [] (⟨[(22, TermK.struc "nobody" []), (21, TermK.struc "carol" []), (10, TermK.struc "carol" []), (8, TermK.struc "bob" []), (9, TermK.struc "nobody" []), (5, TermK.var 8)], [22, 21, 10, 8, 9, 5], 23, "", 0⟩ : EngineState) (TermK.struc "parent" [TermK.var 21, TermK.var 22]) (TermK.struc "parent" [TermK.struc "alice" [], TermK.struc "dana" []]) [] 23 (⟨[(22, TermK.struc "nobody" []), (21, TermK.struc "carol" []), (10, TermK.struc "carol" []), (8, TermK.struc "bob" []), (9, TermK.struc "nobody" []), (5, TermK.var 8)], [22, 21, 10, 8, 9, 5], 23, "", 0⟩ : EngineState) (⟨[(22, TermK.struc "nobody" []), (21, TermK.struc "carol" []), (10, TermK.struc "carol" []), (8, TermK.struc "bob" []), (9, TermK.struc "nobody" []), (5, TermK.var 8)], [22, 21, 10, 8, 9, 5], 23, "", 0⟩ : EngineState) rfl rfl rfl rfl hn52
  have hn54 : tryClauses 84 kbDemo [⟨TermK.struc "parent" [TermK.struc "bob" [], TermK.struc "carol" []], []⟩, ⟨TermK.struc "parent" [TermK.struc "alice" [], TermK.struc "dana" []], []⟩, ⟨TermK.struc "ancestor" [TermK.var 0, TermK.var 1], [TermK.struc "parent" [TermK.var 0, TermK.var 1]]⟩, ⟨TermK.struc "ancestor" [TermK.var 2, TermK.var 3], [TermK.struc "parent" [TermK.var 2, TermK.var 4], TermK.struc "ancestor" [TermK.var 4, TermK.var 3]]⟩] [("A", 5)] (TermK.struc "parent" [TermK.var 21, TermK.var 22]) [] (⟨[(22, TermK.struc "nobody" []), (21, TermK.struc "carol" []), (10, TermK.struc "carol" []), (8, TermK.struc "bob" []), (9, TermK.struc "nobody" []), (5, TermK.var 8)], [22, 21, 10, 8, 9, 5], 23, "", 0⟩ : EngineState) = some (⟨[(22, TermK.struc "nobody" []), (21, TermK.struc "carol" []), (10, TermK.struc "carol" []), (8, TermK.struc "bob" []), (9, TermK.struc "nobody" []), (5, TermK.var 8)], [22, 21, 10, 8, 9, 5], 23, "", 0⟩ : EngineState) := tryClauses_step_nomatch 83 kbDemo ⟨TermK.struc "parent" [TermK.struc "bob" [], TermK.struc "carol" []], []⟩ [⟨TermK.struc "parent" [TermK.struc "alice" [], TermK.struc "dana" []], []⟩, ⟨TermK.struc "ancestor" [TermK.var 0, TermK.var 1], [TermK.struc "parent" [TermK.var 0, TermK.var 1]]⟩, ⟨TermK.struc "ancestor" [TermK.var 2, TermK.var 3], [TermK.struc "parent" [TermK.var 2, TermK.var 4], TermK.struc "ancestor" [TermK.var 4, TermK.var 3]]⟩] [("A", 5)] (TermK.struc "parent" [TermK.var 21, TermK.var 22]) [] (⟨[(22, TermK.struc "nobody" []), (21, TermK.struc "carol" []), (10, TermK.struc "carol" []), (8, TermK.struc "bob" []), (9, TermK.struc "nobody" []), (5, TermK.var 8)], [22, 21, 10, 8, 9, 5], 23, "", 0⟩ : EngineState) (TermK.struc "parent" [TermK.var 21, TermK.var 22]) (TermK.struc "parent" [TermK.struc "bob" [], TermK.struc "carol" []]) [] 23 (⟨[(22, TermK.struc "nobody" []), (21, TermK.struc "carol" []), (10, TermK.struc "carol" []), (8, TermK.struc "bob" []), (9, TermK.struc "nobody" []), (5, TermK.var 8)], [22, 21, 10, 8, 9, 5], 23, "", 0⟩ : EngineState) (⟨[(22, TermK.struc "nobody" []), (21, TermK.struc "carol" []), (10, TermK.struc "carol" []), (8, TermK.struc "bob" []), (9, TermK.struc "nobody" []), (5, TermK.var 8)], [22, 21, 10, 8, 9, 5], 23, "", 0⟩ : EngineState) rfl rfl rfl rfl hn53
  have hn55 : tryClauses 85 kbDemo [⟨TermK.struc "parent" [TermK.struc "alice" [], TermK.struc "bob" []], []⟩, ⟨TermK.struc "parent" [TermK.struc "bob" [], TermK.struc "carol" []], []⟩, ⟨TermK.struc "parent" [TermK.struc "alice" [], TermK.struc "dana" []], []⟩, ⟨TermK.struc "ancestor" [TermK.var 0, TermK.var 1], [TermK.struc "parent" [TermK.var 0, TermK.var 1]]⟩, ⟨TermK.struc "ancestor" [TermK.var 2, TermK.var 3], [TermK.struc "parent" [TermK.var 2, TermK.var 4], TermK.struc "ancestor" [TermK.var 4, TermK.var 3]]⟩] [("A", 5)] (TermK.struc "parent" [TermK.var 21, TermK.var 22]) [] (⟨[(22, TermK.struc "nobody" []), (21, TermK.struc "carol" []), (10, TermK.struc "carol" []), (8, TermK.struc "bob" []), (9, TermK.struc "nobody" []), (5, TermK.var 8)], [22, 21, 10, 8, 9, 5], 23, "", 0⟩ : EngineState) = some (⟨[(22, TermK.struc "nobody" []), (21, TermK.struc "carol" []), (10, TermK.struc "carol" []), (8, TermK.struc "bob" []), (9, TermK.struc "nobody" []), (5, TermK.var 8)], [22, 21, 10, 8, 9, 5], 23, "", 0⟩ : EngineState) := tryClauses_step_nomatch 84 kbDemo ⟨TermK.struc "parent" [TermK.struc "alice" [], TermK.struc "bob" []], []⟩ [⟨TermK.struc "parent" [TermK.struc "bob" [], TermK.struc "carol" []], []⟩, ⟨TermK.struc "parent" [TermK.struc "alice" [], TermK.struc "dana" []], []⟩, ⟨TermK.struc "ancestor" [TermK.var 0, TermK.var 1], [TermK.struc "parent" [TermK.var 0, TermK.var 1]]⟩, ⟨TermK.struc "ancestor" [TermK.var 2, TermK.var 3], [TermK.struc "parent" [TermK.var 2, TermK.var 4], TermK.struc "ancestor" [TermK.var 4, TermK.var 3]]⟩] [("A", 5)] (TermK.struc "parent" [TermK.var 21, TermK.var 22]) [] (⟨[(22, TermK.struc "nobody" []), (21, TermK.struc "carol" []), (10, TermK.struc "carol" []), (8, TermK.struc "bob" []), (9, TermK.struc "nobody" []), (5, TermK.var 8)], [22, 21, 10, 8, 9, 5], 23, "", 0⟩ : EngineState) (TermK.struc "parent" [TermK.var 21, TermK.var 22]) (TermK.struc "parent" [TermK.struc "alice" [], TermK.struc "bob" []]) [] 23 (⟨[(22, TermK.struc "nobody" []), (21, TermK.struc "carol" []), (10, TermK.struc "carol" []), (8, TermK.struc "bob" []), (9, TermK.struc "nobody" []), (5, TermK.var 8)], [22, 21, 10, 8, 9, 5], 23, "", 0⟩ : EngineState) (⟨[(22, TermK.struc "nobody" []), (21, TermK.struc "carol" []), (10, TermK.struc "carol" []), (8, TermK.struc "bob" []), (9, TermK.struc "nobody" []), (5, TermK.var 8)], [22, 21, 10, 8, 9, 5], 23, "", 0⟩ : EngineState) rfl rfl rfl rfl hn54
  have hn56 : solve 86 kbDemo [("A", 5)] [TermK.struc "parent" [TermK.var 21, TermK.var 22]] (⟨[(22, TermK.struc "nobody" []), (21, TermK.struc "carol" []), (10, TermK.struc "carol" []), (8, TermK.struc "bob" []), (9, TermK.struc "nobody" []), (5, TermK.var 8)], [22, 21, 10, 8, 9, 5], 23, "", 0⟩ : EngineState) = some (⟨[(22, TermK.struc "nobody" []), (21, TermK.struc "carol" []), (10, TermK.struc "carol" []), (8, TermK.struc "bob" []), (9, TermK.struc "nobody" []), (5, TermK.var 8)], [22, 21, 10, 8, 9, 5], 23, "", 0⟩ : EngineState) := solve_step_goal 85 kbDemo [("A", 5)] (TermK.struc "parent" [TermK.var 21, TermK.var 22]) [] (⟨[(22, TermK.struc "nobody" []), (21, TermK.struc "carol" []), (10, TermK.struc "carol" []), (8, TermK.struc "bob" []), (9, TermK.struc "nobody" []), (5, TermK.var 8)], [22, 21, 10, 8, 9, 5], 23, "", 0⟩ : EngineState) (⟨[(22, TermK.struc "nobody" []), (21, TermK.struc "carol" []), (10, TermK.struc "carol" []), (8, TermK.struc "bob" []), (9, TermK.struc "nobody" []), (5, TermK.var 8)], [22, 21, 10, 8, 9, 5], 23, "", 0⟩ : EngineState) (⟨[(22, TermK.struc "nobody" []), (21, TermK.struc "carol" []), (10, TermK.struc "carol" []), (8, TermK.struc "bob" []), (9, TermK.struc "nobody" []), (5, TermK.var 8)], [22, 21, 10, 8, 9, 5], 23, "", 0⟩ : EngineState) rfl hn55
  have hn57 : tryClauses 79 kbDemo [] [("A", 5)] (TermK.struc "parent" [TermK.var 23, TermK.var 25]) [TermK.struc "ancestor" [TermK.var 25, TermK.var 24]] (⟨[(24, TermK.struc "nobody" []), (23, TermK.struc "carol" []), (10, TermK.struc "carol" []), (8, TermK.struc "bob" []), (9, TermK.struc "nobody" []), (5, TermK.var 8)], [24, 23, 10, 8, 9, 5], 26, "", 0⟩ : EngineState) = some (⟨[(24, TermK.struc "nobody" []), (23, TermK.struc "carol" []), (10, TermK.struc "carol" []), (8, TermK.struc "bob" []), (9, TermK.struc "nobody" []), (5, TermK.var 8)], [24, 23, 10, 8, 9, 5], 26, "", 0⟩ : EngineState) := rfl
  have hn58 : tryClauses 80 kbDemo [⟨TermK.struc "ancestor" [TermK.var 2, TermK.var 3], [TermK.struc "parent" [TermK.var 2, TermK.var 4], TermK.struc "ancestor" [TermK.var 4, TermK.var 3]]⟩] [("A", 5)] (TermK.struc "parent" [TermK.var 23, TermK.var 25]) [TermK.struc "ancestor" [TermK.var 25, TermK.var 24]] (⟨[(24, TermK.struc "nobody" []), (23, TermK.struc "carol" []), (10, TermK.struc "carol" []), (8, TermK.struc "bob" []), (9, TermK.struc "nobody" []), (5, TermK.var 8)], [24, 23, 10, 8, 9, 5], 26, "", 0⟩ : EngineState) = some (⟨[(24, TermK.struc "nobody" []), (23, TermK.struc "carol" []), (10, TermK.struc "carol" []), (8, TermK.struc "bob" []), (9, TermK.struc "nobody" []), (5, TermK.var 8)], [24, 23, 10, 8, 9, 5], 26, "", 0⟩ : EngineState) := tryClauses_step_skip 79 kbDemo ⟨TermK.struc "ancestor" [TermK.var 2, TermK.var 3], [TermK.struc "parent" [TermK.var 2, TermK.var 4], TermK.struc "ancestor" [TermK.var 4, TermK.var 3]]⟩ [] [("A", 5)] (TermK.struc "parent" [TermK.var 23, TermK.var 25]) [TermK.struc "ancestor" [TermK.var 25, TermK.var 24]] (⟨[(24, TermK.struc "nobody" []), (23, TermK.struc "carol" []), (10, TermK.struc "carol" []), (8, TermK.struc "bob" []), (9, TermK.struc "nobody" []), (5, TermK.var 8)], [24, 23, 10, 8, 9, 5], 26, "", 0⟩ : EngineState) (⟨[(24, TermK.struc "nobody" []), (23, TermK.struc "carol" []), (10, TermK.struc "carol" []), (8, TermK.struc "bob" []), (9, TermK.struc "nobody" []), (5, TermK.var 8)], [24, 23, 10, 8, 9, 5], 26, "", 0⟩ : EngineState) rfl hn57
  have hn59 : tryClauses 81 kbDemo [⟨TermK.struc "ancestor" [TermK.var 0, TermK.var 1], [TermK.struc "parent" [TermK.var 0, TermK.var 1]]⟩, ⟨TermK.struc "ancestor" [TermK.var 2, TermK.var 3], [TermK.struc "parent" [TermK.var 2, TermK.var 4], TermK.struc "ancestor" [TermK.var 4, TermK.var 3]]⟩] [("A", 5)] (TermK.struc "parent" [TermK.var 23, TermK.var 25]) [TermK.struc "ancestor" [TermK.var 25, TermK.var 24]] (⟨[(24, TermK.struc "nobody" []), (23, TermK.struc "carol" []), (10, TermK.struc "carol" []), (8, TermK.struc "bob" []), (9, TermK.struc "nobody" []), (5, TermK.var 8)], [24, 23, 10, 8, 9, 5], 26, "", 0⟩ : EngineState) = some (⟨[(24, TermK.struc "nobody" []), (23, TermK.struc "carol" []), (10, TermK.struc "carol" []), (8, TermK.struc "bob" []), (9, TermK.struc "nobody" []), (5, TermK.var 8)], [24, 23, 10, 8, 9, 5], 26, "", 0⟩ : EngineState) := tryClauses_step_skip 80 kbDemo ⟨TermK.struc "ancestor" [TermK.var 0, TermK.var 1], [TermK.struc "parent" [TermK.var 0, TermK.var 1]]⟩ [⟨TermK.struc "ancestor" [TermK.var 2, TermK.var 3], [TermK.struc "parent" [TermK.var 2, TermK.var 4], TermK.struc "ancestor" [TermK.var 4, TermK.var 3]]⟩] [("A", 5)] (TermK.struc "parent" [TermK.var 23, TermK.var 25]) [TermK.struc "ancestor" [TermK.var 25, TermK.var 24]] (⟨[(24, TermK.struc "nobody" []), (23, TermK.struc "carol" []), (10, TermK.struc "carol" []), (8, TermK.struc "bob" []), (9, TermK.struc "nobody" []), (5, TermK.var 8)], [24, 23, 10, 8, 9, 5], 26, "", 0⟩ : EngineState) (⟨[(24, TermK.struc "nobody" []), (23, TermK.struc "carol" []), (10, TermK.struc "carol" []), (8, TermK.struc "bob" []), (9, TermK.struc "nobody" []), (5, TermK.var 8)], [24, 23, 10, 8, 9, 5], 26, "", 0⟩ : EngineState) rfl hn58
  have hn60 : tryClauses 82 kbDemo [⟨TermK.struc "parent" [TermK.struc "alice" [], TermK.struc "dana" []], []⟩, ⟨TermK.struc "ancestor" [TermK.var 0, TermK.var 1], [TermK.struc "parent" [TermK.var 0, TermK.var 1]]⟩, ⟨TermK.struc "ancestor" [TermK.var 2, TermK.var 3], [TermK.struc "parent" [TermK.var 2, TermK.var 4], TermK.struc "ancestor" [TermK.var 4, TermK.var 3]]⟩] [("A", 5)] (TermK.struc "parent" [TermK.var 23, TermK.var 25]) [TermK.struc "ancestor" [TermK.var 25, TermK.var 24]] (⟨[(24, TermK.struc "nobody" []), (23, TermK.struc "carol" []), (10, TermK.struc "carol" []), (8, TermK.struc "bob" []), (9, TermK.struc "nobody" []), (5, TermK.var 8)], [24, 23, 10, 8, 9, 5], 26, "", 0⟩ : EngineState) = some (⟨[(24, TermK.struc "nobody" []), (23, TermK.struc "carol" []), (10, TermK.struc "carol" []), (8, TermK.struc "bob" []), (9, TermK.struc "nobody" []), (5, TermK.var 8)], [24, 23, 10, 8, 9, 5], 26, "", 0⟩ : EngineState) := tryClauses_step_nomatch 81 kbDemo ⟨TermK.struc "parent" [TermK.struc "alice" [], TermK.struc "dana" []], []⟩ [⟨TermK.struc "ancestor" [TermK.var 0, TermK.var 1], [TermK.struc "parent" [TermK.var 0, TermK.var 1]]⟩, ⟨TermK.struc "ancestor" [TermK.var 2, TermK.var 3], [TermK.struc "parent" [TermK.var 2, TermK.var 4], TermK.struc "ancestor" [TermK.var 4, TermK.var 3]]⟩] [("A", 5)] (TermK.struc "parent" [TermK.var 23, TermK.var 25]) [TermK.struc "ancestor" [TermK.var 25, TermK.var 24]] (⟨[(24, TermK.struc "nobody" []), (23, TermK.struc "carol" []), (10, TermK.struc "carol" []), (8, TermK.struc "bob" []), (9, TermK.struc "nobody" []), (5, TermK.var 8)], [24, 23, 10, 8, 9, 5], 26, "", 0⟩ : EngineState) (TermK.struc "parent" [TermK.var 23, TermK.var 25]) (TermK.struc "parent" [TermK.struc "alice" [], TermK.struc "dana" []]) [] 26 (⟨[(24, TermK.struc "nobody" []), (23, TermK.struc "carol" []), (10, TermK.struc "carol" []), (8, TermK.struc "bob" []), (9, TermK.struc "nobody" []), (5, TermK.var 8)], [24, 23, 10, 8, 9, 5], 26, "", 0⟩ : EngineState) (⟨[(24, TermK.struc "nobody" []), (23, TermK.struc "carol" []), (10, TermK.struc "carol" []), (8, TermK.struc "bob" []), (9, TermK.struc "nobody" []), (5, TermK.var 8)], [24, 23, 10, 8, 9, 5], 26, "", 0⟩ : EngineState) rfl rfl rfl rfl hn59
  have hn61 : tryClauses 83 kbDemo [⟨TermK.struc "parent" [TermK.struc "bob" [], TermK.struc "carol" []], []⟩, ⟨TermK.struc "parent" [TermK.struc "alice" [], TermK.struc "dana" []], []⟩, ⟨TermK.struc "ancestor" [TermK.var 0, TermK.var 1], [TermK.struc "parent" [TermK.var 0, TermK.var 1]]⟩, ⟨TermK.struc "ancestor" [TermK.var 2, TermK.var 3], [TermK.struc "parent" [TermK.var 2, TermK.var 4], TermK.struc "ancestor" [TermK.var 4, TermK.var 3]]⟩] [("A", 5)] (TermK.struc "parent" [TermK.var 23, TermK.var 25]) [TermK.struc "ancestor" [TermK.var 25, TermK.var 24]] (⟨[(24, TermK.struc "nobody" []), (23, TermK.struc "carol" []), (10, TermK.struc "carol" []), (8, TermK.struc "bob" []), (9, TermK.struc "nobody" []), (5, TermK.var 8)], [24, 23, 10, 8, 9, 5], 26, "", 0⟩ : EngineState) = some (⟨[(24, TermK.struc "nobody" []), (23, TermK.struc "carol" []), (10, TermK.struc "carol" []), (8, TermK.struc "bob" []), (9, TermK.struc "nobody" []), (5, TermK.var 8)], [24, 23, 10, 8, 9, 5], 26, "", 0⟩ : EngineState) := tryClauses_step_nomatch 82 kbDemo ⟨TermK.struc "parent" [TermK.struc "bob" [], TermK.struc "carol" []], []⟩ [⟨TermK.struc "parent" [TermK.struc "alice" [], TermK.struc "dana" []], []⟩, ⟨TermK.struc "ancestor" [TermK.var 0, TermK.var 1], [TermK.struc "parent" [TermK.var 0, TermK.var 1]]⟩, ⟨TermK.struc "ancestor" [TermK.var 2, TermK.var 3], [TermK.struc "parent" [TermK.var 2, TermK.var 4], TermK.struc "ancestor" [TermK.var 4, TermK.var 3]]⟩] [("A", 5)] (TermK.struc "parent" [TermK.var 23, TermK.var 25]) [TermK.struc "ancestor" [TermK.var 25, TermK.var 24]] (⟨[(24, TermK.struc "nobody" []), (23, TermK.struc "carol" []), (10, TermK.struc "carol" []), (8, TermK.struc "bob" []), (9, TermK.struc "nobody" []), (5, TermK.var 8)], [24, 23, 10, 8, 9, 5], 26, "", 0⟩ : EngineState) (TermK.struc "parent" [TermK.var 23, TermK.var 25]) (TermK.struc "parent" [TermK.struc "bob" [], TermK.struc "carol" []]) [] 26 (⟨[(24, TermK.struc "nobody" []), (23, TermK.struc "carol" []), (10, TermK.struc "carol" []), (8, TermK.struc "bob" []), (9, TermK.struc "nobody" []), (5, TermK.var 8)], [24, 23, 10, 8, 9, 5], 26, "", 0⟩ : EngineState) (⟨[(24, TermK.struc "nobody" []), (23, TermK.struc "carol" []), (10, TermK.struc "carol" []), (8, TermK.struc "bob" []), (9, TermK.struc "nobody" []), (5, TermK.var 8)], [24, 23, 10, 8, 9, 5], 26, "", 0⟩ : EngineState) rfl rfl rfl rfl hn60
  have hn62 : tryClauses 84 kbDemo [⟨TermK.struc "parent" [TermK.struc "alice" [], TermK.struc "bob" []], []⟩, ⟨TermK.struc "parent" [TermK.struc "bob" [], TermK.struc "carol" []], []⟩, ⟨TermK.struc "parent" [TermK.struc "alice" [], TermK.struc "dana" []], []⟩, ⟨TermK.struc "ancestor" [TermK.var 0, TermK.var 1], [TermK.struc "parent" [TermK.var 0, TermK.var 1]]⟩, ⟨TermK.struc "ancestor" [TermK.var 2, TermK.var 3], [TermK.struc "parent" [TermK.var 2, TermK.var 4], TermK.struc "ancestor" [TermK.var 4, TermK.var 3]]⟩] [("A", 5)] (TermK.struc "parent" [TermK.var 23, TermK.var 25]) [TermK.struc "ancestor" [TermK.var 25, TermK.var 24]] (⟨[(24, TermK.struc "nobody" []), (23, TermK.struc "carol" []), (10, TermK.struc "carol" []), (8, TermK.struc "bob" []), (9, TermK.struc "nobody" []), (5, TermK.var 8)], [24, 23, 10, 8, 9, 5], 26, "", 0⟩ : EngineState) = some (⟨[(24, TermK.struc "nobody" []), (23, TermK.struc "carol" []), (10, TermK.struc "carol" []), (8, TermK.struc "bob" []), (9, TermK.struc "nobody" []), (5, TermK.var 8)], [24, 23, 10, 8, 9, 5], 26, "", 0⟩ : EngineState) := tryClauses_step_nomatch 83 kbDemo ⟨TermK.struc "parent" [TermK.struc "alice" [], TermK.struc "bob" []], []⟩ [⟨TermK.struc "parent" [TermK.struc "bob" [], TermK.struc "carol" []], []⟩, ⟨TermK.struc "parent" [TermK.struc "alice" [], TermK.struc "dana" []], []⟩, ⟨TermK.struc "ancestor" [TermK.var 0, TermK.var 1], [TermK.struc "parent" [TermK.var 0, TermK.var 1]]⟩, ⟨TermK.struc "ancestor" [TermK.var 2, TermK.var 3], [TermK.struc "parent" [TermK.var 2, TermK.var 4], TermK.struc "ancestor" [TermK.var 4, TermK.var 3]]⟩] [("A", 5)] (TermK.struc "parent" [TermK.var 23, TermK.var 25]) [TermK.struc "ancestor" [TermK.var 25, TermK.var 24]] (⟨[(24, TermK.struc "nobody" []), (23, TermK.struc "carol" []), (10, TermK.struc "carol" []), (8, TermK.struc "bob" []), (9, TermK.struc "nobody" []), (5, TermK.var 8)], [24, 23, 10, 8, 9, 5], 26, "", 0⟩ : EngineState) (TermK.struc "parent" [TermK.var 23, TermK.var 25]) (TermK.struc "parent" [TermK.struc "alice" [], TermK.struc "bob" []]) [] 26 (⟨[(24, TermK.struc "nobody" []), (23, TermK.struc "carol" []), (10, TermK.struc "carol" []), (8, TermK.struc "bob" []), (9, TermK.struc "nobody" []), (5, TermK.var 8)], [24, 23, 10, 8, 9, 5], 26, "", 0⟩ : EngineState) (⟨[(24, TermK.struc "nobody" []), (23, TermK.struc "carol" []), (10, TermK.struc "carol" []), (8, TermK.struc "bob" []), (9, TermK.struc "nobody" []), (5, TermK.var 8)], [24, 23, 10, 8, 9, 5], 26, "", 0⟩ : EngineState) rfl rfl rfl rfl hn61
  have hn63 : solve 85 kbDemo [("A", 5)] [TermK.struc "parent" [TermK.var 23, TermK.var 25], TermK.struc "ancestor" [TermK.var 25, TermK.var 24]] (⟨[(24, TermK.struc "nobody" []), (23, TermK.struc "carol" []), (10, TermK.struc "carol" []), (8, TermK.struc "bob" []), (9, TermK.struc "nobody" []), (5, TermK.var 8)], [24, 23, 10, 8, 9, 5], 26, "", 0⟩ : EngineState) = some (⟨[(24, TermK.struc "nobody" []), (23, TermK.struc "carol" []), (10, TermK.struc "carol" []), (8, TermK.struc "bob" []), (9, TermK.struc "nobody" []), (5, TermK.var 8)], [24, 23, 10, 8, 9, 5], 26, "", 0⟩ : EngineState) := solve_step_goal 84 kbDemo [("A", 5)] (TermK.struc "parent" [TermK.var 23, TermK.var 25]) [TermK.struc "ancestor" [TermK.var 25, TermK.var 24]] (⟨[(24, TermK.struc "nobody" []), (23, TermK.struc "carol" []), (10, TermK.struc "carol" []), (8, TermK.struc "bob" []), (9, TermK.struc "nobody" []), (5, TermK.var 8)], [24, 23, 10, 8, 9, 5], 26, "", 0⟩ : EngineState) (⟨[(24, TermK.struc "nobody" []), (23, TermK.struc "carol" []), (10, TermK.struc "carol" []), (8, TermK.struc "bob" []), (9, TermK.struc "nobody" []), (5, TermK.var 8)], [24, 23, 10, 8, 9, 5], 26, "", 0⟩ : EngineState) (⟨[(24, TermK.struc "nobody" []), (23, TermK.struc "carol" []), (10, TermK.struc "carol" []), (8, TermK.struc "bob" []), (9, TermK.struc "nobody" []), (5, TermK.var 8)], [24, 23, 10, 8, 9, 5], 26, "", 0⟩ : EngineState) rfl hn62
  have hn64 : tryClauses 85 kbDemo [] [("A", 5)] (TermK.struc "ancestor" [TermK.var 10, TermK.var 9]) [] (⟨[(10, TermK.struc "carol" []), (8, TermK.struc "bob" []), (9, TermK.struc "nobody" []), (5, TermK.var 8)], [10, 8, 9, 5], 26, "", 0⟩ : EngineState) = some (⟨[(10, TermK.struc "carol" []), (8, TermK.struc "bob" []), (9, TermK.struc "nobody" []), (5, TermK.var 8)], [10, 8, 9, 5], 26, "", 0⟩ : EngineState) := rfl
  have hn65 : tryClauses 86 kbDemo [⟨TermK.struc "ancestor" [TermK.var 2, TermK.var 3], [TermK.struc "parent" [TermK.var 2, TermK.var 4], TermK.struc "ancestor" [TermK.var 4, TermK.var 3]]⟩] [("A", 5)] (TermK.struc "ancestor" [TermK.var 10, TermK.var 9]) [] (⟨[(10, TermK.struc "carol" []), (8, TermK.struc "bob" []), (9, TermK.struc "nobody" []), (5, TermK.var 8)], [10, 8, 9, 5], 23, "", 0⟩ : EngineState) = some (⟨[(10, TermK.struc "carol" []), (8, TermK.struc "bob" []), (9, TermK.struc "nobody" []), (5, TermK.var 8)], [10, 8, 9, 5], 26, "", 0⟩ : EngineState) := tryClauses_step_attempt 85 kbDemo ⟨TermK.struc "ancestor" [TermK.var 2, TermK.var 3], [TermK.struc "parent" [TermK.var 2, TermK.var 4], TermK.struc "ancestor" [TermK.var 4, TermK.var 3]]⟩ [] [("A", 5)] (TermK.struc "ancestor" [TermK.var 10, TermK.var 9]) [] (⟨[(10, TermK.struc "carol" []), (8, TermK.struc "bob" []), (9, TermK.struc "nobody" []), (5, TermK.var 8)], [10, 8, 9, 5], 23, "", 0⟩ : EngineState) (TermK.struc "ancestor" [TermK.var 10, TermK.var 9]) (TermK.struc "ancestor" [TermK.var 23, TermK.var 24]) [(3, 24), (2, 23)] 25 [TermK.struc "parent" [TermK.var 23, TermK.var 25], TermK.struc "ancestor" [TermK.var 25, TermK.var 24]] [(4, 25), (3, 24), (2, 23)] 26 (⟨[(24, TermK.struc "nobody" []), (23, TermK.struc "carol" []), (10, TermK.struc "carol" []), (8, TermK.struc "bob" []), (9, TermK.struc "nobody" []), (5, TermK.var 8)], [24, 23, 10, 8, 9, 5], 25, "", 0⟩ : EngineState) (⟨[(24, TermK.struc "nobody" []), (23, TermK.struc "carol" []), (10, TermK.struc "carol" []), (8, TermK.struc "bob" []), (9, TermK.struc "nobody" []), (5, TermK.var 8)], [24, 23, 10, 8, 9, 5], 26, "", 0⟩ : EngineState) (⟨[(10, TermK.struc "carol" []), (8, TermK.struc "bob" []), (9, TermK.struc "nobody" []), (5, TermK.var 8)], [10, 8, 9, 5], 26, "", 0⟩ : EngineState) rfl rfl rfl rfl rfl hn63 hn64
  have hn66 : tryClauses 87 kbDemo [⟨TermK.struc "ancestor" [TermK.var 0, TermK.var 1], [TermK.struc "parent" [TermK.var 0, TermK.var 1]]⟩, ⟨TermK.struc "ancestor" [TermK.var 2, TermK.var 3], [TermK.struc "parent" [TermK.var 2, TermK.var 4], TermK.struc "ancestor" [TermK.var 4, TermK.var 3]]⟩] [("A", 5)] (TermK.struc "ancestor" [TermK.var 10, TermK.var 9]) [] (⟨[(10, TermK.struc "carol" []), (8, TermK.struc "bob" []), (9, TermK.struc "nobody" []), (5, TermK.var 8)], [10, 8, 9, 5], 21, "", 0⟩ : EngineState) = some (⟨[(10, TermK.struc "carol" []), (8, TermK.struc "bob" []), (9, TermK.struc "nobody" []), (5, TermK.var 8)], [10, 8, 9, 5], 26, "", 0⟩ : EngineState) := tryClauses_step_attempt 86 kbDemo ⟨TermK.struc "ancestor" [TermK.var 0, TermK.var 1], [TermK.struc "parent" [TermK.var 0, TermK.var 1]]⟩ [⟨TermK.struc "ancestor" [TermK.var 2, TermK.var 3], [TermK.struc "parent" [TermK.var 2, TermK.var 4], TermK.struc "ancestor" [TermK.var 4, TermK.var 3]]⟩] [("A", 5)] (TermK.struc "ancestor" [TermK.var 10, TermK.var 9]) [] (⟨[(10, TermK.struc "carol" []), (8, TermK.struc "bob" []), (9, TermK.struc "nobody" []), (5, TermK.var 8)], [10, 8, 9, 5], 21, "", 0⟩ : EngineState) (TermK.struc "ancestor" [TermK.var 10, TermK.var 9]) (TermK.struc "ancestor" [TermK.var 21, TermK.var 22]) [(1, 22), (0, 21)] 23 [TermK.struc "parent" [TermK.var 21, TermK.var 22]] [(1, 22), (0, 21)] 23 (⟨[(22, TermK.struc "nobody" []), (21, TermK.struc "carol" []), (10, TermK.struc "carol" []), (8, TermK.struc "bob" []), (9, TermK.struc "nobody" []), (5, TermK.var 8)], [22, 21, 10, 8, 9, 5], 23, "", 0⟩ : EngineState) (⟨[(22, TermK.struc "nobody" []), (21, TermK.struc "carol" []), (10, TermK.struc "carol" []), (8, TermK.struc "bob" []), (9, TermK.struc "nobody" []), (5, TermK.var 8)], [22, 21, 10, 8, 9, 5], 23, "", 0⟩ : EngineState) (⟨[(10, TermK.struc "carol" []), (8, TermK.struc "bob" []), (9, TermK.struc "nobody" []), (5, TermK.var 8)], [10, 8, 9, 5], 26, "", 0⟩ : EngineState) rfl rfl rfl rfl rfl hn56 hn65
  have hn67 : tryClauses 88 kbDemo [⟨TermK.struc "parent" [TermK.struc "alice" [], TermK.struc "dana" []], []⟩, ⟨TermK.struc "ancestor" [TermK.var 0, TermK.var 1], [TermK.struc "parent" [TermK.var 0, TermK.var 1]]⟩, ⟨TermK.struc "ancestor" [TermK.var 2, TermK.var 3], [TermK.struc "parent" [TermK.var 2, TermK.var 4], TermK.struc "ancestor" [TermK.var 4, TermK.var 3]]⟩] [("A", 5)] (TermK.struc "ancestor" [TermK.var 10, TermK.var 9]) [] (⟨[(10, TermK.struc "carol" []), (8, TermK.struc "bob" []), (9, TermK.struc "nobody" []), (5, TermK.var 8)], [10, 8, 9, 5], 21, "", 0⟩ : EngineState) = some (⟨[(10, TermK.struc "carol" []), (8, TermK.struc "bob" []), (9, TermK.struc "nobody" []), (5, TermK.var 8)], [10, 8, 9, 5], 26, "", 0⟩ : EngineState) := tryClauses_step_skip 87 kbDemo ⟨TermK.struc "parent" [TermK.struc "alice" [], TermK.struc "dana" []], []⟩ [⟨TermK.struc "ancestor" [TermK.var 0, TermK.var 1], [TermK.struc "parent" [TermK.var 0, TermK.var 1]]⟩, ⟨TermK.struc "ancestor" [TermK.var 2, TermK.var 3], [TermK.struc "parent" [TermK.var 2, TermK.var 4], TermK.struc "ancestor" [TermK.var 4, TermK.var 3]]⟩] [("A", 5)] (TermK.struc "ancestor" [TermK.var 10, TermK.var 9]) [] (⟨[(10, TermK.struc "carol" []), (8, TermK.struc "bob" []), (9, TermK.struc "nobody" []), (5, TermK.var 8)], [10, 8, 9, 5], 21, "", 0⟩ : EngineState) (⟨[(10, TermK.struc "carol" []), (8, TermK.struc "bob" []), (9, TermK.struc "nobody" []), (5, TermK.var 8)], [10, 8, 9, 5], 26, "", 0⟩ : EngineState) rfl hn66
  have hn68 : tryClauses 89 kbDemo [⟨TermK.struc "parent" [TermK.struc "bob" [], TermK.struc "carol" []], []⟩, ⟨TermK.struc "parent" [TermK.struc "alice" [], TermK.struc "dana" []], []⟩, ⟨TermK.struc "ancestor" [TermK.var 0, TermK.var 1], [TermK.struc "parent" [TermK.var 0, TermK.var 1]]⟩, ⟨TermK.struc "ancestor" [TermK.var 2, TermK.var 3], [TermK.struc "parent" [TermK.var 2, TermK.var 4], TermK.struc "ancestor" [TermK.var 4, TermK.var 3]]⟩] [("A", 5)] (TermK.struc "ancestor" [TermK.var 10, TermK.var 9]) [] (⟨[(10, TermK.struc "carol" []), (8, TermK.struc "bob" []), (9, TermK.struc "nobody" []), (5, TermK.var 8)], [10, 8, 9, 5], 21, "", 0⟩ : EngineState) = some (⟨[(10, TermK.struc "carol" []), (8, TermK.struc "bob" []), (9, TermK.struc "nobody" []), (5, TermK.var 8)], [10, 8, 9, 5], 26, "", 0⟩ : EngineState) := tryClauses_step_skip 88 kbDemo ⟨TermK.struc "parent" [TermK.struc "bob" [], TermK.struc "carol" []], []⟩ [⟨TermK.struc "parent" [TermK.struc "alice" [], TermK.struc "dana" []], []⟩, ⟨TermK.struc "ancestor" [TermK.var 0, TermK.var 1], [TermK.struc "parent" [TermK.var 0, TermK.var 1]]⟩, ⟨TermK.struc "ancestor" [TermK.var 2, TermK.var 3], [TermK.struc "parent" [TermK.var 2, TermK.var 4], TermK.struc "ancestor" [TermK.var 4, TermK.var 3]]⟩] [("A", 5)] (TermK.struc "ancestor" [TermK.var 10, TermK.var 9]) [] (⟨[(10, TermK.struc "carol" []), (8, TermK.struc "bob" []), (9, TermK.struc "nobody" []), (5, TermK.var 8)], [10, 8, 9, 5], 21, "", 0⟩ : EngineState) (⟨[(10, TermK.struc "carol" []), (8, TermK.struc "bob" []), (9, TermK.struc "nobody" []), (5, TermK.var 8)], [10, 8, 9, 5], 26, "", 0⟩ : EngineState) rfl hn67
  have hn69 : tryClauses 90 kbDemo [⟨TermK.struc "parent" [TermK.struc "alice" [], TermK.struc "bob" []], []⟩, ⟨TermK.struc "parent" [TermK.struc "bob" [], TermK.struc "carol" []], []⟩, ⟨TermK.struc "parent" [TermK.struc "alice" [], TermK.struc "dana" []], []⟩, ⟨TermK.struc "ancestor" [TermK.var 0, TermK.var 1], [TermK.struc "parent" [TermK.var 0, TermK.var 1]]⟩, ⟨TermK.struc "ancestor" [TermK.var 2, TermK.var 3], [TermK.struc "parent" [TermK.var 2, TermK.var 4], TermK.struc "ancestor" [TermK.var 4, TermK.var 3]]⟩] [("A", 5)] (TermK.struc "ancestor" [TermK.var 10, TermK.var 9]) [] (⟨[(10, TermK.struc "carol" []), (8, TermK.struc "bob" []), (9, TermK.struc "nobody" []), (5, TermK.var 8)], [10, 8, 9, 5], 21, "", 0⟩ : EngineState) = some (⟨[(10, TermK.struc "carol" []), (8, TermK.struc "bob" []), (9, TermK.struc "nobody" []), (5, TermK.var 8)], [10, 8, 9, 5], 26, "", 0⟩ : EngineState) := tryClauses_step_skip 89 kbDemo ⟨TermK.struc "parent" [TermK.struc "alice" [], TermK.struc "bob" []], []⟩ [⟨TermK.struc "parent" [TermK.struc "bob" [], TermK.struc "carol" []], []⟩, ⟨TermK.struc "parent" [TermK.struc "alice" [], TermK.struc "dana" []], []⟩, ⟨TermK.struc "ancestor" [TermK.var 0, TermK.var 1], [TermK.struc "parent" [TermK.var 0, TermK.var 1]]⟩, ⟨TermK.struc "ancestor" [TermK.var 2, TermK.var 3], [TermK.struc "parent" [TermK.var 2, TermK.var 4], TermK.struc "ancestor" [TermK.var 4, TermK.var 3]]⟩] [("A", 5)] (TermK.struc "ancestor" [TermK.var 10, TermK.var 9]) [] (⟨[(10, TermK.struc "carol" []), (8, TermK.struc "bob" []), (9, TermK.struc "nobody" []), (5, TermK.var 8)], [10, 8, 9, 5], 21, "", 0⟩ : EngineState) (⟨[(10, TermK.struc "carol" []), (8, TermK.struc "bob" []), (9, TermK.struc "nobody" []), (5, TermK.var 8)], [10, 8, 9, 5], 26, "", 0⟩ : EngineState) rfl hn68
  have hn70 : solve 91 kbDemo [("A", 5)] [TermK.struc "ancestor" [TermK.var 10, TermK.var 9]] (⟨[(10, TermK.struc "carol" []), (8, TermK.struc "bob" []), (9, TermK.struc "nobody" []), (5, TermK.var 8)], [10, 8, 9, 5], 21, "", 0⟩ : EngineState) = some (⟨[(10, TermK.struc "carol" []), (8, TermK.struc "bob" []), (9, TermK.struc "nobody" []), (5, TermK.var 8)], [10, 8, 9, 5], 26, "", 0⟩ : EngineState) := solve_step_goal 90 kbDemo [("A", 5)] (TermK.struc "ancestor" [TermK.var 10, TermK.var 9]) [] (⟨[(10, TermK.struc "carol" []), (8, TermK.struc "bob" []), (9, TermK.struc "nobody" []), (5, TermK.var 8)], [10, 8, 9, 5], 21, "", 0⟩ : EngineState) (⟨[(10, TermK.struc "carol" []), (8, TermK.struc "bob" []), (9, TermK.struc "nobody" []), (5, TermK.var 8)], [10, 8, 9, 5], 21, "", 0⟩ : EngineState) (⟨[(10, TermK.struc "carol" []), (8, TermK.struc "bob" []), (9, TermK.struc "nobody" []), (5, TermK.var 8)], [10, 8, 9, 5], 26, "", 0⟩ : EngineState) rfl hn69
  have hn71 : tryClauses 79 kbDemo [] [("A", 5)] (TermK.struc "parent" [TermK.var 26, TermK.var 27]) [] (⟨[(27, TermK.struc "nobody" []), (26, TermK.struc "dana" []), (10, TermK.struc "dana" []), (8, TermK.struc "alice" []), (9, TermK.struc "nobody" []), (5, TermK.var 8)], [27, 26, 10, 8, 9, 5], 28, "", 0⟩ : EngineState) = some (⟨[(27, TermK.struc "nobody" []), (26, TermK.struc "dana" []), (10, TermK.struc "dana" []), (8, TermK.struc "alice" []), (9, TermK.struc "nobody" []), (5, TermK.var 8)], [27, 26, 10, 8, 9, 5], 28, "", 0⟩ : EngineState) := rfl
  have hn72 : tryClauses 80 kbDemo [⟨TermK.struc "ancestor" [TermK.var 2, TermK.var 3], [TermK.struc "parent" [TermK.var 2, TermK.var 4], TermK.struc "ancestor" [TermK.var 4, TermK.var 3]]⟩] [("A", 5)] (TermK.struc "parent" [TermK.var 26, TermK.var 27]) [] (⟨[(27, TermK.struc "nobody" []), (26, TermK.struc "dana" []), (10, TermK.struc "dana" []), (8, TermK.struc "alice" []), (9, TermK.struc "nobody" []), (5, TermK.var 8)], [27, 26, 10, 8, 9, 5], 28, "", 0⟩ : EngineState) = some (⟨[(27, TermK.struc "nobody" []), (26, TermK.struc "dana" []), (10, TermK.struc "dana" []), (8, TermK.struc "alice" []), (9, TermK.struc "nobody" []), (5, TermK.var 8)], [27, 26, 10, 8, 9, 5], 28, "", 0⟩ : EngineState) := tryClauses_step_skip 79 kbDemo ⟨TermK.struc "ancestor" [TermK.var 2, TermK.var 3], [TermK.struc "parent" [TermK.var 2, TermK.var 4], TermK.struc "ancestor" [TermK.var 4, TermK.var 3]]⟩ [] [("A", 5)] (TermK.struc "parent" [TermK.var 26, TermK.var 27]) [] (⟨[(27, TermK.struc "nobody" []), (26, TermK.struc "dana" []), (10, TermK.struc "dana" []), (8, TermK.struc "alice" []), (9, TermK.struc "nobody" []), (5, TermK.var 8)], [27, 26, 10, 8, 9, 5], 28, "", 0⟩ : EngineState) (⟨[(27, TermK.struc "nobody" []), (26, TermK.struc "dana" []), (10, TermK.struc "dana" []), (8, TermK.struc "alice" []), (9, TermK.struc "nobody" []), (5, TermK.var 8)], [27, 26, 10, 8, 9, 5], 28, "", 0⟩ : EngineState) rfl hn71
  have hn73 : tryClauses 81 kbDemo [⟨TermK.struc "ancestor" [TermK.var 0, TermK.var 1], [TermK.struc "parent" [TermK.var 0, TermK.var 1]]⟩, ⟨TermK.struc "ancestor" [TermK.var 2, TermK.var 3], [TermK.struc "parent" [TermK.var 2, TermK.var 4], TermK.struc "ancestor" [TermK.var 4, TermK.var 3]]⟩] [("A", 5)] (TermK.struc "parent" [TermK.var 26, TermK.var 27]) [] (⟨[(27, TermK.struc "nobody" []), (26, TermK.struc "dana" []), (10, TermK.struc "dana" []), (8, TermK.struc "alice" []), (9, TermK.struc "nobody" []), (5, TermK.var 8)], [27, 26, 10, 8, 9, 5], 28, "", 0⟩ : EngineState) = some (⟨[(27, TermK.struc "nobody" []), (26, TermK.struc "dana" []), (10, TermK.struc "dana" []), (8, TermK.struc "alice" []), (9, TermK.struc "nobody" []), (5, TermK.var 8)], [27, 26, 10, 8, 9, 5], 28, "", 0⟩ : EngineState) := tryClauses_step_skip 80 kbDemo ⟨TermK.struc "ancestor" [TermK.var 0, TermK.var 1], [TermK.struc "parent" [TermK.var 0, TermK.var 1]]⟩ [⟨TermK.struc "ancestor" [TermK.var 2, TermK.var 3], [TermK.struc "parent" [TermK.var 2, TermK.var 4], TermK.struc "ancestor" [TermK.var 4, TermK.var 3]]⟩] [("A", 5)] (TermK.struc "parent" [TermK.var 26, TermK.var 27]) [] (⟨[(27, TermK.struc "nobody" []), (26, TermK.struc "dana" []), (10, TermK.struc "dana" []), (8, TermK.struc "alice" []), (9, TermK.struc "nobody" []), (5, TermK.var 8)], [27, 26, 10, 8, 9, 5], 28, "", 0⟩ : EngineState) (⟨[(27, TermK.struc "nobody" []), (26, TermK.struc "dana" []), (10, TermK.struc "dana" []), (8, TermK.struc "alice" []), (9, TermK.struc "nobody" []), (5, TermK.var 8)], [27, 26, 10, 8, 9, 5], 28, "", 0⟩ : EngineState) rfl hn72
  have hn74 : tryClauses 82 kbDemo [⟨TermK.struc "parent" [TermK.struc "alice" [], TermK.struc "dana" []], []⟩, ⟨TermK.struc "ancestor" [TermK.var 0, TermK.var 1], [TermK.struc "parent" [TermK.var 0, TermK.var 1]]⟩, ⟨TermK.struc "ancestor" [TermK.var 2, TermK.var 3], [TermK.struc "parent" [TermK.var 2, TermK.var 4], TermK.struc "ancestor" [TermK.var 4, TermK.var 3]]⟩] [("A", 5)] (TermK.struc "parent" [TermK.var 26, TermK.var 27]) [] (⟨[(27, TermK.struc "nobody" []), (26, TermK.struc "dana" []), (10, TermK.struc "dana" []), (8, TermK.struc "alice" []), (9, TermK.struc "nobody" []), (5, TermK.var 8)], [27, 26, 10, 8, 9, 5], 28, "", 0⟩ : EngineState) = some (⟨[(27, TermK.struc "nobody" []), (26, TermK.struc "dana" []), (10, TermK.struc "dana" []), (8, TermK.struc "alice" []), (9, TermK.struc "nobody" []), (5, TermK.var 8)], [27, 26, 10, 8, 9, 5], 28, "", 0⟩ : EngineState) := tryClauses_step_nomatch 81 kbDemo ⟨TermK.struc "parent" [TermK.struc "alice" [], TermK.struc "dana" []], []⟩ [⟨TermK.struc "ancestor" [TermK.var 0, TermK.var 1], [TermK.struc "parent" [TermK.var 0, TermK.var 1]]⟩, ⟨TermK.struc "ancestor" [TermK.var 2, TermK.var 3], [TermK.struc "parent" [TermK.var 2, TermK.var 4], TermK.struc "ancestor" [TermK.var 4, TermK.var 3]]⟩] [("A", 5)] (TermK.struc "parent" [TermK.var 26, TermK.var 27]) [] (⟨[(27, TermK.struc "nobody" []), (26, TermK.struc "dana" []), (10, TermK.struc "dana" []), (8, TermK.struc "alice" []), (9, TermK.struc "nobody" []), (5, TermK.var 8)], [27, 26, 10, 8, 9, 5], 28, "", 0⟩ : EngineState) (TermK.struc "parent" [TermK.var 26, TermK.var 27]) (TermK.struc "parent" [TermK.struc "alice" [], TermK.struc "dana" []]) [] 28 (⟨[(27, TermK.struc "nobody" []), (26, TermK.struc "dana" []), (10, TermK.struc "dana" []), (8, TermK.struc "alice" []), (9, TermK.struc "nobody" []), (5, TermK.var 8)], [27, 26, 10, 8, 9, 5], 28, "", 0⟩ : EngineState) (⟨[(27, TermK.struc "nobody" []), (26, TermK.struc "dana" []), (10, TermK.struc "dana" []), (8, TermK.struc "alice" []), (9, TermK.struc "nobody" []), (5, TermK.var 8)], [27, 26, 10, 8, 9, 5], 28, "", 0⟩ : EngineState) rfl rfl rfl rfl hn73
  have hn75 : tryClauses 83 kbDemo [⟨TermK.struc "parent" [TermK.struc "bob" [], TermK.struc "carol" []], []⟩, ⟨TermK.struc "parent" [TermK.struc "alice" [], TermK.struc "dana" []], []⟩, ⟨TermK.struc "ancestor" [TermK.var 0, TermK.var 1], [TermK.struc "parent" [TermK.var 0, TermK.var 1]]⟩, ⟨TermK.struc "ancestor" [TermK.var 2, TermK.var 3], [TermK.struc "parent" [TermK.var 2, TermK.var 4], TermK.struc "ancestor" [TermK.var 4, TermK.var 3]]⟩] [("A", 5)] (TermK.struc "parent" [TermK.var 26, TermK.var 27]) [] (⟨[(27, TermK.struc "nobody" []), (26, TermK.struc "dana" []), (10, TermK.struc "dana" []), (8, TermK.struc "alice" []), (9, TermK.struc "nobody" []), (5, TermK.var 8)], [27, 26, 10, 8, 9, 5], 28, "", 0⟩ : EngineState) = some (⟨[(27, TermK.struc "nobody" []), (26, TermK.struc "dana" []), (10, TermK.struc "dana" []), (8, TermK.struc "alice" []), (9, TermK.struc "nobody" []), (5, TermK.var 8)], [27, 26, 10, 8, 9, 5], 28, "", 0⟩ : EngineState) := tryClauses_step_nomatch 82 kbDemo ⟨TermK.struc "parent" [TermK.struc "bob" [], TermK.struc "carol" []], []⟩ [⟨TermK.struc "parent" [TermK.struc "alice" [], TermK.struc "dana" []], []⟩, ⟨TermK.struc "ancestor" [TermK.var 0, TermK.var 1], [TermK.struc "parent" [TermK.var 0, TermK.var 1]]⟩, ⟨TermK.struc "ancestor" [TermK.var 2, TermK.var 3], [TermK.struc "parent" [TermK.var 2, TermK.var 4], TermK.struc "ancestor" [TermK.var 4, TermK.var 3]]⟩] [("A", 5)] (TermK.struc "parent" [TermK.var 26, TermK.var 27]) [] (⟨[(27, TermK.struc "nobody" []), (26, TermK.struc "dana" []), (10, TermK.struc "dana" []), (8, TermK.struc "alice" []), (9, TermK.struc "nobody" []), (5, TermK.var 8)], [27, 26, 10, 8, 9, 5], 28, "", 0⟩ : EngineState) (TermK.struc "parent" [TermK.var 26, TermK.var 27]) (TermK.struc "parent" [TermK.struc "bob" [], TermK.struc "carol" []]) [] 28 (⟨[(27, TermK.struc "nobody" []), (26, TermK.struc "dana" []), (10, TermK.struc "dana" []), (8, TermK.struc "alice" []), (9, TermK.struc "nobody" []), (5, TermK.var 8)], [27, 26, 10, 8, 9, 5], 28, "", 0⟩ : EngineState) (⟨[(27, TermK.struc "nobody" []), (26, TermK.struc "dana" []), (10, TermK.struc "dana" []), (8, TermK.struc "alice" []), (9, TermK.struc "nobody" []), (5, TermK.var 8)], [27, 26, 10, 8, 9, 5], 28, "", 0⟩ : EngineState) rfl rfl rfl rfl hn74
  have hn76 : tryClauses 84 kbDemo [⟨TermK.struc "parent" [TermK.struc "alice" [], TermK.struc "bob" []], []⟩, ⟨TermK.struc "parent" [TermK.struc "bob" [], TermK.struc "carol" []], []⟩, ⟨TermK.struc "parent" [TermK.struc "alice" [], TermK.struc "dana" []], []⟩, ⟨TermK.struc "ancestor" [TermK.var 0, TermK.var 1], [TermK.struc "parent" [TermK.var 0, TermK.var 1]]⟩, ⟨TermK.struc "ancestor" [TermK.var 2, TermK.var 3], [TermK.struc "parent" [TermK.var 2, TermK.var 4], TermK.struc "ancestor" [TermK.var 4, TermK.var 3]]⟩] [("A", 5)] (TermK.struc "parent" [TermK.var 26, TermK.var 27]) [] (⟨[(27, TermK.struc "nobody" []), (26, TermK.struc "dana" []), (10, TermK.struc "dana" []), (8, TermK.struc "alice" []), (9, TermK.struc "nobody" []), (5, TermK.var 8)], [27, 26, 10, 8, 9, 5], 28, "", 0⟩ : EngineState) = some (⟨[(27, TermK.struc "nobody" []), (26, TermK.struc "dana" []), (10, TermK.struc "dana" []), (8, TermK.struc "alice" []), (9, TermK.struc "nobody" []), (5, TermK.var 8)], [27, 26, 10, 8, 9, 5], 28, "", 0⟩ : EngineState) := tryClauses_step_nomatch 83 kbDemo ⟨TermK.struc "parent" [TermK.struc "alice" [], TermK.struc "bob" []], []⟩ [⟨TermK.struc "parent" [TermK.struc "bob" [], TermK.struc "carol" []], []⟩, ⟨TermK.struc "parent" [TermK.struc "alice" [], TermK.struc "dana" []], []⟩, ⟨TermK.struc "ancestor" [TermK.var 0, TermK.var 1], [TermK.struc "parent" [TermK.var 0, TermK.var 1]]⟩, ⟨TermK.struc "ancestor" [TermK.var 2, TermK.var 3], [TermK.struc "parent" [TermK.var 2, TermK.var 4], TermK.struc "ancestor" [TermK.var 4, TermK.var 3]]⟩] [("A", 5)] (TermK.struc "parent" [TermK.var 26, TermK.var 27]) [] (⟨[(27, TermK.struc "nobody" []), (26, TermK.struc "dana" []), (10, TermK.struc "dana" []), (8, TermK.struc "alice" []), (9, TermK.struc "nobody" []), (5, TermK.var 8)], [27, 26, 10, 8, 9, 5], 28, "", 0⟩ : EngineState) (TermK.struc "parent" [TermK.var 26, TermK.var 27]) (TermK.struc "parent" [TermK.struc "alice" [], TermK.struc "bob" []]) [] 28 (⟨[(27, TermK.struc "nobody" []), (26, TermK.struc "dana" []), (10, TermK.struc "dana" []), (8, TermK.struc "alice" []), (9, TermK.struc "nobody" []), (5, TermK.var 8)], [27, 26, 10, 8, 9, 5], 28, "", 0⟩ : EngineState) (⟨[(27, TermK.struc "nobody" []), (26, TermK.struc "dana" []), (10, TermK.struc "dana" []), (8, TermK.struc "alice" []), (9, TermK.struc "nobody" []), (5, TermK.var 8)], [27, 26, 10, 8, 9, 5], 28, "", 0⟩ : EngineState) rfl rfl rfl rfl hn75
  have hn77 : solve 85 kbDemo [("A", 5)] [TermK.struc "parent" [TermK.var 26, TermK.var 27]] (⟨[(27, TermK.struc "nobody" []), (26, TermK.struc "dana" []), (10, TermK.struc "dana" []), (8, TermK.struc "alice" []), (9, TermK.struc "nobody" []), (5, TermK.var 8)], [27, 26, 10, 8, 9, 5], 28, "", 0⟩ : EngineState) = some (⟨[(27, TermK.struc "nobody" []), (26, TermK.struc "dana" []), (10, TermK.struc "dana" []), (8, TermK.struc "alice" []), (9, TermK.struc "nobody" []), (5, TermK.var 8)], [27, 26, 10, 8, 9, 5], 28, "", 0⟩ : EngineState) := solve_step_goal 84 kbDemo [("A", 5)] (TermK.struc "parent" [TermK.var 26, TermK.var 27]) [] (⟨[(27, TermK.struc "nobody" []), (26, TermK.struc "dana" []), (10, TermK.struc "dana" []), (8, TermK.struc "alice" []), (9, TermK.struc "nobody" []), (5, TermK.var 8)], [27, 26, 10, 8, 9, 5], 28, "", 0⟩ : EngineState) (⟨[(27, TermK.struc "nobody" []), (26, TermK.struc "dana" []), (10, TermK.struc "dana" []), (8, TermK.struc "alice" []), (9, TermK.struc "nobody" []), (5, TermK.var 8)], [27, 26, 10, 8, 9, 5], 28, "", 0⟩ : EngineState) (⟨[(27, TermK.struc "nobody" []), (26, TermK.struc "dana" []), (10, TermK.struc "dana" []), (8, TermK.struc "alice" []), (9, TermK.struc "nobody" []), (5, TermK.var 8)], [27, 26, 10, 8, 9, 5], 28, "", 0⟩ : EngineState) rfl hn76
  have hn78 : tryClauses 78 kbDemo [] [("A", 5)] (TermK.struc "parent" [TermK.var 28, TermK.var 30]) [TermK.struc "ancestor" [TermK.var 30, TermK.var 29]] (⟨[(29, TermK.struc "nobody" []), (28, TermK.struc "dana" []), (10, TermK.struc "dana" []), (8, TermK.struc "alice" []), (9, TermK.struc "nobody" []), (5, TermK.var 8)], [29, 28, 10, 8, 9, 5], 31, "", 0⟩ : EngineState) = some (⟨[(29, TermK.struc "nobody" []), (28, TermK.struc "dana" []), (10, TermK.struc "dana" []), (8, TermK.struc "alice" []), (9, TermK.struc "nobody" []), (5, TermK.var 8)], [29, 28, 10, 8, 9, 5], 31, "", 0⟩ : EngineState) := rfl
  have hn79 : tryClauses 79 kbDemo [⟨TermK.struc "ancestor" [TermK.var 2, TermK.var 3], [TermK.struc "parent" [TermK.var 2, TermK.var 4], TermK.struc "ancestor" [TermK.var 4, TermK.var 3]]⟩] [("A", 5)] (TermK.struc "parent" [TermK.var 28, TermK.var 30]) [TermK.struc "ancestor" [TermK.var 30, TermK.var 29]] (⟨[(29, TermK.struc "nobody" []), (28, TermK.struc "dana" []), (10, TermK.struc "dana" []), (8, TermK.struc "alice" []), (9, TermK.struc "nobody" []), (5, TermK.var 8)], [29, 28, 10, 8, 9, 5], 31, "", 0⟩ : EngineState) = some (⟨[(29, TermK.struc "nobody" []), (28, TermK.struc "dana" []), (10, TermK.struc "dana" []), (8, TermK.struc "alice" []), (9, TermK.struc "nobody" []), (5, TermK.var 8)], [29, 28, 10, 8, 9, 5], 31, "", 0⟩ : EngineState) := tryClauses_step_skip 78 kbDemo ⟨TermK.struc "ancestor" [TermK.var 2, TermK.var 3], [TermK.struc "parent" [TermK.var 2, TermK.var 4], TermK.struc "ancestor" [TermK.var 4, TermK.var 3]]⟩ [] [("A", 5)] (TermK.struc "parent" [TermK.var 28, TermK.var 30]) [TermK.struc "ancestor" [TermK.var 30, TermK.var 29]] (⟨[(29, TermK.struc "nobody" []), (28, TermK.struc "dana" []), (10, TermK.struc "dana" []), (8, TermK.struc "alice" []), (9, TermK.struc "nobody" []), (5, TermK.var 8)], [29, 28, 10, 8, 9, 5], 31, "", 0⟩ : EngineState) (⟨[(29, TermK.struc "nobody" []), (28, TermK.struc "dana" []), (10, TermK.struc "dana" []), (8, TermK.struc "alice" []), (9, TermK.struc "nobody" []), (5, TermK.var 8)], [29, 28, 10, 8, 9, 5], 31, "", 0⟩ : EngineState) rfl hn78
  have hn80 : tryClauses 80 kbDemo [⟨TermK.struc "ancestor" [TermK.var 0, TermK.var 1], [TermK.struc "parent" [TermK.var 0, TermK.var 1]]⟩, ⟨TermK.struc "ancestor" [TermK.var 2, TermK.var 3], [TermK.struc "parent" [TermK.var 2, TermK.var 4], TermK.struc "ancestor" [TermK.var 4, TermK.var 3]]⟩] [("A", 5)] (TermK.struc "parent" [TermK.var 28, TermK.var 30]) [TermK.struc "ancestor" [TermK.var 30, TermK.var 29]] (⟨[(29, TermK.struc "nobody" []), (28, TermK.struc "dana" []), (10, TermK.struc "dana" []), (8, TermK.struc "alice" []), (9, TermK.struc "nobody" []), (5, TermK.var 8)], [29, 28, 10, 8, 9, 5], 31, "", 0⟩ : EngineState) = some (⟨[(29, TermK.struc "nobody" []), (28, TermK.struc "dana" []), (10, TermK.struc "dana" []), (8, TermK.struc "alice" []), (9, TermK.struc "nobody" []), (5, TermK.var 8)], [29, 28, 10, 8, 9, 5], 31, "", 0⟩ : EngineState) := tryClauses_step_skip 79 kbDemo ⟨TermK.struc "ancestor" [TermK.var 0, TermK.var 1], [TermK.struc "parent" [TermK.var 0, TermK.var 1]]⟩ [⟨TermK.struc "ancestor" [TermK.var 2, TermK.var 3], [TermK.struc "parent" [TermK.var 2, TermK.var 4], TermK.struc "ancestor" [TermK.var 4, TermK.var 3]]⟩] [("A", 5)] (TermK.struc "parent" [TermK.var 28, TermK.var 30]) [TermK.struc "ancestor" [TermK.var 30, TermK.var 29]] (⟨[(29, TermK.struc "nobody" []), (28, TermK.struc "dana" []), (10, TermK.struc "dana" []), (8, TermK.struc "alice" []), (9, TermK.struc "nobody" []), (5, TermK.var 8)], [29, 28, 10, 8, 9, 5], 31, "", 0⟩ : EngineState) (⟨[(29, TermK.struc "nobody" []), (28, TermK.struc "dana" []), (10, TermK.struc "dana" []), (8, TermK.struc "alice" []), (9, TermK.struc "nobody" []), (5, TermK.var 8)], [29, 28, 10, 8, 9, 5], 31, "", 0⟩ : EngineState) rfl hn79
  have hn81 : tryClauses 81 kbDemo [⟨TermK.struc "parent" [TermK.struc "alice" [], TermK.struc "dana" []], []⟩, ⟨TermK.struc "ancestor" [TermK.var 0, TermK.var 1], [TermK.struc "parent" [TermK.var 0, TermK.var 1]]⟩, ⟨TermK.struc "ancestor" [TermK.var 2, TermK.var 3], [TermK.struc "parent" [TermK.var 2, TermK.var 4], TermK.struc "ancestor" [TermK.var 4, TermK.var 3]]⟩] [("A", 5)] (TermK.struc "parent" [TermK.var 28, TermK.var 30]) [TermK.struc "ancestor" [TermK.var 30, TermK.var 29]] (⟨[(29, TermK.struc "nobody" []), (28, TermK.struc "dana" []), (10, TermK.struc "dana" []), (8, TermK.struc "alice" []), (9, TermK.struc "nobody" []), (5, TermK.var 8)], [29, 28, 10, 8, 9, 5], 31, "", 0⟩ : EngineState) = some (⟨[(29, TermK.struc "nobody" []), (28, TermK.struc "dana" []), (10, TermK.struc "dana" []), (8, TermK.struc "alice" []), (9, TermK.struc "nobody" []), (5, TermK.var 8)], [29, 28, 10, 8, 9, 5], 31, "", 0⟩ : EngineState) := tryClauses_step_nomatch 80 kbDemo ⟨TermK.struc "parent" [TermK.struc "alice" [], TermK.struc "dana" []], []⟩ [⟨TermK.struc "ancestor" [TermK.var 0, TermK.var 1], [TermK.struc "parent" [TermK.var 0, TermK.var 1]]⟩, ⟨TermK.struc "ancestor" [TermK.var 2, TermK.var 3], [TermK.struc "parent" [TermK.var 2, TermK.var 4], TermK.struc "ancestor" [TermK.var 4, TermK.var 3]]⟩] [("A", 5)] (TermK.struc "parent" [TermK.var 28, TermK.var 30]) [TermK.struc "ancestor" [TermK.var 30, TermK.var 29]] (⟨[(29, TermK.struc "nobody" []), (28, TermK.struc "dana" []), (10, TermK.struc "dana" []), (8, TermK.struc "alice" []), (9, TermK.struc "nobody" []), (5, TermK.var 8)], [29, 28, 10, 8, 9, 5], 31, "", 0⟩ : EngineState) (TermK.struc "parent" [TermK.var 28, TermK.var 30]) (TermK.struc "parent" [TermK.struc "alice" [], TermK.struc "dana" []]) [] 31 (⟨[(29, TermK.struc "nobody" []), (28, TermK.struc "dana" []), (10, TermK.struc "dana" []), (8, TermK.struc "alice" []), (9, TermK.struc "nobody" []), (5, TermK.var 8)], [29, 28, 10, 8, 9, 5], 31, "", 0⟩ : EngineState) (⟨[(29, TermK.struc "nobody" []), (28, TermK.struc "dana" []), (10, TermK.struc "dana" []), (8, TermK.struc "alice" []), (9, TermK.struc "nobody" []), (5, TermK.var 8)], [29, 28, 10, 8, 9, 5], 31, "", 0⟩ : EngineState) rfl rfl rfl rfl hn80
  have hn82 : tryClauses 82 kbDemo [⟨TermK.struc "parent" [TermK.struc "bob" [], TermK.struc "carol" []], []⟩, ⟨TermK.struc "parent" [TermK.struc "alice" [], TermK.struc "dana" []], []⟩, ⟨TermK.struc "ancestor" [TermK.var 0, TermK.var 1], [TermK.struc "parent" [TermK.var 0, TermK.var 1]]⟩, ⟨TermK.struc "ancestor" [TermK.var 2, TermK.var 3], [TermK.struc "parent" [TermK.var 2, TermK.var 4], TermK.struc "ancestor" [TermK.var 4, TermK.var 3]]⟩] [("A", 5)] (TermK.struc "parent" [TermK.var 28, TermK.var 30]) [TermK.struc "ancestor" [TermK.var 30, TermK.var 29]] (⟨[(29, TermK.struc "nobody" []), (28, TermK.struc "dana" []), (10, TermK.struc "dana" []), (8, TermK.struc "alice" []), (9, TermK.struc "nobody" []), (5, TermK.var 8)], [29, 28, 10, 8, 9, 5], 31, "", 0⟩ : EngineState) = some (⟨[(29, TermK.struc "nobody" []), (28, TermK.struc "dana" []), (10, TermK.struc "dana" []), (8, TermK.struc "alice" []), (9, TermK.struc "nobody" []), (5, TermK.var 8)], [29, 28, 10, 8, 9, 5], 31, "", 0⟩ : EngineState) := tryClauses_step_nomatch 81 kbDemo ⟨TermK.struc "parent" [TermK.struc "bob" [], TermK.struc "carol" []], []⟩ [⟨TermK.struc "parent" [TermK.struc "alice" [], TermK.struc "dana" []], []⟩, ⟨TermK.struc "ancestor" [TermK.var 0, TermK.var 1], [TermK.struc "parent" [TermK.var 0, TermK.var 1]]⟩, ⟨TermK.struc "ancestor" [TermK.var 2, TermK.var 3], [TermK.struc "parent" [TermK.var 2, TermK.var 4], TermK.struc "ancestor" [TermK.var 4, TermK.var 3]]⟩] [("A", 5)] (TermK.struc "parent" [TermK.var 28, TermK.var 30]) [TermK.struc "ancestor" [TermK.var 30, TermK.var 29]] (⟨[(29, TermK.struc "nobody" []), (28, TermK.struc "dana" []), (10, TermK.struc "dana" []), (8, TermK.struc "alice" []), (9, TermK.struc "nobody" []), (5, TermK.var 8)], [29, 28, 10, 8, 9, 5], 31, "", 0⟩ : EngineState) (TermK.struc "parent" [TermK.var 28, TermK.var 30]) (TermK.struc "parent" [TermK.struc "bob" [], TermK.struc "carol" []]) [] 31 (⟨[(29, TermK.struc "nobody" []), (28, TermK.struc "dana" []), (10, TermK.struc "dana" []), (8, TermK.struc "alice" []), (9, TermK.struc "nobody" []), (5, TermK.var 8)], [29, 28, 10, 8, 9, 5], 31, "", 0⟩ : EngineState) (⟨[(29, TermK.struc "nobody" []), (28, TermK.struc "dana" []), (10, TermK.struc "dana" []), (8, TermK.struc "alice" []), (9, TermK.struc "nobody" []), (5, TermK.var 8)], [29, 28, 10, 8, 9, 5], 31, "", 0⟩ : EngineState) rfl rfl rfl rfl hn81
  have hn83 : tryClauses 83 kbDemo [⟨TermK.struc "parent" [TermK.struc "alice" [], TermK.struc "bob" []], []⟩, ⟨TermK.struc "parent" [TermK.struc "bob" [], TermK.struc "carol" []], []⟩, ⟨TermK.struc "parent" [TermK.struc "alice" [], TermK.struc "dana" []], []⟩, ⟨TermK.struc "ancestor" [TermK.var 0, TermK.var 1], [TermK.struc "parent" [TermK.var 0, TermK.var 1]]⟩, ⟨TermK.struc "ancestor" [TermK.var 2, TermK.var 3], [TermK.struc "parent" [TermK.var 2, TermK.var 4], TermK.struc "ancestor" [TermK.var 4, TermK.var 3]]⟩] [("A", 5)] (TermK.struc "parent" [TermK.var 28, TermK.var 30]) [TermK.struc "ancestor" [TermK.var 30, TermK.var 29]] (⟨[(29, TermK.struc "nobody" []), (28, TermK.struc "dana" []), (10, TermK.struc "dana" []), (8, TermK.struc "alice" []), (9, TermK.struc "nobody" []), (5, TermK.var 8)], [29, 28, 10, 8, 9, 5], 31, "", 0⟩ : EngineState) = some (⟨[(29, TermK.struc "nobody" []), (28, TermK.struc "dana" []), (10, TermK.struc "dana" []), (8, TermK.struc "alice" []), (9, TermK.struc "nobody" []), (5, TermK.var 8)], [29, 28, 10, 8, 9, 5], 31, "", 0⟩ : EngineState) := tryClauses_step_nomatch 82 kbDemo ⟨TermK.struc "parent" [TermK.struc "alice" [], TermK.struc "bob" []], []⟩ [⟨TermK.struc "parent" [TermK.struc "bob" [], TermK.struc "carol" []], []⟩, ⟨TermK.struc "parent" [TermK.struc "alice" [], TermK.struc "dana" []], []⟩, ⟨TermK.struc "ancestor" [TermK.var 0, TermK.var 1], [TermK.struc "parent" [TermK.var 0, TermK.var 1]]⟩, ⟨TermK.struc "ancestor" [TermK.var 2, TermK.var 3], [TermK.struc "parent" [TermK.var 2, TermK.var 4], TermK.struc "ancestor" [TermK.var 4, TermK.var 3]]⟩] [("A", 5)] (TermK.struc "parent" [TermK.var 28, TermK.var 30]) [TermK.struc "ancestor" [TermK.var 30, TermK.var 29]] (⟨[(29, TermK.struc "nobody" []), (28, TermK.struc "dana" []), (10, TermK.struc "dana" []), (8, TermK.struc "alice" []), (9, TermK.struc "nobody" []), (5, TermK.var 8)], [29, 28, 10, 8, 9, 5], 31, "", 0⟩ : EngineState) (TermK.struc "parent" [TermK.var 28, TermK.var 30]) (TermK.struc "parent" [TermK.struc "alice" [], TermK.struc "bob" []]) [] 31 (⟨[(29, TermK.struc "nobody" []), (28, TermK.struc "dana" []), (10, TermK.struc "dana" []), (8, TermK.struc "alice" []), (9, TermK.struc "nobody" []), (5, TermK.var 8)], [29, 28, 10, 8, 9, 5], 31, "", 0⟩ : EngineState) (⟨[(29, TermK.struc "nobody" []), (28, TermK.struc "dana" []), (10, TermK.struc "dana" []), (8, TermK.struc "alice" []), (9, TermK.struc "nobody" []), (5, TermK.var 8)], [29, 28, 10, 8, 9, 5], 31, "", 0⟩ : EngineState) rfl rfl rfl rfl hn82
  have hn84 : solve 84 kbDemo [("A", 5)] [TermK.struc "parent" [TermK.var 28, TermK.var 30], TermK.struc "ancestor" [TermK.var 30, TermK.var 29]] (⟨[(29, TermK.struc "nobody" []), (28, TermK.struc "dana" []), (10, TermK.struc "dana" []), (8, TermK.struc "alice" []), (9, TermK.struc "nobody" []), (5, TermK.var 8)], [29, 28, 10, 8, 9, 5], 31, "", 0⟩ : EngineState) = some (⟨[(29, TermK.struc "nobody" []), (28, TermK.struc "dana" []), (10, TermK.struc "dana" []), (8, TermK.struc "alice" []), (9, TermK.struc "nobody" []), (5, TermK.var 8)], [29, 28, 10, 8, 9, 5], 31, "", 0⟩ : EngineState) := solve_step_goal 83 kbDemo [("A", 5)] (TermK.struc "parent" [TermK.var 28, TermK.var 30]) [TermK.struc "ancestor" [TermK.var 30, TermK.var 29]] (⟨[(29, TermK.struc "nobody" []), (28, TermK.struc "dana" []), (10, TermK.struc "dana" []), (8, TermK.struc "alice" []), (9, TermK.struc "nobody" []), (5, TermK.var 8)], [29, 28, 10, 8, 9, 5], 31, "", 0⟩ : EngineState) (⟨[(29, TermK.struc "nobody" []), (28, TermK.struc "dana" []), (10, TermK.struc "dana" []), (8, TermK.struc "alice" []), (9, TermK.struc "nobody" []), (5, TermK.var 8)], [29, 28, 10, 8, 9, 5], 31, "", 0⟩ : EngineState) (⟨[(29, TermK.struc "nobody" []), (28, TermK.struc "dana" []), (10, TermK.struc "dana" []), (8, TermK.struc "alice" []), (9, TermK.struc "nobody" []), (5, TermK.var 8)], [29, 28, 10, 8, 9, 5], 31, "", 0⟩ : EngineState) rfl hn83
  have hn85 : tryClauses 84 kbDemo [] [("A", 5)] (TermK.struc "ancestor" [TermK.var 10, TermK.var 9]) [] (⟨[(10, TermK.struc "dana" []), (8, TermK.struc "alice" []), (9, TermK.struc "nobody" []), (5, TermK.var 8)], [10, 8, 9, 5], 31, "", 0⟩ : EngineState) = some (⟨[(10, TermK.struc "dana" []), (8, TermK.struc "alice" []), (9, TermK.struc "nobody" []), (5, TermK.var 8)], [10, 8, 9, 5], 31, "", 0⟩ : EngineState) := rfl
  have hn86 : tryClauses 85 kbDemo [⟨TermK.struc "ancestor" [TermK.var 2, TermK.var 3], [TermK.struc "parent" [TermK.var 2, TermK.var 4], TermK.struc "ancestor" [TermK.var 4, TermK.var 3]]⟩] [("A", 5)] (TermK.struc "ancestor" [TermK.var 10, TermK.var 9]) [] (⟨[(10, TermK.struc "dana" []), (8, TermK.struc "alice" []), (9, TermK.struc "nobody" []), (5, TermK.var 8)], [10, 8, 9, 5], 28, "", 0⟩ : EngineState) = some (⟨[(10, TermK.struc "dana" []), (8, TermK.struc "alice" []), (9, TermK.struc "nobody" []), (5, TermK.var 8)], [10, 8, 9, 5], 31, "", 0⟩ : EngineState) := tryClauses_step_attempt 84 kbDemo ⟨TermK.struc "ancestor" [TermK.var 2, TermK.var 3], [TermK.struc "parent" [TermK.var 2, TermK.var 4], TermK.struc "ancestor" [TermK.var 4, TermK.var 3]]⟩ [] [("A", 5)] (TermK.struc "ancestor" [TermK.var 10, TermK.var 9]) [] (⟨[(10, TermK.struc "dana" []), (8, TermK.struc "alice" []), (9, TermK.struc "nobody" []), (5, TermK.var 8)], [10, 8, 9, 5], 28, "", 0⟩ : EngineState) (TermK.struc "ancestor" [TermK.var 10, TermK.var 9]) (TermK.struc "ancestor" [TermK.var 28, TermK.var 29]) [(3, 29), (2, 28)] 30 [TermK.struc "parent" [TermK.var 28, TermK.var 30], TermK.struc "ancestor" [TermK.var 30, TermK.var 29]] [(4, 30), (3, 29), (2, 28)] 31 (⟨[(29, TermK.struc "nobody" []), (28, TermK.struc "dana" []), (10, TermK.struc "dana" []), (8, TermK.struc "alice" []), (9, TermK.struc "nobody" []), (5, TermK.var 8)], [29, 28, 10, 8, 9, 5], 30, "", 0⟩ : EngineState) (⟨[(29, TermK.struc "nobody" []), (28, TermK.struc "dana" []), (10, TermK.struc "dana" []), (8, TermK.struc "alice" []), (9, TermK.struc "nobody" []), (5, TermK.var 8)], [29, 28, 10, 8, 9, 5], 31, "", 0⟩ : EngineState) (⟨[(10, TermK.struc "dana" []), (8, TermK.struc "alice" []), (9, TermK.struc "nobody" []), (5, TermK.var 8)], [10, 8, 9, 5], 31, "", 0⟩ : EngineState) rfl rfl rfl rfl rfl hn84 hn85
  have hn87 : tryClauses 86 kbDemo [⟨TermK.struc "ancestor" [TermK.var 0, TermK.var 1], [TermK.struc "parent" [TermK.var 0, TermK.var 1]]⟩, ⟨TermK.struc "ancestor" [TermK.var 2, TermK.var 3], [TermK.struc "parent" [TermK.var 2, TermK.var 4], TermK.struc "ancestor" [TermK.var 4, TermK.var 3]]⟩] [("A", 5)] (TermK.struc "ancestor" [TermK.var 10, TermK.var 9]) [] (⟨[(10, TermK.struc "dana" []), (8, TermK.struc "alice" []), (9, TermK.struc "nobody" []), (5, TermK.var 8)], [10, 8, 9, 5], 26, "", 0⟩ : EngineState) = some (⟨[(10, TermK.struc "dana" []), (8, TermK.struc "alice" []), (9, TermK.struc "nobody" []), (5, TermK.var 8)], [10, 8, 9, 5], 31, "", 0⟩ : EngineState) := tryClauses_step_attempt 85 kbDemo ⟨TermK.struc "ancestor" [TermK.var 0, TermK.var 1], [TermK.struc "parent" [TermK.var 0, TermK.var 1]]⟩ [⟨TermK.struc "ancestor" [TermK.var 2, TermK.var 3], [TermK.struc "parent" [TermK.var 2, TermK.var 4], TermK.struc "ancestor" [TermK.var 4, TermK.var 3]]⟩] [("A", 5)] (TermK.struc "ancestor" [TermK.var 10, TermK.var 9]) [] (⟨[(10, TermK.struc "dana" []), (8, TermK.struc "alice" []), (9, TermK.struc "nobody" []), (5, TermK.var 8)], [10, 8, 9, 5], 26, "", 0⟩ : EngineState) (TermK.struc "ancestor" [TermK.var 10, TermK.var 9]) (TermK.struc "ancestor" [TermK.var 26, TermK.var 27]) [(1, 27), (0, 26)] 28 [TermK.struc "parent" [TermK.var 26, TermK.var 27]] [(1, 27), (0, 26)] 28 (⟨[(27, TermK.struc "nobody" []), (26, TermK.struc "dana" []), (10, TermK.struc "dana" []), (8, TermK.struc "alice" []), (9, TermK.struc "nobody" []), (5, TermK.var 8)], [27, 26, 10, 8, 9, 5], 28, "", 0⟩ : EngineState) (⟨[(27, TermK.struc "nobody" []), (26, TermK.struc "dana" []), (10, TermK.struc "dana" []), (8, TermK.struc "alice" []), (9, TermK.struc "nobody" []), (5, TermK.var 8)], [27, 26, 10, 8, 9, 5], 28, "", 0⟩ : EngineState) (⟨[(10, TermK.struc "dana" []), (8, TermK.struc "alice" []), (9, TermK.struc "nobody" []), (5, TermK.var 8)], [10, 8, 9, 5], 31, "", 0⟩ : EngineState) rfl rfl rfl rfl rfl hn77 hn86
  have hn88 : tryClauses 87 kbDemo [⟨TermK.struc "parent" [TermK.struc "alice" [], TermK.struc "dana" []], []⟩, ⟨TermK.struc "ancestor" [TermK.var 0, TermK.var 1], [TermK.struc "parent" [TermK.var 0, TermK.var 1]]⟩, ⟨TermK.struc "ancestor" [TermK.var 2, TermK.var 3], [TermK.struc "parent" [TermK.var 2, TermK.var 4], TermK.struc "ancestor" [TermK.var 4, TermK.var 3]]⟩] [("A", 5)] (TermK.struc "ancestor" [TermK.var 10, TermK.var 9]) [] (⟨[(10, TermK.struc "dana" []), (8, TermK.struc "alice" []), (9, TermK.struc "nobody" []), (5, TermK.var 8)], [10, 8, 9, 5], 26, "", 0⟩ : EngineState) = some (⟨[(10, TermK.struc "dana" []), (8, TermK.struc "alice" []), (9, TermK.struc "nobody" []), (5, TermK.var 8)], [10, 8, 9, 5], 31, "", 0⟩ : EngineState) := tryClauses_step_skip 86 kbDemo ⟨TermK.struc "parent" [TermK.struc "alice" [], TermK.struc "dana" []], []⟩ [⟨TermK.struc "ancestor" [TermK.var 0, TermK.var 1], [TermK.struc "parent" [TermK.var 0, TermK.var 1]]⟩, ⟨TermK.struc "ancestor" [TermK.var 2, TermK.var 3], [TermK.struc "parent" [TermK.var 2, TermK.var 4], TermK.struc "ancestor" [TermK.var 4, TermK.var 3]]⟩] [("A", 5)] (TermK.struc "ancestor" [TermK.var 10, TermK.var 9]) [] (⟨[(10, TermK.struc "dana" []), (8, TermK.struc "alice" []), (9, TermK.struc "nobody" []), (5, TermK.var 8)], [10, 8, 9, 5], 26, "", 0⟩ : EngineState) (⟨[(10, TermK.struc "dana" []), (8, TermK.struc "alice" []), (9, TermK.struc "nobody" []), (5, TermK.var 8)], [10, 8, 9, 5], 31, "", 0⟩ : EngineState) rfl hn87
  have hn89 : tryClauses 88 kbDemo [⟨TermK.struc "parent" [TermK.struc "bob" [], TermK.struc "carol" []], []⟩, ⟨TermK.struc "parent" [TermK.struc "alice" [], TermK.struc "dana" []], []⟩, ⟨TermK.struc "ancestor" [TermK.var 0, TermK.var 1], [TermK.struc "parent" [TermK.var 0, TermK.var 1]]⟩, ⟨TermK.struc "ancestor" [TermK.var 2, TermK.var 3], [TermK.struc "parent" [TermK.var 2, TermK.var 4], TermK.struc "ancestor" [TermK.var 4, TermK.var 3]]⟩] [("A", 5)] (TermK.struc "ancestor" [TermK.var 10, TermK.var 9]) [] (⟨[(10, TermK.struc "dana" []), (8, TermK.struc "alice" []), (9, TermK.struc "nobody" []), (5, TermK.var 8)], [10, 8, 9, 5], 26, "", 0⟩ : EngineState) = some (⟨[(10, TermK.struc "dana" []), (8, TermK.struc "alice" []), (9, TermK.struc "nobody" []), (5, TermK.var 8)], [10, 8, 9, 5], 31, "", 0⟩ : EngineState) := tryClauses_step_skip 87 kbDemo ⟨TermK.struc "parent" [TermK.struc "bob" [], TermK.struc "carol" []], []⟩ [⟨TermK.struc "parent" [TermK.struc "alice" [], TermK.struc "dana" []], []⟩, ⟨TermK.struc "ancestor" [TermK.var 0, TermK.var 1], [TermK.struc "parent" [TermK.var 0, TermK.var 1]]⟩, ⟨TermK.struc "ancestor" [TermK.var 2, TermK.var 3], [TermK.struc "parent" [TermK.var 2, TermK.var 4], TermK.struc "ancestor" [TermK.var 4, TermK.var 3]]⟩] [("A", 5)] (TermK.struc "ancestor" [TermK.var 10, TermK.var 9]) [] (⟨[(10, TermK.struc "dana" []), (8, TermK.struc "alice" []), (9, TermK.struc "nobody" []), (5, TermK.var 8)], [10, 8, 9, 5], 26, "", 0⟩ : EngineState) (⟨[(10, TermK.struc "dana" []), (8, TermK.struc "alice" []), (9, TermK.struc "nobody" []), (5, TermK.var 8)], [10, 8, 9, 5], 31, "", 0⟩ : EngineState) rfl hn88
  have hn90 : tryClauses 89 kbDemo [⟨TermK.struc "parent" [TermK.struc "alice" [], TermK.struc "bob" []], []⟩, ⟨TermK.struc "parent" [TermK.struc "bob" [], TermK.struc "carol" []], []⟩, ⟨TermK.struc "parent" [TermK.struc "alice" [], TermK.struc "dana" []], []⟩, ⟨TermK.struc "ancestor" [TermK.var 0, TermK.var 1], [TermK.struc "parent" [TermK.var 0, TermK.var 1]]⟩, ⟨TermK.struc "ancestor" [TermK.var 2, TermK.var 3], [TermK.struc "parent" [TermK.var 2, TermK.var 4], TermK.struc "ancestor" [TermK.var 4, TermK.var 3]]⟩] [("A", 5)] (TermK.struc "ancestor" [TermK.var 10, TermK.var 9]) [] (⟨[(10, TermK.struc "dana" []), (8, TermK.struc "alice" []), (9, TermK.struc "nobody" []), (5, TermK.var 8)], [10, 8, 9, 5], 26, "", 0⟩ : EngineState) = some (⟨[(10, TermK.struc "dana" []), (8, TermK.struc "alice" []), (9, TermK.struc "nobody" []), (5, TermK.var 8)], [10, 8, 9, 5], 31, "", 0⟩ : EngineState) := tryClauses_step_skip 88 kbDemo ⟨TermK.struc "parent" [TermK.struc "alice" [], TermK.struc "bob" []], []⟩ [⟨TermK.struc "parent" [TermK.struc "bob" [], TermK.struc "carol" []], []⟩, ⟨TermK.struc "parent" [TermK.struc "alice" [], TermK.struc "dana" []], []⟩, ⟨TermK.struc "ancestor" [TermK.var 0, TermK.var 1], [TermK.struc "parent" [TermK.var 0, TermK.var 1]]⟩, ⟨TermK.struc "ancestor" [TermK.var 2, TermK.var 3], [TermK.struc "parent" [TermK.var 2, TermK.var 4], TermK.struc "ancestor" [TermK.var 4, TermK.var 3]]⟩] [("A", 5)] (TermK.struc "ancestor" [TermK.var 10, TermK.var 9]) [] (⟨[(10, TermK.struc "dana" []), (8, TermK.struc "alice" []), (9, TermK.struc "nobody" []), (5, TermK.var 8)], [10, 8, 9, 5], 26, "", 0⟩ : EngineState) (⟨[(10, TermK.struc "dana" []), (8, TermK.struc "alice" []), (9, TermK.struc "nobody" []), (5, TermK.var 8)], [10, 8, 9, 5], 31, "", 0⟩ : EngineState) rfl hn89
  have hn91 : solve 90 kbDemo [("A", 5)] [TermK.struc "ancestor" [TermK.var 10, TermK.var 9]] (⟨[(10, TermK.struc "dana" []), (8, TermK.struc "alice" []), (9, TermK.struc "nobody" []), (5, TermK.var 8)], [10, 8, 9, 5], 26, "", 0⟩ : EngineState) = some (⟨[(10, TermK.struc "dana" []), (8, TermK.struc "alice" []), (9, TermK.struc "nobody" []), (5, TermK.var 8)], [10, 8, 9, 5], 31, "", 0⟩ : EngineState) := solve_step_goal 89 kbDemo [("A", 5)] (TermK.struc "ancestor" [TermK.var 10, TermK.var 9]) [] (⟨[(10, TermK.struc "dana" []), (8, TermK.struc "alice" []), (9, TermK.struc "nobody" []), (5, TermK.var 8)], [10, 8, 9, 5], 26, "", 0⟩ : EngineState) (⟨[(10, TermK.struc "dana" []), (8, TermK.struc "alice" []), (9, TermK.struc "nobody" []), (5, TermK.var 8)], [10, 8, 9, 5], 26, "", 0⟩ : EngineState) (⟨[(10, TermK.struc "dana" []), (8, TermK.struc "alice" []), (9, TermK.struc "nobody" []), (5, TermK.var 8)], [10, 8, 9, 5], 31, "", 0⟩ : EngineState) rfl hn90
  have hn92 : tryClauses 88 kbDemo [] [("A", 5)] (TermK.struc "parent" [TermK.var 8, TermK.var 10]) [TermK.struc "ancestor" [TermK.var 10, TermK.var 9]] (⟨[(9, TermK.struc "nobody" []), (5, TermK.var 8)], [9, 5], 31, "", 0⟩ : EngineState) = some (⟨[(9, TermK.struc "nobody" []), (5, TermK.var 8)], [9, 5], 31, "", 0⟩ : EngineState) := rfl
  have hn93 : tryClauses 89 kbDemo [⟨TermK.struc "ancestor" [TermK.var 2, TermK.var 3], [TermK.struc "parent" [TermK.var 2, TermK.var 4], TermK.struc "ancestor" [TermK.var 4, TermK.var 3]]⟩] [("A", 5)] (TermK.struc "parent" [TermK.var 8, TermK.var 10]) [TermK.struc "ancestor" [TermK.var 10, TermK.var 9]] (⟨[(9, TermK.struc "nobody" []), (5, TermK.var 8)], [9, 5], 31, "", 0⟩ : EngineState) = some (⟨[(9, TermK.struc "nobody" []), (5, TermK.var 8)], [9, 5], 31, "", 0⟩ : EngineState) := tryClauses_step_skip 88 kbDemo ⟨TermK.struc "ancestor" [TermK.var 2, TermK.var 3], [TermK.struc "parent" [TermK.var 2, TermK.var 4], TermK.struc "ancestor" [TermK.var 4, TermK.var 3]]⟩ [] [("A", 5)] (TermK.struc "parent" [TermK.var 8, TermK.var 10]) [TermK.struc "ancestor" [TermK.var 10, TermK.var 9]] (⟨[(9, TermK.struc "nobody" []), (5, TermK.var 8)], [9, 5], 31, "", 0⟩ : EngineState) (⟨[(9, TermK.struc "nobody" []), (5, TermK.var 8)], [9, 5], 31, "", 0⟩ : EngineState) rfl hn92
  have hn94 : tryClauses 90 kbDemo [⟨TermK.struc "ancestor" [TermK.var 0, TermK.var 1], [TermK.struc "parent" [TermK.var 0, TermK.var 1]]⟩, ⟨TermK.struc "ancestor" [TermK.var 2, TermK.var 3], [TermK.struc "parent" [TermK.var 2, TermK.var 4], TermK.struc "ancestor" [TermK.var 4, TermK.var 3]]⟩] [("A", 5)] (TermK.struc "parent" [TermK.var 8, TermK.var 10]) [TermK.struc "ancestor" [TermK.var 10, TermK.var 9]] (⟨[(9, TermK.struc "nobody" []), (5, TermK.var 8)], [9, 5], 31, "", 0⟩ : EngineState) = some (⟨[(9, TermK.struc "nobody" []), (5, TermK.var 8)], [9, 5], 31, "", 0⟩ : EngineState) := tryClauses_step_skip 89 kbDemo ⟨TermK.struc "ancestor" [TermK.var 0, TermK.var 1], [TermK.struc "parent" [TermK.var 0, TermK.var 1]]⟩ [⟨TermK.struc "ancestor" [TermK.var 2, TermK.var 3], [TermK.struc "parent" [TermK.var 2, TermK.var 4], TermK.struc "ancestor" [TermK.var 4, TermK.var 3]]⟩] [("A", 5)] (TermK.struc "parent" [TermK.var 8, TermK.var 10]) [TermK.struc "ancestor" [TermK.var 10, TermK.var 9]] (⟨[(9, TermK.struc "nobody" []), (5, TermK.var 8)], [9, 5], 31, "", 0⟩ : EngineState) (⟨[(9, TermK.struc "nobody" []), (5, TermK.var 8)], [9, 5], 31, "", 0⟩ : EngineState) rfl hn93
  have hn95 : tryClauses 91 kbDemo [⟨TermK.struc "parent" [TermK.struc "alice" [], TermK.struc "dana" []], []⟩, ⟨TermK.struc "ancestor" [TermK.var 0, TermK.var 1], [TermK.struc "parent" [TermK.var 0, TermK.var 1]]⟩, ⟨TermK.struc "ancestor" [TermK.var 2, TermK.var 3], [TermK.struc "parent" [TermK.var 2, TermK.var 4], TermK.struc "ancestor" [TermK.var 4, TermK.var 3]]⟩] [("A", 5)] (TermK.struc "parent" [TermK.var 8, TermK.var 10]) [TermK.struc "ancestor" [TermK.var 10, TermK.var 9]] (⟨[(9, TermK.struc "nobody" []), (5, TermK.var 8)], [9, 5], 26, "", 0⟩ : EngineState) = some (⟨[(9, TermK.struc "nobody" []), (5, TermK.var 8)], [9, 5], 31, "", 0⟩ : EngineState) := tryClauses_step_attempt 90 kbDemo ⟨TermK.struc "parent" [TermK.struc "alice" [], TermK.struc "dana" []], []⟩ [⟨TermK.struc "ancestor" [TermK.var 0, TermK.var 1], [TermK.struc "parent" [TermK.var 0, TermK.var 1]]⟩, ⟨TermK.struc "ancestor" [TermK.var 2, TermK.var 3], [TermK.struc "parent" [TermK.var 2, TermK.var 4], TermK.struc "ancestor" [TermK.var 4, TermK.var 3]]⟩] [("A", 5)] (TermK.struc "parent" [TermK.var 8, TermK.var 10]) [TermK.struc "ancestor" [TermK.var 10, TermK.var 9]] (⟨[(9, TermK.struc "nobody" []), (5, TermK.var 8)], [9, 5], 26, "", 0⟩ : EngineState) (TermK.struc "parent" [TermK.var 8, TermK.var 10]) (TermK.struc "parent" [TermK.struc "alice" [], TermK.struc "dana" []]) [] 26 [] [] 26 (⟨[(10, TermK.struc "dana" []), (8, TermK.struc "alice" []), (9, TermK.struc "nobody" []), (5, TermK.var 8)], [10, 8, 9, 5], 26, "", 0⟩ : EngineState) (⟨[(10, TermK.struc "dana" []), (8, TermK.struc "alice" []), (9, TermK.struc "nobody" []), (5, TermK.var 8)], [10, 8, 9, 5], 31, "", 0⟩ : EngineState) (⟨[(9, TermK.struc "nobody" []), (5, TermK.var 8)], [9, 5], 31, "", 0⟩ : EngineState) rfl rfl rfl rfl rfl hn91 hn94
  have hn96 : tryClauses 92 kbDemo [⟨TermK.struc "parent" [TermK.struc "bob" [], TermK.struc "carol" []], []⟩, ⟨TermK.struc "parent" [TermK.struc "alice" [], TermK.struc "dana" []], []⟩, ⟨TermK.struc "ancestor" [TermK.var 0, TermK.var 1], [TermK.struc "parent" [TermK.var 0, TermK.var 1]]⟩, ⟨TermK.struc "ancestor" [TermK.var 2, TermK.var 3], [TermK.struc "parent" [TermK.var 2, TermK.var 4], TermK.struc "ancestor" [TermK.var 4, TermK.var 3]]⟩] [("A", 5)] (TermK.struc "parent" [TermK.var 8, TermK.var 10]) [TermK.struc "ancestor" [TermK.var 10, TermK.var 9]] (⟨[(9, TermK.struc "nobody" []), (5, TermK.var 8)], [9, 5], 21, "", 0⟩ : EngineState) = some (⟨[(9, TermK.struc "nobody" []), (5, TermK.var 8)], [9, 5], 31, "", 0⟩ : EngineState) := tryClauses_step_attempt 91 kbDemo ⟨TermK.struc "parent" [TermK.struc "bob" [], TermK.struc "carol" []], []⟩ [⟨TermK.struc "parent" [TermK.struc "alice" [], TermK.struc "dana" []], []⟩, ⟨TermK.struc "ancestor" [TermK.var 0, TermK.var 1], [TermK.struc "parent" [TermK.var 0, TermK.var 1]]⟩, ⟨TermK.struc "ancestor" [TermK.var 2, TermK.var 3], [TermK.struc "parent" [TermK.var 2, TermK.var 4], TermK.struc "ancestor" [TermK.var 4, TermK.var 3]]⟩] [("A", 5)] (TermK.struc "parent" [TermK.var 8, TermK.var 10]) [TermK.struc "ancestor" [TermK.var 10, TermK.var 9]] (⟨[(9, TermK.struc "nobody" []), (5, TermK.var 8)], [9, 5], 21, "", 0⟩ : EngineState) (TermK.struc "parent" [TermK.var 8, TermK.var 10]) (TermK.struc "parent" [TermK.struc "bob" [], TermK.struc "carol" []]) [] 21 [] [] 21 (⟨[(10, TermK.struc "carol" []), (8, TermK.struc "bob" []), (9, TermK.struc "nobody" []), (5, TermK.var 8)], [10, 8, 9, 5], 21, "", 0⟩ : EngineState) (⟨[(10, TermK.struc "carol" []), (8, TermK.struc "bob" []), (9, TermK.struc "nobody" []), (5, TermK.var 8)], [10, 8, 9, 5], 26, "", 0⟩ : EngineState) (⟨[(9, TermK.struc "nobody" []), (5, TermK.var 8)], [9, 5], 31, "", 0⟩ : EngineState) rfl rfl rfl rfl rfl hn70 hn95
  have hn97 : tryClauses 93 kbDemo [⟨TermK.struc "parent" [TermK.struc "alice" [], TermK.struc "bob" []], []⟩, ⟨TermK.struc "parent" [TermK.struc "bob" [], TermK.struc "carol" []], []⟩, ⟨TermK.struc "parent" [TermK.struc "alice" [], TermK.struc "dana" []], []⟩, ⟨TermK.struc "ancestor" [TermK.var 0, TermK.var 1], [TermK.struc "parent" [TermK.var 0, TermK.var 1]]⟩, ⟨TermK.struc "ancestor" [TermK.var 2, TermK.var 3], [TermK.struc "parent" [TermK.var 2, TermK.var 4], TermK.struc "ancestor" [TermK.var 4, TermK.var 3]]⟩] [("A", 5)] (TermK.struc "parent" [TermK.var 8, TermK.var 10]) [TermK.struc "ancestor" [TermK.var 10, TermK.var 9]] (⟨[(9, TermK.struc "nobody" []), (5, TermK.var 8)], [9, 5], 11, "", 0⟩ : EngineState) = some (⟨[(9, TermK.struc "nobody" []), (5, TermK.var 8)], [9, 5], 31, "", 0⟩ : EngineState) := tryClauses_step_attempt 92 kbDemo ⟨TermK.struc "parent" [TermK.struc "alice" [], TermK.struc "bob" []], []⟩ [⟨TermK.struc "parent" [TermK.struc "bob" [], TermK.struc "carol" []], []⟩, ⟨TermK.struc "parent" [TermK.struc "alice" [], TermK.struc "dana" []], []⟩, ⟨TermK.struc "ancestor" [TermK.var 0, TermK.var 1], [TermK.struc "parent" [TermK.var 0, TermK.var 1]]⟩, ⟨TermK.struc "ancestor" [TermK.var 2, TermK.var 3], [TermK.struc "parent" [TermK.var 2, TermK.var 4], TermK.struc "ancestor" [TermK.var 4, TermK.var 3]]⟩] [("A", 5)] (TermK.struc "parent" [TermK.var 8, TermK.var 10]) [TermK.struc "ancestor" [TermK.var 10, TermK.var 9]] (⟨[(9, TermK.struc "nobody" []), (5, TermK.var 8)], [9, 5], 11, "", 0⟩ : EngineState) (TermK.struc "parent" [TermK.var 8, TermK.var 10]) (TermK.struc "parent" [TermK.struc "alice" [], TermK.struc "bob" []]) [] 11 [] [] 11 (⟨[(10, TermK.struc "bob" []), (8, TermK.struc "alice" []), (9, TermK.struc "nobody" []), (5, TermK.var 8)], [10, 8, 9, 5], 11, "", 0⟩ : EngineState) (⟨[(10, TermK.struc "bob" []), (8, TermK.struc "alice" []), (9, TermK.struc "nobody" []), (5, TermK.var 8)], [10, 8, 9, 5], 21, "", 0⟩ : EngineState) (⟨[(9, TermK.struc "nobody" []), (5, TermK.var 8)], [9, 5], 31, "", 0⟩ : EngineState) rfl rfl rfl rfl rfl hn49 hn96
  have hn98 : solve 94 kbDemo [("A", 5)] [TermK.struc "parent" [TermK.var 8, TermK.var 10], TermK.struc "ancestor" [TermK.var 10, TermK.var 9]] (⟨[(9, TermK.struc "nobody" []), (5, TermK.var 8)], [9, 5], 11, "", 0⟩ : EngineState) = some (⟨[(9, TermK.struc "nobody" []), (5, TermK.var 8)], [9, 5], 31, "", 0⟩ : EngineState) := solve_step_goal 93 kbDemo [("A", 5)] (TermK.struc "parent" [TermK.var 8, TermK.var 10]) [TermK.struc "ancestor" [TermK.var 10, TermK.var 9]] (⟨[(9, TermK.struc "nobody" []), (5, TermK.var 8)], [9, 5], 11, "", 0⟩ : EngineState) (⟨[(9, TermK.struc "nobody" []), (5, TermK.var 8)], [9, 5], 11, "", 0⟩ : EngineState) (⟨[(9, TermK.struc "nobody" []), (5, TermK.var 8)], [9, 5], 31, "", 0⟩ : EngineState) rfl hn97
  have hn99 : tryClauses 94 kbDemo [] [("A", 5)] (TermK.struc "ancestor" [TermK.var 5, TermK.struc "nobody" []]) [] (⟨[], [], 31, "", 0⟩ : EngineState) = some (⟨[], [], 31, "", 0⟩ : EngineState) := rfl
  have hn100 : tryClauses 95 kbDemo [⟨TermK.struc "ancestor" [TermK.var 2, TermK.var 3], [TermK.struc "parent" [TermK.var 2, TermK.var 4], TermK.struc "ancestor" [TermK.var 4, TermK.var 3]]⟩] [("A", 5)] (TermK.struc "ancestor" [TermK.var 5, TermK.struc "nobody" []]) [] (⟨[], [], 8, "", 0⟩ : EngineState) = some (⟨[], [], 31, "", 0⟩ : EngineState) := tryClauses_step_attempt 94 kbDemo ⟨TermK.struc "ancestor" [TermK.var 2, TermK.var 3], [TermK.struc "parent" [TermK.var 2, TermK.var 4], TermK.struc "ancestor" [TermK.var 4, TermK.var 3]]⟩ [] [("A", 5)] (TermK.struc "ancestor" [TermK.var 5, TermK.struc "nobody" []]) [] (⟨[], [], 8, "", 0⟩ : EngineState) (TermK.struc "ancestor" [TermK.var 5, TermK.struc "nobody" []]) (TermK.struc "ancestor" [TermK.var 8, TermK.var 9]) [(3, 9), (2, 8)] 10 [TermK.struc "parent" [TermK.var 8, TermK.var 10], TermK.struc "ancestor" [TermK.var 10, TermK.var 9]] [(4, 10), (3, 9), (2, 8)] 11 (⟨[(9, TermK.struc "nobody" []), (5, TermK.var 8)], [9, 5], 10, "", 0⟩ : EngineState) (⟨[(9, TermK.struc "nobody" []), (5, TermK.var 8)], [9, 5], 31, "", 0⟩ : EngineState) (⟨[], [], 31, "", 0⟩ : EngineState) rfl rfl rfl rfl rfl hn98 hn99
  have hn101 : tryClauses 96 kbDemo [⟨TermK.struc "ancestor" [TermK.var 0, TermK.var 1], [TermK.struc "parent" [TermK.var 0, TermK.var 1]]⟩, ⟨TermK.struc "ancestor" [TermK.var 2, TermK.var 3], [TermK.struc "parent" [TermK.var 2, TermK.var 4], TermK.struc "ancestor" [TermK.var 4, TermK.var 3]]⟩] [("A", 5)] (TermK.struc "ancestor" [TermK.var 5, TermK.struc "nobody" []]) [] (⟨[], [], 6, "", 0⟩ : EngineState) = some (⟨[], [], 31, "", 0⟩ : EngineState) := tryClauses_step_attempt 95 kbDemo ⟨TermK.struc "ancestor" [TermK.var 0, TermK.var 1], [TermK.struc "parent" [TermK.var 0, TermK.var 1]]⟩ [⟨TermK.struc "ancestor" [TermK.var 2, TermK.var 3], [TermK.struc "parent" [TermK.var 2, TermK.var 4], TermK.struc "ancestor" [TermK.var 4, TermK.var 3]]⟩] [("A", 5)] (TermK.struc "ancestor" [TermK.var 5, TermK.struc "nobody" []]) [] (⟨[], [], 6, "", 0⟩ : EngineState) (TermK.struc "ancestor" [TermK.var 5, TermK.struc "nobody" []]) (TermK.struc "ancestor" [TermK.var 6, TermK.var 7]) [(1, 7), (0, 6)] 8 [TermK.struc "parent" [TermK.var 6, TermK.var 7]] [(1, 7), (0, 6)] 8 (⟨[(7, TermK.struc "nobody" []), (5, TermK.var 6)], [7, 5], 8, "", 0⟩ : EngineState) (⟨[(7, TermK.struc "nobody" []), (5, TermK.var 6)], [7, 5], 8, "", 0⟩ : EngineState) (⟨[], [], 31, "", 0⟩ : EngineState) rfl rfl rfl rfl rfl hn7 hn100
  have hn102 : tryClauses 97 kbDemo [⟨TermK.struc "parent" [TermK.struc "alice" [], TermK.struc "dana" []], []⟩, ⟨TermK.struc "ancestor" [TermK.var 0, TermK.var 1], [TermK.struc "parent" [TermK.var 0, TermK.var 1]]⟩, ⟨TermK.struc "ancestor" [TermK.var 2, TermK.var 3], [TermK.struc "parent" [TermK.var 2, TermK.var 4], TermK.struc "ancestor" [TermK.var 4, TermK.var 3]]⟩] [("A", 5)] (TermK.struc "ancestor" [TermK.var 5, TermK.struc "nobody" []]) [] (⟨[], [], 6, "", 0⟩ : EngineState) = some (⟨[], [], 31, "", 0⟩ : EngineState) := tryClauses_step_skip 96 kbDemo ⟨TermK.struc "parent" [TermK.struc "alice" [], TermK.struc "dana" []], []⟩ [⟨TermK.struc "ancestor" [TermK.var 0, TermK.var 1], [TermK.struc "parent" [TermK.var 0, TermK.var 1]]⟩, ⟨TermK.struc "ancestor" [TermK.var 2, TermK.var 3], [TermK.struc "parent" [TermK.var 2, TermK.var 4], TermK.struc "ancestor" [TermK.var 4, TermK.var 3]]⟩] [("A", 5)] (TermK.struc "ancestor" [TermK.var 5, TermK.struc "nobody" []]) [] (⟨[], [], 6, "", 0⟩ : EngineState) (⟨[], [], 31, "", 0⟩ : EngineState) rfl hn101
  have hn103 : tryClauses 98 kbDemo [⟨TermK.struc "parent" [TermK.struc "bob" [], TermK.struc "carol" []], []⟩, ⟨TermK.struc "parent" [TermK.struc "alice" [], TermK.struc "dana" []], []⟩, ⟨TermK.struc "ancestor" [TermK.var 0, TermK.var 1], [TermK.struc "parent" [TermK.var 0, TermK.var 1]]⟩, ⟨TermK.struc "ancestor" [TermK.var 2, TermK.var 3], [TermK.struc "parent" [TermK.var 2, TermK.var 4], TermK.struc "ancestor" [TermK.var 4, TermK.var 3]]⟩] [("A", 5)] (TermK.struc "ancestor" [TermK.var 5, TermK.struc "nobody" []]) [] (⟨[], [], 6, "", 0⟩ : EngineState) = some (⟨[], [], 31, "", 0⟩ : EngineState) := tryClauses_step_skip 97 kbDemo ⟨TermK.struc "parent" [TermK.struc "bob" [], TermK.struc "carol" []], []⟩ [⟨TermK.struc "parent" [TermK.struc "alice" [], TermK.struc "dana" []], []⟩, ⟨TermK.struc "ancestor" [TermK.var 0, TermK.var 1], [TermK.struc "parent" [TermK.var 0, TermK.var 1]]⟩, ⟨TermK.struc "ancestor" [TermK.var 2, TermK.var 3], [TermK.struc "parent" [TermK.var 2, TermK.var 4], TermK.struc "ancestor" [TermK.var 4, TermK.var 3]]⟩] [("A", 5)] (TermK.struc "ancestor" [TermK.var 5, TermK.struc "nobody" []]) [] (⟨[], [], 6, "", 0⟩ : EngineState) (⟨[], [], 31, "", 0⟩ : EngineState) rfl hn102
  have hn104 : tryClauses 99 kbDemo [⟨TermK.struc "parent" [TermK.struc "alice" [], TermK.struc "bob" []], []⟩, ⟨TermK.struc "parent" [TermK.struc "bob" [], TermK.struc "carol" []], []⟩, ⟨TermK.struc "parent" [TermK.struc "alice" [], TermK.struc "dana" []], []⟩, ⟨TermK.struc "ancestor" [TermK.var 0, TermK.var 1], [TermK.struc "parent" [TermK.var 0, TermK.var 1]]⟩, ⟨TermK.struc "ancestor" [TermK.var 2, TermK.var 3], [TermK.struc "parent" [TermK.var 2, TermK.var 4], TermK.struc "ancestor" [TermK.var 4, TermK.var 3]]⟩] [("A", 5)] (TermK.struc "ancestor" [TermK.var 5, TermK.struc "nobody" []]) [] (⟨[], [], 6, "", 0⟩ : EngineState) = some (⟨[], [], 31, "", 0⟩ : EngineState) := tryClauses_step_skip 98 kbDemo ⟨TermK.struc "parent" [TermK.struc "alice" [], TermK.struc "bob" []], []⟩ [⟨TermK.struc "parent" [TermK.struc "bob" [], TermK.struc "carol" []], []⟩, ⟨TermK.struc "parent" [TermK.struc "alice" [], TermK.struc "dana" []], []⟩, ⟨TermK.struc "ancestor" [TermK.var 0, TermK.var 1], [TermK.struc "parent" [TermK.var 0, TermK.var 1]]⟩, ⟨TermK.struc "ancestor" [TermK.var 2, TermK.var 3], [TermK.struc "parent" [TermK.var 2, TermK.var 4], TermK.struc "ancestor" [TermK.var 4, TermK.var 3]]⟩] [("A", 5)] (TermK.struc "ancestor" [TermK.var 5, TermK.struc "nobody" []]) [] (⟨[], [], 6, "", 0⟩ : EngineState) (⟨[], [], 31, "", 0⟩ : EngineState) rfl hn103
  have hn105 : solve 100 kbDemo [("A", 5)] [TermK.struc "ancestor" [TermK.var 5, TermK.struc "nobody" []]] (⟨[], [], 6, "", 0⟩ : EngineState) = some (⟨[], [], 31, "", 0⟩ : EngineState) := solve_step_goal 99 kbDemo [("A", 5)] (TermK.struc "ancestor" [TermK.var 5, TermK.struc "nobody" []]) [] (⟨[], [], 6, "", 0⟩ : EngineState) (⟨[], [], 6, "", 0⟩ : EngineState) (⟨[], [], 31, "", 0⟩ : EngineState) rfl hn104
  have hc : solve 100 kbDemo [("A", 5)] [ancT (.var 5) (atomT "carol")] st0
      = some (⟨[], [], 31, "A = bob\nA = alice\n", 2⟩ : EngineState) := hc107
  have hn : solve 100 kbDemo [("A", 5)] [ancT (.var 5) (atomT "nobody")] st0
      = some (⟨[], [], 31, "", 0⟩ : EngineState) := hn105
  refine ⟨⟨?_, ?_⟩, ?_, ?_⟩
  · rw [hc]; rfl
  · rw [hc]; rfl
  · rw [hn]; rfl
  · rw [hn]; rfl

/-- C2: `unify f(A,B) f(1,2)` (A = variable 0, B = variable 1, both fresh)
succeeds binding `A = 1` and `B = 2` with both variables pushed on the trail;
unwinding to the pre-call mark leaves both unbound again, restoring the state
exactly, and `deref` on `A` then returns `A` itself. -/
theorem unify_undo_round_trip :
    unify 10 sU (.struc "f" [.var 0, .var 1]) (.struc "f" [.num 1, .num 2])
        = some (true, ⟨[(1, .num 2), (0, .num 1)], [1, 0], 2, "", 0⟩)
    ∧ deref [(1, .num 2), (0, .num 1)] (.var 0) = .num 1
    ∧ deref [(1, .num 2), (0, .num 1)] (.var 1) = .num 2
    ∧ trail_unwind (trail_mark sU) ⟨[(1, .num 2), (0, .num 1)], [1, 0], 2, "", 0⟩ = sU
    ∧ deref sU.bind (.var 0) = .var 0 :=
  ⟨rfl, rfl, rfl, rfl, rfl⟩

/-- C3 (corrected), counterexample: a clause whose head is a bare Variable is
*skipped* by the pre-filter for a compound goal (the claim says it is
attempted): the kind test rejects it, the query `a` against the single clause
`X.` yields zero solutions, even though the head variable would have unified
with the goal (shown by unifying the goal with the renamed head variable). -/
theorem clause_filter_skips_unifiable_cex :
    clause_filter (atomT "a") (TermK.var 0) = false
    ∧ (solve 5 [clVar] [] [atomT "a"] sV).map EngineState.scount = some 0
    ∧ unify 5 sV (atomT "a") (.var 1) = some (true, ⟨[(1, atomT "a")], [1], 1, "", 0⟩) :=
  ⟨rfl, rfl, rfl⟩

/-- C3 (amended): for a goal whose dereferenced form is a Compound with name `n`
and arity `args.length`, the pre-filter accepts exactly the clauses whose head
is a Compound with that same name and arity — a Variable-headed clause is
skipped — and a clause the filter rejects is passed over by the clause loop
without being renamed or head-unified. -/
theorem clause_filter_exact :
    (∀ (n : String) (args : List TermK) (h : TermK),
        clause_filter (.struc n args) h = true
          ↔ ∃ hargs, h = .struc n hargs ∧ hargs.length = args.length)
    ∧ (∀ (fuel : Nat) (kb : List Clause) (c : Clause) (cls : List Clause) (qv : QVars)
        (g : TermK) (gs : List TermK) (s : EngineState),
        clause_filter (deref s.bind g) c.head = false →
        tryClauses (fuel + 1) kb (c :: cls) qv g gs s = tryClauses fuel kb cls qv g gs s) := by
  constructor
  · intro n args h
    cases h with
    | var i => simp [clause_filter]
    | num x => simp [clause_filter]
    | struc hn ha =>
      simp only [clause_filter, Bool.and_eq_true, beq_iff_eq, TermK.struc.injEq]
      constructor
      · rintro ⟨rfl, hlen⟩
        exact ⟨ha, ⟨rfl, rfl⟩, hlen.symm⟩
      · rintro ⟨hargs, ⟨rfl, rfl⟩, hlen⟩
        exact ⟨rfl, hlen.symm⟩
  · intro fuel kb c cls qv g gs s hskip
    rw [tryClauses, if_neg (by rw [hskip]; exact Bool.false_ne_true)]

/-- C3 (amended) witness: the skipped variable-headed clause is passed over. -/
theorem clause_filter_exact_witness :
    tryClauses 6 [clVar] [clVar] [] (atomT "a") [] sV
      = tryClauses 5 [clVar] [] [] (atomT "a") [] sV :=
  clause_filter_exact.2 5 [clVar] clVar [] [] (atomT "a") [] sV rfl

/-- C4 (corrected), counterexample: `trail_unwind` with a checkpoint strictly
greater than the current trail length (7 > 1 here) is *not* fatal: the loop
guard fails immediately and the call returns normally with the state (including
the recorded binding) unchanged. -/
theorem trail_unwind_overlong_cex :
    trail_unwind 7 sB = sB ∧ sB.trail.length < 7 :=
  ⟨rfl, by decide⟩

/-- C4 (amended): unwinding to a checkpoint at or above the current trail
length returns normally leaving the state unchanged (a no-op, not an abort),
and re-unwinding to the same checkpoint is permitted and idempotent. -/
theorem trail_unwind_overlong_noop :
    ∀ (mark : Nat) (s : EngineState),
      (s.trail.length ≤ mark → trail_unwind mark s = s)
      ∧ trail_unwind mark (trail_unwind mark s) = trail_unwind mark s :=
  fun mark s => ⟨trail_unwind_ge mark s, trail_unwind_idem mark s⟩

/-- C4 (amended) witness: unwinding the empty-trail state to checkpoint 5. -/
theorem trail_unwind_overlong_noop_witness : trail_unwind 5 sV = sV :=
  (trail_unwind_overlong_noop 5 sV).1 (by decide)

/-- C5 (corrected), counterexample: resolving the Number goal `7` against the
demo knowledge base is *not* fatal (the claim says the process is terminated):
`solve` returns normally with the state untouched and zero solutions reported,
i.e. it is an ordinary logical failure. -/
theorem number_goal_not_fatal_cex :
    solve 20 kbDemo [] [.num 7] st0 = some st0 ∧ st0.scount = 0 :=
  ⟨rfl, rfl⟩

/-- C5 (amended): a Number appearing as a goal is handled as an ordinary
logical failure, not a fatal error: no built-in matches it, the kind filter
skips every Compound-headed clause, and `solve` returns normally with the state
unchanged so that the caller simply backtracks. -/
theorem number_goal_ordinary_failure :
    ∀ (fuel : Nat) (kb : List Clause) (qv : QVars) (x : Int) (gs : List TermK)
      (s : EngineState),
      (∀ c ∈ kb, ∃ nm args, c.head = TermK.struc nm args) →
      kb.length < fuel →
      solve (fuel + 1) kb qv (.num x :: gs) s = some s := by
  intro fuel kb qv x gs s hheads hlen
  rw [solve_cons, builtin_call_at_num]
  show tryClauses fuel kb kb qv (.num x) gs s = some s
  have aux : ∀ (cls : List Clause) (fl : Nat), (∀ c ∈ cls, ∃ nm args, c.head = TermK.struc nm args) →
      cls.length < fl → tryClauses fl kb cls qv (.num x) gs s = some s := by
    intro cls
    induction cls with
    | nil =>
      intro fl _ hfl
      cases fl with
      | zero => omega
      | succ fl2 => rfl
    | cons c cls2 ih =>
      intro fl hc hfl
      cases fl with
      | zero => omega
      | succ fl2 =>
        obtain ⟨nm, args, hhead⟩ := hc c (by simp)
        rw [tryClauses, if_neg (by
          rw [deref_num, hhead]
          show ¬ clause_filter (.num x) (.struc nm args) = true
          rw [show clause_filter (.num x) (.struc nm args) = false from rfl]
          exact Bool.false_ne_true)]
        exact ih fl2 (fun c2 hc2 => hc c2 (by simp [hc2])) (by simp at hfl; omega)
  exact aux kb fuel hheads hlen

/-- C5 (amended) witness: the Number goal `7` against `kbDemo`. -/
theorem number_goal_ordinary_failure_witness :
    solve 7 kbDemo [] [.num 7] st0 = some st0 :=
  number_goal_ordinary_failure 6 kbDemo [] 7 [] st0
    (by
      intro c hc
      simp only [kbDemo, List.mem_cons, List.not_mem_nil, or_false] at hc
      rcases hc with rfl | rfl | rfl | rfl | rfl <;> exact ⟨_, _, rfl⟩)
    (by decide)

/-- C6: on fully ground arguments the built-ins `=` and `dif` are exact
complements (`=` succeeds precisely on equal terms, `dif` precisely on unequal
ones, so exactly one succeeds), and `dif` — on any arguments, ground or not —
always returns with the state (trail and bindings included) restored to its
pre-call value, never leaving a binding behind. -/
theorem eq_dif_complementary :
    (∀ (a b : TermK) (s : EngineState) (fuel : Nat),
        groundT a = true → groundT b = true → heightT a < fuel →
        builtin_call fuel s (.struc "=" [a, b]) = some (some (decide (a = b)), s)
          ∧ builtin_call fuel s (.struc "dif" [a, b]) = some (some !(decide (a = b)), s))
    ∧ (∀ (a b : TermK) (s : EngineState) (fuel : Nat) (r : Option Bool) (s1 : EngineState),
        builtin_call fuel s (.struc "dif" [a, b]) = some (r, s1) → s1 = s) := by
  constructor
  · intro a b s fuel ha hb hf
    constructor
    · rw [builtin_call_at_eq fuel a b (deref_struc s.bind "=" [a, b]),
        unify_ground fuel a b s ha hb hf]
      cases hD : decide (a = b) with
      | true => rfl
      | false =>
        show some (some false, trail_unwind s.trail.length s) = some (some false, s)
        rw [trail_unwind_ge s.trail.length s le_rfl]
    · rw [builtin_call_at_dif fuel a b (deref_struc s.bind "dif" [a, b]),
        unify_ground fuel a b s ha hb hf]
      show some (some !(decide (a = b)), trail_unwind s.trail.length s)
        = some (some !(decide (a = b)), s)
      rw [trail_unwind_ge s.trail.length s le_rfl]
  · intro a b s fuel r s1 h
    rw [builtin_call_at_dif fuel a b (deref_struc s.bind "dif" [a, b])] at h
    rcases hu : unify fuel s a b with _ | ⟨ok, sm⟩ <;> rw [hu] at h
    · exact absurd h (by simp)
    · injection h with h2
      injection h2 with h3 h4
      obtain ⟨nb, hext⟩ := unify_extends fuel s a b ok sm hu
      rw [← h4]
      exact trail_unwind_stext hext

/-- C6 witness: ground atoms `p` and `q`; `=` fails, `dif` succeeds, and the
`dif` call hands back exactly the state it was given. -/
theorem eq_dif_complementary_witness :
    (builtin_call 3 sU (.struc "=" [atomT "p", atomT "q"])
        = some (some (decide ((atomT "p") = (atomT "q"))), sU)
      ∧ builtin_call 3 sU (.struc "dif" [atomT "p", atomT "q"])
        = some (some !(decide ((atomT "p") = (atomT "q"))), sU))
    ∧ sU = sU :=
  ⟨eq_dif_complementary.1 (atomT "p") (atomT "q") sU 3 rfl rfl (by decide),
   eq_dif_complementary.2 (atomT "p") (atomT "q") sU 3 (some true) sU rfl⟩

/-- C7: `unify` never removes trail entries — whenever it returns, the old
trail is a suffix of the new one (so its length has not decreased and every
pre-existing entry is unchanged), even on failure; concretely, the functor
mismatch `unify f(1) g(1)` and the arity mismatch `unify f(X) f(1,2)` both
return false leaving the state exactly as it was, and a failure after a
successful first argument (`unify f(X,1) f(2,3)`) leaves the partial binding
`X = 2` on the trail for the caller to unwind. -/
theorem unify_trail_monotone :
    (∀ (fuel : Nat) (s : EngineState) (a b : TermK) (r : Bool) (s1 : EngineState),
        unify fuel s a b = some (r, s1) →
        s.trail.length ≤ s1.trail.length ∧ s.trail.IsSuffix s1.trail)
    ∧ unify 10 sU (.struc "f" [.num 1]) (.struc "g" [.num 1]) = some (false, sU)
    ∧ unify 10 sU (.struc "f" [.var 0]) (.struc "f" [.num 1, .num 2]) = some (false, sU)
    ∧ unify 10 sU (.struc "f" [.var 0, .num 1]) (.struc "f" [.num 2, .num 3])
        = some (false, ⟨[(0, .num 2)], [0], 2, "", 0⟩) := by
  refine ⟨?_, rfl, rfl, rfl⟩
  intro fuel s a b r s1 h
  obtain ⟨nb, hext⟩ := unify_extends fuel s a b r s1 h
  unfold StExt at hext
  subst hext
  constructor
  · simp
  · exact ⟨nb.map Prod.fst, rfl⟩

/-- C7 witness: the general trail-monotonicity part applied to the concrete
functor-mismatch call. -/
theorem unify_trail_monotone_witness :
    sU.trail.length ≤ sU.trail.length ∧ sU.trail.IsSuffix sU.trail :=
  unify_trail_monotone.1 10 sU (.struc "f" [.num 1]) (.struc "g" [.num 1]) false sU rfl

/-- C8: no occurs-check — `unify X f(X)` (X = variable 0) succeeds, binding `X`
to the compound `f(X)` containing `X` itself and pushing `X` on the trail. -/
theorem unify_no_occurs_check :
    unify 10 sU (.var 0) (.struc "f" [.var 0])
      = some (true, ⟨[(0, .struc "f" [.var 0])], [0], 2, "", 0⟩) := rfl

/-- C9: running `write(hello), fail` to exhaustion emits `hello` exactly once
on the output stream even though the query fails with zero solutions — the
side effect is not retracted by backtracking. -/
theorem write_fail_emits_once :
    solve 100 kbDemo [] [.struc "write" [atomT "hello"], atomT "fail"] st0
      = some ⟨[], [], 6, "hello", 0⟩ := rfl

/-- C10: a goal whose dereferenced form matches the built-in table by name and
arity is resolved exclusively by the built-in: `builtin_call` never reports
"not a builtin" for it, and whenever `builtin_call` decides a goal (success
*or* failure), `solve` either continues with the remaining goals or fails
immediately — the clause loop (and with it every user-defined clause of that
name and arity) is bypassed. -/
theorem builtin_goal_never_uses_kb :
    (∀ (fuel : Nat) (s : EngineState) (g : TermK) (x : Option Bool × EngineState),
        isBuiltinShape (deref s.bind g) = true → builtin_call fuel s g = some x →
        x.1 ≠ none)
    ∧ (∀ (fuel : Nat) (kb : List Clause) (qv : QVars) (g : TermK) (gs : List TermK)
        (s : EngineState) (b : Bool) (s1 : EngineState),
        builtin_call fuel s g = some (some b, s1) →
        solve (fuel + 1) kb qv (g :: gs) s
          = if b then solve fuel kb qv gs s1 else some s1) := by
  constructor
  · intro fuel s g x hshape hcall
    rcases hd : deref s.bind g with i | z | ⟨n, args⟩ <;> rw [hd] at hshape
    · simp [isBuiltinShape] at hshape
    · simp [isBuiltinShape] at hshape
    · simp only [isBuiltinShape, Bool.or_eq_true, Bool.and_eq_true, beq_iff_eq] at hshape
      rcases hshape with ((((⟨rfl, h0⟩ | ⟨rfl, h0⟩) | ⟨rfl, h0⟩) | ⟨rfl, h1⟩) | ⟨rfl, h2⟩) | ⟨rfl, h2⟩
      · obtain rfl : args = [] := by
          cases args with | nil => rfl | cons _ _ => simp at h0
        rw [builtin_call_at_true fuel hd] at hcall
        injection hcall with h3
        rw [← h3]
        simp
      · obtain rfl : args = [] := by
          cases args with | nil => rfl | cons _ _ => simp at h0
        rw [builtin_call_at_fail fuel hd] at hcall
        injection hcall with h3
        rw [← h3]
        simp
      · obtain rfl : args = [] := by
          cases args with | nil => rfl | cons _ _ => simp at h0
        rw [builtin_call_at_nl fuel hd] at hcall
        injection hcall with h3
        rw [← h3]
        simp
      · obtain ⟨w, rfl⟩ : ∃ w, args = [w] := by
          simpa using List.length_eq_one.mp (by simpa using h1)
        rw [builtin_call_at_write fuel w hd] at hcall
        injection hcall with h3
        rw [← h3]
        simp
      · obtain ⟨w1, w2, rfl⟩ : ∃ w1 w2, args = [w1, w2] := List.length_eq_two.mp (by simpa using h2)
        rw [builtin_call_at_eq fuel w1 w2 hd] at hcall
        rcases hu : unify fuel s w1 w2 with _ | ⟨ok, sm⟩ <;> rw [hu] at hcall
        · exact absurd hcall (by simp)
        · cases ok with
          | true =>
            injection hcall with h3
            rw [← h3]
            simp
          | false =>
            injection hcall with h3
            rw [← h3]
            simp
      · obtain ⟨w1, w2, rfl⟩ : ∃ w1 w2, args = [w1, w2] := List.length_eq_two.mp (by simpa using h2)
        rw [builtin_call_at_dif fuel w1 w2 hd] at hcall
        rcases hu : unify fuel s w1 w2 with _ | ⟨ok, sm⟩ <;> rw [hu] at hcall
        · exact absurd hcall (by simp)
        · injection hcall with h3
          rw [← h3]
          simp
  · intro fuel kb qv g gs s b s1 h
    rw [solve_cons, h]
    cases b with
    | true => rfl
    | false => rfl

/-- C10 witness: the built-in `fail/0` decides the goal (it is never treated as
"not a builtin") and `solve` fails without consulting the clause database. -/
theorem builtin_goal_never_uses_kb_witness :
    ((some false : Option Bool), st0).1 ≠ none
    ∧ solve 2 kbDemo [] [atomT "fail"] st0 = some st0 :=
  ⟨builtin_goal_never_uses_kb.1 1 st0 (atomT "fail") (some false, st0) rfl rfl,
   builtin_goal_never_uses_kb.2 1 kbDemo [] (atomT "fail") [] st0 false st0 rfl⟩

end OnchipProlog
